import Mathlib

/-!
Composition-region tracker and frame lifecycle of `ExynosDisplay`.

A shallow embedding of the parts of `libhwc2.1/libdevice/ExynosDisplay.cpp`
that decide how layers are classified into client composition, secondary
(Exynos) composition and overlays, and of the `validate -> accept -> present`
state machine around them.

Conventions of the embedding.

* `int32_t` values are `Int`; `uint32_t` / `size_t` values are `Nat`.  The
  conversions the C++ performs implicitly are `toInt32` and `toUInt32`.
* Pointers to hardware resources (`ExynosMPP*`) are `Option ExynosMPP`,
  `none` being `NULL`.  Buffer handles are `Nat`, `0` being `NULL`.
* Reading `mLayers[i]` outside `[0, mLayers.size())` is undefined behaviour
  in the C++; every function that indexes the layer list returns an `Option`
  and yields `none` exactly when such a read happens.
* Entries of `mLayers` are never `NULL` (`createLayer` only ever adds
  `new ExynosLayer`), so the list holds layers, not pointers; the `NULL`
  branches of the source only log.
* Logging, tracing and timing statements are dropped.
-/

namespace ExynosHwc

/-! ## Platform constants

The HWC2 and Exynos helper headers are not part of the sources; the constants
keep their names and platform values.  Only their being distinct is used. -/

/-- NO_ERROR of the platform status codes. -/
def NO_ERROR : Int := 0
/-- EINVAL of errno. -/
def EINVAL : Int := 22
/-- EXYNOS_ERROR_CHANGED, the "Changed" signal of the tracker operations. -/
def EXYNOS_ERROR_CHANGED : Int := 1

/-- HWC2_ERROR_NONE. -/
def HWC2_ERROR_NONE : Int := 0
/-- HWC2_ERROR_BAD_PARAMETER. -/
def HWC2_ERROR_BAD_PARAMETER : Int := 4
/-- HWC2_ERROR_HAS_CHANGES. -/
def HWC2_ERROR_HAS_CHANGES : Int := 5
/-- HWC2_ERROR_NOT_VALIDATED. -/
def HWC2_ERROR_NOT_VALIDATED : Int := 7

/-- HWC2_COMPOSITION_INVALID. -/
def HWC2_COMPOSITION_INVALID : Int := 0
/-- HWC2_COMPOSITION_CLIENT. -/
def HWC2_COMPOSITION_CLIENT : Int := 1
/-- HWC2_COMPOSITION_DEVICE. -/
def HWC2_COMPOSITION_DEVICE : Int := 2
/-- HWC2_COMPOSITION_SOLID_COLOR. -/
def HWC2_COMPOSITION_SOLID_COLOR : Int := 3
/-- HWC2_COMPOSITION_CURSOR. -/
def HWC2_COMPOSITION_CURSOR : Int := 4
/-- HWC2_COMPOSITION_REFRESH_RATE_INDICATOR. -/
def HWC2_COMPOSITION_REFRESH_RATE_INDICATOR : Int := 7
/-- HWC2_COMPOSITION_EXYNOS, the internal secondary-composition type. -/
def HWC2_COMPOSITION_EXYNOS : Int := 32

/-- Value `COMPOSITION_NONE` of `enum composition_type`. -/
def COMPOSITION_NONE : Nat := 0
/-- Value `COMPOSITION_CLIENT` of `enum composition_type`. -/
def COMPOSITION_CLIENT : Nat := 1
/-- Value `COMPOSITION_EXYNOS` of `enum composition_type`. -/
def COMPOSITION_EXYNOS : Nat := 2

/-- Value `ePriorityHigh` of `enum overlay_priority`
(`ePriorityNone, ePriorityLow, ePriorityMid, ePriorityHigh, ePriorityMax`). -/
def ePriorityHigh : Int := 3
/-- Value `ePriorityMax` of `enum overlay_priority`. -/
def ePriorityMax : Int := 4

/-- Logical type of the combined G2D resource. -/
def MPP_LOGICAL_G2D_COMBO : Nat := 0x100

/-- Display type HWC_DISPLAY_PRIMARY. -/
def HWC_DISPLAY_PRIMARY : Nat := 0
/-- Display type HWC_DISPLAY_VIRTUAL. -/
def HWC_DISPLAY_VIRTUAL : Nat := 2

/-- Overlay-info bit eSandwichedBetweenGLES. -/
def eSandwichedBetweenGLES : Nat := 0x40
/-- Overlay-info bit eSandwichedBetweenEXYNOS. -/
def eSandwichedBetweenEXYNOS : Nat := 0x80
/-- Overlay-info bit eSkipStaticLayer. -/
def eSkipStaticLayer : Nat := 0x100
/-- Overlay-info bit eResourceAssignFail. -/
def eResourceAssignFail : Nat := 0x8000

/-- Geometry bit GEOMETRY_DISPLAY_RESOLUTION_CHANGED. -/
def GEOMETRY_DISPLAY_RESOLUTION_CHANGED : Nat := 0x200000
/-- Geometry bit GEOMETRY_DISPLAY_FORCE_VALIDATE. -/
def GEOMETRY_DISPLAY_FORCE_VALIDATE : Nat := 0x4000000
/-- Geometry bit GEOMETRY_ERROR_CASE (the top bit of the 64-bit mask). -/
def GEOMETRY_ERROR_CASE : Nat := 2 ^ 63

/-- NUM_SKIP_STATIC_LAYER of ExynosDisplay.h. -/
def NUM_SKIP_STATIC_LAYER : Int := 5

/-! ## Machine-integer conversions -/

/-- The conversion `(int32_t)x` of an unsigned value. -/
def toInt32 (n : Nat) : Int :=
  if n % 2 ^ 32 < 2 ^ 31 then ((n % 2 ^ 32 : Nat) : Int)
  else ((n % 2 ^ 32 : Nat) : Int) - 2 ^ 32

/-- The conversion `(uint32_t)x` of a signed value. -/
def toUInt32 (z : Int) : Nat := (z % 2 ^ 32).toNat

/-- The decrement `x--` of a `uint32_t`. -/
def decUInt32 (n : Nat) : Nat := (n + 2 ^ 32 - 1) % 2 ^ 32

/-! ## Data model -/

/-- The fields of `ExynosMPP` the display code reads: an identity (standing for
the pointer value) and the logical type. -/
structure ExynosMPP where
  mId : Nat := 0
  mLogicalType : Nat := 0
  deriving DecidableEq, Repr

/-- A C++ `float` as the comparisons `==` and `!=` of the source see it:
not-a-number, an infinity, or a finite number.  A finite number is held exactly,
in units of `2^-149` (every finite binary32 value is an integer multiple of
`2^-149`; `+0.0` and `-0.0` are the one number 0).  The source only copies and
compares its `float` fields. -/
inductive float where
  | nan : float
  | inf (negative : Bool) : float
  | num (v : Int) : float
  deriving DecidableEq, Repr

/-- The conversion of an integer to `float`, as in `plane_alpha = 1`. -/
def float.ofInt (n : Int) : float := float.num (n * ((2 ^ 149 : Nat) : Int))

/-- The comparison `a != b` of two `float` values: a not-a-number differs from
everything, itself included. -/
def float.ne (a b : float) : Bool :=
  decide (a = float.nan ∨ b = float.nan ∨ a ≠ b)

/-- The fields of `exynos_image` compared by the static-layer skip.  The plane
alpha is a `float`. -/
structure exynos_image where
  bufferHandle : Nat := 0
  x : Int := 0
  y : Int := 0
  w : Int := 0
  h : Int := 0
  dataSpace : Int := 0
  blending : Int := 0
  transform : Int := 0
  planeAlpha : float := float.ofInt 0
  acquireFenceFd : Int := -1
  releaseFenceFd : Int := -1
  deriving DecidableEq, Repr

/-- The struct `hwc_rect_t`. -/
structure hwc_rect_t where
  left : Int := 0
  top : Int := 0
  right : Int := 0
  bottom : Int := 0
  deriving DecidableEq, Repr

/-- The field of the layer's preprocessed info (`mPreprocessedInfo`) read by
`configureHandle`. -/
structure pre_processed_layer_info where
  displayFrame : hwc_rect_t := {}
  deriving DecidableEq, Repr

/-- The fields of `ExynosLayer` used by the display code. `mLayerOpaque` stands
for the result of `isLayerOpaque()`. -/
structure ExynosLayer where
  mZOrder : Nat := 0
  mDisplayFrame : hwc_rect_t := {}
  mPreprocessedInfo : pre_processed_layer_info := {}
  mBlending : Int := 0
  mPlaneAlpha : float := float.ofInt 0
  mCompositionType : Int := 0
  mExynosCompositionType : Int := 0
  mValidateCompositionType : Int := 0
  mPrevValidateCompositionType : Int := 0
  mOverlayPriority : Int := 0
  mOverlayInfo : Nat := 0
  mSupportedMPPFlag : Nat := 0
  mLayerOpaque : Bool := false
  mOtfMPP : Option ExynosMPP := none
  mM2mMPP : Option ExynosMPP := none
  mAcquireFence : Int := -1
  mReleaseFence : Int := -1
  mLayerBuffer : Nat := 0
  mLastLayerBuffer : Nat := 0
  mSrcImg : exynos_image := {}
  mDstImg : exynos_image := {}
  deriving DecidableEq, Repr

/-- The struct `ExynosFrameInfo`: the cached snapshot of the static-layer skip. -/
structure ExynosFrameInfo where
  srcNum : Nat := 0
  srcInfo : List exynos_image := []
  dstInfo : List exynos_image := []
  deriving DecidableEq, Repr

/-- The class `ExynosCompositionInfo`. -/
structure ExynosCompositionInfo where
  mType : Nat := 0
  mHasCompositionLayer : Bool := false
  mPrevHasCompositionLayer : Bool := false
  mFirstIndex : Int := -1
  mLastIndex : Int := -1
  mTargetBuffer : Nat := 0
  mDataSpace : Int := 0
  mAcquireFence : Int := -1
  mReleaseFence : Int := -1
  mEnableSkipStatic : Bool := false
  mSkipStaticInitFlag : Bool := false
  mSkipFlag : Bool := false
  mSkipSrcInfo : ExynosFrameInfo := {}
  mWindowIndex : Int := -1
  mOtfMPP : Option ExynosMPP := none
  mM2mMPP : Option ExynosMPP := none
  deriving DecidableEq, Repr

/-- The struct `decon_frame` of the display driver interface: signed offsets,
32-bit unsigned sizes. -/
structure decon_frame where
  x : Int := 0
  y : Int := 0
  w : Nat := 0
  h : Nat := 0
  f_w : Nat := 0
  f_h : Nat := 0
  deriving DecidableEq, Repr

/-- State `WIN_STATE_DISABLED` of a plane-configuration slot. -/
def WIN_STATE_DISABLED : Nat := 0
/-- State `WIN_STATE_COLOR` of a plane-configuration slot. -/
def WIN_STATE_COLOR : Nat := 1
/-- State `WIN_STATE_BUFFER` of a plane-configuration slot. -/
def WIN_STATE_BUFFER : Nat := 2
/-- State `WIN_STATE_UPDATE` of a plane-configuration slot. -/
def WIN_STATE_UPDATE : Nat := 3
/-- State `WIN_STATE_CURSOR` of a plane-configuration slot. -/
def WIN_STATE_CURSOR : Nat := 4
/-- State `WIN_STATE_RCD` of a plane-configuration slot. -/
def WIN_STATE_RCD : Nat := 5

/-- The fields of `exynos_win_config_data` read by validation, change
detection and fence handling.  `fd_idma0..2` are the three buffer descriptors;
the plane alpha is a `float`.  The defaults are the values of `reset()`. -/
structure exynos_win_config_data where
  state : Nat := 0
  fd_idma0 : Int := -1
  fd_idma1 : Int := -1
  fd_idma2 : Int := -1
  acq_fence : Int := -1
  rel_fence : Int := -1
  plane_alpha : float := float.ofInt 1
  blending : Int := 1
  assignedMPP : Option ExynosMPP := none
  format : Int := 0
  src : decon_frame := {}
  dst : decon_frame := {}
  deriving DecidableEq, Repr

/-- The fence fields of `exynos_readback_info`. -/
structure exynos_readback_info where
  rel_fence : Int := -1
  acq_fence : Int := -1
  deriving DecidableEq, Repr

/-- The struct `exynos_dpu_data`: the commit plan. -/
structure exynos_dpu_data where
  retire_fence : Int := -1
  configs : List exynos_win_config_data := []
  rcdConfigs : List exynos_win_config_data := []
  enable_readback : Bool := false
  readback_info : exynos_readback_info := {}
  deriving DecidableEq, Repr

/-- The method `exynos_dpu_data::reset()`; the readback info is kept. -/
def exynos_dpu_data.reset (p : exynos_dpu_data) : exynos_dpu_data :=
  { p with retire_fence := -1
           configs := p.configs.map (fun _ => {})
           rcdConfigs := p.rcdConfigs.map (fun _ => {}) }

/-- The assignment `exynos_dpu_data::operator=`: slots are copied only when the
sizes agree. -/
def exynos_dpu_data.assign (p q : exynos_dpu_data) : exynos_dpu_data :=
  if p.configs.length ≠ q.configs.length then { p with retire_fence := q.retire_fence }
  else if p.rcdConfigs.length ≠ q.rcdConfigs.length then
    { p with retire_fence := q.retire_fence, configs := q.configs }
  else { p with retire_fence := q.retire_fence, configs := q.configs, rcdConfigs := q.rcdConfigs }

/-- The fields of the global `exynosHWCControl` read by the display code. -/
structure ExynosHWCCtrl where
  skipStaticLayers : Nat := 1
  skipResourceAssign : Nat := 1
  skipWinConfig : Nat := 0
  deriving DecidableEq, Repr

/-- The enum `rendering_state`. -/
inductive rendering_state where
  | RENDERING_STATE_NONE
  | RENDERING_STATE_VALIDATED
  | RENDERING_STATE_ACCEPTED_CHANGE
  | RENDERING_STATE_PRESENTED
  deriving DecidableEq, Repr

open rendering_state

/-- The fields of `ExynosDisplay` used by the modelled functions, with the
global `exynosHWCControl` and the device-wide geometry mask
`mDevice->mGeometryChanged` (`mDeviceGeometryChanged`).  Two ghost fields record
calls into collaborators: `resetAssignedStateCalls`, the identities of the
resources on which `ExynosMPP::resetAssignedState()` has been called, most
recent first; `driverCommits`, the number of calls of
`mDisplayInterface->deliverWinConfigData()`. -/
structure ExynosDisplay where
  mType : Nat := 0
  mXres : Nat := 0
  mYres : Nat := 0
  exynosHWCControl : ExynosHWCCtrl := {}
  mDeviceGeometryChanged : Nat := 0
  mDpuData : exynos_dpu_data := {}
  mLastDpuData : exynos_dpu_data := {}
  mLastRetireFence : Int := -1
  driverCommits : Nat := 0
  mLayers : List ExynosLayer := []
  mIgnoreLayers : List ExynosLayer := []
  mClientCompositionInfo : ExynosCompositionInfo := { mType := COMPOSITION_CLIENT }
  mExynosCompositionInfo : ExynosCompositionInfo := { mType := COMPOSITION_EXYNOS }
  mWindowNumUsed : Nat := 0
  mRenderingState : rendering_state := RENDERING_STATE_NONE
  mGeometryChanged : Nat := 0
  mDropFrameDuringResSwitch : Bool := false
  mHpdStatus : Bool := true
  mPauseDisplay : Bool := false
  mSkipFrame : Bool := false
  cursorSupport : Bool := false
  earlyStartMPP : Bool := false
  resetAssignedStateCalls : List Nat := []
  deriving DecidableEq, Repr

/-- The resource-side collaborators (`ExynosResourceManager`, `ExynosMPP`),
whose code is not part of the sources.  Each field is the outcome of one call:
`getExynosMPP t` of `mResourceManager->getExynosMPP(t)`;
`isAssignable d i` of `m2mMPP->isAssignable(this, src_img, dst_img,
totalUsedCapa)` for layer `i` in display state `d` (the `float` capacity is
only passed through to it); `assignMPP d i` the return code of
`m2mMPP->assignMPP(this, mLayers[i])`. -/
structure ResourceOracle where
  getExynosMPP : Nat → Option ExynosMPP
  isAssignable : ExynosDisplay → Nat → Bool
  assignMPP : ExynosDisplay → Nat → Int

/-! ## `ExynosLayer` helpers -/

/-- Modelled from the spec: `ExynosLayer::needClearClientTarget` is not part of
the sources; it is the "high/max priority opaque" exception of the sandwiched
rule. -/
def ExynosLayer.needClearClientTarget (l : ExynosLayer) : Bool :=
  decide (l.mOverlayPriority ≥ ePriorityHigh) && l.mLayerOpaque

/-- The accessor `ExynosLayer::getValidateCompositionType`. -/
def ExynosLayer.getValidateCompositionType (l : ExynosLayer) : Int :=
  l.mValidateCompositionType

/-- Modelled from the spec: `ExynosLayer::updateValidateCompositionType` is not
part of the sources; it records the validated composition type and adds the
given reason bits to the overlay info. -/
def ExynosLayer.updateValidateCompositionType (l : ExynosLayer) (type : Int)
    (ovlInfo : Nat) : ExynosLayer :=
  { l with mValidateCompositionType := type, mOverlayInfo := l.mOverlayInfo ||| ovlInfo }

/-- Modelled from the spec: `ExynosLayer::resetAssignedResource` is not part of
the sources; it detaches the layer from the resources assigned to it. -/
def ExynosLayer.resetAssignedResource (l : ExynosLayer) : ExynosLayer :=
  { l with mOtfMPP := none, mM2mMPP := none }

/-! ## `ExynosCompositionInfo::initializeInfos` -/

/-- The method `ExynosCompositionInfo::initializeInfos(display)`, with `display`
non-null and of type `displayType`. -/
def ExynosCompositionInfo.initializeInfos (env : ResourceOracle) (displayType : Nat)
    (c : ExynosCompositionInfo) : ExynosCompositionInfo :=
  { c with
    mHasCompositionLayer := false
    mFirstIndex := -1
    mLastIndex := -1
    mTargetBuffer := if c.mType ≠ COMPOSITION_CLIENT then 0 else c.mTargetBuffer
    mDataSpace := if c.mType ≠ COMPOSITION_CLIENT then 0 else c.mDataSpace
    mAcquireFence := if c.mType ≠ COMPOSITION_CLIENT then -1 else c.mAcquireFence
    mReleaseFence := -1
    mWindowIndex := -1
    mOtfMPP := none
    mM2mMPP :=
      if displayType = HWC_DISPLAY_VIRTUAL ∧ c.mType = COMPOSITION_EXYNOS then
        env.getExynosMPP MPP_LOGICAL_G2D_COMBO
      else none }

/-- Read `mLayers[i]` for a signed index; `none` is an out-of-bounds read. -/
def ExynosDisplay.layerAt (d : ExynosDisplay) (i : Int) : Option ExynosLayer :=
  if 0 ≤ i then d.mLayers[i.toNat]? else none

/-- Store a layer value back at position `i`. -/
def ExynosDisplay.setLayer (d : ExynosDisplay) (i : Nat) (l : ExynosLayer) : ExynosDisplay :=
  { d with mLayers := d.mLayers.set i l }

/-! ## `addClientCompositionLayer` -/

/-- One iteration of the "handle sandwiched layers" loop of
`addClientCompositionLayer`, at index `i`; the Boolean is
`exynosCompositionChanged`. -/
def sandwichedStep (i : Nat) (s : ExynosDisplay × Bool) : Option (ExynosDisplay × Bool) :=
  match s.1.mLayers[i]? with
  | none => none
  | some layer =>
    if layer.needClearClientTarget then some s
    else if layer.getValidateCompositionType ≠ HWC2_COMPOSITION_CLIENT then
      let changed := s.2 || decide (layer.getValidateCompositionType = HWC2_COMPOSITION_EXYNOS)
      let wnu :=
        if layer.getValidateCompositionType = HWC2_COMPOSITION_EXYNOS then s.1.mWindowNumUsed
        else if layer.getValidateCompositionType = HWC2_COMPOSITION_DEVICE then
          decUInt32 s.1.mWindowNumUsed
        else s.1.mWindowNumUsed
      let layer1 := layer.resetAssignedResource.updateValidateCompositionType
        HWC2_COMPOSITION_CLIENT eSandwichedBetweenGLES
      some ({ s.1 with mLayers := s.1.mLayers.set i layer1, mWindowNumUsed := wnu }, changed)
    else some s

/-- The loop `for (i = start; ...; i++)` running `count` iterations of
`sandwichedStep`. -/
def sandwichedLoop : Nat → Nat → ExynosDisplay × Bool → Option (ExynosDisplay × Bool)
  | 0, _, s => some s
  | count + 1, i, s =>
    match sandwichedStep i s with
    | none => none
    | some s1 => sandwichedLoop count (i + 1) s1

/-- The scan of `addClientCompositionLayer` that recomputes the secondary range:
over the layers from index `i` on, `acc = (newFirstIndex, newLastIndex)`. -/
def exynosRangeScan : List ExynosLayer → Nat → Nat × Int → Nat × Int
  | [], _, acc => acc
  | l :: ls, i, acc =>
    if l.getValidateCompositionType = HWC2_COMPOSITION_EXYNOS then
      exynosRangeScan ls (i + 1) (min acc.1 i, max acc.2 (toInt32 i))
    else exynosRangeScan ls (i + 1) acc

/-- The block "Check Exynos Composition info is changed" of
`addClientCompositionLayer`, entered when a sandwiched layer left the secondary
composition: the secondary range is recomputed over all layers. -/
def exynosRangeRecompute (env : ResourceOracle) (d : ExynosDisplay) : Int × ExynosDisplay :=
  let e := d.mExynosCompositionInfo
  if e.mFirstIndex < 0 ∨ e.mLastIndex < 0 then (-EINVAL, d)
  else
    let r := exynosRangeScan d.mLayers 0 (2 ^ 32 - 1, -1)
    /- There is no exynos composition layer -/
    if r.1 = 2 ^ 32 - 1 then
      (EXYNOS_ERROR_CHANGED, { d with mExynosCompositionInfo := e.initializeInfos env d.mType })
    else
      (NO_ERROR,
        { d with mExynosCompositionInfo := { e with mFirstIndex := toInt32 r.1, mLastIndex := r.2 } })

/-- The widening `mFirstIndex = min(mFirstIndex, (int32_t)layerIndex);
mLastIndex = max(mLastIndex, (int32_t)layerIndex)` of the client range. -/
def widenClientRange (d : ExynosDisplay) (layerIndex : Nat) : ExynosDisplay :=
  { d with mClientCompositionInfo :=
      { d.mClientCompositionInfo with
        mFirstIndex := min d.mClientCompositionInfo.mFirstIndex (toInt32 layerIndex)
        mLastIndex := max d.mClientCompositionInfo.mLastIndex (toInt32 layerIndex) } }

/-- The method `ExynosDisplay::addClientCompositionLayer(layerIndex)`: the return
code and the display state afterwards. -/
def addClientCompositionLayer (env : ResourceOracle) (d : ExynosDisplay) (layerIndex : Nat) :
    Option (Int × ExynosDisplay) :=
  let c := d.mClientCompositionInfo
  if c.mHasCompositionLayer = false then
    some (EXYNOS_ERROR_CHANGED,
      { d with mClientCompositionInfo :=
          { c with mFirstIndex := toInt32 layerIndex, mLastIndex := toInt32 layerIndex,
                   mHasCompositionLayer := true } })
  else
    let d1 := widenClientRange d layerIndex
    let c1 := d1.mClientCompositionInfo
    if c1.mFirstIndex < 0 ∨ c1.mLastIndex < 0 then some (-EINVAL, d1)
    else
      /- handle sandwiched layers -/
      let start := (toUInt32 c1.mFirstIndex + 1) % 2 ^ 32
      match sandwichedLoop (toUInt32 c1.mLastIndex - start) start (d1, false) with
      | none => none
      | some (d2, exynosCompositionChanged) =>
        if exynosCompositionChanged then some (exynosRangeRecompute env d2)
        else some (NO_ERROR, d2)

/-! ## `removeClientCompositionLayer` -/

/-- The method `ExynosDisplay::removeClientCompositionLayer(layerIndex)`. -/
def removeClientCompositionLayer (env : ResourceOracle) (d : ExynosDisplay) (layerIndex : Nat) :
    Int × ExynosDisplay :=
  let c := d.mClientCompositionInfo
  /- Only first layer or last layer can be removed -/
  if c.mHasCompositionLayer = false ∨
      (c.mFirstIndex ≠ toInt32 layerIndex ∧ c.mLastIndex ≠ toInt32 layerIndex) then
    (-EINVAL, d)
  else if c.mFirstIndex = c.mLastIndex then
    match c.mOtfMPP with
    | none => (-EINVAL, d)
    | some otfMPP =>
      (NO_ERROR,
        { d with
          resetAssignedStateCalls := otfMPP.mId :: d.resetAssignedStateCalls
          mClientCompositionInfo := c.initializeInfos env d.mType
          mWindowNumUsed := decUInt32 d.mWindowNumUsed })
  else if toInt32 layerIndex = c.mFirstIndex then
    (NO_ERROR, { d with mClientCompositionInfo := { c with mFirstIndex := c.mFirstIndex + 1 } })
  else
    (NO_ERROR, { d with mClientCompositionInfo := { c with mLastIndex := c.mLastIndex - 1 } })

/-! ## `addExynosCompositionLayer` -/

/-- Outcome of a loop body or block that may execute `return code`. -/
inductive Flow (σ : Type) where
  | next : σ → Flow σ
  | ret : Int → ExynosDisplay → Flow σ

/-- The display state together with the locals of `addExynosCompositionLayer`
that live across its loops.  `highPriority` holds the first `highPriorityNum`
entries of the vector of that name (the rest stay `-1` and are never read). -/
structure ExynosLocals where
  d : ExynosDisplay
  invalidFlag : Bool := false
  changeFlag : Int := 0
  maxPriorityIndex : Int := -1
  highPriority : List Int := []

/-- A loop `for (int32_t i = start; ...; i++)` of `count` iterations whose body
may `return`. -/
def flowLoop {σ : Type} (step : Int → σ → Option (Flow σ)) :
    Nat → Int → σ → Option (Flow σ)
  | 0, _, s => some (Flow.next s)
  | count + 1, i, s =>
    match step i s with
    | none => none
    | some (Flow.ret r d) => some (Flow.ret r d)
    | some (Flow.next s1) => flowLoop step count (i + 1) s1

/-- The effect of a successful `m2mMPP->assignMPP(this, layer)` on the layer.
Modelled from the spec: `ExynosMPP::assignMPP` is not part of the sources; it
attaches the resource to the layer. -/
def ExynosLayer.assignedTo (l : ExynosLayer) (m2mMPP : ExynosMPP) : ExynosLayer :=
  { l with mM2mMPP := some m2mMPP }

/-- Body of the first loop of `addExynosCompositionLayer` ("handle sandwiched
layers") at index `i`. -/
def exynosSandwichedStep (env : ResourceOracle) (m2mMPP : ExynosMPP) (i : Int)
    (s : ExynosLocals) : Option (Flow ExynosLocals) :=
  match s.d.layerAt i with
  | none => none
  | some layer =>
    if layer.mOverlayPriority = ePriorityMax ∧ m2mMPP.mLogicalType = MPP_LOGICAL_G2D_COMBO then
      some (Flow.next { s with invalidFlag := true, maxPriorityIndex := i })
    else if layer.mOverlayPriority ≥ ePriorityHigh then
      some (Flow.next { s with highPriority := s.highPriority ++ [i] })
    else if layer.getValidateCompositionType = HWC2_COMPOSITION_EXYNOS then
      some (Flow.next s)
    else
      let supported : Bool := decide ((layer.mSupportedMPPFlag &&& m2mMPP.mLogicalType) ≠ 0)
      let isAssignable : Bool := if supported then env.isAssignable s.d i.toNat else false
      if layer.getValidateCompositionType = HWC2_COMPOSITION_CLIENT then
        some (Flow.next { s with invalidFlag := true })
      else if supported = false ∨ isAssignable = false then
        let layer1 := layer.resetAssignedResource.updateValidateCompositionType
          HWC2_COMPOSITION_CLIENT 0
        match addClientCompositionLayer env (s.d.setLayer i.toNat layer1) (toUInt32 i) with
        | none => none
        | some (ret, d2) =>
          if ret < 0 then some (Flow.ret ret d2)
          else some (Flow.next { s with d := d2, invalidFlag := true,
                                        changeFlag := Int.lor s.changeFlag ret })
      else if layer.getValidateCompositionType = HWC2_COMPOSITION_DEVICE ∨
          layer.getValidateCompositionType = HWC2_COMPOSITION_INVALID then
        let layer1 :=
          { layer with mOverlayInfo := layer.mOverlayInfo ||| eSandwichedBetweenEXYNOS
            }.resetAssignedResource
        let d1 := s.d.setLayer i.toNat layer1
        let ret := env.assignMPP d1 i.toNat
        if ret ≠ NO_ERROR then some (Flow.ret ret d1)
        else
          let layer2 := layer1.assignedTo m2mMPP
          let wnu :=
            if layer2.getValidateCompositionType = HWC2_COMPOSITION_DEVICE then
              decUInt32 d1.mWindowNumUsed
            else d1.mWindowNumUsed
          let layer3 := layer2.updateValidateCompositionType HWC2_COMPOSITION_EXYNOS 0
          let e := d1.mExynosCompositionInfo
          some (Flow.next { s with d :=
            { d1 with
              mLayers := d1.mLayers.set i.toNat layer3
              mWindowNumUsed := wnu
              mExynosCompositionInfo :=
                { e with mFirstIndex := min e.mFirstIndex i, mLastIndex := max e.mLastIndex i } } })
      else some (Flow.next s)

/-- Body of the max-priority eviction loop of `addExynosCompositionLayer`. -/
def maxPriorityEvictStep (env : ResourceOracle) (i : Int) (s : ExynosLocals) :
    Option (Flow ExynosLocals) :=
  match s.d.layerAt i with
  | none => none
  | some layer =>
    if layer.mOverlayPriority = ePriorityMax ∨
        layer.getValidateCompositionType = HWC2_COMPOSITION_CLIENT then
      some (Flow.next s)
    else
      let layer1 := layer.resetAssignedResource.updateValidateCompositionType
        HWC2_COMPOSITION_CLIENT 0
      match addClientCompositionLayer env (s.d.setLayer i.toNat layer1) (toUInt32 i) with
      | none => none
      | some (ret, d2) =>
        if ret < 0 then some (Flow.ret ret d2)
        else some (Flow.next { s with d := d2, changeFlag := Int.lor s.changeFlag ret })

/-- The block `if (m2mMPP->mLogicalType == MPP_LOGICAL_G2D_COMBO &&
maxPriorityIndex >= 0)` of `addExynosCompositionLayer`. -/
def maxPriorityBlock (env : ResourceOracle) (m2mMPP : ExynosMPP) (s : ExynosLocals) :
    Option (Flow ExynosLocals) :=
  let startIndex := s.d.mExynosCompositionInfo.mFirstIndex
  let endIndex := s.d.mExynosCompositionInfo.mLastIndex
  match flowLoop (maxPriorityEvictStep env) (endIndex - startIndex + 1).toNat startIndex s with
  | none => none
  | some (Flow.ret r d) => some (Flow.ret r d)
  | some (Flow.next s1) =>
    match s1.d.layerAt s1.maxPriorityIndex with
    | none => none
    | some layer =>
      let m := s1.maxPriorityIndex
      let collapse (d : ExynosDisplay) : ExynosDisplay :=
        { d with mExynosCompositionInfo :=
            { d.mExynosCompositionInfo with mFirstIndex := m, mLastIndex := m } }
      if layer.getValidateCompositionType ≠ HWC2_COMPOSITION_EXYNOS then
        let layer1 :=
          (layer.updateValidateCompositionType HWC2_COMPOSITION_EXYNOS 0).resetAssignedResource
        let d1 := s1.d.setLayer m.toNat layer1
        let ret := env.assignMPP d1 m.toNat
        if ret ≠ NO_ERROR then some (Flow.ret ret d1)
        else
          some (Flow.next { s1 with d := collapse (d1.setLayer m.toNat (layer1.assignedTo m2mMPP)) })
      else some (Flow.next { s1 with d := collapse s1.d })

/-- The block "Check if exynos comosition nests GLES composition" of
`addExynosCompositionLayer`. -/
def nestingBlock (env : ResourceOracle) (s : ExynosLocals) : Option (Flow ExynosLocals) :=
  let c := s.d.mClientCompositionInfo
  let e := s.d.mExynosCompositionInfo
  if c.mHasCompositionLayer = true ∧ e.mFirstIndex < c.mFirstIndex ∧
      c.mFirstIndex < e.mLastIndex ∧ e.mFirstIndex < c.mLastIndex ∧
      c.mLastIndex < e.mLastIndex then
    if c.mFirstIndex - e.mFirstIndex < e.mLastIndex - c.mLastIndex then
      match s.d.layerAt e.mFirstIndex with
      | none => none
      | some layer =>
        let layer1 := layer.resetAssignedResource.updateValidateCompositionType
          HWC2_COMPOSITION_CLIENT 0
        match addClientCompositionLayer env (s.d.setLayer e.mFirstIndex.toNat layer1)
            (toUInt32 e.mFirstIndex) with
        | none => none
        | some (ret, d2) =>
          if ret < 0 then some (Flow.ret ret d2)
          else
            some (Flow.next { s with
              d := { d2 with mExynosCompositionInfo :=
                      { d2.mExynosCompositionInfo with
                        mFirstIndex := d2.mClientCompositionInfo.mLastIndex + 1 } }
              changeFlag := Int.lor s.changeFlag ret })
    else
      match s.d.layerAt e.mLastIndex with
      | none => none
      | some layer =>
        let layer1 := layer.resetAssignedResource.updateValidateCompositionType
          HWC2_COMPOSITION_CLIENT 0
        match addClientCompositionLayer env (s.d.setLayer e.mLastIndex.toNat layer1)
            (toUInt32 e.mLastIndex) with
        | none => none
        | some (ret, d2) =>
          if ret < 0 then some (Flow.ret ret d2)
          else
            some (Flow.next { s with
              d := { d2 with mExynosCompositionInfo :=
                      { d2.mExynosCompositionInfo with
                        mLastIndex := d2.mClientCompositionInfo.mFirstIndex - 1 } }
              changeFlag := Int.lor s.changeFlag ret })
  else some (Flow.next s)

/-- The loop that moves the secondary range's boundaries past high-priority
layers: one pass over the recorded high-priority indices. -/
def highPriorityAdjust : List Int → ExynosCompositionInfo → ExynosCompositionInfo
  | [], e => e
  | hp :: rest, e =>
    if hp = e.mFirstIndex then highPriorityAdjust rest { e with mFirstIndex := e.mFirstIndex + 1 }
    else if hp = e.mLastIndex then highPriorityAdjust rest { e with mLastIndex := e.mLastIndex - 1 }
    else highPriorityAdjust rest e

/-- Body of the final loop of `addExynosCompositionLayer`, which abandons the
secondary composition around a sandwiched high-priority layer.  A negative
result of the nested call is only logged there. -/
def highPriorityAbandonStep (env : ResourceOracle) (highPriority : List Int) (i : Int)
    (d : ExynosDisplay) : Option (Flow ExynosDisplay) :=
  if highPriority.contains i then some (Flow.next d)
  else
    match d.layerAt i with
    | none => none
    | some layer =>
      let layer1 := layer.resetAssignedResource.updateValidateCompositionType
        HWC2_COMPOSITION_CLIENT 0
      match addClientCompositionLayer env (d.setLayer i.toNat layer1) (toUInt32 i) with
      | none => none
      | some (_, d2) => some (Flow.next d2)

/-- The tail of `addExynosCompositionLayer`, from the high-priority boundary
adjustment to the final `return changeFlag`. -/
def exynosTail (env : ResourceOracle) (m2mMPP : ExynosMPP) (s : ExynosLocals) :
    Option (Int × ExynosDisplay) :=
  let size := toInt32 s.d.mLayers.length
  let e0 := s.d.mExynosCompositionInfo
  let e1 :=
    if s.highPriority.length > 0 ∧ m2mMPP.mLogicalType ≠ MPP_LOGICAL_G2D_COMBO then
      highPriorityAdjust s.highPriority e0
    else e0
  let invalid : Bool :=
    decide (e1.mFirstIndex < 0 ∨ e1.mFirstIndex ≥ size ∨ e1.mLastIndex < 0 ∨
      e1.mLastIndex ≥ size ∨ e1.mFirstIndex > e1.mLastIndex)
  let e2 := if invalid then e1.initializeInfos env s.d.mType else e1
  let changeFlag := if invalid then EXYNOS_ERROR_CHANGED else s.changeFlag
  let d2 := { s.d with mExynosCompositionInfo := e2 }
  let highPriorityCheck : Bool :=
    s.highPriority.any (fun hp => decide (e2.mFirstIndex < hp ∧ hp < e2.mLastIndex))
  if highPriorityCheck = true ∧ m2mMPP.mLogicalType ≠ MPP_LOGICAL_G2D_COMBO then
    match flowLoop (highPriorityAbandonStep env s.highPriority)
        (e2.mLastIndex - e2.mFirstIndex + 1).toNat e2.mFirstIndex d2 with
    | none => none
    | some (Flow.ret r d) => some (r, d)
    | some (Flow.next d3) =>
      some (EXYNOS_ERROR_CHANGED,
        { d3 with mExynosCompositionInfo := d3.mExynosCompositionInfo.initializeInfos env d3.mType })
  else some (changeFlag, d2)

/-- The method `ExynosDisplay::addExynosCompositionLayer(layerIndex,
totalUsedCapa)`; the capacity only reaches `env.isAssignable`. -/
def addExynosCompositionLayer (env : ResourceOracle) (d : ExynosDisplay) (layerIndex : Nat) :
    Option (Int × ExynosDisplay) :=
  let e := d.mExynosCompositionInfo
  if e.mHasCompositionLayer = false then
    some (EXYNOS_ERROR_CHANGED,
      { d with mExynosCompositionInfo :=
          { e with mFirstIndex := toInt32 layerIndex, mLastIndex := toInt32 layerIndex,
                   mHasCompositionLayer := true } })
  else
    let e1 := { e with mFirstIndex := min e.mFirstIndex (toInt32 layerIndex),
                       mLastIndex := max e.mLastIndex (toInt32 layerIndex) }
    let d1 := { d with mExynosCompositionInfo := e1 }
    match e1.mM2mMPP with
    | none => some (-EINVAL, d1)
    | some m2mMPP =>
      let startIndex := e1.mFirstIndex
      let endIndex := e1.mLastIndex
      let size := toInt32 d1.mLayers.length
      if startIndex < 0 ∨ endIndex < 0 ∨ startIndex ≥ size ∨ endIndex ≥ size then
        some (-EINVAL, d1)
      else
        /- handle sandwiched layers -/
        match flowLoop (exynosSandwichedStep env m2mMPP) (endIndex - startIndex + 1).toNat
            startIndex { d := d1 } with
        | none => none
        | some (Flow.ret r d2) => some (r, d2)
        | some (Flow.next s1) =>
          if s1.invalidFlag then
            let afterMax : Option (Flow ExynosLocals) :=
              if m2mMPP.mLogicalType = MPP_LOGICAL_G2D_COMBO ∧ s1.maxPriorityIndex ≥ 0 then
                maxPriorityBlock env m2mMPP s1
              else some (Flow.next s1)
            match afterMax with
            | none => none
            | some (Flow.ret r d2) => some (r, d2)
            | some (Flow.next s2) =>
              match nestingBlock env s2 with
              | none => none
              | some (Flow.ret r d3) => some (r, d3)
              | some (Flow.next s3) => exynosTail env m2mMPP s3
          else exynosTail env m2mMPP s1

/-! ## The range invariant of the region tracker -/

/-- A composition range is well formed for a list of `layerCount` layers: empty
(no composition layer, `first = last = -1`), or flagged and inside the list. -/
def ExynosCompositionInfo.rangeValid (c : ExynosCompositionInfo) (layerCount : Nat) : Prop :=
  (c.mHasCompositionLayer = false ∧ c.mFirstIndex = -1 ∧ c.mLastIndex = -1) ∨
  (c.mHasCompositionLayer = true ∧ 0 ≤ c.mFirstIndex ∧ c.mFirstIndex ≤ c.mLastIndex ∧
    c.mLastIndex < layerCount)

instance (c : ExynosCompositionInfo) (layerCount : Nat) : Decidable (c.rangeValid layerCount) := by
  unfold ExynosCompositionInfo.rangeValid
  infer_instance

/-! ## Concrete inputs used by the closed statements -/

/-- A resource side on which every request succeeds. -/
def permissiveOracle : ResourceOracle :=
  { getExynosMPP := fun _ => none, isAssignable := fun _ _ => true, assignMPP := fun _ _ => NO_ERROR }

/-- A secondary-composition resource of the combined type. -/
def comboMPP : ExynosMPP := { mId := 7, mLogicalType := MPP_LOGICAL_G2D_COMBO }

/-- An overlay resource. -/
def overlayMPP : ExynosMPP := { mId := 3, mLogicalType := 1 }

/-- Three layers `[A, B, C]`: `B` is in secondary composition (range `[1,1]`),
`A` and `C` are overlays; the client range is empty. -/
def sandwichDisplay : ExynosDisplay :=
  { mLayers := [ { mValidateCompositionType := HWC2_COMPOSITION_DEVICE },
                 { mValidateCompositionType := HWC2_COMPOSITION_EXYNOS, mM2mMPP := some comboMPP },
                 { mValidateCompositionType := HWC2_COMPOSITION_DEVICE } ]
    mExynosCompositionInfo :=
      { mType := COMPOSITION_EXYNOS, mHasCompositionLayer := true, mFirstIndex := 1,
        mLastIndex := 1, mM2mMPP := some comboMPP } }

/-- A client range `[1,2]` over four layers. -/
def clientRangeDisplay : ExynosDisplay :=
  { mLayers := [ { mValidateCompositionType := HWC2_COMPOSITION_DEVICE },
                 { mValidateCompositionType := HWC2_COMPOSITION_CLIENT },
                 { mValidateCompositionType := HWC2_COMPOSITION_CLIENT },
                 { mValidateCompositionType := HWC2_COMPOSITION_DEVICE } ]
    mClientCompositionInfo :=
      { mType := COMPOSITION_CLIENT, mHasCompositionLayer := true, mFirstIndex := 1,
        mLastIndex := 2, mOtfMPP := some overlayMPP } }

/-- Three layers with the combined secondary resource: layer 0 is in client
composition (range `[0,0]`), layer 1 has max priority, is not opaque and is in
secondary composition (range `[1,1]`), layer 2 is an overlay the secondary
resource supports.  Both ranges are well formed. -/
def maxPriorityDisplay : ExynosDisplay :=
  { mLayers := [ { mValidateCompositionType := HWC2_COMPOSITION_CLIENT },
                 { mValidateCompositionType := HWC2_COMPOSITION_EXYNOS,
                   mOverlayPriority := ePriorityMax, mLayerOpaque := false,
                   mM2mMPP := some comboMPP },
                 { mValidateCompositionType := HWC2_COMPOSITION_DEVICE,
                   mSupportedMPPFlag := MPP_LOGICAL_G2D_COMBO, mOtfMPP := some overlayMPP } ]
    mClientCompositionInfo :=
      { mType := COMPOSITION_CLIENT, mHasCompositionLayer := true, mFirstIndex := 0,
        mLastIndex := 0 }
    mExynosCompositionInfo :=
      { mType := COMPOSITION_EXYNOS, mHasCompositionLayer := true, mFirstIndex := 1,
        mLastIndex := 1, mM2mMPP := some comboMPP } }

/-- The display once the resource manager has set the overlay resource of the
client composition target to `o` (`none`: no resource assigned). -/
def ExynosDisplay.withClientOtfMPP (d : ExynosDisplay) (o : Option ExynosMPP) : ExynosDisplay :=
  { d with mClientCompositionInfo := { d.mClientCompositionInfo with mOtfMPP := o } }

/-! ## `getLayerCompositionTypeForValidationType` and `acceptDisplayChanges` -/

/-- The method `ExynosDisplay::getLayerCompositionTypeForValidationType`. -/
def getLayerCompositionTypeForValidationType (d : ExynosDisplay) (layerIndex : Nat) : Int :=
  match d.mLayers[layerIndex]? with
  | none => -1
  | some l =>
    if l.getValidateCompositionType = HWC2_COMPOSITION_CLIENT ∧
        d.mClientCompositionInfo.mSkipFlag = true ∧
        d.mClientCompositionInfo.mFirstIndex ≤ toInt32 layerIndex ∧
        toInt32 layerIndex ≤ d.mClientCompositionInfo.mLastIndex then
      HWC2_COMPOSITION_DEVICE
    else if l.getValidateCompositionType = HWC2_COMPOSITION_EXYNOS then
      HWC2_COMPOSITION_DEVICE
    else if l.mCompositionType = HWC2_COMPOSITION_CURSOR ∧
        l.getValidateCompositionType = HWC2_COMPOSITION_DEVICE then
      if d.cursorSupport = true then HWC2_COMPOSITION_CURSOR else HWC2_COMPOSITION_DEVICE
    else if l.mCompositionType = HWC2_COMPOSITION_SOLID_COLOR ∧
        l.getValidateCompositionType = HWC2_COMPOSITION_DEVICE then
      HWC2_COMPOSITION_SOLID_COLOR
    else if l.mCompositionType = HWC2_COMPOSITION_REFRESH_RATE_INDICATOR ∧
        l.getValidateCompositionType = HWC2_COMPOSITION_DEVICE then
      HWC2_COMPOSITION_REFRESH_RATE_INDICATOR
    else l.getValidateCompositionType

/-- One iteration of the loop of `acceptDisplayChanges`, at index `i`. -/
def acceptStep (i : Nat) (d : ExynosDisplay) : ExynosDisplay :=
  match d.mLayers[i]? with
  | none => d
  | some l =>
    let type := getLayerCompositionTypeForValidationType d i
    d.setLayer i { l with mCompositionType := type
                          mExynosCompositionType := l.getValidateCompositionType }

/-- The loop `for (size_t i = 0; i < mLayers.size(); i++)` of
`acceptDisplayChanges`, with `count` iterations left from index `i`. -/
def acceptLoop : Nat → Nat → ExynosDisplay → ExynosDisplay
  | 0, _, d => d
  | count + 1, i, d => acceptLoop count (i + 1) (acceptStep i d)

/-- The method `ExynosDisplay::acceptDisplayChanges`. -/
def acceptDisplayChanges (d : ExynosDisplay) : Int × ExynosDisplay :=
  if d.mDropFrameDuringResSwitch = true then (HWC2_ERROR_NONE, d)
  else if d.mRenderingState ≠ RENDERING_STATE_VALIDATED then (HWC2_ERROR_NOT_VALIDATED, d)
  else
    (HWC2_ERROR_NONE,
      { acceptLoop d.mLayers.length 0 d with mRenderingState := RENDERING_STATE_ACCEPTED_CHANGE })

/-! ## Static-layer skip -/

/-- The conversion `(size_t)x` of a signed value (64-bit). -/
def toSizeT (z : Int) : Nat := (z % 2 ^ 64).toNat

/-- Number of iterations of `for (size_t i = (size_t)first; i <= (size_t)last; i++)`. -/
def sizeLoopCount (first last : Int) : Nat := toSizeT last + 1 - toSizeT first

/-- A loop over layer indices whose body may read out of bounds (`none`):
`count` iterations from index `i`. -/
def layerLoop (step : Nat → ExynosDisplay → Option ExynosDisplay) :
    Nat → Nat → ExynosDisplay → Option ExynosDisplay
  | 0, _, d => some d
  | count + 1, i, d =>
    match step i d with
    | none => none
    | some d1 => layerLoop step count (i + 1) d1

/-- The comparison of one layer with its cached snapshot in
`skipStaticLayerChanged`: `true` when the layer counts as changed. -/
def skipSnapshotDiffers (layer : ExynosLayer) (src dst : exynos_image) : Bool :=
  if layer.mLayerBuffer = 0 ∨ src.bufferHandle ≠ layer.mLayerBuffer then true
  else if src.x ≠ layer.mSrcImg.x ∨ src.y ≠ layer.mSrcImg.y ∨ src.w ≠ layer.mSrcImg.w ∨
      src.h ≠ layer.mSrcImg.h ∨ src.dataSpace ≠ layer.mSrcImg.dataSpace ∨
      src.blending ≠ layer.mSrcImg.blending ∨ src.transform ≠ layer.mSrcImg.transform ∨
      float.ne src.planeAlpha layer.mSrcImg.planeAlpha = true then true
  else if dst.x ≠ layer.mDstImg.x ∨ dst.y ≠ layer.mDstImg.y ∨ dst.w ≠ layer.mDstImg.w ∨
      dst.h ≠ layer.mDstImg.h then true
  else false

/-- The loop of `skipStaticLayerChanged`: `count` iterations from layer index
`i`; it stops at the first changed layer.  `none` is a read outside the layer
list or outside the snapshot arrays. -/
def skipChangedLoop (d : ExynosDisplay) (c : ExynosCompositionInfo) :
    Nat → Nat → Option Bool
  | 0, _ => some false
  | count + 1, i =>
    match d.mLayers[i]?, c.mSkipSrcInfo.srcInfo[i - toSizeT c.mFirstIndex]?,
        c.mSkipSrcInfo.dstInfo[i - toSizeT c.mFirstIndex]? with
    | some layer, some src, some dst =>
      if skipSnapshotDiffers layer src dst then some true else skipChangedLoop d c count (i + 1)
    | _, _, _ => none

/-- The method `ExynosDisplay::skipStaticLayerChanged(compositionInfo)`. -/
def skipStaticLayerChanged (d : ExynosDisplay) (c : ExynosCompositionInfo) : Option Bool :=
  if toInt32 c.mSkipSrcInfo.srcNum ≠ c.mLastIndex - c.mFirstIndex + 1 then some true
  else skipChangedLoop d c (sizeLoopCount c.mFirstIndex c.mLastIndex) (toSizeT c.mFirstIndex)

/-- Outcome of the loop of `skipStaticLayers` that marks the layers of an
unchanged range: it runs to the end, or returns early with a code. -/
def skipMarkLoop : Nat → Nat → ExynosDisplay → Option (Flow ExynosDisplay)
  | 0, _, d => some (Flow.next d)
  | count + 1, i, d =>
    match d.mLayers[i]? with
    | none => none
    | some layer =>
      if (layer.getValidateCompositionType : Int) = (COMPOSITION_CLIENT : Nat) then
        skipMarkLoop count (i + 1)
          (d.setLayer i { layer with mOverlayInfo := layer.mOverlayInfo ||| eSkipStaticLayer })
      else
        let d1 := { d with mClientCompositionInfo :=
                      { d.mClientCompositionInfo with mSkipStaticInitFlag := false } }
        if layer.mOverlayPriority < ePriorityHigh then some (Flow.ret (-EINVAL) d1)
        else some (Flow.ret NO_ERROR d1)

/-- The snapshot after `memset` and the fence initialisation of
`skipStaticLayers`: five zeroed entries with closed fences. -/
def blankSnapshot : List exynos_image :=
  List.replicate NUM_SKIP_STATIC_LAYER.toNat {}

/-- The loop of `skipStaticLayers` that caches the source and destination image
of every layer of the range. -/
def skipCacheLoop (first : Nat) : Nat → Nat → ExynosDisplay → Option ExynosDisplay
  | 0, _, d => some d
  | count + 1, i, d =>
    match d.mLayers[i]? with
    | none => none
    | some layer =>
      let c := d.mClientCompositionInfo
      if i - first < c.mSkipSrcInfo.srcInfo.length ∧ i - first < c.mSkipSrcInfo.dstInfo.length then
        skipCacheLoop first count (i + 1)
          { d with mClientCompositionInfo :=
              { c with mSkipSrcInfo :=
                  { c.mSkipSrcInfo with
                    srcInfo := c.mSkipSrcInfo.srcInfo.set (i - first) layer.mSrcImg
                    dstInfo := c.mSkipSrcInfo.dstInfo.set (i - first) layer.mDstImg } } }
      else none

/-- The method `ExynosDisplay::skipStaticLayers(mClientCompositionInfo)` (its
only call passes the client composition). -/
def skipStaticLayers (d : ExynosDisplay) : Option (Int × ExynosDisplay) :=
  let c0 := { d.mClientCompositionInfo with mSkipFlag := false }
  let d0 := { d with mClientCompositionInfo := c0 }
  let disable : ExynosDisplay :=
    { d0 with mClientCompositionInfo := { c0 with mSkipStaticInitFlag := false } }
  if c0.mType ≠ COMPOSITION_CLIENT then some (-EINVAL, d0)
  else if d.exynosHWCControl.skipStaticLayers = 0 ∨ c0.mEnableSkipStatic = false then
    some (NO_ERROR, disable)
  else if c0.mHasCompositionLayer = false ∨ c0.mFirstIndex < 0 ∨ c0.mLastIndex < 0 ∨
      c0.mLastIndex - c0.mFirstIndex + 1 > NUM_SKIP_STATIC_LAYER then
    some (NO_ERROR, disable)
  else if c0.mSkipStaticInitFlag = true then
    match skipStaticLayerChanged d0 c0 with
    | none => none
    | some true => some (NO_ERROR, disable)
    | some false =>
      match skipMarkLoop (sizeLoopCount c0.mFirstIndex c0.mLastIndex) (toSizeT c0.mFirstIndex)
          d0 with
      | none => none
      | some (Flow.ret r d1) => some (r, d1)
      | some (Flow.next d1) =>
        some (NO_ERROR,
          { d1 with mClientCompositionInfo := { d1.mClientCompositionInfo with mSkipFlag := true } })
  else
    let c1 := { c0 with mSkipStaticInitFlag := true
                        mSkipSrcInfo := { srcNum := 0, srcInfo := blankSnapshot,
                                          dstInfo := blankSnapshot } }
    match skipCacheLoop (toSizeT c0.mFirstIndex) (sizeLoopCount c0.mFirstIndex c0.mLastIndex)
        (toSizeT c0.mFirstIndex) { d0 with mClientCompositionInfo := c1 } with
    | none => none
    | some d1 =>
      some (NO_ERROR,
        { d1 with mClientCompositionInfo :=
            { d1.mClientCompositionInfo with
              mSkipSrcInfo :=
                { d1.mClientCompositionInfo.mSkipSrcInfo with
                  srcNum := toUInt32 (c0.mLastIndex - c0.mFirstIndex + 1) } } })

/-! ## `validateDisplay` -/

/-- The method `ExynosDisplay::setGeometryChanged(changedBit)`: the bit is set
in the display's mask and in the device-wide mask. -/
def ExynosDisplay.setGeometryChanged (d : ExynosDisplay) (changedBit : Nat) : ExynosDisplay :=
  { d with mGeometryChanged := d.mGeometryChanged ||| changedBit
           mDeviceGeometryChanged := d.mDeviceGeometryChanged ||| changedBit }

/-- The constant INT_MAX. -/
def INT_MAX : Int := 2 ^ 31 - 1

/-- The bounding box computed by `isFullScreenComposition` over the display
frames of the layers. -/
def boundingRect : List ExynosLayer → hwc_rect_t → hwc_rect_t
  | [], r => r
  | l :: ls, r =>
    boundingRect ls
      { top := if l.mDisplayFrame.top < r.top then l.mDisplayFrame.top else r.top
        left := if l.mDisplayFrame.left < r.left then l.mDisplayFrame.left else r.left
        bottom := if l.mDisplayFrame.bottom > r.bottom then l.mDisplayFrame.bottom else r.bottom
        right := if l.mDisplayFrame.right > r.right then l.mDisplayFrame.right else r.right }

/-- The method `ExynosDisplay::isFullScreenComposition`. -/
def isFullScreenComposition (d : ExynosDisplay) : Bool :=
  let dispRect := boundingRect d.mLayers { left := INT_MAX, top := INT_MAX, right := 0, bottom := 0 }
  if toUInt32 dispRect.right ≠ d.mXres ∨ toUInt32 dispRect.bottom ≠ d.mYres then false else true

/-- The value assigned to `mDropFrameDuringResSwitch` by `validateDisplay` and
`presentDisplay`. -/
def dropFrameDuringResSwitch (d : ExynosDisplay) : Bool :=
  decide (d.mGeometryChanged &&& GEOMETRY_DISPLAY_RESOLUTION_CHANGED ≠ 0) &&
    !isFullScreenComposition d

/-- The counting lambda `set_out_param` of `getChangedCompositionTypes` when the
output arrays are `NULL`: the count after a layer whose reported type is
`type`. -/
def countChanged (l : ExynosLayer) (type : Int) (count : Nat) : Nat :=
  if type = l.mCompositionType then count else (count + 1) % 2 ^ 32

/-- The first loop of `getChangedCompositionTypes` in counting mode: over the
layers from index `i` on. -/
def countChangedLayers (d : ExynosDisplay) : List ExynosLayer → Nat → Nat → Nat
  | [], _, count => count
  | l :: ls, i, count =>
    countChangedLayers d ls (i + 1)
      (countChanged l (getLayerCompositionTypeForValidationType d i) count)

/-- The call `getChangedCompositionTypes(outNumElements, NULL, NULL)`: the
return code and the value of `*outNumElements` afterwards. -/
def getChangedCompositionTypes (d : ExynosDisplay) (outNumElements : Nat) : Int × Nat :=
  if d.mDropFrameDuringResSwitch = true then (HWC2_ERROR_NONE, 0)
  else if d.mRenderingState ≠ RENDERING_STATE_VALIDATED then
    (HWC2_ERROR_NOT_VALIDATED, outNumElements)
  else
    let count := countChangedLayers d d.mLayers 0 0
    let count1 := d.mIgnoreLayers.foldl
      (fun n l => countChanged l l.getValidateCompositionType n) count
    (HWC2_ERROR_NONE, count1)

/-- The request-counting loop of `getDisplayRequests`,
`for (int32_t i = first; i < last; i++)`, with `count` iterations left. -/
def countClearRequests (d : ExynosDisplay) : Nat → Int → Nat → Option Nat
  | 0, _, requestNum => some requestNum
  | count + 1, i, requestNum =>
    match d.layerAt i with
    | none => none
    | some layer =>
      countClearRequests d count (i + 1)
        (if layer.needClearClientTarget then (requestNum + 1) % 2 ^ 32 else requestNum)

/-- The call `getDisplayRequests(&displayRequests, outNumElements, NULL, NULL)`:
the return code and the value of `*outNumElements` afterwards.  The error path
only adds a request for a driver panic, which the embedding does not track. -/
def getDisplayRequests (d : ExynosDisplay) : Option (Int × Nat) :=
  if d.mDropFrameDuringResSwitch = true then some (HWC2_ERROR_NONE, 0)
  else
    let c := d.mClientCompositionInfo
    if c.mHasCompositionLayer = true then
      if c.mFirstIndex < 0 ∨ c.mFirstIndex ≥ toInt32 d.mLayers.length ∨ c.mLastIndex < 0 ∨
          c.mLastIndex ≥ toInt32 d.mLayers.length then
        some (-EINVAL, 0)
      else
        match countClearRequests d (c.mLastIndex - c.mFirstIndex).toNat c.mFirstIndex 0 with
        | none => none
        | some requestNum => some (HWC2_ERROR_NONE, requestNum)
    else some (HWC2_ERROR_NONE, 0)

/-- The collaborators of `validateDisplay` whose code is not part of the sources
or does not act on the modelled fields.

* `prepare`: the steps between the drop-frame check and resource assignment
  (`checkIgnoreLayers`, `vector_sort`, `setSrcAcquireFence`,
  `tryUpdateBtsFromOperationRate`, `doPreProcessing`, `checkLayerFps`, dynamic
  recomposition), taken as an arbitrary change of the display state;
* `assignResource`: `mResourceManager->assignResource(this)`, its return code
  and an arbitrary change of the display state;
* `startPostProcessing`: `ExynosDisplay::startPostProcessing`, its return code
  and its effect on layers, composition targets, commit plan and fences;
* `resetAssignedResources`: `mResourceManager->resetAssignedResources(this,
  true)`, with the same footprint;
* `assignCompositionTarget`: the overlay resource that
  `mResourceManager->assignCompositionTarget(this, COMPOSITION_CLIENT)` attaches
  to the client composition target;
* `assignWindow`: the window index `mResourceManager->assignWindow(this)` gives
  the client composition target. -/
structure ValidateOracle where
  prepare : ExynosDisplay → ExynosDisplay
  assignResource : ExynosDisplay → Int × ExynosDisplay
  startPostProcessing : ExynosDisplay → Int × ExynosDisplay
  resetAssignedResources : ExynosDisplay → ExynosDisplay
  assignCompositionTarget : ExynosDisplay → Option ExynosMPP
  assignWindow : ExynosDisplay → Int

/-- The footprint of a resource-side collaborator that runs after the rendering
state has been set: from its outcome `out` the display takes the layers, the
composition targets, the resource bookkeeping, the commit plan and the fences;
the lifecycle fields, the geometry masks and the configuration keep their
values. -/
def ExynosDisplay.resourceEffect (d out : ExynosDisplay) : ExynosDisplay :=
  { d with mLayers := out.mLayers
           mIgnoreLayers := out.mIgnoreLayers
           mClientCompositionInfo := out.mClientCompositionInfo
           mExynosCompositionInfo := out.mExynosCompositionInfo
           mWindowNumUsed := out.mWindowNumUsed
           resetAssignedStateCalls := out.resetAssignedStateCalls
           mDpuData := out.mDpuData
           mLastRetireFence := out.mLastRetireFence }

/-- The loop "Initialize compositionType" of `validateDisplay` over the client
range. -/
def initClientTypeStep (i : Nat) (d : ExynosDisplay) : Option ExynosDisplay :=
  match d.mLayers[i]? with
  | none => none
  | some layer =>
    if layer.mOverlayPriority ≥ ePriorityHigh then some d
    else some (d.setLayer i (layer.updateValidateCompositionType HWC2_COMPOSITION_CLIENT 0))

/-- One iteration of the recovery loop of `validateDisplay`: layer `i` is forced
to client composition and added to the client range; the result of
`addClientCompositionLayer` is ignored. -/
def forceClientStep (env : ResourceOracle) (i : Nat) (d : ExynosDisplay) : Option ExynosDisplay :=
  match d.mLayers[i]? with
  | none => none
  | some layer =>
    match addClientCompositionLayer env
        (d.setLayer i (layer.updateValidateCompositionType HWC2_COMPOSITION_CLIENT
          eResourceAssignFail)) i with
    | none => none
    | some (_, d1) => some d1

/-- The first half of the block `if (validateError)` of `validateDisplay`:
`GEOMETRY_ERROR_CASE` is set, the skip-static initialisation is dropped, the
assigned resources are reset and both composition infos are initialised. -/
def recoveryStart (env : ResourceOracle) (venv : ValidateOracle) (d : ExynosDisplay) :
    ExynosDisplay :=
  let d1 := d.setGeometryChanged GEOMETRY_ERROR_CASE
  let d2 := { d1 with
    mClientCompositionInfo := { d1.mClientCompositionInfo with mSkipStaticInitFlag := false }
    mExynosCompositionInfo := { d1.mExynosCompositionInfo with mSkipStaticInitFlag := false } }
  let d3 := d2.resourceEffect (venv.resetAssignedResources d2)
  { d3 with
    mClientCompositionInfo := d3.mClientCompositionInfo.initializeInfos env d3.mType
    mExynosCompositionInfo := d3.mExynosCompositionInfo.initializeInfos env d3.mType }

/-- The block `if (validateError)` of `validateDisplay`. -/
def validateRecovery (env : ResourceOracle) (venv : ValidateOracle) (d : ExynosDisplay) :
    Option ExynosDisplay :=
  let d4 := recoveryStart env venv d
  match layerLoop (forceClientStep env) d4.mLayers.length 0 d4 with
  | none => none
  | some d5 =>
    let d6 := d5.withClientOtfMPP (venv.assignCompositionTarget d5)
    some { d6 with mClientCompositionInfo :=
             { d6.mClientCompositionInfo with mWindowIndex := venv.assignWindow d6 } }

/-- The method `ExynosDisplay::storePrevValidateCompositionType`. -/
def storePrevValidateCompositionType (d : ExynosDisplay) : ExynosDisplay :=
  { d with
    mIgnoreLayers := d.mIgnoreLayers.map
      (fun l => { l with mPrevValidateCompositionType := l.getValidateCompositionType })
    mLayers := d.mLayers.map
      (fun l => { l with mPrevValidateCompositionType := l.getValidateCompositionType })
    mClientCompositionInfo :=
      { d.mClientCompositionInfo with
        mPrevHasCompositionLayer := d.mClientCompositionInfo.mHasCompositionLayer } }

/-- What `validateDisplay` hands back: the return code, the values of
`*outNumTypes` and `*outNumRequests`, and the display state. -/
structure ValidateResult where
  ret : Int
  outNumTypes : Nat
  outNumRequests : Nat
  display : ExynosDisplay

/-- The display state on which `validateDisplay` evaluates the static-layer
skip: the state after the frame preparation and
`mResourceManager->assignResource(this)`. -/
def afterAssignResource (venv : ValidateOracle) (d : ExynosDisplay) : Int × ExynosDisplay :=
  venv.assignResource
    (venv.prepare { d with mDropFrameDuringResSwitch := dropFrameDuringResSwitch d })

/-- The part of `validateDisplay` from the frame preparation to the decision
`if (validateError)`: resource assignment, static-layer skip, initialisation of
the client range's types, the move to the Validated state and the early
post-processing.  It yields the flag `validateError` and the display state. -/
def validateFront (venv : ValidateOracle) (d : ExynosDisplay) : Option (Bool × ExynosDisplay) :=
  let assigned := afterAssignResource venv d
  let validateError1 : Bool := decide (assigned.1 ≠ NO_ERROR)
  match skipStaticLayers assigned.2 with
  | none => none
  | some (retSkip, d3) =>
    let validateError2 : Bool := validateError1 || decide (retSkip ≠ NO_ERROR)
    let initialised : Option ExynosDisplay :=
      if retSkip ≠ NO_ERROR then some d3
      else if d3.mClientCompositionInfo.mHasCompositionLayer = true ∧
          d3.mClientCompositionInfo.mSkipFlag = false then
        layerLoop initClientTypeStep
          (sizeLoopCount d3.mClientCompositionInfo.mFirstIndex
            d3.mClientCompositionInfo.mLastIndex)
          (toSizeT d3.mClientCompositionInfo.mFirstIndex) d3
      else some d3
    match initialised with
    | none => none
    | some d4 =>
      let d5 := { d4 with mRenderingState := RENDERING_STATE_VALIDATED }
      if validateError2 = false ∧ d5.earlyStartMPP = true then
        some (decide ((venv.startPostProcessing d5).1 ≠ NO_ERROR),
          d5.resourceEffect (venv.startPostProcessing d5).2)
      else some (validateError2, d5)

/-- The part of `validateDisplay` after the recovery block: the previous
validated types are stored, the two counts are taken and the return code is
chosen. -/
def validateReport (d7 : ExynosDisplay) (numTypes0 : Nat) : Option ValidateResult :=
  let d8 := storePrevValidateCompositionType d7
  let types := getChangedCompositionTypes d8 numTypes0
  let d9 := if types.1 ≠ NO_ERROR then d8.setGeometryChanged GEOMETRY_ERROR_CASE else d8
  match getDisplayRequests d9 with
  | none => none
  | some requests =>
    let d10 := if requests.1 ≠ NO_ERROR then d9.setGeometryChanged GEOMETRY_ERROR_CASE else d9
    let d11 := { d10 with mSkipFrame := false }
    if types.2 = 0 ∧ requests.2 = 0 then some ⟨HWC2_ERROR_NONE, types.2, requests.2, d11⟩
    else some ⟨HWC2_ERROR_HAS_CHANGES, types.2, requests.2, d11⟩

/-- The method `ExynosDisplay::validateDisplay(outNumTypes, outNumRequests)`;
`numTypes0` and `numRequests0` are the values the two output variables hold
before the call.  Power hints, counters and time stamps are dropped;
`deliverPerformanceInfo`, `resetColorMappingInfoForClientComp` and the panic
request of the display interface do not act on the modelled fields. -/
def validateDisplay (env : ResourceOracle) (venv : ValidateOracle) (d : ExynosDisplay)
    (numTypes0 numRequests0 : Nat) : Option ValidateResult :=
  if d.mHpdStatus = false then some ⟨HWC2_ERROR_NONE, numTypes0, numRequests0, d⟩
  else if d.mPauseDisplay = true then some ⟨HWC2_ERROR_NONE, numTypes0, numRequests0, d⟩
  else if dropFrameDuringResSwitch d = true then
    some ⟨HWC2_ERROR_NONE, 0, 0, { d with mDropFrameDuringResSwitch := true }⟩
  else
    match validateFront venv d with
    | none => none
    | some (validateError, d6) =>
      let recovered : Option ExynosDisplay :=
        if validateError then validateRecovery env venv d6 else some d6
      match recovered with
      | none => none
      | some d7 => validateReport d7 numTypes0

/-- The layer as `acceptDisplayChanges` leaves it: the live composition type is
the reported type, the exynos composition type is the validated type. -/
def acceptedLayer (d : ExynosDisplay) (i : Nat) (l : ExynosLayer) : ExynosLayer :=
  { l with mCompositionType := getLayerCompositionTypeForValidationType d i
           mExynosCompositionType := l.getValidateCompositionType }

/-- A display that is dropping the frame of a resolution switch before any
validation: the rendering state is None. -/
def droppedFrameDisplay : ExynosDisplay :=
  { mLayers := [ { mCompositionType := HWC2_COMPOSITION_DEVICE,
                   mValidateCompositionType := HWC2_COMPOSITION_CLIENT } ]
    mRenderingState := RENDERING_STATE_NONE
    mDropFrameDuringResSwitch := true }

/-- A validated display whose next frame was dropped during a resolution
switch: the rendering state is still Validated and layer 0 was validated as
client composition while its live type is DEVICE. -/
def droppedValidatedDisplay : ExynosDisplay :=
  { mLayers := [ { mCompositionType := HWC2_COMPOSITION_DEVICE,
                   mValidateCompositionType := HWC2_COMPOSITION_CLIENT } ]
    mRenderingState := RENDERING_STATE_VALIDATED
    mDropFrameDuringResSwitch := true }

/-- A validated display with two layers: layer 0 validated as client
composition, layer 1 as secondary composition. -/
def validatedDisplay : ExynosDisplay :=
  { mLayers := [ { mCompositionType := HWC2_COMPOSITION_DEVICE,
                   mValidateCompositionType := HWC2_COMPOSITION_CLIENT },
                 { mCompositionType := HWC2_COMPOSITION_DEVICE,
                   mValidateCompositionType := HWC2_COMPOSITION_EXYNOS } ]
    mRenderingState := RENDERING_STATE_VALIDATED }

/-- What `validateDisplay` needs of the state the resource assignment leaves
behind to stay inside the layer list: fewer than `2^31` layers, a client range
that is inside the layer list when flagged, and snapshot arrays of
`NUM_SKIP_STATIC_LAYER` entries (their size in `ExynosFrameInfo`). -/
def ExynosDisplay.validateSafe (d : ExynosDisplay) : Prop :=
  d.mLayers.length < 2 ^ 31 ∧
  (d.mClientCompositionInfo.mHasCompositionLayer = true →
    0 ≤ d.mClientCompositionInfo.mFirstIndex ∧
    d.mClientCompositionInfo.mFirstIndex ≤ d.mClientCompositionInfo.mLastIndex ∧
    d.mClientCompositionInfo.mLastIndex < d.mLayers.length) ∧
  d.mClientCompositionInfo.mSkipSrcInfo.srcInfo.length = 5 ∧
  d.mClientCompositionInfo.mSkipSrcInfo.dstInfo.length = 5

instance (d : ExynosDisplay) : Decidable d.validateSafe := by
  unfold ExynosDisplay.validateSafe
  infer_instance

/-- Collaborators of `validateDisplay` that change nothing and succeed. -/
def passiveValidateOracle : ValidateOracle :=
  { prepare := fun d => d
    assignResource := fun d => (NO_ERROR, d)
    startPostProcessing := fun d => (NO_ERROR, d)
    resetAssignedResources := fun d => d
    assignCompositionTarget := fun _ => some overlayMPP
    assignWindow := fun _ => 0 }

/-- Collaborators of `validateDisplay` whose resource assignment fails. -/
def failingValidateOracle : ValidateOracle :=
  { passiveValidateOracle with assignResource := fun d => (-EINVAL, d) }

/-- An unplugged display in rendering state None. -/
def unpluggedDisplay : ExynosDisplay :=
  { mLayers := [ { mValidateCompositionType := HWC2_COMPOSITION_DEVICE } ]
    mHpdStatus := false }

/-- A plugged display with two overlay layers, one of them requested as client
composition, and snapshot arrays of five entries. -/
def twoLayerDisplay : ExynosDisplay :=
  { mLayers := [ { mCompositionType := HWC2_COMPOSITION_DEVICE,
                   mValidateCompositionType := HWC2_COMPOSITION_DEVICE },
                 { mCompositionType := HWC2_COMPOSITION_CLIENT,
                   mValidateCompositionType := HWC2_COMPOSITION_DEVICE } ]
    mClientCompositionInfo :=
      { mType := COMPOSITION_CLIENT
        mSkipSrcInfo := { srcInfo := blankSnapshot, dstInfo := blankSnapshot } }
    mRenderingState := RENDERING_STATE_PRESENTED }

/-- The part of `validateDisplay` from the frame preparation to the assignment
`mRenderingState = RENDERING_STATE_VALIDATED`.  It yields the code returned by
`skipStaticLayers`, the flag `validateError` at that point, and the display
state on which the early post-processing is decided. -/
def validateMarked (venv : ValidateOracle) (d : ExynosDisplay) :
    Option (Int × Bool × ExynosDisplay) :=
  let assigned := afterAssignResource venv d
  let validateError1 : Bool := decide (assigned.1 ≠ NO_ERROR)
  match skipStaticLayers assigned.2 with
  | none => none
  | some (retSkip, d3) =>
    let validateError2 : Bool := validateError1 || decide (retSkip ≠ NO_ERROR)
    let initialised : Option ExynosDisplay :=
      if retSkip ≠ NO_ERROR then some d3
      else if d3.mClientCompositionInfo.mHasCompositionLayer = true ∧
          d3.mClientCompositionInfo.mSkipFlag = false then
        layerLoop initClientTypeStep
          (sizeLoopCount d3.mClientCompositionInfo.mFirstIndex
            d3.mClientCompositionInfo.mLastIndex)
          (toSizeT d3.mClientCompositionInfo.mFirstIndex) d3
      else some d3
    match initialised with
    | none => none
    | some d4 =>
      some (retSkip, validateError2, { d4 with mRenderingState := RENDERING_STATE_VALIDATED })

/-- A device whose early post-processing fails. -/
def failingPostProcessingOracle : ValidateOracle :=
  { passiveValidateOracle with startPostProcessing := fun d => (-EINVAL, d) }

/-- The display `twoLayerDisplay` with the early start of the post-processing
enabled. -/
def earlyStartDisplay : ExynosDisplay :=
  { twoLayerDisplay with earlyStartMPP := true }

/-- The display `twoLayerDisplay` with a client composition info that is not of
the client type, on which `skipStaticLayers` fails. -/
def mistypedClientDisplay : ExynosDisplay :=
  { twoLayerDisplay with
    mClientCompositionInfo :=
      { twoLayerDisplay.mClientCompositionInfo with mType := COMPOSITION_EXYNOS } }

/-- A plugged display that is dropping the frame of a resolution switch: the
resolution-changed bit is set and the single layer does not cover the
display. -/
def resolutionSwitchDisplay : ExynosDisplay :=
  { mLayers := [ { mValidateCompositionType := HWC2_COMPOSITION_DEVICE,
                   mDisplayFrame := { left := 0, top := 0, right := 10, bottom := 10 } } ]
    mXres := 1080, mYres := 1920
    mGeometryChanged := GEOMETRY_DISPLAY_RESOLUTION_CHANGED
    mRenderingState := RENDERING_STATE_PRESENTED }

/-! ## Fences, the commit plan and `presentDisplay` -/

/-- Modelled from the spec: `fence_close` is not part of the sources; it closes
the descriptor and returns `-1`, the value stored back in the fence field. -/
def fence_close (_fence : Int) : Int := -1

/-- The numeric value of a `rendering_state`, for the comparisons
`renderingState >= ...`. -/
def rendering_state.toNat : rendering_state → Nat
  | RENDERING_STATE_NONE => 0
  | RENDERING_STATE_VALIDATED => 1
  | RENDERING_STATE_ACCEPTED_CHANGE => 2
  | RENDERING_STATE_PRESENTED => 3

/-- The collaborators of `presentDisplay` and the two build switches it reads.

* `noSupportSkipValidate`, `disableFence`: whether the build defines
  `HWC_NO_SUPPORT_SKIP_VALIDATE`, `DISABLE_FENCE`;
* `isInTUI`, `canSkipValidate`, `checkNonInternalConnection`: the results of
  `mDevice->isInTUI()`, `mDevice->canSkipValidate()` (the skip-validate
  precheck) and `mDevice->checkNonInternalConnection()`;
* `isFormatRgb` and the four alignment getters of `ExynosMPP`, by restriction
  index;
* `hwc_dup`, `hwcCheckFenceDebug`: the descriptor returned by the helper of
  that name;
* `clearDisplay`: the return code of `mDisplayInterface->clearDisplay`;
* `driverDeliver`: `mDisplayInterface->deliverWinConfigData()`, its return code
  and the commit plan with the fences the driver filled in;
* `skipValidateEffects`: what the skip-validate branch does to layers and
  composition targets (`setSrcAcquireFence`, `updateColorConversionInfo`,
  `deliverPerformanceInfo`, `startPostProcessing`);
* `doExynosComposition`, `setWinConfigData`, `handleStaticLayers`: the return
  code and the effect of the method of that name;
* `layerPostProcessing d i`: the return code of `m2mMpp->doPostProcessing` for
  layer `i`;
* `handleWindowUpdate`: the effect of the steps between `handleStaticLayers`
  and `deliverWinConfigData`;
* `setReleaseFences`: the fences after `setReleaseFences()`. -/
structure PresentOracle where
  noSupportSkipValidate : Bool
  disableFence : Bool
  isInTUI : Bool
  canSkipValidate : Bool
  checkNonInternalConnection : Bool
  isFormatRgb : Int → Bool
  getSrcXOffsetAlign : ExynosMPP → Nat → Nat
  getSrcYOffsetAlign : ExynosMPP → Nat → Nat
  getSrcCropWidthAlign : ExynosMPP → Nat → Nat
  getSrcCropHeightAlign : ExynosMPP → Nat → Nat
  hwc_dup : Int → Int
  hwcCheckFenceDebug : Int → Int
  clearDisplay : Int
  driverDeliver : exynos_dpu_data → Int × exynos_dpu_data
  skipValidateEffects : ExynosDisplay → ExynosDisplay
  doExynosComposition : ExynosDisplay → Int × ExynosDisplay
  layerPostProcessing : ExynosDisplay → Nat → Int
  setWinConfigData : ExynosDisplay → Int × ExynosDisplay
  handleStaticLayers : ExynosDisplay → Int × ExynosDisplay
  handleWindowUpdate : ExynosDisplay → ExynosDisplay
  setReleaseFences : ExynosDisplay → ExynosDisplay

/-- The footprint of a frame-building collaborator of `presentDisplay`: as
`resourceEffect`, and it may set (never clear) geometry bits. -/
def ExynosDisplay.frameEffect (d out : ExynosDisplay) : ExynosDisplay :=
  { d.resourceEffect out with
    mGeometryChanged := d.mGeometryChanged ||| out.mGeometryChanged
    mDeviceGeometryChanged := d.mDeviceGeometryChanged ||| out.mDeviceGeometryChanged }

/-- The fences of layer list `ls` replaced by those of `out`, position by
position; the number of layers and their other fields are kept. -/
def takeLayerFences : List ExynosLayer → List ExynosLayer → List ExynosLayer
  | [], _ => []
  | l :: ls, [] => l :: ls
  | l :: ls, o :: os =>
    { l with mAcquireFence := o.mAcquireFence, mReleaseFence := o.mReleaseFence } ::
      takeLayerFences ls os

/-- The footprint of `setReleaseFences`: fences of layers and composition
targets, the commit plan and the last retire fence. -/
def ExynosDisplay.fenceEffect (d out : ExynosDisplay) : ExynosDisplay :=
  { d with
    mLayers := takeLayerFences d.mLayers out.mLayers
    mClientCompositionInfo :=
      { d.mClientCompositionInfo with
        mAcquireFence := out.mClientCompositionInfo.mAcquireFence
        mReleaseFence := out.mClientCompositionInfo.mReleaseFence }
    mExynosCompositionInfo :=
      { d.mExynosCompositionInfo with
        mAcquireFence := out.mExynosCompositionInfo.mAcquireFence
        mReleaseFence := out.mExynosCompositionInfo.mReleaseFence }
    mDpuData := out.mDpuData
    mLastRetireFence := out.mLastRetireFence }

/-- The readback fences as `closeFences` and `closeFencesForSkipFrame` leave
them. -/
def closeReadbackFences (r : exynos_readback_info) : exynos_readback_info :=
  { rel_fence := if r.rel_fence ≥ 0 then fence_close r.rel_fence else r.rel_fence
    acq_fence := if r.acq_fence ≥ 0 then fence_close r.acq_fence else r.acq_fence }

/-- The method `ExynosDisplay::closeFencesForSkipFrame(renderingState)`; the
destination fences of the resources are not modelled. -/
def closeFencesForSkipFrame (d : ExynosDisplay) (renderingState : rendering_state) :
    ExynosDisplay :=
  let d1 := { d with
    mLayers := d.mLayers.map (fun l =>
      if l.mAcquireFence ≠ -1 then { l with mAcquireFence := fence_close l.mAcquireFence } else l)
    mDpuData := { d.mDpuData with readback_info := closeReadbackFences d.mDpuData.readback_info } }
  let d2 :=
    if renderingState.toNat ≥ RENDERING_STATE_VALIDATED.toNat ∧ d1.earlyStartMPP = true ∧
        d1.mExynosCompositionInfo.mHasCompositionLayer = true then
      { d1 with mExynosCompositionInfo :=
          { d1.mExynosCompositionInfo with
            mAcquireFence := fence_close d1.mExynosCompositionInfo.mAcquireFence } }
    else d1
  if renderingState.toNat ≥ RENDERING_STATE_PRESENTED.toNat then
    { d2 with mClientCompositionInfo :=
        { d2.mClientCompositionInfo with
          mAcquireFence := fence_close d2.mClientCompositionInfo.mAcquireFence } }
  else d2

/-- What `closeFences` does to one slot of the commit plan. -/
def closeConfigFences (config : exynos_win_config_data) : exynos_win_config_data :=
  { config with acq_fence := -1, rel_fence := -1 }

/-- The method `ExynosDisplay::closeFences`; the fences held by the resources
are not modelled.  It returns early when there is a secondary composition
without a resource. -/
def closeFences (d : ExynosDisplay) : ExynosDisplay :=
  let d1 := { d with
    mDpuData := { d.mDpuData with
      configs := d.mDpuData.configs.map closeConfigFences
      rcdConfigs := d.mDpuData.rcdConfigs.map closeConfigFences }
    mLayers := d.mLayers.map (fun l =>
      if l.mReleaseFence > 0 then { l with mReleaseFence := -1 } else l) }
  if d1.mExynosCompositionInfo.mHasCompositionLayer = true ∧
      d1.mExynosCompositionInfo.mM2mMPP = none then d1
  else
    { d1 with
      mLayers := d1.mLayers.map (fun l =>
        if l.mAcquireFence ≠ -1 then { l with mAcquireFence := fence_close l.mAcquireFence }
        else l)
      mExynosCompositionInfo :=
        { d1.mExynosCompositionInfo with
          mAcquireFence := fence_close d1.mExynosCompositionInfo.mAcquireFence }
      mClientCompositionInfo :=
        { d1.mClientCompositionInfo with
          mAcquireFence := fence_close d1.mClientCompositionInfo.mAcquireFence }
      mDpuData := { d1.mDpuData with
        retire_fence := -1
        readback_info := closeReadbackFences d1.mDpuData.readback_info }
      mLastRetireFence := fence_close d1.mLastRetireFence }

/-- The method `ExynosDisplay::clearDisplay`: the driver's return code and the
display state. -/
def clearDisplay (penv : PresentOracle) (d : ExynosDisplay) : Int × ExynosDisplay :=
  (penv.clearDisplay,
    { d with
      mClientCompositionInfo :=
        { d.mClientCompositionInfo with mSkipStaticInitFlag := false, mSkipFlag := false }
      mLastDpuData := d.mLastDpuData.reset
      mLastRetireFence := fence_close d.mLastRetireFence })

/-- Restriction index RESTRICTION_RGB. -/
def RESTRICTION_RGB : Nat := 0
/-- Restriction index RESTRICTION_YUV. -/
def RESTRICTION_YUV : Nat := 1

/-- The method `ExynosDisplay::getRestrictionIndex`. -/
def getRestrictionIndex (penv : PresentOracle) (halFormat : Int) : Nat :=
  if penv.isFormatRgb halFormat then RESTRICTION_RGB else RESTRICTION_YUV

/-- The inner loop of `validateWinConfigData` ("multiple dma mapping"): every
later slot in BUFFER state that shares the non-null resource of `config` is
disabled; the Boolean tells whether one was found. -/
def disableDuplicates (config : exynos_win_config_data) :
    List exynos_win_config_data → List exynos_win_config_data × Bool
  | [] => ([], false)
  | c :: cs =>
    let rest := disableDuplicates config cs
    if config.state = WIN_STATE_BUFFER ∧ c.state = WIN_STATE_BUFFER ∧
        config.assignedMPP ≠ none ∧ config.assignedMPP = c.assignedMPP then
      ({ c with state := WIN_STATE_DISABLED } :: rest.1, true)
    else (c :: rest.1, rest.2)

/-- The source-alignment test of `validateWinConfigData`, a chain of `||` over
four remainders evaluated left to right: `some true` when one is non-zero,
`none` when a remainder by zero is evaluated. -/
def alignmentInvalid (x y w h srcXAlign srcYAlign srcWidthAlign srcHeightAlign : Nat) :
    Option Bool :=
  if srcXAlign = 0 then none
  else if x % srcXAlign ≠ 0 then some true
  else if srcYAlign = 0 then none
  else if y % srcYAlign ≠ 0 then some true
  else if srcWidthAlign = 0 then none
  else if w % srcWidthAlign ≠ 0 then some true
  else if srcHeightAlign = 0 then none
  else some (decide (h % srcHeightAlign ≠ 0))

/-- The geometry and alignment checks of `validateWinConfigData` on one slot in
BUFFER state: `some true` when the slot is invalid; `none` when a remainder by a
zero alignment is evaluated.  The sums `dst.x + dst.w` and the remainders are
taken on 32-bit unsigned values. -/
def configInvalid (penv : PresentOracle) (d : ExynosDisplay) (config : exynos_win_config_data) :
    Option Bool :=
  let geometry : Bool :=
    decide (config.src.x < 0 ∨ config.src.y < 0 ∨ config.dst.x < 0 ∨ config.dst.y < 0 ∨
      config.src.w = 0 ∨ config.src.h = 0 ∨ config.dst.w = 0 ∨ config.dst.h = 0 ∨
      (toUInt32 config.dst.x + config.dst.w) % 2 ^ 32 > d.mXres % 2 ^ 32 ∨
      (toUInt32 config.dst.y + config.dst.h) % 2 ^ 32 > d.mYres % 2 ^ 32)
  let size : Bool := decide (config.src.w > config.src.f_w ∨ config.src.h > config.src.f_h)
  match config.assignedMPP with
  | none => some true
  | some exynosMPP =>
    let restrictionIdx := getRestrictionIndex penv config.format
    match alignmentInvalid (toUInt32 config.src.x) (toUInt32 config.src.y) config.src.w
        config.src.h (penv.getSrcXOffsetAlign exynosMPP restrictionIdx % 2 ^ 32)
        (penv.getSrcYOffsetAlign exynosMPP restrictionIdx % 2 ^ 32)
        (penv.getSrcCropWidthAlign exynosMPP restrictionIdx % 2 ^ 32)
        (penv.getSrcCropHeightAlign exynosMPP restrictionIdx % 2 ^ 32) with
    | none => none
    | some alignment => some (geometry || size || alignment)

/-- The locals of `validateWinConfigData` together with the slots. -/
structure WinConfigCheck where
  configs : List exynos_win_config_data
  flagValidConfig : Bool := true
  bufferStateCnt : Nat := 0

/-- One iteration of the outer loop of `validateWinConfigData`, at slot `i`. -/
def validateConfigStep (penv : PresentOracle) (d : ExynosDisplay) (i : Nat)
    (s : WinConfigCheck) : Option WinConfigCheck :=
  match s.configs[i]? with
  | none => none
  | some config =>
    if config.state = WIN_STATE_BUFFER then
      let dup := disableDuplicates config (s.configs.drop (i + 1))
      match configInvalid penv d config with
      | none => none
      | some invalid =>
        let config1 := if invalid then { config with state := WIN_STATE_DISABLED } else config
        let cnt1 := s.bufferStateCnt + 1
        some
          { configs := s.configs.take i ++ config1 :: dup.1
            flagValidConfig := s.flagValidConfig && !dup.2 && !invalid
            bufferStateCnt :=
              if config1.state = WIN_STATE_COLOR ∨ config1.state = WIN_STATE_CURSOR then cnt1 + 1
              else cnt1 }
    else
      some
        { s with bufferStateCnt :=
            if config.state = WIN_STATE_COLOR ∨ config.state = WIN_STATE_CURSOR then
              s.bufferStateCnt + 1
            else s.bufferStateCnt }

/-- The outer loop of `validateWinConfigData`: `count` iterations from slot `i`. -/
def validateConfigsLoop (penv : PresentOracle) (d : ExynosDisplay) :
    Nat → Nat → WinConfigCheck → Option WinConfigCheck
  | 0, _, s => some s
  | count + 1, i, s =>
    match validateConfigStep penv d i s with
    | none => none
    | some s1 => validateConfigsLoop penv d count (i + 1) s1

/-- The method `ExynosDisplay::validateWinConfigData`: the return code and the
commit plan, in which invalid and duplicated slots have been disabled. -/
def validateWinConfigData (penv : PresentOracle) (d : ExynosDisplay) :
    Option (Int × ExynosDisplay) :=
  match validateConfigsLoop penv d d.mDpuData.configs.length 0
      { configs := d.mDpuData.configs } with
  | none => none
  | some s =>
    let d1 := { d with mDpuData := { d.mDpuData with configs := s.configs } }
    if s.flagValidConfig = true ∧ s.bufferStateCnt ≠ 0 then some (NO_ERROR, d1)
    else some (-EINVAL, d1)

/-- The slot-wise comparison of `checkConfigChanged`. -/
def configDiffers (a b : exynos_win_config_data) : Bool :=
  decide (a.state ≠ b.state ∨ a.fd_idma0 ≠ b.fd_idma0 ∨ a.fd_idma1 ≠ b.fd_idma1 ∨
    a.fd_idma2 ≠ b.fd_idma2 ∨ a.dst.x ≠ b.dst.x ∨ a.dst.y ≠ b.dst.y ∨ a.dst.w ≠ b.dst.w ∨
    a.dst.h ≠ b.dst.h ∨ a.src.x ≠ b.src.x ∨ a.src.y ≠ b.src.y ∨ a.src.w ≠ b.src.w ∨
    a.src.h ≠ b.src.h ∨ a.format ≠ b.format ∨ a.blending ≠ b.blending ∨
    float.ne a.plane_alpha b.plane_alpha = true)

/-- The first loop of `checkConfigChanged` over the slots of `lastConfigsData`,
reading the slot of the same index of `newConfigsData`; `none` is a read past
the end of the latter. -/
def configsDiffer : List exynos_win_config_data → List exynos_win_config_data → Option Bool
  | [], _ => some false
  | _ :: _, [] => none
  | a :: as, b :: bs => if configDiffers a b then some true else configsDiffer as bs

/-- The method `ExynosDisplay::checkConfigChanged(lastConfigsData,
newConfigsData)`. -/
def checkConfigChanged (penv : PresentOracle) (d : ExynosDisplay)
    (lastConfigsData newConfigsData : exynos_dpu_data) : Option Bool :=
  if d.exynosHWCControl.skipWinConfig = 0 then some true
  else if penv.checkNonInternalConnection = true ∧ d.mType = HWC_DISPLAY_PRIMARY then some true
  else
    match configsDiffer lastConfigsData.configs newConfigsData.configs with
    | none => none
    | some true => some true
    | some false =>
      /- To cover buffer payload changed case -/
      some (d.mLayers.any (fun l => decide (l.mLastLayerBuffer ≠ l.mLayerBuffer)))

/-- The error path of `deliverWinConfigData`: `closeFences`, `clearDisplay`. -/
def deliverWinConfigDataErr (penv : PresentOracle) (d : ExynosDisplay) : ExynosDisplay :=
  (clearDisplay penv (closeFences d)).2

/-- The method `ExynosDisplay::deliverWinConfigData`.  The waits on the last
retire fence do not change the modelled state. -/
def deliverWinConfigData (penv : PresentOracle) (d : ExynosDisplay) :
    Option (Int × ExynosDisplay) :=
  match validateWinConfigData penv d with
  | none => none
  | some (ret, d1) =>
    if ret ≠ NO_ERROR then some (ret, deliverWinConfigDataErr penv d1)
    else
      match checkConfigChanged penv d1 d1.mDpuData d1.mLastDpuData with
      | none => none
      | some false =>
        let d2 :=
          if penv.disableFence = true then d1
          else if d1.mLastRetireFence > 0 then
            { d1 with mDpuData :=
                { d1.mDpuData with
                  retire_fence := penv.hwcCheckFenceDebug (penv.hwc_dup d1.mLastRetireFence) } }
          else { d1 with mDpuData := { d1.mDpuData with retire_fence := -1 } }
        some (0, d2)
      | some true =>
        let delivered := penv.driverDeliver d1.mDpuData
        let d2 := { d1 with mDpuData := delivered.2, driverCommits := d1.driverCommits + 1 }
        if delivered.1 < 0 then some (delivered.1, deliverWinConfigDataErr penv d2)
        else some (delivered.1, { d2 with mLastDpuData := d2.mLastDpuData.assign d2.mDpuData })

/-- The method `ExynosDisplay::clearGeometryChanged` (the layers' own geometry
masks are not modelled). -/
def clearGeometryChanged (d : ExynosDisplay) : ExynosDisplay :=
  { d with mGeometryChanged := 0 }

/-- The method `ExynosDisplay::doPostProcessing`. -/
def doPostProcessing (d : ExynosDisplay) : ExynosDisplay :=
  clearGeometryChanged
    { d with mLayers := d.mLayers.map (fun l => { l with mLastLayerBuffer := l.mLayerBuffer }) }

/-- The method `ExynosDisplay::setReadbackBufferInternal(buffer, releaseFence,
requestedService)`: the previous release fence is closed and replaced by
`releaseFence` (the buffer handle and the service flag are not modelled). -/
def setReadbackBufferInternal (d : ExynosDisplay) (releaseFence : Int) : ExynosDisplay :=
  { d with mDpuData :=
      { d.mDpuData with
        readback_info := { d.mDpuData.readback_info with rel_fence := releaseFence } } }

/-- The method `ExynosDisplay::presentPostProcessing`: the readback buffer is
released with `setReadbackBufferInternal(NULL, -1, false)`, `enable_readback`
is cleared and the acquire fences of the ignored layers are closed. -/
def presentPostProcessing (d : ExynosDisplay) : ExynosDisplay :=
  let d1 := setReadbackBufferInternal d (-1)
  { d1 with
    mDpuData := { d1.mDpuData with enable_readback := false }
    mIgnoreLayers := d1.mIgnoreLayers.map (fun l => { l with mAcquireFence := -1 }) }

/-- What `presentDisplay` hands back: the return code, the value of
`*outRetireFence` and the display state. -/
structure PresentResult where
  ret : Int
  outRetireFence : Int
  display : ExynosDisplay

/-- The code at the label `err` of `presentDisplay`, followed by the
post-processing that runs on every return whose code is not
`HWC2_ERROR_NOT_VALIDATED`. -/
def presentErr (d : ExynosDisplay) : PresentResult :=
  let d1 := closeFences d
  let d2 := { d1 with mLastRetireFence := -1, mRenderingState := RENDERING_STATE_PRESENTED }
  let d3 := d2.setGeometryChanged GEOMETRY_ERROR_CASE
  let d4 := { d3 with
    mLastDpuData := d3.mLastDpuData.reset
    mClientCompositionInfo := { d3.mClientCompositionInfo with mSkipStaticInitFlag := false }
    mExynosCompositionInfo := { d3.mExynosCompositionInfo with mSkipStaticInitFlag := false }
    mDpuData := d3.mDpuData.reset }
  ⟨-EINVAL, -1, presentPostProcessing d4⟩

/-- One iteration of the loop "loop for all layer" of `presentDisplay`; `some
(Flow.ret ..)` is the jump to `err`. -/
def presentLayerStep (penv : PresentOracle) (i : Nat) (d : ExynosDisplay) :
    Option (Flow ExynosDisplay) :=
  match d.mLayers[i]? with
  | none => none
  | some l =>
    if l.mExynosCompositionType = HWC2_COMPOSITION_CLIENT then
      some (Flow.next (d.setLayer i
        { l with mReleaseFence := -1, mAcquireFence := fence_close l.mAcquireFence }))
    else if l.mExynosCompositionType = HWC2_COMPOSITION_EXYNOS then some (Flow.next d)
    else if d.earlyStartMPP = false ∧ l.mExynosCompositionType = HWC2_COMPOSITION_DEVICE ∧
        l.mM2mMPP ≠ none then
      if penv.layerPostProcessing d i ≠ NO_ERROR then
        some (Flow.ret (penv.layerPostProcessing d i) d)
      else some (Flow.next (d.setLayer i { l with mAcquireFence := -1 }))
    else some (Flow.next d)

/-- The loop "loop for all layer" of `presentDisplay`. -/
def presentLayerLoop (penv : PresentOracle) : Nat → Nat → ExynosDisplay →
    Option (Flow ExynosDisplay)
  | 0, _, d => some (Flow.next d)
  | count + 1, i, d =>
    match presentLayerStep penv i d with
    | none => none
    | some (Flow.ret r d1) => some (Flow.ret r d1)
    | some (Flow.next d1) => presentLayerLoop penv count (i + 1) d1

/-- The part of `presentDisplay` from `deliverWinConfigData()` to the final
`return ret`. -/
def presentCommit (penv : PresentOracle) (d : ExynosDisplay) : Option PresentResult :=
  match deliverWinConfigData penv d with
  | none => none
  | some (ret, d1) =>
    let d2 :=
      if ret ≠ NO_ERROR then { d1 with mDpuData := { d1.mDpuData with retire_fence := -1 } }
      else d1
    let d3 := d2.fenceEffect (penv.setReleaseFences d2)
    let outRetireFence : Int :=
      if d3.mDpuData.retire_fence ≠ -1 then
        if penv.disableFence = true then -1
        else penv.hwcCheckFenceDebug d3.mDpuData.retire_fence
      else -1
    /- Update last retire fence -/
    let d4 := { d3 with mLastRetireFence := penv.hwc_dup outRetireFence }
    /- Check all of acquireFence are closed -/
    let d5 := { d4 with
      mLayers := d4.mLayers.map (fun l =>
        if l.mAcquireFence ≠ -1 then { l with mAcquireFence := -1 } else l)
      mExynosCompositionInfo :=
        if d4.mExynosCompositionInfo.mAcquireFence ≥ 0 then
          { d4.mExynosCompositionInfo with mAcquireFence := -1 }
        else d4.mExynosCompositionInfo
      mClientCompositionInfo :=
        if d4.mClientCompositionInfo.mAcquireFence ≥ 0 then
          { d4.mClientCompositionInfo with mAcquireFence := -1 }
        else d4.mClientCompositionInfo }
    let d6 := doPostProcessing d5
    let d7 := { d6 with mDpuData := d6.mDpuData.reset
                        mRenderingState := RENDERING_STATE_PRESENTED }
    some ⟨ret, outRetireFence,
      if ret ≠ HWC2_ERROR_NOT_VALIDATED then presentPostProcessing d7 else d7⟩

/-- The part of `presentDisplay` that builds and commits the frame, from
`mDpuData.reset()` on. -/
def presentFrame (penv : PresentOracle) (d : ExynosDisplay) : Option PresentResult :=
  let d1 := { d with mDpuData := d.mDpuData.reset }
  if d1.mLayers.length = 0 ∧ d1.mType ≠ HWC_DISPLAY_VIRTUAL then
    let d2 := (clearDisplay penv d1).2
    some ⟨0, -1, presentPostProcessing
      { d2 with mLastRetireFence := fence_close d2.mLastRetireFence
                mRenderingState := RENDERING_STATE_PRESENTED }⟩
  else
    /- checkFrameValidation() returns true -/
    let composed : Int × ExynosDisplay :=
      if d1.earlyStartMPP = false then
        ((penv.doExynosComposition d1).1, d1.frameEffect (penv.doExynosComposition d1).2)
      else (NO_ERROR, d1)
    if composed.1 ≠ NO_ERROR then some (presentErr composed.2)
    else
      match presentLayerLoop penv composed.2.mLayers.length 0 composed.2 with
      | none => none
      | some (Flow.ret _ d3) => some (presentErr d3)
      | some (Flow.next d3) =>
        let configured : Int × ExynosDisplay :=
          ((penv.setWinConfigData d3).1, d3.frameEffect (penv.setWinConfigData d3).2)
        if configured.1 ≠ NO_ERROR then some (presentErr configured.2)
        else
          let handled : Int × ExynosDisplay :=
            ((penv.handleStaticLayers configured.2).1,
              configured.2.frameEffect (penv.handleStaticLayers configured.2).2)
          if handled.1 ≠ NO_ERROR then
            some (presentErr
              { handled.2 with mClientCompositionInfo :=
                  { handled.2.mClientCompositionInfo with mSkipStaticInitFlag := false } })
          else
            presentCommit penv (handled.2.frameEffect (penv.handleWindowUpdate handled.2))

/-- The method `ExynosDisplay::presentDisplay(outRetireFence)`;
`outRetireFence0` is the value the output variable holds before the call.
Power hints, time stamps, the task profile, the pending display configuration
and the colour conversion do not act on the modelled fields. -/
def presentDisplay (penv : PresentOracle) (d : ExynosDisplay) (outRetireFence0 : Int) :
    Option PresentResult :=
  let d0 := { d with mDropFrameDuringResSwitch := dropFrameDuringResSwitch d }
  if d0.mHpdStatus = false ∨ d0.mDropFrameDuringResSwitch = true ∨ d0.mPauseDisplay = true ∨
      penv.isInTUI = true then
    some ⟨HWC2_ERROR_NONE, -1,
      { closeFencesForSkipFrame d0 RENDERING_STATE_PRESENTED with
        mRenderingState := RENDERING_STATE_PRESENTED }⟩
  else if d0.mSkipFrame = true then
    let d1 := (closeFencesForSkipFrame d0 RENDERING_STATE_PRESENTED).setGeometryChanged
      GEOMETRY_DISPLAY_FORCE_VALIDATE
    let d2 := { d1 with
      mLayers := d1.mLayers.map (fun l => { l with mReleaseFence := -1 })
      mRenderingState := RENDERING_STATE_PRESENTED }
    if d0.mRenderingState = RENDERING_STATE_NONE then
      some ⟨HWC2_ERROR_NONE, -1, presentPostProcessing d2⟩
    else some ⟨HWC2_ERROR_NOT_VALIDATED, -1, d2⟩
  else if d0.mRenderingState ≠ RENDERING_STATE_ACCEPTED_CHANGE then
    /- presentDisplay() can be called before validateDisplay()
       when HWC2_CAPABILITY_SKIP_VALIDATE is supported -/
    if penv.noSupportSkipValidate = true then some (presentErr d0)
    else if d0.mRenderingState ≠ RENDERING_STATE_NONE ∧
        d0.mRenderingState ≠ RENDERING_STATE_PRESENTED then
      some (presentErr d0)
    else if penv.canSkipValidate = false then
      /- not_validated -/
      some ⟨HWC2_ERROR_NOT_VALIDATED, outRetireFence0,
        { d0 with mRenderingState := RENDERING_STATE_NONE }⟩
    else presentFrame penv (d0.frameEffect (penv.skipValidateEffects d0))
  else presentFrame penv d0

/-- A device that reports every collaborator call as successful and leaves the
display as it is; skip-validate support is compiled in and the precheck
`canSkipValidate` fails. -/
def idlePresentOracle : PresentOracle :=
  { noSupportSkipValidate := false
    disableFence := false
    isInTUI := false
    canSkipValidate := false
    checkNonInternalConnection := false
    isFormatRgb := fun _ => true
    getSrcXOffsetAlign := fun _ _ => 1
    getSrcYOffsetAlign := fun _ _ => 1
    getSrcCropWidthAlign := fun _ _ => 1
    getSrcCropHeightAlign := fun _ _ => 1
    hwc_dup := fun fence => fence
    hwcCheckFenceDebug := fun fence => fence
    clearDisplay := 0
    driverDeliver := fun data => (0, data)
    skipValidateEffects := fun d => d
    doExynosComposition := fun d => (NO_ERROR, d)
    layerPostProcessing := fun _ _ => NO_ERROR
    setWinConfigData := fun d => (NO_ERROR, d)
    handleStaticLayers := fun d => (NO_ERROR, d)
    handleWindowUpdate := fun d => d
    setReleaseFences := fun d => d }

/-- The device of `idlePresentOracle` while a trusted UI session is active. -/
def tuiPresentOracle : PresentOracle :=
  { idlePresentOracle with isInTUI := true }

/-- A plugged full-screen display in state Presented with one device layer and a
commit plan of one buffer slot. -/
def presentedDisplay : ExynosDisplay :=
  { mLayers := [ { mCompositionType := HWC2_COMPOSITION_DEVICE,
                   mValidateCompositionType := HWC2_COMPOSITION_DEVICE,
                   mExynosCompositionType := HWC2_COMPOSITION_DEVICE } ]
    mDpuData := { configs := [ { state := WIN_STATE_BUFFER } ] }
    mRenderingState := RENDERING_STATE_PRESENTED }

/-! ## The frame-building stages of `presentDisplay` -/

/-- The display state with which `presentDisplay` reaches `mDpuData.reset()`,
the start of the frame-building part: in state AcceptedChange the state at
entry; in state None or Presented, with skip-validate compiled in and the
precheck succeeding, that state after the skip-validate branch.  `none` when the
call returns or jumps to a label before. -/
def presentFrameEntry (penv : PresentOracle) (d : ExynosDisplay) : Option ExynosDisplay :=
  let d0 := { d with mDropFrameDuringResSwitch := dropFrameDuringResSwitch d }
  if d0.mHpdStatus = false ∨ d0.mDropFrameDuringResSwitch = true ∨ d0.mPauseDisplay = true ∨
      penv.isInTUI = true then none
  else if d0.mSkipFrame = true then none
  else if d0.mRenderingState = RENDERING_STATE_ACCEPTED_CHANGE then some d0
  else if penv.noSupportSkipValidate = false ∧
      (d0.mRenderingState = RENDERING_STATE_NONE ∨
        d0.mRenderingState = RENDERING_STATE_PRESENTED) ∧ penv.canSkipValidate = true then
    some (d0.frameEffect (penv.skipValidateEffects d0))
  else none

/-- The stage `doExynosComposition()` of `presentDisplay`, run on the state
`dF` of `presentFrameEntry` after `mDpuData.reset()`: the value of `ret` and the
display state.  The call is skipped when `earlyStartMPP` is set. -/
def presentComposed (penv : PresentOracle) (dF : ExynosDisplay) : Int × ExynosDisplay :=
  let d1 := { dF with mDpuData := dF.mDpuData.reset }
  if d1.earlyStartMPP = false then
    ((penv.doExynosComposition d1).1, d1.frameEffect (penv.doExynosComposition d1).2)
  else (NO_ERROR, d1)

/-- The stage `setWinConfigData()` of `presentDisplay`. -/
def presentConfigured (penv : PresentOracle) (d3 : ExynosDisplay) : Int × ExynosDisplay :=
  ((penv.setWinConfigData d3).1, d3.frameEffect (penv.setWinConfigData d3).2)

/-- The stage `handleStaticLayers(mClientCompositionInfo)` of `presentDisplay`. -/
def presentHandled (penv : PresentOracle) (d4 : ExynosDisplay) : Int × ExynosDisplay :=
  ((penv.handleStaticLayers d4).1, d4.frameEffect (penv.handleStaticLayers d4).2)

/-- The frame-building part of `presentDisplay` between `mDpuData.reset()` and
`deliverWinConfigData()`, for a frame with layers: `Flow.ret` is a jump to the
label `err` with the state at the jump, `Flow.next` carries the state in which
`deliverWinConfigData()` is called. -/
def presentBuild (penv : PresentOracle) (dF : ExynosDisplay) : Option (Flow ExynosDisplay) :=
  let composed := presentComposed penv dF
  if composed.1 ≠ NO_ERROR then some (Flow.ret composed.1 composed.2)
  else
    match presentLayerLoop penv composed.2.mLayers.length 0 composed.2 with
    | none => none
    | some (Flow.ret r d3) => some (Flow.ret r d3)
    | some (Flow.next d3) =>
      let configured := presentConfigured penv d3
      if configured.1 ≠ NO_ERROR then some (Flow.ret configured.1 configured.2)
      else
        let handled := presentHandled penv configured.2
        if handled.1 ≠ NO_ERROR then
          some (Flow.ret handled.1
            { handled.2 with mClientCompositionInfo :=
                { handled.2.mClientCompositionInfo with mSkipStaticInitFlag := false } })
        else some (Flow.next (handled.2.frameEffect (penv.handleWindowUpdate handled.2)))

/-- A validated display whose secondary composition is flagged as having a
layer but has no resource (`mM2mMPP` is `NULL`); layer 0 holds the acquire
fence 5. -/
def orphanSecondaryDisplay : ExynosDisplay :=
  { mLayers := [ { mCompositionType := HWC2_COMPOSITION_DEVICE,
                   mValidateCompositionType := HWC2_COMPOSITION_EXYNOS,
                   mAcquireFence := 5 } ]
    mExynosCompositionInfo :=
      { mType := COMPOSITION_EXYNOS, mHasCompositionLayer := true, mFirstIndex := 0,
        mLastIndex := 0, mM2mMPP := none }
    mRenderingState := RENDERING_STATE_VALIDATED }

/-- A display in state AcceptedChange with one overlay layer, a commit plan of
one slot, a retained plan of one colour slot and the static-layer skip of the
client composition initialised; both geometry masks are clear. -/
def acceptedDisplay : ExynosDisplay :=
  { mLayers := [ { mCompositionType := HWC2_COMPOSITION_DEVICE,
                   mValidateCompositionType := HWC2_COMPOSITION_DEVICE,
                   mExynosCompositionType := HWC2_COMPOSITION_DEVICE } ]
    mDpuData := { configs := [ {} ] }
    mLastDpuData := { configs := [ { state := WIN_STATE_COLOR } ] }
    mClientCompositionInfo := { mType := COMPOSITION_CLIENT, mSkipStaticInitFlag := true }
    mRenderingState := RENDERING_STATE_ACCEPTED_CHANGE }

/-- The device of `idlePresentOracle` on which the secondary composition
(`doExynosComposition`) fails with `-1`. -/
def failingCompositionOracle : PresentOracle :=
  { idlePresentOracle with doExynosComposition := fun d => (-1, d) }

/-! ## Concrete inputs for the static-layer skip -/

/-- A layer in client composition with the buffer handle 9, recorded in its
source image. -/
def staticLayer : ExynosLayer :=
  { mCompositionType := HWC2_COMPOSITION_CLIENT
    mValidateCompositionType := HWC2_COMPOSITION_CLIENT
    mLayerBuffer := 9
    mSrcImg := { bufferHandle := 9, w := 1080, h := 1920, planeAlpha := float.ofInt 1 }
    mDstImg := { w := 1080, h := 1920 } }

/-- A display with the static-layer skip enabled and not yet initialised: the
client range is `[0,0]` over the single layer `staticLayer`. -/
def freshSkipDisplay : ExynosDisplay :=
  { mLayers := [ staticLayer ]
    mClientCompositionInfo :=
      { mType := COMPOSITION_CLIENT, mHasCompositionLayer := true, mFirstIndex := 0,
        mLastIndex := 0, mEnableSkipStatic := true, mTargetBuffer := 3,
        mSkipSrcInfo := { srcInfo := blankSnapshot, dstInfo := blankSnapshot } }
    mRenderingState := RENDERING_STATE_PRESENTED }

/-- The display of `freshSkipDisplay` after one evaluation of the static-layer
skip: the snapshot holds the images of `staticLayer` and `mSkipStaticInitFlag`
is set. -/
def cachedSkipDisplay : ExynosDisplay :=
  { freshSkipDisplay with
    mClientCompositionInfo :=
      { freshSkipDisplay.mClientCompositionInfo with
        mSkipStaticInitFlag := true
        mSkipSrcInfo :=
          { srcNum := 1
            srcInfo := blankSnapshot.set 0 staticLayer.mSrcImg
            dstInfo := blankSnapshot.set 0 staticLayer.mDstImg } } }

/-- The display of `freshSkipDisplay` with a layer that has no buffer
(`mLayerBuffer` is `NULL`). -/
def nullBufferSkipDisplay : ExynosDisplay :=
  { freshSkipDisplay with
    mLayers := [ { staticLayer with mLayerBuffer := 0
                                    mSrcImg := { staticLayer.mSrcImg with bufferHandle := 0 } } ] }

/-- The display of `freshSkipDisplay` with a layer whose plane alpha is not a
number; the layer has its buffer. -/
def nanAlphaSkipDisplay : ExynosDisplay :=
  { freshSkipDisplay with
    mLayers := [ { staticLayer with
                   mSrcImg := { staticLayer.mSrcImg with planeAlpha := float.nan } } ] }

/-- The display of `freshSkipDisplay` with five layers and the client range
`[0,4]`. -/
def fiveLayerSkipDisplay : ExynosDisplay :=
  { freshSkipDisplay with
    mLayers := List.replicate 5 staticLayer
    mClientCompositionInfo := { freshSkipDisplay.mClientCompositionInfo with mLastIndex := 4 } }

/-- The display of `cachedSkipDisplay` with six layers and the client range
`[0,5]`, one more than the snapshot holds. -/
def sixLayerSkipDisplay : ExynosDisplay :=
  { cachedSkipDisplay with
    mLayers := List.replicate 6 staticLayer
    mClientCompositionInfo := { cachedSkipDisplay.mClientCompositionInfo with mLastIndex := 5 } }

/-! ## `canSkipValidate` -/

/-- Result `SKIP_ERR_CONFIG_DISABLED` of `canSkipValidate`. -/
def SKIP_ERR_CONFIG_DISABLED : Int := 1
/-- Result `SKIP_ERR_FIRST_FRAME` of `canSkipValidate`. -/
def SKIP_ERR_FIRST_FRAME : Int := 2
/-- Result `SKIP_ERR_GEOMETRY_CHAGNED` of `canSkipValidate`. -/
def SKIP_ERR_GEOMETRY_CHAGNED : Int := 3
/-- Result `SKIP_ERR_HAS_CLIENT_COMP` of `canSkipValidate`. -/
def SKIP_ERR_HAS_CLIENT_COMP : Int := 4
/-- Result `SKIP_ERR_SKIP_STATIC_CHANGED` of `canSkipValidate`. -/
def SKIP_ERR_SKIP_STATIC_CHANGED : Int := 5
/-- Result `SKIP_ERR_HAS_REQUEST` of `canSkipValidate`. -/
def SKIP_ERR_HAS_REQUEST : Int := 6
/-- Result `SKIP_ERR_INVALID_CLIENT_TARGET_BUFFER` of `canSkipValidate`. -/
def SKIP_ERR_INVALID_CLIENT_TARGET_BUFFER : Int := 10

/-- The loop of `canSkipValidate` over the layers: whether some layer is
reported as client composition. -/
def hasClientComposition (d : ExynosDisplay) : Bool :=
  (List.range d.mLayers.length).any
    (fun i => decide (getLayerCompositionTypeForValidationType d i = HWC2_COMPOSITION_CLIENT))

/-- The method `ExynosDisplay::canSkipValidate`; `none` when the snapshot
comparison or the request count reads outside the layer list. -/
def canSkipValidate (d : ExynosDisplay) : Option Int :=
  if d.exynosHWCControl.skipResourceAssign = 0 then some SKIP_ERR_CONFIG_DISABLED
  /- This is first frame. validateDisplay can't be skipped -/
  else if d.mRenderingState = RENDERING_STATE_NONE then some SKIP_ERR_FIRST_FRAME
  else if d.mDeviceGeometryChanged ≠ 0 then some SKIP_ERR_GEOMETRY_CHAGNED
  else if hasClientComposition d = true then some SKIP_ERR_HAS_CLIENT_COMP
  else
    let changed : Option Bool :=
      if d.mClientCompositionInfo.mSkipStaticInitFlag = true ∧
          d.mClientCompositionInfo.mSkipFlag = true then
        skipStaticLayerChanged d d.mClientCompositionInfo
      else some false
    match changed with
    | none => none
    | some true => some SKIP_ERR_SKIP_STATIC_CHANGED
    | some false =>
      if d.mClientCompositionInfo.mHasCompositionLayer = true ∧
          d.mClientCompositionInfo.mTargetBuffer = 0 then
        some SKIP_ERR_INVALID_CLIENT_TARGET_BUFFER
      else
        match getDisplayRequests d with
        | none => none
        | some requests =>
          if requests.1 ≠ NO_ERROR ∨ requests.2 ≠ 0 then some SKIP_ERR_HAS_REQUEST
          else some NO_ERROR

/-! ## Concrete commit plans -/

/-- A valid window: a buffer slot on the resource `mpp` with a 1x1 source and
destination at the origin. -/
def bufferSlot (mpp : ExynosMPP) : exynos_win_config_data :=
  { state := WIN_STATE_BUFFER, assignedMPP := some mpp
    src := { w := 1, h := 1, f_w := 1, f_h := 1 }
    dst := { w := 1, h := 1, f_w := 1, f_h := 1 } }

/-- A 1080x1920 display whose commit plan holds three buffer slots; slots 0 and
2 share the resource `overlayMPP`. -/
def sharedResourceDisplay : ExynosDisplay :=
  { mXres := 1080, mYres := 1920
    mDpuData := { configs := [ bufferSlot overlayMPP, bufferSlot comboMPP,
                               bufferSlot overlayMPP ] } }

/-- A 1080x1920 display whose commit plan holds a single slot in state
`WIN_STATE_UPDATE`. -/
def updateOnlyDisplay : ExynosDisplay :=
  { mXres := 1080, mYres := 1920
    mDpuData := { configs := [ { state := WIN_STATE_UPDATE } ] } }

/-- A 1080x1920 display whose commit plan holds one buffer slot with
`dst.x = 1` and `dst.w = 2^32 - 1`: the 32-bit sum `dst.x + dst.w` is 0. -/
def wrappedWidthDisplay : ExynosDisplay :=
  { mXres := 1080, mYres := 1920
    mDpuData := { configs := [ { bufferSlot overlayMPP with
                                 dst := { x := 1, w := 4294967295, h := 1 } } ] } }

/-- Specification side of `validateWinConfigData`, for one slot in BUFFER
state: a non-null resource, non-negative source and destination offsets,
positive source and destination sizes, a destination inside the display (the
sums `dst.x + dst.w` and `dst.y + dst.h` taken as 32-bit unsigned values), a
source crop no larger than the full source size, and source offsets and sizes
that are multiples of the resource's alignments. -/
def specSlotValid (penv : PresentOracle) (d : ExynosDisplay) (c : exynos_win_config_data) :
    Prop :=
  match c.assignedMPP with
  | none => False
  | some mpp =>
    0 ≤ c.src.x ∧ 0 ≤ c.src.y ∧ 0 ≤ c.dst.x ∧ 0 ≤ c.dst.y ∧
    0 < c.src.w ∧ 0 < c.src.h ∧ 0 < c.dst.w ∧ 0 < c.dst.h ∧
    (toUInt32 c.dst.x + c.dst.w) % 2 ^ 32 ≤ d.mXres % 2 ^ 32 ∧
    (toUInt32 c.dst.y + c.dst.h) % 2 ^ 32 ≤ d.mYres % 2 ^ 32 ∧
    c.src.w ≤ c.src.f_w ∧ c.src.h ≤ c.src.f_h ∧
    toUInt32 c.src.x %
      (penv.getSrcXOffsetAlign mpp (getRestrictionIndex penv c.format) % 2 ^ 32) = 0 ∧
    toUInt32 c.src.y %
      (penv.getSrcYOffsetAlign mpp (getRestrictionIndex penv c.format) % 2 ^ 32) = 0 ∧
    c.src.w % (penv.getSrcCropWidthAlign mpp (getRestrictionIndex penv c.format) % 2 ^ 32) = 0 ∧
    c.src.h % (penv.getSrcCropHeightAlign mpp (getRestrictionIndex penv c.format) % 2 ^ 32) = 0

/-! ## Concrete inputs for `closeFences` -/

/-- The display `orphanSecondaryDisplay` (secondary composition flagged, no
resource) holding, besides the acquire fence 5 of layer 0, the acquire fences 6
and 7 of the secondary and client composition targets, the retire fence 8 in
the commit plan and the last retire fence 9. -/
def orphanFencesDisplay : ExynosDisplay :=
  { orphanSecondaryDisplay with
    mExynosCompositionInfo :=
      { orphanSecondaryDisplay.mExynosCompositionInfo with mAcquireFence := 6 }
    mClientCompositionInfo :=
      { orphanSecondaryDisplay.mClientCompositionInfo with mAcquireFence := 7 }
    mDpuData := { retire_fence := 8 }
    mLastRetireFence := 9 }

/-- One overlay layer whose release fence is the descriptor 0; no composition
is flagged. -/
def zeroReleaseFenceDisplay : ExynosDisplay :=
  { mLayers := [ { mCompositionType := HWC2_COMPOSITION_DEVICE,
                   mValidateCompositionType := HWC2_COMPOSITION_DEVICE,
                   mReleaseFence := 0 } ] }

/-! ## Concrete input for the index safety of `addExynosCompositionLayer` -/

/-- Four layers with the combined secondary resource: layer 0 is in client
composition (range `[0,0]`), layer 1 is in secondary composition (range
`[1,1]`, no priority), layer 2 is an overlay the secondary resource does not
support, layer 3 is an overlay of max priority.  Both ranges are well formed. -/
def staleRangeDisplay : ExynosDisplay :=
  { mLayers := [ { mValidateCompositionType := HWC2_COMPOSITION_CLIENT },
                 { mValidateCompositionType := HWC2_COMPOSITION_EXYNOS,
                   mSupportedMPPFlag := MPP_LOGICAL_G2D_COMBO, mM2mMPP := some comboMPP },
                 { mValidateCompositionType := HWC2_COMPOSITION_DEVICE,
                   mSupportedMPPFlag := 0, mOtfMPP := some overlayMPP },
                 { mValidateCompositionType := HWC2_COMPOSITION_DEVICE,
                   mOverlayPriority := ePriorityMax,
                   mSupportedMPPFlag := MPP_LOGICAL_G2D_COMBO, mOtfMPP := some overlayMPP } ]
    mClientCompositionInfo :=
      { mType := COMPOSITION_CLIENT, mHasCompositionLayer := true, mFirstIndex := 0,
        mLastIndex := 0 }
    mExynosCompositionInfo :=
      { mType := COMPOSITION_EXYNOS, mHasCompositionLayer := true, mFirstIndex := 1,
        mLastIndex := 1, mM2mMPP := some comboMPP }
    mWindowNumUsed := 2 }

/-! ## `getReleaseFences` -/

/-- The first-pass loop of `getReleaseFences`: `deviceLayerNum` (a `uint32_t`)
after the remaining layers. -/
def countReleaseFences : List ExynosLayer → Nat → Nat
  | [], deviceLayerNum => deviceLayerNum
  | l :: ls, deviceLayerNum =>
    if l.mReleaseFence ≥ 0 then countReleaseFences ls ((deviceLayerNum + 1) % 2 ^ 32)
    else countReleaseFences ls deviceLayerNum

/-- State of the second-pass loop of `getReleaseFences` when it stops:
`completed` is false when it stopped at `return HWC2_ERROR_BAD_PARAMETER`;
`written` holds the entries stored in `outLayers` / `outFences`, in order, a
layer being named by its position in `mLayers`; `layers` is the layer list. -/
structure FenceHandOff where
  completed : Bool
  deviceLayerNum : Nat
  written : List (Nat × Int)
  layers : List ExynosLayer
  deriving DecidableEq, Repr

/-- The second-pass loop of `getReleaseFences` over the layers from position `i`
on, with `*outNumElements = capacity`. -/
def handOffLoop (capacity : Nat) : List ExynosLayer → Nat → Nat → FenceHandOff
  | [], _, deviceLayerNum =>
    { completed := true, deviceLayerNum := deviceLayerNum, written := [], layers := [] }
  | l :: ls, i, deviceLayerNum =>
    if l.mReleaseFence ≥ 0 then
      if deviceLayerNum < capacity then
        /- transfer fence ownership to the caller -/
        let r := handOffLoop capacity ls (i + 1) ((deviceLayerNum + 1) % 2 ^ 32)
        { r with written := (i, l.mReleaseFence) :: r.written
                 layers := { l with mReleaseFence := -1 } :: r.layers }
      else
        { completed := false, deviceLayerNum := deviceLayerNum, written := [], layers := l :: ls }
    else
      let r := handOffLoop capacity ls (i + 1) deviceLayerNum
      { r with layers := l :: r.layers }

/-- What `getReleaseFences` leaves behind: the return code, the value of
`*outNumElements` (`none` when the pointer is `NULL`), the entries written to
the output arrays and the display. -/
structure ReleaseFences where
  ret : Int
  outNumElements : Option Nat
  written : List (Nat × Int)
  display : ExynosDisplay
  deriving DecidableEq, Repr

/-- The method `ExynosDisplay::getReleaseFences(outNumElements, outLayers,
outFences)`.  `outNumElements` is the value behind the pointer (`none`: the
pointer is `NULL`); `outLayers` and `outFences` tell whether the array pointers
are non-null. -/
def getReleaseFences (d : ExynosDisplay) (outNumElements : Option Nat)
    (outLayers outFences : Bool) : ReleaseFences :=
  match outNumElements with
  | none => { ret := HWC2_ERROR_BAD_PARAMETER, outNumElements := none, written := [], display := d }
  | some capacity =>
    if outLayers = true ∧ outFences = true then
      /- second pass call -/
      let r := handOffLoop (capacity % 2 ^ 32) d.mLayers 0 0
      if r.completed then
        { ret := 0, outNumElements := some r.deviceLayerNum, written := r.written,
          display := { d with mLayers := r.layers } }
      else
        { ret := HWC2_ERROR_BAD_PARAMETER, outNumElements := some capacity, written := r.written,
          display := { d with mLayers := r.layers } }
    else
      /- first pass call -/
      { ret := 0, outNumElements := some (countReleaseFences d.mLayers 0), written := [],
        display := d }

/-- Three layers holding the release fences `11`, `-1` and `12`. -/
def releaseFenceDisplay : ExynosDisplay :=
  { mLayers := [ { mCompositionType := HWC2_COMPOSITION_DEVICE, mReleaseFence := 11 },
                 { mCompositionType := HWC2_COMPOSITION_CLIENT, mReleaseFence := -1 },
                 { mCompositionType := HWC2_COMPOSITION_DEVICE, mReleaseFence := 12 } ] }

/-- Two layers holding the release fences `11` and `-2`. -/
def strayFenceDisplay : ExynosDisplay :=
  { mLayers := [ { mCompositionType := HWC2_COMPOSITION_DEVICE, mReleaseFence := 11 },
                 { mCompositionType := HWC2_COMPOSITION_DEVICE, mReleaseFence := -2 } ] }

/-! ## `getConfigAppliedTime` -/

/-- The conversion `(int64_t)x` of an unsigned value. -/
def toInt64 (n : Nat) : Int :=
  if n % 2 ^ 64 < 2 ^ 63 then ((n % 2 ^ 64 : Nat) : Int)
  else ((n % 2 ^ 64 : Nat) : Int) - 2 ^ 64

/-- The conversion `(uint64_t)x` of a signed value. -/
def toUInt64 (z : Int) : Nat := (z % 2 ^ 64).toNat

/-- The result of a signed 64-bit operation: `none` when the exact value does
not fit an `int64_t` (signed overflow is undefined behaviour). -/
def checkedInt64 (z : Int) : Option Int :=
  if -(2 ^ 63) ≤ z ∧ z < 2 ^ 63 then some z else none

/-- The tail of `getConfigAppliedTime`: `refreshTime = appliedTime -
(transientDuration * mVsyncPeriod)`.  Both factors are `uint32_t`, so the
product is taken in 32 bits before it is widened for the subtraction.  The
result is `(return code, appliedTime, refreshTime)`. -/
def configRefreshTime (mVsyncPeriod transientDuration : Nat) (appliedTime : Int) :
    Option (Int × Int × Int) :=
  match checkedInt64
      (appliedTime - (((transientDuration % 2 ^ 32) * (mVsyncPeriod % 2 ^ 32) % 2 ^ 32 : Nat) : Int))
    with
  | none => none
  | some refreshTime => some (NO_ERROR, appliedTime, refreshTime)

/-- The method `ExynosDisplay::getConfigAppliedTime(desiredTime,
actualChangeTime, appliedTime, refreshTime)` for the display field
`mVsyncPeriod` (a `uint32_t`) and the value `transientDuration` that
`mDisplayInterface->getConfigChangeDuration()` returned, stored in a
`uint32_t`.  The times are `uint64_t` arguments; `appliedTime` and
`refreshTime` are `int64_t`.  `none` is a division by zero or a signed
overflow. -/
def getConfigAppliedTime (mVsyncPeriod transientDuration desiredTime actualChangeTime : Nat) :
    Option (Int × Int × Int) :=
  let appliedTime := toInt64 actualChangeTime
  if desiredTime % 2 ^ 64 > toUInt64 appliedTime then
    let diff := toInt64 (desiredTime % 2 ^ 64 + 2 ^ 64 - toUInt64 appliedTime)
    let period : Int := ((mVsyncPeriod % 2 ^ 32 : Nat) : Int)
    match checkedInt64 (diff + period) with
    | none => none
    | some sum =>
      match checkedInt64 (sum - 1) with
      | none => none
      | some numerator =>
        if period = 0 then none
        else
          match checkedInt64 (numerator.tdiv period * period) with
          | none => none
          | some step =>
            match checkedInt64 (appliedTime + step) with
            | none => none
            | some appliedTime1 => configRefreshTime mVsyncPeriod transientDuration appliedTime1
  else configRefreshTime mVsyncPeriod transientDuration appliedTime

/-! ## `ExynosSortedLayer` -/

/-- The comparator `ExynosSortedLayer::compare(lhs, rhs)`: the value of
`left->mZOrder > right->mZOrder` as an `int`. -/
def ExynosSortedLayer.compare (left right : ExynosLayer) : Int :=
  if left.mZOrder > right.mZOrder then 1 else 0

/-- Modelled from the spec: the inner loop of `android::Vector::sort`, which
belongs to the platform library and is not part of the sources.  The element
`item` moves towards the front past every predecessor `curr` with
`cmp(curr, item) > 0`.  The sorted prefix is held back to front: the head of
the list is the element just before the insertion point. -/
def sortInsert (cmp : ExynosLayer → ExynosLayer → Int) (item : ExynosLayer) :
    List ExynosLayer → List ExynosLayer
  | [] => [item]
  | curr :: rest =>
    if cmp curr item > 0 then curr :: sortInsert cmp item rest
    else item :: curr :: rest

/-- Modelled from the spec: `android::Vector::sort(cmp)`, the stable insertion
sort of the platform library, which is not part of the sources: the elements
are taken in order and each is inserted into the sorted prefix built so far. -/
def Vector_sort (cmp : ExynosLayer → ExynosLayer → Int) (array : List ExynosLayer) :
    List ExynosLayer :=
  (array.foldl (fun sortedPrefix item => sortInsert cmp item sortedPrefix) []).reverse

/-- The method `ExynosSortedLayer::vector_sort()`: the status and the layer
list. -/
def ExynosSortedLayer.vector_sort (layers : List ExynosLayer) : Int × List ExynosLayer :=
  (NO_ERROR, Vector_sort ExynosSortedLayer.compare layers)

/-! ## `configureHandle` -/

/-- HWC2_COMPOSITION_DISPLAY_DECORATION. -/
def HWC2_COMPOSITION_DISPLAY_DECORATION : Int := 6

/-- The result of a signed 32-bit operation: `none` when the exact value does
not fit an `int` (signed overflow is undefined behaviour). -/
def checkedInt32 (z : Int) : Option Int :=
  if -(2 ^ 31) ≤ z ∧ z < 2 ^ 31 then some z else none

/-- The subtraction `a - b` of two `uint32_t` values. -/
def subUInt32 (a b : Nat) : Nat := (a % 2 ^ 32 + (2 ^ 32 - b % 2 ^ 32)) % 2 ^ 32

/-- The macro `WIDTH(rect)`, `(rect).right - (rect).left` on `int` values. -/
def WIDTH (r : hwc_rect_t) : Option Int := checkedInt32 (r.right - r.left)

/-- The macro `HEIGHT(rect)`, `(rect).bottom - (rect).top` on `int` values. -/
def HEIGHT (r : hwc_rect_t) : Option Int := checkedInt32 (r.bottom - r.top)

/-- The collaborators of `configureHandle` whose code is not part of the
sources: `isDimLayer l` is `layer.isDimLayer()`; `m2mDstBufferHandle m` is
`m2mMPP->mDstImgs[m2mMPP->mCurrentDstBuf].bufferHandle`; `sourceConfig l fence
cfg` is the part of the function after the dim-layer return, which reads the
buffer metadata and the resource restrictions and fills in the format, the
buffer descriptors, the source rectangle and the acquire fence: its return
code and the slot. -/
structure HandleOracle where
  isDimLayer : ExynosLayer → Bool
  m2mDstBufferHandle : ExynosMPP → Nat
  sourceConfig : ExynosLayer → Int → exynos_win_config_data → Int × exynos_win_config_data

/-- The footprint of the source part of `configureHandle` on the slot: it
writes the format, the buffer descriptors, the source rectangle and the
acquire fence, and nothing else of the modelled fields. -/
def exynos_win_config_data.sourceEffect (cfg out : exynos_win_config_data) :
    exynos_win_config_data :=
  { cfg with format := out.format, fd_idma0 := out.fd_idma0, fd_idma1 := out.fd_idma1,
             fd_idma2 := out.fd_idma2, src := out.src, acq_fence := out.acq_fence }

/-- The crop of one axis in `configureHandle`: from the frame edges `lo < hi`
and the initial `size = hi - lo` to the offset and the size, for a display
extent `res`.  Offset and size are `uint32_t`; `none` is the signed overflow of
`-lo`. -/
def cropAxis (lo hi : Int) (size res : Nat) : Option (Nat × Nat) :=
  let start : Option (Nat × Nat) :=
    if lo < 0 then
      match checkedInt32 (-lo) with
      | none => none
      | some crop => some (0, subUInt32 size (toUInt32 crop))
    else some (toUInt32 lo, size)
  match start with
  | none => none
  | some (offset, size1) =>
    if hi > toInt32 res then some (offset, subUInt32 size1 (subUInt32 (toUInt32 hi) res))
    else some (offset, size1)

/-- The method `ExynosDisplay::configureHandle(layer, fence_fd, cfg)`: the
return code and the slot.  `none` is a signed overflow. -/
def configureHandle (henv : HandleOracle) (d : ExynosDisplay) (layer : ExynosLayer)
    (fence_fd : Int) (cfg : exynos_win_config_data) : Option (Int × exynos_win_config_data) :=
  match WIDTH layer.mPreprocessedInfo.displayFrame, HEIGHT layer.mPreprocessedInfo.displayFrame with
  | none, _ => none
  | _, none => none
  | some width, some height =>
    let w := toUInt32 width
    let h := toUInt32 height
    let otfMPP := layer.mOtfMPP
    let m2mMPP := layer.mM2mMPP
    if otfMPP = none ∧ layer.mExynosCompositionType ≠ HWC2_COMPOSITION_DISPLAY_DECORATION then
      some (-EINVAL, cfg)
    else
      let handle : Nat :=
        match m2mMPP with
        | some m => henv.m2mDstBufferHandle m
        | none => layer.mLayerBuffer
      if henv.isDimLayer layer = false ∧ handle = 0 then some (-EINVAL, cfg)
      else
        match cropAxis layer.mPreprocessedInfo.displayFrame.left
            layer.mPreprocessedInfo.displayFrame.right w d.mXres,
          cropAxis layer.mPreprocessedInfo.displayFrame.top
            layer.mPreprocessedInfo.displayFrame.bottom h d.mYres with
        | none, _ => none
        | _, none => none
        | some (x, w1), some (y, h1) =>
          let state :=
            if layer.mExynosCompositionType = HWC2_COMPOSITION_DEVICE ∧
                layer.mCompositionType = HWC2_COMPOSITION_CURSOR then WIN_STATE_CURSOR
            else if layer.mExynosCompositionType = HWC2_COMPOSITION_DISPLAY_DECORATION then
              WIN_STATE_RCD
            else WIN_STATE_BUFFER
          let cfg1 : exynos_win_config_data :=
            { cfg with
              state := state
              dst := { x := toInt32 x, y := toInt32 y, w := w1, h := h1,
                       f_w := d.mXres, f_h := d.mYres }
              plane_alpha := layer.mPlaneAlpha
              blending := layer.mBlending
              assignedMPP := otfMPP }
          if henv.isDimLayer layer then some (NO_ERROR, { cfg1 with state := WIN_STATE_COLOR })
          else
            let out := henv.sourceConfig layer fence_fd cfg1
            some (out.1, cfg1.sourceEffect out.2)

/-- A `configureHandle` environment without dim layers whose source part
succeeds and leaves the slot as it is. -/
def plainHandleOracle : HandleOracle :=
  { isDimLayer := fun _ => false
    m2mDstBufferHandle := fun _ => 0
    sourceConfig := fun _ _ cfg => (NO_ERROR, cfg) }

/-- A display of `1080 x 1920` pixels. -/
def fullHdDisplay : ExynosDisplay := { mXres := 1080, mYres := 1920 }

/-- An overlay layer with a buffer whose frame `[-10, 100, 1090, 300]` hangs
over the left and right edges of `fullHdDisplay`. -/
def overhangLayer : ExynosLayer :=
  { mExynosCompositionType := HWC2_COMPOSITION_DEVICE
    mOtfMPP := some overlayMPP
    mLayerBuffer := 9
    mPreprocessedInfo := { displayFrame := { left := -10, top := 100, right := 1090, bottom := 300 } } }

/-- An overlay layer with a buffer whose frame `[1090, 0, 1100, 10]` lies to the
right of `fullHdDisplay`. -/
def offScreenLayer : ExynosLayer :=
  { mExynosCompositionType := HWC2_COMPOSITION_DEVICE
    mOtfMPP := some overlayMPP
    mLayerBuffer := 9
    mPreprocessedInfo := { displayFrame := { left := 1090, top := 0, right := 1100, bottom := 10 } } }

/-! ## Concrete inputs for the nesting resolution and the high-priority rule -/

/-- A secondary-composition resource that is not of the combined type. -/
def scalerMPP : ExynosMPP := { mId := 5, mLogicalType := 0x10 }

/-- Seven layers with the secondary resource `scalerMPP`: layers 0 and 1 are in
secondary composition (range `[0,1]`), layer 2 is in client composition (range
`[2,2]`), layers 3, 4 and 5 are overlays the secondary resource supports, layer
6 is an overlay of high priority.  Both ranges are well formed. -/
def nestedFrontDisplay : ExynosDisplay :=
  { mLayers := [ { mValidateCompositionType := HWC2_COMPOSITION_EXYNOS,
                   mSupportedMPPFlag := 0x10, mM2mMPP := some scalerMPP },
                 { mValidateCompositionType := HWC2_COMPOSITION_EXYNOS,
                   mSupportedMPPFlag := 0x10, mM2mMPP := some scalerMPP },
                 { mValidateCompositionType := HWC2_COMPOSITION_CLIENT },
                 { mValidateCompositionType := HWC2_COMPOSITION_DEVICE,
                   mSupportedMPPFlag := 0x10, mOtfMPP := some overlayMPP },
                 { mValidateCompositionType := HWC2_COMPOSITION_DEVICE,
                   mSupportedMPPFlag := 0x10, mOtfMPP := some overlayMPP },
                 { mValidateCompositionType := HWC2_COMPOSITION_DEVICE,
                   mSupportedMPPFlag := 0x10, mOtfMPP := some overlayMPP },
                 { mValidateCompositionType := HWC2_COMPOSITION_DEVICE,
                   mOverlayPriority := ePriorityHigh,
                   mSupportedMPPFlag := 0x10, mOtfMPP := some overlayMPP } ]
    mClientCompositionInfo :=
      { mType := COMPOSITION_CLIENT, mHasCompositionLayer := true, mFirstIndex := 2,
        mLastIndex := 2 }
    mExynosCompositionInfo :=
      { mType := COMPOSITION_EXYNOS, mHasCompositionLayer := true, mFirstIndex := 0,
        mLastIndex := 1, mM2mMPP := some scalerMPP }
    mWindowNumUsed := 4 }

/-! ## The stages of `addExynosCompositionLayer` -/

/-- The part of `addExynosCompositionLayer` before the high-priority boundary
adjustment: the widening of the range, the checks, the first loop, the
max-priority block and the nesting block.  `Flow.ret` is a `return` taken in
that part; `Flow.next` carries the secondary resource and the locals with which
the tail `exynosTail` runs. -/
def exynosFront (env : ResourceOracle) (d : ExynosDisplay) (layerIndex : Nat) :
    Option (Flow (ExynosMPP × ExynosLocals)) :=
  let e := d.mExynosCompositionInfo
  if e.mHasCompositionLayer = false then
    some (Flow.ret EXYNOS_ERROR_CHANGED
      { d with mExynosCompositionInfo :=
          { e with mFirstIndex := toInt32 layerIndex, mLastIndex := toInt32 layerIndex,
                   mHasCompositionLayer := true } })
  else
    let e1 := { e with mFirstIndex := min e.mFirstIndex (toInt32 layerIndex),
                       mLastIndex := max e.mLastIndex (toInt32 layerIndex) }
    let d1 := { d with mExynosCompositionInfo := e1 }
    match e1.mM2mMPP with
    | none => some (Flow.ret (-EINVAL) d1)
    | some m2mMPP =>
      let startIndex := e1.mFirstIndex
      let endIndex := e1.mLastIndex
      let size := toInt32 d1.mLayers.length
      if startIndex < 0 ∨ endIndex < 0 ∨ startIndex ≥ size ∨ endIndex ≥ size then
        some (Flow.ret (-EINVAL) d1)
      else
        /- handle sandwiched layers -/
        match flowLoop (exynosSandwichedStep env m2mMPP) (endIndex - startIndex + 1).toNat
            startIndex { d := d1 } with
        | none => none
        | some (Flow.ret r d2) => some (Flow.ret r d2)
        | some (Flow.next s1) =>
          if s1.invalidFlag then
            let afterMax : Option (Flow ExynosLocals) :=
              if m2mMPP.mLogicalType = MPP_LOGICAL_G2D_COMBO ∧ s1.maxPriorityIndex ≥ 0 then
                maxPriorityBlock env m2mMPP s1
              else some (Flow.next s1)
            match afterMax with
            | none => none
            | some (Flow.ret r d2) => some (Flow.ret r d2)
            | some (Flow.next s2) =>
              match nestingBlock env s2 with
              | none => none
              | some (Flow.ret r d3) => some (Flow.ret r d3)
              | some (Flow.next s3) => some (Flow.next (m2mMPP, s3))
          else some (Flow.next (m2mMPP, s1))

/-- The secondary range on which the tail of `addExynosCompositionLayer` takes
its high-priority decision: the range after the boundary adjustment past
high-priority layers and after the validity check that clears an invalid
range. -/
def exynosAdjusted (env : ResourceOracle) (m2mMPP : ExynosMPP) (s : ExynosLocals) :
    ExynosCompositionInfo :=
  let size := toInt32 s.d.mLayers.length
  let e0 := s.d.mExynosCompositionInfo
  let e1 :=
    if s.highPriority.length > 0 ∧ m2mMPP.mLogicalType ≠ MPP_LOGICAL_G2D_COMBO then
      highPriorityAdjust s.highPriority e0
    else e0
  let invalid : Bool :=
    decide (e1.mFirstIndex < 0 ∨ e1.mFirstIndex ≥ size ∨ e1.mLastIndex < 0 ∨
      e1.mLastIndex ≥ size ∨ e1.mFirstIndex > e1.mLastIndex)
  if invalid then e1.initializeInfos env s.d.mType else e1

/-- Three layers with the secondary resource `scalerMPP`: layer 0 is in
secondary composition (range `[0,0]`), layer 1 is an overlay of high priority,
layer 2 is an overlay the secondary resource supports; the client range is
empty. -/
def highPriorityDisplay : ExynosDisplay :=
  { mLayers := [ { mValidateCompositionType := HWC2_COMPOSITION_EXYNOS,
                   mSupportedMPPFlag := 0x10, mM2mMPP := some scalerMPP },
                 { mValidateCompositionType := HWC2_COMPOSITION_DEVICE,
                   mOverlayPriority := ePriorityHigh, mLayerOpaque := true,
                   mSupportedMPPFlag := 0x10, mOtfMPP := some overlayMPP },
                 { mValidateCompositionType := HWC2_COMPOSITION_DEVICE,
                   mSupportedMPPFlag := 0x10, mOtfMPP := some overlayMPP } ]
    mExynosCompositionInfo :=
      { mType := COMPOSITION_EXYNOS, mHasCompositionLayer := true, mFirstIndex := 0,
        mLastIndex := 0, mM2mMPP := some scalerMPP }
    mWindowNumUsed := 2 }

/-! ## Concrete inputs for `checkConfigChanged` -/

/-- A commit plan with one buffer slot whose plane alpha is not a number. -/
def nanAlphaPlan : exynos_dpu_data :=
  { configs := [ { state := WIN_STATE_BUFFER, fd_idma0 := 11, plane_alpha := float.nan } ] }

/-- A display without layers on which the window-configuration skip is
enabled. -/
def skipWinConfigDisplay : ExynosDisplay :=
  { exynosHWCControl := { skipWinConfig := 1 } }

/-! ## The nesting resolution of `addExynosCompositionLayer` -/

/-- The part of `addExynosCompositionLayer` before the nesting block: the
widening of the range, the checks, the first loop and the max-priority block.
`Flow.ret` is a `return` taken in that part; `Flow.next` carries the secondary
resource, the value of `invalidFlag` tested by `if (invalidFlag)`, and the
locals with which the nesting block (flag set) or the tail (flag clear)
runs. -/
def exynosChecked (env : ResourceOracle) (d : ExynosDisplay) (layerIndex : Nat) :
    Option (Flow (ExynosMPP × Bool × ExynosLocals)) :=
  let e := d.mExynosCompositionInfo
  if e.mHasCompositionLayer = false then
    some (Flow.ret EXYNOS_ERROR_CHANGED
      { d with mExynosCompositionInfo :=
          { e with mFirstIndex := toInt32 layerIndex, mLastIndex := toInt32 layerIndex,
                   mHasCompositionLayer := true } })
  else
    let e1 := { e with mFirstIndex := min e.mFirstIndex (toInt32 layerIndex),
                       mLastIndex := max e.mLastIndex (toInt32 layerIndex) }
    let d1 := { d with mExynosCompositionInfo := e1 }
    match e1.mM2mMPP with
    | none => some (Flow.ret (-EINVAL) d1)
    | some m2mMPP =>
      let startIndex := e1.mFirstIndex
      let endIndex := e1.mLastIndex
      let size := toInt32 d1.mLayers.length
      if startIndex < 0 ∨ endIndex < 0 ∨ startIndex ≥ size ∨ endIndex ≥ size then
        some (Flow.ret (-EINVAL) d1)
      else
        /- handle sandwiched layers -/
        match flowLoop (exynosSandwichedStep env m2mMPP) (endIndex - startIndex + 1).toNat
            startIndex { d := d1 } with
        | none => none
        | some (Flow.ret r d2) => some (Flow.ret r d2)
        | some (Flow.next s1) =>
          if s1.invalidFlag then
            let afterMax : Option (Flow ExynosLocals) :=
              if m2mMPP.mLogicalType = MPP_LOGICAL_G2D_COMBO ∧ s1.maxPriorityIndex ≥ 0 then
                maxPriorityBlock env m2mMPP s1
              else some (Flow.next s1)
            match afterMax with
            | none => none
            | some (Flow.ret r d2) => some (Flow.ret r d2)
            | some (Flow.next s2) => some (Flow.next (m2mMPP, true, s2))
          else some (Flow.next (m2mMPP, false, s1))

/-- Whether every layer of `ls` that is validated as EXYNOS has its index in
`[lo, hi]`. -/
def typedInside (ls : List ExynosLayer) (lo hi : Int) : Bool :=
  ls.enum.all (fun p =>
    decide (p.2.getValidateCompositionType = HWC2_COMPOSITION_EXYNOS →
      lo ≤ (p.1 : Int) ∧ (p.1 : Int) ≤ hi))

/-! ## Facts about the conversions -/

theorem toInt32_of_lt {n : Nat} (h : n < 2 ^ 31) : toInt32 n = (n : Int) := by
  unfold toInt32
  have h1 : n % 2 ^ 32 = n := Nat.mod_eq_of_lt (by omega)
  rw [h1, if_pos h]

theorem toUInt32_of_nonneg {z : Int} (h0 : 0 ≤ z) (h1 : z < 2 ^ 32) : toUInt32 z = z.toNat := by
  unfold toUInt32
  rw [Int.emod_eq_of_lt h0 h1]

/-! ## The sandwiched-layer loop -/

/-- What the sandwiched-layer loop over `[lo, hi)` guarantees of the state `d1`
it reaches from `d`: only the layers in `[lo, hi)` and `mWindowNumUsed` may
differ, and every layer of `[lo, hi)` without the high-priority exception is
validated as client composition. -/
structure SandwichedRel (lo hi : Nat) (d d1 : ExynosDisplay) : Prop where
  length_eq : d1.mLayers.length = d.mLayers.length
  client_eq : d1.mClientCompositionInfo = d.mClientCompositionInfo
  exynos_eq : d1.mExynosCompositionInfo = d.mExynosCompositionInfo
  type_eq : d1.mType = d.mType
  state_eq : d1.mRenderingState = d.mRenderingState
  geometry_eq : d1.mGeometryChanged = d.mGeometryChanged
  calls_eq : d1.resetAssignedStateCalls = d.resetAssignedStateCalls
  inside : ∀ (j : Nat) (l : ExynosLayer), lo ≤ j → j < hi → d1.mLayers[j]? = some l →
    l.needClearClientTarget = false → l.mValidateCompositionType = HWC2_COMPOSITION_CLIENT
  outside : ∀ (j : Nat), j < lo ∨ hi ≤ j → d1.mLayers[j]? = d.mLayers[j]?
  client_stays : ∀ (j : Nat) (l : ExynosLayer), d.mLayers[j]? = some l →
    l.mValidateCompositionType = HWC2_COMPOSITION_CLIENT →
    ∃ l1, d1.mLayers[j]? = some l1 ∧ l1.mValidateCompositionType = HWC2_COMPOSITION_CLIENT

theorem sandwichedStep_rel (i : Nat) (d : ExynosDisplay) (b : Bool)
    (hi : i < d.mLayers.length) :
    ∃ d1 b1, sandwichedStep i (d, b) = some (d1, b1) ∧ SandwichedRel i (i + 1) d d1 := by
  unfold sandwichedStep
  have hget : d.mLayers[i]? = some d.mLayers[i] := List.getElem?_eq_getElem hi
  simp only [hget]
  by_cases hc : (d.mLayers[i]).needClearClientTarget = true
  · rw [if_pos hc]
    refine ⟨d, b, rfl, ?_⟩
    refine ⟨rfl, rfl, rfl, rfl, rfl, rfl, rfl, ?_, fun _ _ => rfl, fun j l h1 h2 => ⟨l, h1, h2⟩⟩
    intro j l h1 h2 h3 h4
    have hj : j = i := by omega
    subst hj
    rw [hget] at h3
    cases h3
    rw [hc] at h4
    cases h4
  · rw [if_neg hc]
    by_cases hv : (d.mLayers[i]).getValidateCompositionType = HWC2_COMPOSITION_CLIENT
    · rw [if_neg (not_not.mpr hv)]
      refine ⟨d, b, rfl, ?_⟩
      refine ⟨rfl, rfl, rfl, rfl, rfl, rfl, rfl, ?_, fun _ _ => rfl, fun j l h1 h2 => ⟨l, h1, h2⟩⟩
      intro j l h1 h2 h3 _
      have hj : j = i := by omega
      subst hj
      rw [hget] at h3
      cases h3
      exact hv
    · rw [if_pos hv]
      refine ⟨_, _, rfl, ?_⟩
      refine ⟨by simp, rfl, rfl, rfl, rfl, rfl, rfl, ?_, ?_, ?_⟩
      · intro j l h1 h2 h3 _
        have hj : j = i := by omega
        subst hj
        simp only [List.getElem?_set_self hi] at h3
        cases h3
        rfl
      · intro j hj
        have hne : i ≠ j := by omega
        simp [List.getElem?_set_ne hne]
      · intro j l h1 h2
        by_cases hji : i = j
        · subst hji
          exact ⟨_, List.getElem?_set_self hi, rfl⟩
        · exact ⟨l, by simp [List.getElem?_set_ne hji, h1], h2⟩

theorem sandwichedLoop_rel (count : Nat) :
    ∀ (i : Nat) (d : ExynosDisplay) (b : Bool), i + count ≤ d.mLayers.length →
      ∃ d1 b1, sandwichedLoop count i (d, b) = some (d1, b1) ∧
        SandwichedRel i (i + count) d d1 := by
  induction count with
  | zero =>
    intro i d b _
    refine ⟨d, b, rfl, ?_⟩
    exact ⟨rfl, rfl, rfl, rfl, rfl, rfl, rfl, fun j l h1 h2 => by omega, fun _ _ => rfl,
      fun j l h1 h2 => ⟨l, h1, h2⟩⟩
  | succ count ih =>
    intro i d b hlen
    obtain ⟨d1, b1, hstep, hrel1⟩ := sandwichedStep_rel i d b (by omega)
    have hlen1 : (i + 1) + count ≤ d1.mLayers.length := by rw [hrel1.length_eq]; omega
    obtain ⟨d2, b2, hloop, hrel2⟩ := ih (i + 1) d1 b1 hlen1
    refine ⟨d2, b2, by simp only [sandwichedLoop, hstep, hloop], ?_⟩
    refine ⟨hrel2.length_eq.trans hrel1.length_eq, hrel2.client_eq.trans hrel1.client_eq,
      hrel2.exynos_eq.trans hrel1.exynos_eq, hrel2.type_eq.trans hrel1.type_eq,
      hrel2.state_eq.trans hrel1.state_eq, hrel2.geometry_eq.trans hrel1.geometry_eq,
      hrel2.calls_eq.trans hrel1.calls_eq, ?_, ?_, ?_⟩
    · intro j l h1 h2 h3 h4
      by_cases hj : j = i
      · subst hj
        rw [hrel2.outside j (Or.inl (by omega))] at h3
        exact hrel1.inside j l (le_refl _) (by omega) h3 h4
      · exact hrel2.inside j l (by omega) (by omega) h3 h4
    · intro j hj
      rw [hrel2.outside j (by omega), hrel1.outside j (by omega)]
    · intro j l h1 h2
      obtain ⟨l1, h3, h4⟩ := hrel1.client_stays j l h1 h2
      exact hrel2.client_stays j l1 h3 h4

theorem exynosRangeRecompute_frame (env : ResourceOracle) (d : ExynosDisplay) :
    (exynosRangeRecompute env d).2.mLayers = d.mLayers ∧
    (exynosRangeRecompute env d).2.mClientCompositionInfo = d.mClientCompositionInfo ∧
    (exynosRangeRecompute env d).2.mType = d.mType ∧
    (exynosRangeRecompute env d).2.mRenderingState = d.mRenderingState ∧
    (exynosRangeRecompute env d).2.mGeometryChanged = d.mGeometryChanged := by
  unfold exynosRangeRecompute
  dsimp only
  split_ifs <;> exact ⟨rfl, rfl, rfl, rfl, rfl⟩

/-- The result of `addClientCompositionLayer` on a non-empty, in-bounds client
range: the range is widened, the sandwiched loop runs over the layers strictly
inside it, and the call returns. -/
theorem addClient_widen (env : ResourceOracle) (d : ExynosDisplay) (i : Nat)
    (hn : d.mLayers.length < 2 ^ 31)
    (hhas : d.mClientCompositionInfo.mHasCompositionLayer = true)
    (h0 : 0 ≤ d.mClientCompositionInfo.mFirstIndex)
    (hlast : d.mClientCompositionInfo.mLastIndex < d.mLayers.length)
    (hi : i < d.mLayers.length) :
    ∃ ret d1 d2 b, addClientCompositionLayer env d i = some (ret, d1) ∧
      SandwichedRel ((min d.mClientCompositionInfo.mFirstIndex i).toNat + 1)
        (max d.mClientCompositionInfo.mLastIndex i).toNat (widenClientRange d i) d2 ∧
      ((b = false ∧ ret = NO_ERROR ∧ d1 = d2) ∨
        (b = true ∧ (ret, d1) = exynosRangeRecompute env d2)) := by
  have hti : toInt32 i = (i : Int) := toInt32_of_lt (by omega)
  have hF : (widenClientRange d i).mClientCompositionInfo.mFirstIndex =
      min d.mClientCompositionInfo.mFirstIndex (i : Int) := by simp [widenClientRange, hti]
  have hL : (widenClientRange d i).mClientCompositionInfo.mLastIndex =
      max d.mClientCompositionInfo.mLastIndex (i : Int) := by simp [widenClientRange, hti]
  have hlen : (widenClientRange d i).mLayers.length = d.mLayers.length := rfl
  unfold addClientCompositionLayer
  simp only [hhas, hF, hL]
  have hmin0 : 0 ≤ min d.mClientCompositionInfo.mFirstIndex (i : Int) := by omega
  have hmax0 : 0 ≤ max d.mClientCompositionInfo.mLastIndex (i : Int) := by omega
  have hcond : ¬ (min d.mClientCompositionInfo.mFirstIndex (i : Int) < 0 ∨
      max d.mClientCompositionInfo.mLastIndex (i : Int) < 0) := by omega
  have hu1 : toUInt32 (min d.mClientCompositionInfo.mFirstIndex (i : Int)) =
      (min d.mClientCompositionInfo.mFirstIndex (i : Int)).toNat :=
    toUInt32_of_nonneg hmin0 (by omega)
  have hu2 : toUInt32 (max d.mClientCompositionInfo.mLastIndex (i : Int)) =
      (max d.mClientCompositionInfo.mLastIndex (i : Int)).toNat :=
    toUInt32_of_nonneg hmax0 (by omega)
  have hstart : ((min d.mClientCompositionInfo.mFirstIndex (i : Int)).toNat + 1) % 2 ^ 32 =
      (min d.mClientCompositionInfo.mFirstIndex (i : Int)).toNat + 1 := by
    apply Nat.mod_eq_of_lt
    omega
  simp only [Bool.true_eq_false, if_false, hcond, hu1, hu2, hstart]
  obtain ⟨d2, b2, hloop, hrel⟩ := sandwichedLoop_rel
    ((max d.mClientCompositionInfo.mLastIndex (i : Int)).toNat -
      ((min d.mClientCompositionInfo.mFirstIndex (i : Int)).toNat + 1))
    ((min d.mClientCompositionInfo.mFirstIndex (i : Int)).toNat + 1) (widenClientRange d i) false
    (by rw [hlen]; omega)
  rw [hloop]
  have hrel2 : SandwichedRel ((min d.mClientCompositionInfo.mFirstIndex i).toNat + 1)
      (max d.mClientCompositionInfo.mLastIndex i).toNat (widenClientRange d i) d2 := by
    refine ⟨hrel.length_eq, hrel.client_eq, hrel.exynos_eq, hrel.type_eq, hrel.state_eq,
      hrel.geometry_eq, hrel.calls_eq, ?_, ?_, hrel.client_stays⟩
    · intro j l h1 h2 h3 h4
      exact hrel.inside j l h1 (by omega) h3 h4
    · intro j hj
      by_cases hlt : j < (min d.mClientCompositionInfo.mFirstIndex (i : Int)).toNat + 1
      · exact hrel.outside j (Or.inl hlt)
      · exact hrel.outside j (Or.inr (by omega))
  cases b2 with
  | false => exact ⟨_, _, d2, false, rfl, hrel2, Or.inl ⟨rfl, rfl, rfl⟩⟩
  | true => exact ⟨_, _, d2, true, rfl, hrel2, Or.inr ⟨rfl, rfl⟩⟩

/-- C1 (sandwiched-layer rule): when `addClientCompositionLayer` is called on a
well-formed non-empty client range with an index inside the layer list, it
returns, the range becomes `[min first i, max last i]`, and every layer strictly
between the new first and last for which `needClearClientTarget` is false has
validate type CLIENT.  For three layers with layer 1 in secondary composition
(validate type EXYNOS, secondary range `[1,1]`, no priority exception) and
layers 0 and 2 not, adding index 0 and then index 2 to an empty client range
returns `EXYNOS_ERROR_CHANGED` both times and leaves layer 1 CLIENT, the client
range `[0,2]` and the secondary range cleared. -/
theorem addClientCompositionLayer_sandwiched :
    (∀ (env : ResourceOracle) (d : ExynosDisplay) (i : Nat),
      d.mLayers.length < 2 ^ 31 →
      d.mClientCompositionInfo.mHasCompositionLayer = true →
      0 ≤ d.mClientCompositionInfo.mFirstIndex →
      d.mClientCompositionInfo.mFirstIndex ≤ d.mClientCompositionInfo.mLastIndex →
      d.mClientCompositionInfo.mLastIndex < d.mLayers.length →
      i < d.mLayers.length →
      ∃ ret d1, addClientCompositionLayer env d i = some (ret, d1) ∧
        d1.mClientCompositionInfo.mHasCompositionLayer = true ∧
        d1.mClientCompositionInfo.mFirstIndex = min d.mClientCompositionInfo.mFirstIndex i ∧
        d1.mClientCompositionInfo.mLastIndex = max d.mClientCompositionInfo.mLastIndex i ∧
        ∀ (j : Nat) (l : ExynosLayer), d1.mClientCompositionInfo.mFirstIndex < j →
          (j : Int) < d1.mClientCompositionInfo.mLastIndex → d1.mLayers[j]? = some l →
          l.needClearClientTarget = false →
          l.getValidateCompositionType = HWC2_COMPOSITION_CLIENT) ∧
    (∀ (env : ResourceOracle) (d : ExynosDisplay) (l0 l1 l2 : ExynosLayer),
      d.mLayers = [l0, l1, l2] →
      d.mClientCompositionInfo.mHasCompositionLayer = false →
      d.mExynosCompositionInfo.mHasCompositionLayer = true →
      d.mExynosCompositionInfo.mFirstIndex = 1 →
      d.mExynosCompositionInfo.mLastIndex = 1 →
      l1.getValidateCompositionType = HWC2_COMPOSITION_EXYNOS →
      l1.needClearClientTarget = false →
      l0.getValidateCompositionType ≠ HWC2_COMPOSITION_EXYNOS →
      l2.getValidateCompositionType ≠ HWC2_COMPOSITION_EXYNOS →
      ∃ d1 d2 l, addClientCompositionLayer env d 0 = some (EXYNOS_ERROR_CHANGED, d1) ∧
        addClientCompositionLayer env d1 2 = some (EXYNOS_ERROR_CHANGED, d2) ∧
        d2.mLayers[1]? = some l ∧
        l.getValidateCompositionType = HWC2_COMPOSITION_CLIENT ∧
        d2.mClientCompositionInfo.mHasCompositionLayer = true ∧
        d2.mClientCompositionInfo.mFirstIndex = 0 ∧
        d2.mClientCompositionInfo.mLastIndex = 2 ∧
        d2.mExynosCompositionInfo.mHasCompositionLayer = false ∧
        d2.mExynosCompositionInfo.mFirstIndex = -1 ∧
        d2.mExynosCompositionInfo.mLastIndex = -1) := by
  constructor
  · intro env d i hn hhas h0 hfl hlast hi
    have hti : toInt32 i = (i : Int) := toInt32_of_lt (by omega)
    obtain ⟨ret, d1, d2, b, hcall, hrel, hcase⟩ := addClient_widen env d i hn hhas h0 hlast hi
    have hlayers : d1.mLayers = d2.mLayers := by
      rcases hcase with ⟨_, _, h⟩ | ⟨_, h⟩
      · rw [h]
      · have := (exynosRangeRecompute_frame env d2).1
        rw [← h] at this
        exact this
    have hclient : d1.mClientCompositionInfo = (widenClientRange d i).mClientCompositionInfo := by
      rcases hcase with ⟨_, _, h⟩ | ⟨_, h⟩
      · rw [h, hrel.client_eq]
      · have := (exynosRangeRecompute_frame env d2).2.1
        rw [← h] at this
        rw [this, hrel.client_eq]
    refine ⟨ret, d1, hcall, ?_, ?_, ?_, ?_⟩
    · rw [hclient]; exact hhas
    · rw [hclient]; simp [widenClientRange, hti]
    · rw [hclient]; simp [widenClientRange, hti]
    · intro j l h1 h2 h3 h4
      rw [hclient] at h1 h2
      simp only [widenClientRange, hti] at h1 h2
      rw [hlayers] at h3
      exact hrel.inside j l (by omega) (by omega) h3 h4
  · intro env d l0 l1 l2 hl hc he he1 he2 hv1 hn1 hv0 hv2
    have t0 : toInt32 0 = 0 := by decide
    have t2 : toInt32 2 = 2 := by decide
    have u0 : toUInt32 0 = 0 := by decide
    have u2 : toUInt32 2 = 2 := by decide
    have hv1' : l1.mValidateCompositionType = HWC2_COMPOSITION_EXYNOS := hv1
    have hEC : HWC2_COMPOSITION_EXYNOS ≠ HWC2_COMPOSITION_CLIENT := by decide
    have hCE : HWC2_COMPOSITION_CLIENT ≠ HWC2_COMPOSITION_EXYNOS := by decide
    have hv0' : l0.mValidateCompositionType ≠ HWC2_COMPOSITION_EXYNOS := hv0
    have hv2' : l2.mValidateCompositionType ≠ HWC2_COMPOSITION_EXYNOS := hv2
    have hfirst : addClientCompositionLayer env d 0 = some (EXYNOS_ERROR_CHANGED,
        { d with mClientCompositionInfo :=
            { d.mClientCompositionInfo with mFirstIndex := 0, mLastIndex := 0,
                                            mHasCompositionLayer := true } }) := by
      simp only [addClientCompositionLayer, hc, if_true, t0]
    refine ⟨{ d with mClientCompositionInfo :=
            { d.mClientCompositionInfo with mFirstIndex := 0, mLastIndex := 0,
                                            mHasCompositionLayer := true } }, ?_⟩
    simp only [hfirst, true_and]
    simp [addClientCompositionLayer, widenClientRange, t0, t2, u0, u2, sandwichedLoop,
        sandwichedStep, hl, hn1, hv1', hEC, hCE, exynosRangeRecompute, he1, he2, exynosRangeScan,
        ExynosLayer.getValidateCompositionType, ExynosLayer.updateValidateCompositionType,
        ExynosLayer.resetAssignedResource, hv0', hv2', ExynosCompositionInfo.initializeInfos]

/-- C1 (witness): the general part at the client range `[0,0]` of
`maxPriorityDisplay` with index 2, and the three-layer scenario at
`sandwichDisplay`. -/
theorem addClientCompositionLayer_sandwiched_witness :
    (∃ ret d1, addClientCompositionLayer permissiveOracle maxPriorityDisplay 2 =
        some (ret, d1) ∧
        d1.mClientCompositionInfo.mHasCompositionLayer = true ∧
        d1.mClientCompositionInfo.mFirstIndex =
          min maxPriorityDisplay.mClientCompositionInfo.mFirstIndex ((2 : Nat) : Int) ∧
        d1.mClientCompositionInfo.mLastIndex =
          max maxPriorityDisplay.mClientCompositionInfo.mLastIndex ((2 : Nat) : Int) ∧
        ∀ (j : Nat) (l : ExynosLayer), d1.mClientCompositionInfo.mFirstIndex < j →
          (j : Int) < d1.mClientCompositionInfo.mLastIndex → d1.mLayers[j]? = some l →
          l.needClearClientTarget = false →
          l.getValidateCompositionType = HWC2_COMPOSITION_CLIENT) ∧
    (∃ d1 d2 l,
        addClientCompositionLayer permissiveOracle sandwichDisplay 0 =
          some (EXYNOS_ERROR_CHANGED, d1) ∧
        addClientCompositionLayer permissiveOracle d1 2 = some (EXYNOS_ERROR_CHANGED, d2) ∧
        d2.mLayers[1]? = some l ∧
        l.getValidateCompositionType = HWC2_COMPOSITION_CLIENT ∧
        d2.mClientCompositionInfo.mHasCompositionLayer = true ∧
        d2.mClientCompositionInfo.mFirstIndex = 0 ∧
        d2.mClientCompositionInfo.mLastIndex = 2 ∧
        d2.mExynosCompositionInfo.mHasCompositionLayer = false ∧
        d2.mExynosCompositionInfo.mFirstIndex = -1 ∧
        d2.mExynosCompositionInfo.mLastIndex = -1) :=
  ⟨addClientCompositionLayer_sandwiched.1 permissiveOracle maxPriorityDisplay 2
      (by decide) (by decide) (by decide) (by decide) (by decide) (by decide),
   addClientCompositionLayer_sandwiched.2 permissiveOracle sandwichDisplay _ _ _
      rfl rfl rfl rfl rfl (by decide) (by decide) (by decide) (by decide)⟩

/-! ## Range invariant and max-priority exclusivity: the failing input -/

/-- C2 (range-validity invariant), the code at the failing input: both ranges of
`maxPriorityDisplay` are well formed and index 2 is in bounds, yet
`addExynosCompositionLayer` returns the non-negative `EXYNOS_ERROR_CHANGED` and
leaves the secondary range `[1,1]` with `mHasCompositionLayer` false, which is
neither empty nor a flagged in-bounds range. -/
theorem addExynosCompositionLayer_range_invariant_broken :
    maxPriorityDisplay.mClientCompositionInfo.rangeValid maxPriorityDisplay.mLayers.length ∧
    maxPriorityDisplay.mExynosCompositionInfo.rangeValid maxPriorityDisplay.mLayers.length ∧
    2 < maxPriorityDisplay.mLayers.length ∧
    ∃ d1, addExynosCompositionLayer permissiveOracle maxPriorityDisplay 2 =
        some (EXYNOS_ERROR_CHANGED, d1) ∧
      0 ≤ EXYNOS_ERROR_CHANGED ∧
      d1.mClientCompositionInfo.rangeValid d1.mLayers.length ∧
      ¬ d1.mExynosCompositionInfo.rangeValid d1.mLayers.length := by
  refine ⟨by decide, by decide, by decide, _, rfl, by decide, by decide, by decide⟩

/-- C5 (max-priority exclusivity), the code at the failing input: with the
combined secondary resource, the tentative secondary range `[1,2]` of
`maxPriorityDisplay` holds the max-priority layer 1 alongside layer 2; the call
returns `EXYNOS_ERROR_CHANGED` (no error), the secondary range is `[1,1]`, layer
1 is validated as EXYNOS, layer 2 is validated as CLIENT inside the client
range `[0,2]`, but `mHasCompositionLayer` of the secondary composition is
false. -/
theorem addExynosCompositionLayer_max_priority_flag_lost :
    maxPriorityDisplay.mExynosCompositionInfo.mM2mMPP = some comboMPP ∧
    comboMPP.mLogicalType = MPP_LOGICAL_G2D_COMBO ∧
    (maxPriorityDisplay.mLayers.map (fun l => l.mOverlayPriority)) = [0, ePriorityMax, 0] ∧
    ∃ d1, addExynosCompositionLayer permissiveOracle maxPriorityDisplay 2 =
        some (EXYNOS_ERROR_CHANGED, d1) ∧
      d1.mExynosCompositionInfo.mFirstIndex = 1 ∧
      d1.mExynosCompositionInfo.mLastIndex = 1 ∧
      d1.mLayers.map (fun l => l.getValidateCompositionType) =
        [HWC2_COMPOSITION_CLIENT, HWC2_COMPOSITION_EXYNOS, HWC2_COMPOSITION_CLIENT] ∧
      d1.mClientCompositionInfo.mHasCompositionLayer = true ∧
      d1.mClientCompositionInfo.mFirstIndex = 0 ∧
      d1.mClientCompositionInfo.mLastIndex = 2 ∧
      d1.mExynosCompositionInfo.mHasCompositionLayer = false := by
  refine ⟨rfl, rfl, rfl, _, rfl, rfl, rfl, rfl, rfl, rfl, rfl, rfl⟩

/-! ## `removeClientCompositionLayer` -/

/-- C3 (round trip), counterexample: on the display with no layers composed and
no resource assigned to the client composition, `addClientCompositionLayer 0`
returns Changed, but the following `removeClientCompositionLayer 0` returns
`-EINVAL` and the range stays `[0,0]` with the flag set. -/
theorem roundtrip_fails_without_resource :
    sandwichDisplay.mClientCompositionInfo.mHasCompositionLayer = false ∧
    ∃ d1, addClientCompositionLayer permissiveOracle sandwichDisplay 0 =
        some (EXYNOS_ERROR_CHANGED, d1) ∧
      (removeClientCompositionLayer permissiveOracle d1 0).1 = -EINVAL ∧
      (removeClientCompositionLayer permissiveOracle d1 0).2.mClientCompositionInfo.mHasCompositionLayer
        = true ∧
      (removeClientCompositionLayer permissiveOracle d1 0).2.mClientCompositionInfo.mFirstIndex = 0 ∧
      (removeClientCompositionLayer permissiveOracle d1 0).2.mClientCompositionInfo.mLastIndex = 0 := by
  refine ⟨rfl, _, rfl, by decide, by decide, by decide, by decide⟩

/-- C3 (round trip), as amended: starting from an empty client range,
`addClientCompositionLayer i` returns Changed and yields the range `[i,i]`
(as `int32_t`); the following `removeClientCompositionLayer i` succeeds exactly
when a hardware resource is assigned to the client composition at that time
(`mOtfMPP = some mpp`), and then leaves `mHasCompositionLayer = false`,
`first = last = -1`, `mOtfMPP` cleared and `resetAssignedState` called on the
resource; with no resource assigned it returns `-EINVAL` and changes nothing. -/
theorem addClient_removeClient_roundtrip (env : ResourceOracle) (d : ExynosDisplay) (i : Nat)
    (hempty : d.mClientCompositionInfo.mHasCompositionLayer = false) :
    ∃ d1, addClientCompositionLayer env d i = some (EXYNOS_ERROR_CHANGED, d1) ∧
      d1.mClientCompositionInfo.mHasCompositionLayer = true ∧
      d1.mClientCompositionInfo.mFirstIndex = toInt32 i ∧
      d1.mClientCompositionInfo.mLastIndex = toInt32 i ∧
      d1.mClientCompositionInfo.mOtfMPP = d.mClientCompositionInfo.mOtfMPP ∧
      (∀ (mpp : ExynosMPP),
        (removeClientCompositionLayer env (d1.withClientOtfMPP (some mpp)) i).1 = NO_ERROR ∧
        (removeClientCompositionLayer env (d1.withClientOtfMPP (some mpp))
          i).2.mClientCompositionInfo.mHasCompositionLayer = false ∧
        (removeClientCompositionLayer env (d1.withClientOtfMPP (some mpp))
          i).2.mClientCompositionInfo.mFirstIndex = -1 ∧
        (removeClientCompositionLayer env (d1.withClientOtfMPP (some mpp))
          i).2.mClientCompositionInfo.mLastIndex = -1 ∧
        (removeClientCompositionLayer env (d1.withClientOtfMPP (some mpp))
          i).2.mClientCompositionInfo.mOtfMPP = none ∧
        (removeClientCompositionLayer env (d1.withClientOtfMPP (some mpp))
          i).2.resetAssignedStateCalls = mpp.mId :: d.resetAssignedStateCalls) ∧
      removeClientCompositionLayer env (d1.withClientOtfMPP none) i =
        (-EINVAL, d1.withClientOtfMPP none) := by
  refine ⟨{ d with mClientCompositionInfo :=
      { d.mClientCompositionInfo with mFirstIndex := toInt32 i, mLastIndex := toInt32 i,
                                      mHasCompositionLayer := true } },
    by simp only [addClientCompositionLayer, hempty, if_true], rfl, rfl, rfl, rfl, ?_, ?_⟩
  · intro mpp
    simp [removeClientCompositionLayer, ExynosCompositionInfo.initializeInfos,
      ExynosDisplay.withClientOtfMPP]
  · simp [removeClientCompositionLayer, ExynosDisplay.withClientOtfMPP]

/-- C3, the amended statement at a concrete input. -/
theorem addClient_removeClient_roundtrip_witness :
    sandwichDisplay.mClientCompositionInfo.mHasCompositionLayer = false ∧
    ∃ d1, addClientCompositionLayer permissiveOracle sandwichDisplay 0 =
        some (EXYNOS_ERROR_CHANGED, d1) ∧
      (removeClientCompositionLayer permissiveOracle (d1.withClientOtfMPP (some overlayMPP)) 0).1 =
        NO_ERROR := by
  obtain ⟨d1, h1, _, _, _, _, h2, _⟩ :=
    addClient_removeClient_roundtrip permissiveOracle sandwichDisplay 0 rfl
  exact ⟨rfl, d1, h1, (h2 overlayMPP).1⟩

/-- C4 (boundary-only removal): for a layer index `i` (below `2^31`, so that it
is its own `int32_t` value), `removeClientCompositionLayer i` returns `-EINVAL`
and leaves the whole display state unchanged when the client range is empty or
`i` is neither its first nor its last index; when `first < last` and `i` is the
first index the range becomes `[first+1, last]`, when `i` is the last index it
becomes `[first, last-1]`, both with `NO_ERROR` and the flag still set. -/
theorem removeClientCompositionLayer_boundary (env : ResourceOracle) (d : ExynosDisplay)
    (i : Nat) (hi : i < 2 ^ 31) :
    ((d.mClientCompositionInfo.mHasCompositionLayer = false ∨
        (d.mClientCompositionInfo.mFirstIndex ≠ i ∧ d.mClientCompositionInfo.mLastIndex ≠ i)) →
      removeClientCompositionLayer env d i = (-EINVAL, d) ∧ -EINVAL < 0) ∧
    (d.mClientCompositionInfo.mHasCompositionLayer = true →
      d.mClientCompositionInfo.mFirstIndex < d.mClientCompositionInfo.mLastIndex →
      d.mClientCompositionInfo.mFirstIndex = i →
      removeClientCompositionLayer env d i =
        (NO_ERROR, { d with mClientCompositionInfo :=
          { d.mClientCompositionInfo with
            mFirstIndex := d.mClientCompositionInfo.mFirstIndex + 1 } }) ∧
      (removeClientCompositionLayer env d i).2.mClientCompositionInfo.mHasCompositionLayer = true ∧
      (removeClientCompositionLayer env d i).2.mClientCompositionInfo.mFirstIndex =
        d.mClientCompositionInfo.mFirstIndex + 1 ∧
      (removeClientCompositionLayer env d i).2.mClientCompositionInfo.mLastIndex =
        d.mClientCompositionInfo.mLastIndex) ∧
    (d.mClientCompositionInfo.mHasCompositionLayer = true →
      d.mClientCompositionInfo.mFirstIndex < d.mClientCompositionInfo.mLastIndex →
      d.mClientCompositionInfo.mLastIndex = i →
      removeClientCompositionLayer env d i =
        (NO_ERROR, { d with mClientCompositionInfo :=
          { d.mClientCompositionInfo with
            mLastIndex := d.mClientCompositionInfo.mLastIndex - 1 } }) ∧
      (removeClientCompositionLayer env d i).2.mClientCompositionInfo.mHasCompositionLayer = true ∧
      (removeClientCompositionLayer env d i).2.mClientCompositionInfo.mFirstIndex =
        d.mClientCompositionInfo.mFirstIndex ∧
      (removeClientCompositionLayer env d i).2.mClientCompositionInfo.mLastIndex =
        d.mClientCompositionInfo.mLastIndex - 1) := by
  have hti : toInt32 i = (i : Int) := toInt32_of_lt hi
  refine ⟨?_, ?_, ?_⟩
  · intro h
    refine ⟨?_, by decide⟩
    unfold removeClientCompositionLayer
    simp only [hti]
    rw [if_pos h]
  · intro hhas hlt hfirst
    have hne : ¬ (d.mClientCompositionInfo.mHasCompositionLayer = false ∨
        (d.mClientCompositionInfo.mFirstIndex ≠ i ∧ d.mClientCompositionInfo.mLastIndex ≠ i)) := by
      rw [hhas]; simp [hfirst]
    have hfl : ¬ d.mClientCompositionInfo.mFirstIndex = d.mClientCompositionInfo.mLastIndex := by
      omega
    have hcall : removeClientCompositionLayer env d i =
        (NO_ERROR, { d with mClientCompositionInfo :=
          { d.mClientCompositionInfo with
            mFirstIndex := d.mClientCompositionInfo.mFirstIndex + 1 } }) := by
      unfold removeClientCompositionLayer
      simp only [hti]
      rw [if_neg hne, if_neg hfl, if_pos hfirst.symm]
    rw [hcall]
    exact ⟨rfl, hhas, rfl, rfl⟩
  · intro hhas hlt hlast
    have hne : ¬ (d.mClientCompositionInfo.mHasCompositionLayer = false ∨
        (d.mClientCompositionInfo.mFirstIndex ≠ i ∧ d.mClientCompositionInfo.mLastIndex ≠ i)) := by
      rw [hhas]; simp [hlast]
    have hfl : ¬ d.mClientCompositionInfo.mFirstIndex = d.mClientCompositionInfo.mLastIndex := by
      omega
    have hnf : ¬ ((i : Int) = d.mClientCompositionInfo.mFirstIndex) := by omega
    have hcall : removeClientCompositionLayer env d i =
        (NO_ERROR, { d with mClientCompositionInfo :=
          { d.mClientCompositionInfo with
            mLastIndex := d.mClientCompositionInfo.mLastIndex - 1 } }) := by
      unfold removeClientCompositionLayer
      simp only [hti]
      rw [if_neg hne, if_neg hfl, if_neg hnf]
    rw [hcall]
    exact ⟨rfl, hhas, rfl, rfl⟩

/-- C4 at a concrete input: removing the first index of the range `[1,2]`. -/
theorem removeClientCompositionLayer_boundary_witness :
    (1 : Nat) < 2 ^ 31 ∧
    (removeClientCompositionLayer permissiveOracle clientRangeDisplay 1).2.mClientCompositionInfo.mFirstIndex
      = 2 ∧
    (removeClientCompositionLayer permissiveOracle clientRangeDisplay 1).2.mClientCompositionInfo.mLastIndex
      = 2 :=
  ⟨by decide,
    ((removeClientCompositionLayer_boundary permissiveOracle clientRangeDisplay 1
      (by decide)).2.1 rfl (by decide) (by decide)).2.2.1,
    ((removeClientCompositionLayer_boundary permissiveOracle clientRangeDisplay 1
      (by decide)).2.1 rfl (by decide) (by decide)).2.2.2⟩

/-! ## `acceptDisplayChanges` -/

theorem getLayerCompositionType_congr (d d0 : ExynosDisplay) (i : Nat)
    (hl : d.mLayers[i]? = d0.mLayers[i]?)
    (hc : d.mClientCompositionInfo = d0.mClientCompositionInfo)
    (hs : d.cursorSupport = d0.cursorSupport) :
    getLayerCompositionTypeForValidationType d i =
      getLayerCompositionTypeForValidationType d0 i := by
  unfold getLayerCompositionTypeForValidationType
  rw [hl, hc, hs]

theorem acceptLoop_spec (d0 : ExynosDisplay) :
    ∀ (count i : Nat) (d : ExynosDisplay), i + count = d0.mLayers.length →
      d.mLayers.length = d0.mLayers.length →
      { d with mLayers := d0.mLayers } = d0 →
      (∀ j, j < i → d.mLayers[j]? = (d0.mLayers[j]?).map (acceptedLayer d0 j)) →
      (∀ j, i ≤ j → d.mLayers[j]? = d0.mLayers[j]?) →
      (acceptLoop count i d).mLayers.length = d0.mLayers.length ∧
      { acceptLoop count i d with mLayers := d0.mLayers } = d0 ∧
      ∀ j, (acceptLoop count i d).mLayers[j]? = (d0.mLayers[j]?).map (acceptedLayer d0 j) := by
  intro count
  induction count with
  | zero =>
    intro i d hi hlen hrest hlo hhi
    refine ⟨hlen, hrest, ?_⟩
    intro j
    show d.mLayers[j]? = _
    by_cases hj : j < i
    · exact hlo j hj
    · have h1 : d0.mLayers[j]? = none := List.getElem?_eq_none (by omega)
      rw [hhi j (by omega), h1]
      rfl
  | succ count ih =>
    intro i d hi hlen hrest hlo hhi
    have hilt : i < d.mLayers.length := by omega
    have hget : d.mLayers[i]? = some d.mLayers[i] := List.getElem?_eq_getElem hilt
    have hget0 : d0.mLayers[i]? = some d.mLayers[i] := by rw [← hhi i (le_refl _)]; exact hget
    have hc : d.mClientCompositionInfo = d0.mClientCompositionInfo := by
      have := congrArg ExynosDisplay.mClientCompositionInfo hrest
      exact this
    have hs : d.cursorSupport = d0.cursorSupport := by
      have := congrArg ExynosDisplay.cursorSupport hrest
      exact this
    have hty : getLayerCompositionTypeForValidationType d i =
        getLayerCompositionTypeForValidationType d0 i :=
      getLayerCompositionType_congr d d0 i (hhi i (le_refl _)) hc hs
    have hstep : acceptStep i d = d.setLayer i (acceptedLayer d0 i d.mLayers[i]) := by
      unfold acceptStep
      rw [hget]
      simp only [acceptedLayer, hty]
    simp only [acceptLoop]
    rw [hstep]
    apply ih (i + 1) _ (by omega)
    · simp [ExynosDisplay.setLayer, hlen]
    · simpa [ExynosDisplay.setLayer] using hrest
    · intro j hj
      by_cases hji : j = i
      · subst hji
        simp only [ExynosDisplay.setLayer]
        rw [List.getElem?_set_self hilt, hget0]
        rfl
      · simp only [ExynosDisplay.setLayer]
        rw [List.getElem?_set_ne (by omega)]
        exact hlo j (by omega)
    · intro j hj
      simp only [ExynosDisplay.setLayer]
      rw [List.getElem?_set_ne (by omega)]
      exact hhi j (by omega)

/-- C6 (state-machine legality), counterexample: while a frame is dropped
during a resolution switch, `acceptDisplayChanges` in rendering state None
returns `HWC2_ERROR_NONE`, not `HWC2_ERROR_NOT_VALIDATED`. -/
theorem acceptDisplayChanges_dropped_frame_returns_none :
    droppedFrameDisplay.mRenderingState ≠ RENDERING_STATE_VALIDATED ∧
    (acceptDisplayChanges droppedFrameDisplay).1 = HWC2_ERROR_NONE ∧
    (acceptDisplayChanges droppedFrameDisplay).1 ≠ HWC2_ERROR_NOT_VALIDATED := by
  refine ⟨by decide, rfl, by decide⟩

/-- C6 (state-machine legality), as amended: in every display state whose
rendering state is not Validated, `acceptDisplayChanges` leaves the whole display
state unchanged (every layer's composition type and exynos composition type, and
the rendering state); it returns `HWC2_ERROR_NOT_VALIDATED` unless the frame is
being dropped during a resolution switch, when it returns `HWC2_ERROR_NONE`. -/
theorem acceptDisplayChanges_not_validated (d : ExynosDisplay)
    (h : d.mRenderingState ≠ RENDERING_STATE_VALIDATED) :
    (acceptDisplayChanges d).2 = d ∧
    (d.mDropFrameDuringResSwitch = false →
      (acceptDisplayChanges d).1 = HWC2_ERROR_NOT_VALIDATED) ∧
    (d.mDropFrameDuringResSwitch = true → (acceptDisplayChanges d).1 = HWC2_ERROR_NONE) := by
  unfold acceptDisplayChanges
  cases hdrop : d.mDropFrameDuringResSwitch with
  | true => simp
  | false => simp [h]

/-- C6, the amended statement at a concrete input. -/
theorem acceptDisplayChanges_not_validated_witness :
    (acceptDisplayChanges { droppedFrameDisplay with mDropFrameDuringResSwitch := false }).1 =
      HWC2_ERROR_NOT_VALIDATED :=
  (acceptDisplayChanges_not_validated
    { droppedFrameDisplay with mDropFrameDuringResSwitch := false } (by decide)).2.1 rfl

/-- C7 (commit of the validated types), counterexample: in rendering state
Validated, while a frame is dropped during a resolution switch,
`acceptDisplayChanges` returns `HWC2_ERROR_NONE` but the rendering state stays
Validated and layer 0 keeps its live type DEVICE although it was validated as
client composition. -/
theorem acceptDisplayChanges_dropped_frame_commits_nothing :
    droppedValidatedDisplay.mRenderingState = RENDERING_STATE_VALIDATED ∧
    (acceptDisplayChanges droppedValidatedDisplay).1 = HWC2_ERROR_NONE ∧
    (acceptDisplayChanges droppedValidatedDisplay).2.mRenderingState ≠
      RENDERING_STATE_ACCEPTED_CHANGE ∧
    getLayerCompositionTypeForValidationType droppedValidatedDisplay 0 =
      HWC2_COMPOSITION_CLIENT ∧
    (acceptDisplayChanges droppedValidatedDisplay).2.mLayers.map (fun l => l.mCompositionType) =
      [HWC2_COMPOSITION_DEVICE] := by
  refine ⟨rfl, rfl, by decide, by decide, by decide⟩

/-- C7 (commit of the validated types), as amended: in rendering state
Validated.  With no frame being dropped during a resolution switch,
`acceptDisplayChanges` returns `HWC2_ERROR_NONE`, moves the rendering state to
AcceptedChange, and turns every layer `i` into the same layer with the live
composition type `getLayerCompositionTypeForValidationType i` (evaluated on the
state before the call) and the exynos composition type equal to its validated
type; nothing else in the display state changes.  With
`mDropFrameDuringResSwitch` set it returns `HWC2_ERROR_NONE` and changes
nothing. -/
theorem acceptDisplayChanges_validated (d : ExynosDisplay)
    (hv : d.mRenderingState = RENDERING_STATE_VALIDATED) :
    (d.mDropFrameDuringResSwitch = false →
      (acceptDisplayChanges d).1 = HWC2_ERROR_NONE ∧
      (acceptDisplayChanges d).2.mRenderingState = RENDERING_STATE_ACCEPTED_CHANGE ∧
      (acceptDisplayChanges d).2.mLayers.length = d.mLayers.length ∧
      (∀ (i : Nat) (l : ExynosLayer), d.mLayers[i]? = some l →
        (acceptDisplayChanges d).2.mLayers[i]? =
          some { l with mCompositionType := getLayerCompositionTypeForValidationType d i
                        mExynosCompositionType := l.getValidateCompositionType }) ∧
      { (acceptDisplayChanges d).2 with
        mLayers := d.mLayers, mRenderingState := d.mRenderingState } = d) ∧
    (d.mDropFrameDuringResSwitch = true →
      (acceptDisplayChanges d).1 = HWC2_ERROR_NONE ∧ (acceptDisplayChanges d).2 = d) := by
  refine ⟨fun hdrop => ?_, fun hdrop => ?_⟩
  swap
  · unfold acceptDisplayChanges
    rw [if_pos hdrop]
    exact ⟨rfl, rfl⟩
  obtain ⟨hlen, hrest, hlayers⟩ :=
    acceptLoop_spec d d.mLayers.length 0 d (by omega) rfl rfl (fun j hj => by omega)
      (fun _ _ => rfl)
  have hcall : acceptDisplayChanges d = (HWC2_ERROR_NONE,
      { acceptLoop d.mLayers.length 0 d with
        mRenderingState := RENDERING_STATE_ACCEPTED_CHANGE }) := by
    unfold acceptDisplayChanges
    simp [hv, hdrop]
  rw [hcall]
  refine ⟨rfl, rfl, hlen, ?_, ?_⟩
  · intro i l hl
    have := hlayers i
    rw [hl] at this
    exact this
  · have h2 : { acceptLoop d.mLayers.length 0 d with mLayers := d.mLayers }.mRenderingState =
        d.mRenderingState := congrArg ExynosDisplay.mRenderingState hrest
    have h3 : (acceptLoop d.mLayers.length 0 d).mRenderingState = d.mRenderingState := h2
    calc ({ ({ acceptLoop d.mLayers.length 0 d with
                mRenderingState := RENDERING_STATE_ACCEPTED_CHANGE } : ExynosDisplay) with
            mLayers := d.mLayers, mRenderingState := d.mRenderingState } : ExynosDisplay)
        = { acceptLoop d.mLayers.length 0 d with mLayers := d.mLayers } := by
          simp only [h3]
      _ = d := hrest

/-- C7, the amended statement at two concrete inputs: a validated display, and
a validated display whose frame is dropped. -/
theorem acceptDisplayChanges_validated_witness :
    (acceptDisplayChanges validatedDisplay).1 = HWC2_ERROR_NONE ∧
    (acceptDisplayChanges validatedDisplay).2.mRenderingState =
      RENDERING_STATE_ACCEPTED_CHANGE ∧
    (acceptDisplayChanges droppedValidatedDisplay).1 = HWC2_ERROR_NONE ∧
    (acceptDisplayChanges droppedValidatedDisplay).2 = droppedValidatedDisplay :=
  ⟨((acceptDisplayChanges_validated validatedDisplay rfl).1 rfl).1,
    ((acceptDisplayChanges_validated validatedDisplay rfl).1 rfl).2.1,
    ((acceptDisplayChanges_validated droppedValidatedDisplay rfl).2 rfl).1,
    ((acceptDisplayChanges_validated droppedValidatedDisplay rfl).2 rfl).2⟩

/-! ## Loops over the layer list -/

theorem layerLoop_inv (step : Nat → ExynosDisplay → Option ExynosDisplay)
    (P : Nat → ExynosDisplay → Prop) (n : Nat)
    (hstep : ∀ i d, i < n → P i d → ∃ d1, step i d = some d1 ∧ P (i + 1) d1) :
    ∀ (count i : Nat) (d : ExynosDisplay), i + count ≤ n → P i d →
      ∃ d1, layerLoop step count i d = some d1 ∧ P (i + count) d1 := by
  intro count
  induction count with
  | zero => intro i d _ hP; exact ⟨d, rfl, hP⟩
  | succ count ih =>
    intro i d hle hP
    obtain ⟨d1, h1, hP1⟩ := hstep i d (by omega) hP
    obtain ⟨d2, h2, hP2⟩ := ih (i + 1) d1 (by omega) hP1
    refine ⟨d2, ?_, ?_⟩
    · simp only [layerLoop, h1, h2]
    · have : i + 1 + count = i + (count + 1) := by omega
      rw [← this]; exact hP2

theorem toSizeT_of_nonneg {z : Int} (h0 : 0 ≤ z) (h1 : z < 2 ^ 64) : toSizeT z = z.toNat := by
  unfold toSizeT
  rw [Int.emod_eq_of_lt h0 h1]

/-! ## Static-layer skip stays inside the layer list -/

/-- The fields of the display that the static-layer skip leaves alone. -/
structure SkipFrame (d d1 : ExynosDisplay) : Prop where
  length_eq : d1.mLayers.length = d.mLayers.length
  has_eq : d1.mClientCompositionInfo.mHasCompositionLayer =
    d.mClientCompositionInfo.mHasCompositionLayer
  first_eq : d1.mClientCompositionInfo.mFirstIndex = d.mClientCompositionInfo.mFirstIndex
  last_eq : d1.mClientCompositionInfo.mLastIndex = d.mClientCompositionInfo.mLastIndex
  early_eq : d1.earlyStartMPP = d.earlyStartMPP

theorem SkipFrame.refl (d : ExynosDisplay) : SkipFrame d d := ⟨rfl, rfl, rfl, rfl, rfl⟩

theorem SkipFrame.trans {d d1 d2 : ExynosDisplay} (h1 : SkipFrame d d1) (h2 : SkipFrame d1 d2) :
    SkipFrame d d2 :=
  ⟨h2.length_eq.trans h1.length_eq, h2.has_eq.trans h1.has_eq, h2.first_eq.trans h1.first_eq,
    h2.last_eq.trans h1.last_eq, h2.early_eq.trans h1.early_eq⟩

theorem skipChangedLoop_some (d : ExynosDisplay) (c : ExynosCompositionInfo) (first : Nat)
    (hf : toSizeT c.mFirstIndex = first) :
    ∀ (count i : Nat), first ≤ i → i + count ≤ d.mLayers.length →
      i + count - first ≤ c.mSkipSrcInfo.srcInfo.length →
      i + count - first ≤ c.mSkipSrcInfo.dstInfo.length →
      ∃ b, skipChangedLoop d c count i = some b := by
  intro count
  induction count with
  | zero => intro i _ _ _ _; exact ⟨false, rfl⟩
  | succ count ih =>
    intro i hfi hlen hs hd
    have h1 : d.mLayers[i]? = some d.mLayers[i] := List.getElem?_eq_getElem (by omega)
    have h2 : c.mSkipSrcInfo.srcInfo[i - first]? = some c.mSkipSrcInfo.srcInfo[i - first] :=
      List.getElem?_eq_getElem (by omega)
    have h3 : c.mSkipSrcInfo.dstInfo[i - first]? = some c.mSkipSrcInfo.dstInfo[i - first] :=
      List.getElem?_eq_getElem (by omega)
    simp only [skipChangedLoop, hf, h1, h2, h3]
    split
    · exact ⟨true, rfl⟩
    · exact ih (i + 1) (by omega) (by omega) (by omega) (by omega)

theorem skipMarkLoop_some :
    ∀ (count i : Nat) (d : ExynosDisplay), i + count ≤ d.mLayers.length →
      (∃ d1, skipMarkLoop count i d = some (Flow.next d1) ∧ SkipFrame d d1) ∨
      (∃ r d1, skipMarkLoop count i d = some (Flow.ret r d1) ∧ SkipFrame d d1) := by
  intro count
  induction count with
  | zero => intro i d _; exact Or.inl ⟨d, rfl, SkipFrame.refl d⟩
  | succ count ih =>
    intro i d hlen
    have h1 : d.mLayers[i]? = some d.mLayers[i] := List.getElem?_eq_getElem (by omega)
    simp only [skipMarkLoop, h1]
    split
    · have hfr : SkipFrame d (d.setLayer i
          { d.mLayers[i] with mOverlayInfo := d.mLayers[i].mOverlayInfo ||| eSkipStaticLayer }) :=
        ⟨by simp [ExynosDisplay.setLayer], rfl, rfl, rfl, rfl⟩
      rcases ih (i + 1) (d.setLayer i
          { d.mLayers[i] with mOverlayInfo := d.mLayers[i].mOverlayInfo ||| eSkipStaticLayer })
          (by rw [hfr.length_eq]; omega) with ⟨d1, h, hf⟩ | ⟨r, d1, h, hf⟩
      · exact Or.inl ⟨d1, h, hfr.trans hf⟩
      · exact Or.inr ⟨r, d1, h, hfr.trans hf⟩
    · split
      · exact Or.inr ⟨_, _, rfl, ⟨rfl, rfl, rfl, rfl, rfl⟩⟩
      · exact Or.inr ⟨_, _, rfl, ⟨rfl, rfl, rfl, rfl, rfl⟩⟩

theorem skipCacheLoop_some (first : Nat) :
    ∀ (count i : Nat) (d : ExynosDisplay), first ≤ i → i + count ≤ d.mLayers.length →
      i + count - first ≤ d.mClientCompositionInfo.mSkipSrcInfo.srcInfo.length →
      i + count - first ≤ d.mClientCompositionInfo.mSkipSrcInfo.dstInfo.length →
      ∃ d1, skipCacheLoop first count i d = some d1 ∧ SkipFrame d d1 := by
  intro count
  induction count with
  | zero => intro i d _ _ _ _; exact ⟨d, rfl, SkipFrame.refl d⟩
  | succ count ih =>
    intro i d hfi hlen hs hd
    have h1 : d.mLayers[i]? = some d.mLayers[i] := List.getElem?_eq_getElem (by omega)
    have hin : i - first < d.mClientCompositionInfo.mSkipSrcInfo.srcInfo.length ∧
        i - first < d.mClientCompositionInfo.mSkipSrcInfo.dstInfo.length := by
      constructor <;> omega
    simp only [skipCacheLoop, h1, if_pos hin]
    obtain ⟨d1, h, hf⟩ := ih (i + 1)
      { d with mClientCompositionInfo :=
          { d.mClientCompositionInfo with mSkipSrcInfo :=
              { d.mClientCompositionInfo.mSkipSrcInfo with
                srcInfo := d.mClientCompositionInfo.mSkipSrcInfo.srcInfo.set (i - first)
                  d.mLayers[i].mSrcImg
                dstInfo := d.mClientCompositionInfo.mSkipSrcInfo.dstInfo.set (i - first)
                  d.mLayers[i].mDstImg } } }
      (by omega) (show i + 1 + count ≤ d.mLayers.length by omega) (by simp; omega)
      (by simp; omega)
    exact ⟨d1, h, ⟨hf.length_eq, hf.has_eq, hf.first_eq, hf.last_eq, hf.early_eq⟩⟩


theorem skipStaticLayers_some (d : ExynosDisplay) (hsafe : d.validateSafe) :
    ∃ ret d3, skipStaticLayers d = some (ret, d3) ∧ SkipFrame d d3 := by
  obtain ⟨hn, hrange, hsrc, hdst⟩ := hsafe
  unfold skipStaticLayers
  dsimp only
  by_cases h1 : d.mClientCompositionInfo.mType ≠ COMPOSITION_CLIENT
  · rw [if_pos h1]; exact ⟨_, _, rfl, ⟨rfl, rfl, rfl, rfl, rfl⟩⟩
  rw [if_neg h1]
  by_cases h2 : d.exynosHWCControl.skipStaticLayers = 0 ∨
      d.mClientCompositionInfo.mEnableSkipStatic = false
  · rw [if_pos h2]; exact ⟨_, _, rfl, ⟨rfl, rfl, rfl, rfl, rfl⟩⟩
  rw [if_neg h2]
  by_cases h3 : d.mClientCompositionInfo.mHasCompositionLayer = false ∨
      d.mClientCompositionInfo.mFirstIndex < 0 ∨ d.mClientCompositionInfo.mLastIndex < 0 ∨
      d.mClientCompositionInfo.mLastIndex - d.mClientCompositionInfo.mFirstIndex + 1 >
        NUM_SKIP_STATIC_LAYER
  · rw [if_pos h3]; exact ⟨_, _, rfl, ⟨rfl, rfl, rfl, rfl, rfl⟩⟩
  rw [if_neg h3]
  have hhas : d.mClientCompositionInfo.mHasCompositionLayer = true := by
    cases h : d.mClientCompositionInfo.mHasCompositionLayer with
    | true => rfl
    | false => exact absurd (Or.inl h) h3
  obtain ⟨hf0, hfl, hll⟩ := hrange hhas
  have hcnt : d.mClientCompositionInfo.mLastIndex - d.mClientCompositionInfo.mFirstIndex + 1 ≤ 5 := by
    have : ¬ (d.mClientCompositionInfo.mLastIndex - d.mClientCompositionInfo.mFirstIndex + 1 >
        NUM_SKIP_STATIC_LAYER) := fun h => h3 (Or.inr (Or.inr (Or.inr h)))
    unfold NUM_SKIP_STATIC_LAYER at this
    omega
  have hsF : toSizeT d.mClientCompositionInfo.mFirstIndex =
      d.mClientCompositionInfo.mFirstIndex.toNat := toSizeT_of_nonneg hf0 (by omega)
  have hsL : toSizeT d.mClientCompositionInfo.mLastIndex =
      d.mClientCompositionInfo.mLastIndex.toNat := toSizeT_of_nonneg (by omega) (by omega)
  have hcount : sizeLoopCount d.mClientCompositionInfo.mFirstIndex
      d.mClientCompositionInfo.mLastIndex =
      d.mClientCompositionInfo.mLastIndex.toNat + 1 - d.mClientCompositionInfo.mFirstIndex.toNat := by
    unfold sizeLoopCount; rw [hsF, hsL]
  rw [hcount, hsF]
  by_cases h4 : d.mClientCompositionInfo.mSkipStaticInitFlag = true
  · rw [if_pos h4]
    have hchanged : ∃ b, skipStaticLayerChanged
        { d with mClientCompositionInfo := { d.mClientCompositionInfo with mSkipFlag := false } }
        { d.mClientCompositionInfo with mSkipFlag := false } = some b := by
      unfold skipStaticLayerChanged
      dsimp only
      split
      · exact ⟨true, rfl⟩
      · rw [hcount, hsF]
        exact skipChangedLoop_some
          { d with mClientCompositionInfo := { d.mClientCompositionInfo with mSkipFlag := false } }
          { d.mClientCompositionInfo with mSkipFlag := false }
          d.mClientCompositionInfo.mFirstIndex.toNat hsF
          (d.mClientCompositionInfo.mLastIndex.toNat + 1 -
            d.mClientCompositionInfo.mFirstIndex.toNat)
          d.mClientCompositionInfo.mFirstIndex.toNat
          (le_refl _) (by show _ ≤ d.mLayers.length; omega)
          (by show _ ≤ d.mClientCompositionInfo.mSkipSrcInfo.srcInfo.length; omega)
          (by show _ ≤ d.mClientCompositionInfo.mSkipSrcInfo.dstInfo.length; omega)
    obtain ⟨b, hb⟩ := hchanged
    rw [hb]
    cases b with
    | true => exact ⟨_, _, rfl, ⟨rfl, rfl, rfl, rfl, rfl⟩⟩
    | false =>
      dsimp only
      rcases skipMarkLoop_some
          (d.mClientCompositionInfo.mLastIndex.toNat + 1 -
            d.mClientCompositionInfo.mFirstIndex.toNat)
          d.mClientCompositionInfo.mFirstIndex.toNat
          { d with mClientCompositionInfo := { d.mClientCompositionInfo with mSkipFlag := false } }
          (by show _ ≤ d.mLayers.length; omega) with ⟨d1, h, hf⟩ | ⟨r, d1, h, hf⟩
      · rw [h]
        exact ⟨_, _, rfl, ⟨hf.length_eq, hf.has_eq, hf.first_eq, hf.last_eq, hf.early_eq⟩⟩
      · rw [h]
        exact ⟨_, _, rfl, ⟨hf.length_eq, hf.has_eq, hf.first_eq, hf.last_eq, hf.early_eq⟩⟩
  · rw [if_neg h4]
    obtain ⟨d1, h, hf⟩ := skipCacheLoop_some d.mClientCompositionInfo.mFirstIndex.toNat
      (d.mClientCompositionInfo.mLastIndex.toNat + 1 - d.mClientCompositionInfo.mFirstIndex.toNat)
      d.mClientCompositionInfo.mFirstIndex.toNat
      { d with mClientCompositionInfo :=
          { ({ d.mClientCompositionInfo with mSkipFlag := false } : ExynosCompositionInfo) with
            mSkipStaticInitFlag := true
            mSkipSrcInfo := { srcNum := 0, srcInfo := blankSnapshot, dstInfo := blankSnapshot } } }
      (le_refl _) (by show _ ≤ d.mLayers.length; omega)
      (by show _ ≤ blankSnapshot.length; simp [blankSnapshot, NUM_SKIP_STATIC_LAYER]; omega)
      (by show _ ≤ blankSnapshot.length; simp [blankSnapshot, NUM_SKIP_STATIC_LAYER]; omega)
    rw [h]
    exact ⟨_, _, rfl, ⟨hf.length_eq, hf.has_eq, hf.first_eq, hf.last_eq, hf.early_eq⟩⟩


/-! ## Geometry flags -/

theorem or_and_self_eq (g b : Nat) : (g ||| b) &&& b = b := by
  apply Nat.eq_of_testBit_eq
  intro i
  simp only [Nat.testBit_and, Nat.testBit_or]
  cases g.testBit i <;> cases b.testBit i <;> rfl

theorem or_keeps_flag (g b c : Nat) (h : g &&& b = b) : (g ||| c) &&& b = b := by
  apply Nat.eq_of_testBit_eq
  intro i
  have hi := congrArg (fun x => x.testBit i) h
  simp only [Nat.testBit_and, Nat.testBit_or] at hi ⊢
  cases hg : g.testBit i <;> cases hb : b.testBit i <;> cases hc : c.testBit i <;>
    simp_all

/-! ## The reporting part of `validateDisplay` -/

theorem toInt32_le (n : Nat) : toInt32 n ≤ (n : Int) := by
  unfold toInt32
  have h := Nat.mod_le n (2 ^ 32)
  split <;> omega

theorem countClearRequests_some (d : ExynosDisplay) :
    ∀ (count : Nat) (i : Int) (k : Nat), 0 ≤ i → i + count ≤ d.mLayers.length →
      ∃ r, countClearRequests d count i k = some r := by
  intro count
  induction count with
  | zero => intro i k _ _; exact ⟨k, rfl⟩
  | succ count ih =>
    intro i k h0 hle
    have hlt : i.toNat < d.mLayers.length := by omega
    have hget : d.layerAt i = some d.mLayers[i.toNat] := by
      unfold ExynosDisplay.layerAt
      rw [if_pos h0]
      exact List.getElem?_eq_getElem hlt
    simp only [countClearRequests, hget]
    exact ih (i + 1) _ (by omega) (by push_cast at hle ⊢; omega)

theorem getDisplayRequests_some (d : ExynosDisplay) : ∃ r, getDisplayRequests d = some r := by
  unfold getDisplayRequests
  dsimp only
  split
  · exact ⟨_, rfl⟩
  · split
    · split
      · exact ⟨_, rfl⟩
      · rename_i hchk
        have hle := toInt32_le d.mLayers.length
        obtain ⟨r, hr⟩ := countClearRequests_some d
          (d.mClientCompositionInfo.mLastIndex - d.mClientCompositionInfo.mFirstIndex).toNat
          d.mClientCompositionInfo.mFirstIndex 0 (by omega) (by omega)
        rw [hr]
        exact ⟨_, rfl⟩
    · exact ⟨_, rfl⟩

/-- What the reporting part of `validateDisplay` keeps of the state it is given
and how it chooses the return code. -/
theorem validateReport_spec (d7 : ExynosDisplay) (numTypes0 : Nat) :
    ∃ r, validateReport d7 numTypes0 = some r ∧
      r.display.mRenderingState = d7.mRenderingState ∧
      r.display.mLayers.map (fun l => l.mValidateCompositionType) =
        d7.mLayers.map (fun l => l.mValidateCompositionType) ∧
      r.display.mClientCompositionInfo.mHasCompositionLayer =
        d7.mClientCompositionInfo.mHasCompositionLayer ∧
      r.display.mClientCompositionInfo.mFirstIndex = d7.mClientCompositionInfo.mFirstIndex ∧
      r.display.mClientCompositionInfo.mLastIndex = d7.mClientCompositionInfo.mLastIndex ∧
      r.display.mExynosCompositionInfo = d7.mExynosCompositionInfo ∧
      (d7.mGeometryChanged &&& GEOMETRY_ERROR_CASE = GEOMETRY_ERROR_CASE →
        r.display.mGeometryChanged &&& GEOMETRY_ERROR_CASE = GEOMETRY_ERROR_CASE) ∧
      (r.ret = HWC2_ERROR_NONE ↔ (r.outNumTypes = 0 ∧ r.outNumRequests = 0)) ∧
      (r.ret = HWC2_ERROR_NONE ∨ r.ret = HWC2_ERROR_HAS_CHANGES) := by
  unfold validateReport
  dsimp only
  obtain ⟨req, hreq⟩ := getDisplayRequests_some
    (if (getChangedCompositionTypes (storePrevValidateCompositionType d7) numTypes0).1 ≠ NO_ERROR
      then (storePrevValidateCompositionType d7).setGeometryChanged GEOMETRY_ERROR_CASE
      else storePrevValidateCompositionType d7)
  rw [hreq]
  dsimp only
  have hmap : (storePrevValidateCompositionType d7).mLayers.map
      (fun l => l.mValidateCompositionType) = d7.mLayers.map (fun l => l.mValidateCompositionType) := by
    simp [storePrevValidateCompositionType, List.map_map, Function.comp_def]
  have hgeo : ∀ (x : ExynosDisplay) (p q : Prop) [Decidable p] [Decidable q],
      x.mGeometryChanged = d7.mGeometryChanged →
      d7.mGeometryChanged &&& GEOMETRY_ERROR_CASE = GEOMETRY_ERROR_CASE →
      (if q then (if p then x.setGeometryChanged GEOMETRY_ERROR_CASE
          else x).setGeometryChanged GEOMETRY_ERROR_CASE
        else (if p then x.setGeometryChanged GEOMETRY_ERROR_CASE else x)).mGeometryChanged &&&
        GEOMETRY_ERROR_CASE = GEOMETRY_ERROR_CASE := by
    intro x p q _ _ hx h
    by_cases hp : p <;> by_cases hq : q <;>
      simp only [hp, hq, if_true, if_false, ExynosDisplay.setGeometryChanged, hx] <;>
      first
        | exact h
        | exact or_keeps_flag _ _ _ h
        | exact or_keeps_flag _ _ _ (or_keeps_flag _ _ _ h)
  split
  · rename_i hz
    refine ⟨_, rfl, ?_, ?_, ?_, ?_, ?_, ?_, ?_, ?_, Or.inl rfl⟩
    · split_ifs <;> rfl
    · split_ifs <;> exact hmap
    · split_ifs <;> rfl
    · split_ifs <;> rfl
    · split_ifs <;> rfl
    · split_ifs <;> rfl
    · intro h; exact hgeo _ _ _ rfl h
    · exact ⟨fun _ => hz, fun _ => rfl⟩
  · rename_i hz
    refine ⟨_, rfl, ?_, ?_, ?_, ?_, ?_, ?_, ?_, ?_, Or.inr rfl⟩
    · split_ifs <;> rfl
    · split_ifs <;> exact hmap
    · split_ifs <;> rfl
    · split_ifs <;> rfl
    · split_ifs <;> rfl
    · split_ifs <;> rfl
    · intro h; exact hgeo _ _ _ rfl h
    · constructor
      · intro h
        exact absurd h (show HWC2_ERROR_HAS_CHANGES ≠ HWC2_ERROR_NONE by decide)
      · intro h; exact absurd h hz


/-! ## The recovery block of `validateDisplay` -/

/-- With an empty secondary range, `addClientCompositionLayer` on a non-empty
in-bounds client range only widens the range and runs the sandwiched loop. -/
theorem addClient_widen_exynos_empty (env : ResourceOracle) (d : ExynosDisplay) (i : Nat)
    (hn : d.mLayers.length < 2 ^ 31)
    (hhas : d.mClientCompositionInfo.mHasCompositionLayer = true)
    (h0 : 0 ≤ d.mClientCompositionInfo.mFirstIndex)
    (hlast : d.mClientCompositionInfo.mLastIndex < d.mLayers.length)
    (hi : i < d.mLayers.length)
    (he : d.mExynosCompositionInfo.mFirstIndex < 0) :
    ∃ ret d1, addClientCompositionLayer env d i = some (ret, d1) ∧
      SandwichedRel ((min d.mClientCompositionInfo.mFirstIndex i).toNat + 1)
        (max d.mClientCompositionInfo.mLastIndex i).toNat (widenClientRange d i) d1 := by
  obtain ⟨ret, d1, d2, b, hcall, hrel, hcase⟩ := addClient_widen env d i hn hhas h0 hlast hi
  rcases hcase with ⟨_, _, h⟩ | ⟨_, h⟩
  · exact ⟨ret, d1, hcall, h ▸ hrel⟩
  · have he2 : d2.mExynosCompositionInfo.mFirstIndex < 0 := by
      rw [hrel.exynos_eq]; exact he
    have hrec : exynosRangeRecompute env d2 = (-EINVAL, d2) := by
      unfold exynosRangeRecompute
      dsimp only
      rw [if_pos (Or.inl he2)]
    rw [hrec] at h
    have hd : d1 = d2 := (Prod.mk.inj h).2
    exact ⟨ret, d1, hcall, hd ▸ hrel⟩

/-- The invariant of the recovery loop after `i` iterations over `n` layers. -/
structure RecoveryInv (n : Nat) (st : rendering_state) (g : Nat) (e : ExynosCompositionInfo)
    (i : Nat) (d : ExynosDisplay) : Prop where
  length_eq : d.mLayers.length = n
  state_eq : d.mRenderingState = st
  geometry_eq : d.mGeometryChanged = g
  exynos_eq : d.mExynosCompositionInfo = e
  forced : ∀ (j : Nat) (l : ExynosLayer), j < i → d.mLayers[j]? = some l →
    l.mValidateCompositionType = HWC2_COMPOSITION_CLIENT
  empty : i = 0 → d.mClientCompositionInfo.mHasCompositionLayer = false
  range : 0 < i → d.mClientCompositionInfo.mHasCompositionLayer = true ∧
    d.mClientCompositionInfo.mFirstIndex = 0 ∧
    d.mClientCompositionInfo.mLastIndex = (i : Int) - 1

theorem forceClientStep_inv (env : ResourceOracle) (n : Nat) (hn : n < 2 ^ 31)
    (st : rendering_state) (g : Nat) (e : ExynosCompositionInfo) (he : e.mFirstIndex < 0)
    (i : Nat) (d : ExynosDisplay) (hi : i < n) (hP : RecoveryInv n st g e i d) :
    ∃ d1, forceClientStep env i d = some d1 ∧ RecoveryInv n st g e (i + 1) d1 := by
  have hilt : i < d.mLayers.length := by rw [hP.length_eq]; exact hi
  have hget : d.mLayers[i]? = some d.mLayers[i] := List.getElem?_eq_getElem hilt
  have hti : toInt32 i = (i : Int) := toInt32_of_lt (by omega)
  unfold forceClientStep
  rw [hget]
  dsimp only
  generalize hd' : d.setLayer i (d.mLayers[i].updateValidateCompositionType
    HWC2_COMPOSITION_CLIENT eResourceAssignFail) = d'
  have hlen' : d'.mLayers.length = n := by
    rw [← hd']; simp [ExynosDisplay.setLayer, hP.length_eq]
  have hclient' : d'.mClientCompositionInfo = d.mClientCompositionInfo := by rw [← hd']; rfl
  have hexy' : d'.mExynosCompositionInfo = e := by rw [← hd']; exact hP.exynos_eq
  have hst' : d'.mRenderingState = st := by rw [← hd']; exact hP.state_eq
  have hg' : d'.mGeometryChanged = g := by rw [← hd']; exact hP.geometry_eq
  have hforced' : ∀ (j : Nat) (l : ExynosLayer), j < i + 1 → d'.mLayers[j]? = some l →
      l.mValidateCompositionType = HWC2_COMPOSITION_CLIENT := by
    intro j l hj hl
    rw [← hd'] at hl
    simp only [ExynosDisplay.setLayer] at hl
    by_cases hji : j = i
    · subst hji
      rw [List.getElem?_set_self hilt] at hl
      cases hl
      rfl
    · rw [List.getElem?_set_ne (by omega)] at hl
      exact hP.forced j l (by omega) hl
  by_cases hi0 : i = 0
  · have hempty : d'.mClientCompositionInfo.mHasCompositionLayer = false := by
      rw [hclient']; exact hP.empty hi0
    have hcall : addClientCompositionLayer env d' i = some (EXYNOS_ERROR_CHANGED,
        { d' with mClientCompositionInfo :=
          { d'.mClientCompositionInfo with mFirstIndex := toInt32 i, mLastIndex := toInt32 i,
                                           mHasCompositionLayer := true } }) := by
      simp only [addClientCompositionLayer, hempty, if_true]
    rw [hcall]
    refine ⟨_, rfl, ⟨hlen', hst', hg', hexy', hforced', fun h => by omega, fun _ => ?_⟩⟩
    refine ⟨rfl, ?_, ?_⟩
    · show toInt32 i = 0
      rw [hti, hi0]; rfl
    · show toInt32 i = ((i + 1 : Nat) : Int) - 1
      rw [hti]; omega
  · obtain ⟨hhas, hfirst, hlast⟩ := hP.range (by omega)
    obtain ⟨ret, d1, hcall, hrel⟩ := addClient_widen_exynos_empty env d' i
      (by rw [hlen']; exact hn) (by rw [hclient']; exact hhas)
      (by rw [hclient', hfirst]) (by rw [hclient', hlast, hlen']; omega)
      (by rw [hlen']; exact hi) (by rw [hexy']; exact he)
    rw [hcall]
    have hw : (widenClientRange d' i).mClientCompositionInfo.mHasCompositionLayer = true ∧
        (widenClientRange d' i).mClientCompositionInfo.mFirstIndex = 0 ∧
        (widenClientRange d' i).mClientCompositionInfo.mLastIndex = ((i + 1 : Nat) : Int) - 1 := by
      simp only [widenClientRange, hclient', hti, hfirst, hlast]
      refine ⟨hhas, ?_, ?_⟩ <;> omega
    refine ⟨d1, rfl, ⟨hrel.length_eq.trans hlen', hrel.state_eq.trans hst',
      hrel.geometry_eq.trans hg', hrel.exynos_eq.trans hexy', ?_, fun h => by omega,
      fun _ => by rw [hrel.client_eq]; exact hw⟩⟩
    intro j l hj hl
    have hjlt : j < d'.mLayers.length := by rw [hlen']; omega
    obtain ⟨l1, h1, h2⟩ := hrel.client_stays j d'.mLayers[j]
      (List.getElem?_eq_getElem hjlt) (hforced' j _ hj (List.getElem?_eq_getElem hjlt))
    rw [hl] at h1
    cases h1
    exact h2

/-- The recovery block returns, forces every layer to client composition, makes
the client range cover the whole layer list, empties the secondary range and
sets `GEOMETRY_ERROR_CASE`. -/
theorem validateRecovery_spec (env : ResourceOracle) (venv : ValidateOracle)
    (d : ExynosDisplay) (hbound : (recoveryStart env venv d).mLayers.length < 2 ^ 31) :
    ∃ d7, validateRecovery env venv d = some d7 ∧
      d7.mRenderingState = d.mRenderingState ∧
      (∀ (j : Nat) (l : ExynosLayer), d7.mLayers[j]? = some l →
        l.mValidateCompositionType = HWC2_COMPOSITION_CLIENT) ∧
      (d7.mLayers ≠ [] → d7.mClientCompositionInfo.mHasCompositionLayer = true ∧
        d7.mClientCompositionInfo.mFirstIndex = 0 ∧
        d7.mClientCompositionInfo.mLastIndex = (d7.mLayers.length : Int) - 1) ∧
      d7.mExynosCompositionInfo.mHasCompositionLayer = false ∧
      d7.mExynosCompositionInfo.mFirstIndex = -1 ∧
      d7.mExynosCompositionInfo.mLastIndex = -1 ∧
      d7.mGeometryChanged &&& GEOMETRY_ERROR_CASE = GEOMETRY_ERROR_CASE := by
  unfold validateRecovery
  dsimp only
  generalize hd4 : recoveryStart env venv d = d4
  have hlen4 : d4.mLayers.length < 2 ^ 31 := by rw [← hd4]; exact hbound
  have hst4 : d4.mRenderingState = d.mRenderingState := by rw [← hd4]; rfl
  have hg4 : d4.mGeometryChanged = d.mGeometryChanged ||| GEOMETRY_ERROR_CASE := by
    rw [← hd4]; rfl
  have hc4 : d4.mClientCompositionInfo.mHasCompositionLayer = false := by rw [← hd4]; rfl
  have he4 : d4.mExynosCompositionInfo.mHasCompositionLayer = false ∧
      d4.mExynosCompositionInfo.mFirstIndex = -1 ∧
      d4.mExynosCompositionInfo.mLastIndex = -1 := by rw [← hd4]; exact ⟨rfl, rfl, rfl⟩
  have hP0 : RecoveryInv d4.mLayers.length d4.mRenderingState d4.mGeometryChanged
      d4.mExynosCompositionInfo 0 d4 :=
    ⟨rfl, rfl, rfl, rfl, fun j l hj => by omega, fun _ => hc4, fun h => by omega⟩
  obtain ⟨d5, hloop, hP⟩ := layerLoop_inv (forceClientStep env)
    (RecoveryInv d4.mLayers.length d4.mRenderingState d4.mGeometryChanged
      d4.mExynosCompositionInfo) d4.mLayers.length
    (fun i s hi hs => forceClientStep_inv env _ hlen4 _ _ _ (by rw [he4.2.1]; decide) i s hi hs)
    d4.mLayers.length 0 d4 (by omega) hP0
  rw [hloop]
  simp only [Nat.zero_add] at hP
  refine ⟨_, rfl, ?_, ?_, ?_, ?_, ?_, ?_, ?_⟩
  · show d5.mRenderingState = _
    rw [hP.state_eq, hst4]
  · intro j l hl
    have hl' : d5.mLayers[j]? = some l := hl
    have hj : j < d5.mLayers.length := by
      by_contra hcon
      rw [List.getElem?_eq_none (by omega)] at hl'
      cases hl'
    exact hP.forced j l (by rw [← hP.length_eq]; exact hj) hl'
  · intro hne
    have hne' : d5.mLayers ≠ [] := hne
    have hpos : 0 < d4.mLayers.length := by
      rw [← hP.length_eq]
      exact List.length_pos.mpr hne'
    obtain ⟨h1, h2, h3⟩ := hP.range hpos
    refine ⟨h1, h2, ?_⟩
    show d5.mClientCompositionInfo.mLastIndex = (d5.mLayers.length : Int) - 1
    rw [h3, hP.length_eq]
  · show d5.mExynosCompositionInfo.mHasCompositionLayer = false
    rw [hP.exynos_eq]; exact he4.1
  · show d5.mExynosCompositionInfo.mFirstIndex = -1
    rw [hP.exynos_eq]; exact he4.2.1
  · show d5.mExynosCompositionInfo.mLastIndex = -1
    rw [hP.exynos_eq]; exact he4.2.2
  · show d5.mGeometryChanged &&& GEOMETRY_ERROR_CASE = GEOMETRY_ERROR_CASE
    rw [hP.geometry_eq, hg4]
    exact or_and_self_eq _ _


/-! ## The front part of `validateDisplay` -/

theorem initClientTypeStep_some (n : Nat) (i : Nat) (d : ExynosDisplay) (hi : i < n)
    (hlen : d.mLayers.length = n) :
    ∃ d1, initClientTypeStep i d = some d1 ∧ d1.mLayers.length = n := by
  have hget : d.mLayers[i]? = some d.mLayers[i] := List.getElem?_eq_getElem (by omega)
  unfold initClientTypeStep
  rw [hget]
  dsimp only
  split
  · exact ⟨d, rfl, hlen⟩
  · exact ⟨_, rfl, by simp [ExynosDisplay.setLayer, hlen]⟩

/-- When the state left by the resource assignment keeps the client range
inside the layer list, the front part of `validateDisplay` returns, in
rendering state Validated, and with `validateError` set when the resource
assignment failed. -/
theorem validateFront_spec (venv : ValidateOracle) (d : ExynosDisplay)
    (hsafe : (afterAssignResource venv d).2.validateSafe) :
    ∃ b d6, validateFront venv d = some (b, d6) ∧
      d6.mRenderingState = RENDERING_STATE_VALIDATED ∧
      ((afterAssignResource venv d).1 ≠ NO_ERROR → b = true) := by
  obtain ⟨retSkip, d3, hskip, hfr⟩ := skipStaticLayers_some _ hsafe
  obtain ⟨hn, hrange, _, _⟩ := hsafe
  unfold validateFront
  dsimp only
  rw [hskip]
  dsimp only
  have hinit : ∃ d4, (if retSkip ≠ NO_ERROR then some d3
      else if d3.mClientCompositionInfo.mHasCompositionLayer = true ∧
          d3.mClientCompositionInfo.mSkipFlag = false then
        layerLoop initClientTypeStep
          (sizeLoopCount d3.mClientCompositionInfo.mFirstIndex
            d3.mClientCompositionInfo.mLastIndex)
          (toSizeT d3.mClientCompositionInfo.mFirstIndex) d3
      else some d3) = some d4 := by
    split
    · exact ⟨d3, rfl⟩
    · split
      · rename_i hcond
        have hhas : (afterAssignResource venv d).2.mClientCompositionInfo.mHasCompositionLayer
            = true := by rw [← hfr.has_eq]; exact hcond.1
        obtain ⟨hf0, hfl, hll⟩ := hrange hhas
        rw [← hfr.first_eq] at hf0 hfl
        rw [← hfr.last_eq] at hfl hll
        rw [← hfr.length_eq] at hll hn
        have hsF : toSizeT d3.mClientCompositionInfo.mFirstIndex =
            d3.mClientCompositionInfo.mFirstIndex.toNat := toSizeT_of_nonneg hf0 (by omega)
        have hsL : toSizeT d3.mClientCompositionInfo.mLastIndex =
            d3.mClientCompositionInfo.mLastIndex.toNat := toSizeT_of_nonneg (by omega) (by omega)
        obtain ⟨d4, h4, _⟩ := layerLoop_inv initClientTypeStep
          (fun _ s => s.mLayers.length = d3.mLayers.length) d3.mLayers.length
          (fun i s hi hs => initClientTypeStep_some _ i s hi hs)
          (sizeLoopCount d3.mClientCompositionInfo.mFirstIndex
            d3.mClientCompositionInfo.mLastIndex)
          (toSizeT d3.mClientCompositionInfo.mFirstIndex) d3
          (by unfold sizeLoopCount; rw [hsF, hsL]; omega) rfl
        exact ⟨d4, h4⟩
      · exact ⟨d3, rfl⟩
  obtain ⟨d4, h4⟩ := hinit
  rw [h4]
  dsimp only
  split
  · exact ⟨_, _, rfl, rfl, fun h => by
      rename_i hcond
      have := hcond.1
      simp [h] at this⟩
  · exact ⟨_, _, rfl, rfl, fun h => by simp [h]⟩


/-! ## `validateDisplay` -/

/-- C8 (validate ends in Validated), counterexample: on an unplugged display
(`mHpdStatus` false) in rendering state None, `validateDisplay` returns
`HWC2_ERROR_NONE` at once; the rendering state is still None and the two output
counts still hold what the caller had in them (here 1 and 1). -/
theorem validateDisplay_unplugged_stays_none :
    unpluggedDisplay.mRenderingState = RENDERING_STATE_NONE ∧
    ∃ r, validateDisplay permissiveOracle passiveValidateOracle unpluggedDisplay 1 1 = some r ∧
      r.ret = HWC2_ERROR_NONE ∧
      r.display.mRenderingState ≠ RENDERING_STATE_VALIDATED ∧
      r.outNumTypes = 1 ∧ r.outNumRequests = 1 := by
  refine ⟨rfl, _, rfl, rfl, by decide, rfl, rfl⟩

/-- The front part of `validateDisplay` in terms of its stage `validateMarked`:
the early post-processing runs when no error has been flagged and the early
start is enabled, and its failure sets the flag. -/
theorem validateFront_eq_marked (venv : ValidateOracle) (d : ExynosDisplay) :
    validateFront venv d =
      match validateMarked venv d with
      | none => none
      | some (_, validateError2, d5) =>
        if validateError2 = false ∧ d5.earlyStartMPP = true then
          some (decide ((venv.startPostProcessing d5).1 ≠ NO_ERROR),
            d5.resourceEffect (venv.startPostProcessing d5).2)
        else some (validateError2, d5) := by
  unfold validateFront validateMarked
  dsimp only
  cases hs : skipStaticLayers (afterAssignResource venv d).2 with
  | none => rfl
  | some p =>
    obtain ⟨retSkip, d3⟩ := p
    dsimp only
    generalize (if retSkip ≠ NO_ERROR then some d3
      else if d3.mClientCompositionInfo.mHasCompositionLayer = true ∧
          d3.mClientCompositionInfo.mSkipFlag = false then
        layerLoop initClientTypeStep
          (sizeLoopCount d3.mClientCompositionInfo.mFirstIndex
            d3.mClientCompositionInfo.mLastIndex)
          (toSizeT d3.mClientCompositionInfo.mFirstIndex) d3
      else some d3) = ini
    cases ini with
    | none => rfl
    | some d4 => rfl

/-- Under the well-formedness of the state left by the resource assignment, the
stage `validateMarked` returns. -/
theorem validateMarked_some (venv : ValidateOracle) (d : ExynosDisplay)
    (hsafe : (afterAssignResource venv d).2.validateSafe) :
    ∃ x, validateMarked venv d = some x := by
  obtain ⟨b, d6, hfront, _⟩ := validateFront_spec venv d hsafe
  rw [validateFront_eq_marked] at hfront
  cases hm : validateMarked venv d with
  | none =>
    rw [hm] at hfront
    cases hfront
  | some x => exact ⟨x, rfl⟩

/-- The flag `validateError` with which the front part of `validateDisplay`
ends is set whenever the resource assignment, the static-layer skip or the
early post-processing failed. -/
theorem validateFront_flag (venv : ValidateOracle) (d : ExynosDisplay) (retSkip : Int)
    (e : Bool) (d5 : ExynosDisplay) (hm : validateMarked venv d = some (retSkip, e, d5)) :
    (e = true ↔ ((afterAssignResource venv d).1 ≠ NO_ERROR ∨ retSkip ≠ NO_ERROR)) ∧
    d5.mRenderingState = RENDERING_STATE_VALIDATED ∧
    ∃ b d6, validateFront venv d = some (b, d6) ∧
      d6.mRenderingState = RENDERING_STATE_VALIDATED ∧
      (((afterAssignResource venv d).1 ≠ NO_ERROR ∨ retSkip ≠ NO_ERROR ∨
        (e = false ∧ d5.earlyStartMPP = true ∧ (venv.startPostProcessing d5).1 ≠ NO_ERROR)) →
        b = true) := by
  have he : (e = true ↔ ((afterAssignResource venv d).1 ≠ NO_ERROR ∨ retSkip ≠ NO_ERROR)) ∧
      d5.mRenderingState = RENDERING_STATE_VALIDATED := by
    unfold validateMarked at hm
    dsimp only at hm
    cases hs : skipStaticLayers (afterAssignResource venv d).2 with
    | none =>
      rw [hs] at hm
      cases hm
    | some p =>
      obtain ⟨r0, d3⟩ := p
      rw [hs] at hm
      dsimp only at hm
      generalize (if r0 ≠ NO_ERROR then some d3
        else if d3.mClientCompositionInfo.mHasCompositionLayer = true ∧
            d3.mClientCompositionInfo.mSkipFlag = false then
          layerLoop initClientTypeStep
            (sizeLoopCount d3.mClientCompositionInfo.mFirstIndex
              d3.mClientCompositionInfo.mLastIndex)
            (toSizeT d3.mClientCompositionInfo.mFirstIndex) d3
        else some d3) = ini at hm
      cases ini with
      | none => cases hm
      | some d4 =>
        simp only [Option.some.injEq, Prod.mk.injEq] at hm
        obtain ⟨h1, h2, h3⟩ := hm
        subst h1
        subst h3
        refine ⟨?_, rfl⟩
        rw [← h2]
        simp only [Bool.or_eq_true, decide_eq_true_eq]
  refine ⟨he.1, he.2, ?_⟩
  rw [validateFront_eq_marked, hm]
  dsimp only
  by_cases hpp : e = false ∧ d5.earlyStartMPP = true
  · rw [if_pos hpp]
    refine ⟨_, _, rfl, he.2, ?_⟩
    rintro (h | h | ⟨_, _, h⟩)
    · have := he.1.mpr (Or.inl h)
      rw [hpp.1] at this
      cases this
    · have := he.1.mpr (Or.inr h)
      rw [hpp.1] at this
      cases this
    · simpa using h
  · rw [if_neg hpp]
    refine ⟨_, _, rfl, he.2, ?_⟩
    rintro (h | h | ⟨h1, h2, _⟩)
    · exact he.1.mpr (Or.inl h)
    · exact he.1.mpr (Or.inr h)
    · exact absurd ⟨h1, h2⟩ hpp

/-- What the recovery path of `validateDisplay` establishes: every layer
validated as CLIENT, the client range over the whole layer list, the secondary
range empty and `GEOMETRY_ERROR_CASE` set. -/
theorem validateDisplay_recovered (env : ResourceOracle) (venv : ValidateOracle)
    (d d6 : ExynosDisplay) (numTypes0 numRequests0 : Nat)
    (hhpd : d.mHpdStatus = true) (hpause : d.mPauseDisplay = false)
    (hdrop : dropFrameDuringResSwitch d = false)
    (hfront : validateFront venv d = some (true, d6))
    (hbound : (recoveryStart env venv d6).mLayers.length < 2 ^ 31) :
    ∃ r, validateDisplay env venv d numTypes0 numRequests0 = some r ∧
      (∀ l ∈ r.display.mLayers, l.getValidateCompositionType = HWC2_COMPOSITION_CLIENT) ∧
      (r.display.mLayers ≠ [] →
        r.display.mClientCompositionInfo.mHasCompositionLayer = true ∧
        r.display.mClientCompositionInfo.mFirstIndex = 0 ∧
        r.display.mClientCompositionInfo.mLastIndex = (r.display.mLayers.length : Int) - 1) ∧
      r.display.mExynosCompositionInfo.mHasCompositionLayer = false ∧
      r.display.mExynosCompositionInfo.mFirstIndex = -1 ∧
      r.display.mExynosCompositionInfo.mLastIndex = -1 ∧
      r.display.mGeometryChanged &&& GEOMETRY_ERROR_CASE = GEOMETRY_ERROR_CASE := by
  have hpre : validateDisplay env venv d numTypes0 numRequests0 =
      match validateRecovery env venv d6 with
      | none => none
      | some d7 => validateReport d7 numTypes0 := by
    unfold validateDisplay
    simp only [hhpd, hpause, hdrop, hfront, Bool.true_eq_false, Bool.false_eq_true, if_false,
      if_true]
    try rfl
  rw [hpre]
  obtain ⟨d7, h7, _, hall, hrange, he1, he2, he3, hgeo⟩ :=
    validateRecovery_spec env venv d6 hbound
  rw [h7]
  obtain ⟨r, hr, _, hmap, hc1, hc2, hc3, hexy, hg, _, _⟩ := validateReport_spec d7 numTypes0
  have hlen : r.display.mLayers.length = d7.mLayers.length := by
    have := congrArg List.length hmap
    simpa using this
  refine ⟨r, hr, ?_, ?_, ?_, ?_, ?_, hg hgeo⟩
  · intro l hl
    have hmem : l.mValidateCompositionType ∈
        r.display.mLayers.map (fun l => l.mValidateCompositionType) :=
      List.mem_map.mpr ⟨l, hl, rfl⟩
    rw [hmap] at hmem
    obtain ⟨l7, hl7, hv⟩ := List.mem_map.mp hmem
    obtain ⟨j, hj, hget⟩ := List.getElem_of_mem hl7
    have := hall j l7 (by rw [List.getElem?_eq_getElem hj, hget])
    show l.mValidateCompositionType = HWC2_COMPOSITION_CLIENT
    rw [← hv]; exact this
  · intro hne
    have hne7 : d7.mLayers ≠ [] := by
      intro h
      apply hne
      apply List.eq_nil_of_length_eq_zero
      rw [hlen, h]; rfl
    obtain ⟨h1, h2, h3⟩ := hrange hne7
    exact ⟨hc1.trans h1, hc2.trans h2, by rw [hc3, h3, hlen]⟩
  · rw [hexy]; exact he1
  · rw [hexy]; exact he2
  · rw [hexy]; exact he3

/-- C8 (validate ends in Validated), as amended.  From every rendering state:
when the display is unplugged or paused, `validateDisplay` returns
`HWC2_ERROR_NONE` at once and leaves the display, its rendering state and the
two output counts as they were; when the display is plugged and not paused and
the frame is dropped for a resolution switch, it returns `HWC2_ERROR_NONE` with
both output counts set to zero and the rendering state as it was; otherwise,
when the resource assignment (whatever its return code) leaves the client
range inside the layer list and the list keeps fewer than `2^31` layers,
`validateDisplay` returns with the rendering state Validated, and it returns
`HWC2_ERROR_NONE` exactly when both reported counts are zero and
`HWC2_ERROR_HAS_CHANGES` otherwise. -/
theorem validateDisplay_ends_validated (env : ResourceOracle) (venv : ValidateOracle)
    (d : ExynosDisplay) (numTypes0 numRequests0 : Nat) :
    ((d.mHpdStatus = false ∨ d.mPauseDisplay = true) →
      validateDisplay env venv d numTypes0 numRequests0 =
        some ⟨HWC2_ERROR_NONE, numTypes0, numRequests0, d⟩) ∧
    (d.mHpdStatus = true → d.mPauseDisplay = false → dropFrameDuringResSwitch d = true →
      validateDisplay env venv d numTypes0 numRequests0 =
        some ⟨HWC2_ERROR_NONE, 0, 0, { d with mDropFrameDuringResSwitch := true }⟩) ∧
    (d.mHpdStatus = true → d.mPauseDisplay = false → dropFrameDuringResSwitch d = false →
      (afterAssignResource venv d).2.validateSafe →
      (∀ b d6, validateFront venv d = some (b, d6) →
        (recoveryStart env venv d6).mLayers.length < 2 ^ 31) →
      ∃ r, validateDisplay env venv d numTypes0 numRequests0 = some r ∧
        r.display.mRenderingState = RENDERING_STATE_VALIDATED ∧
        (r.ret = HWC2_ERROR_NONE ↔ (r.outNumTypes = 0 ∧ r.outNumRequests = 0)) ∧
        (r.ret = HWC2_ERROR_NONE ∨ r.ret = HWC2_ERROR_HAS_CHANGES)) := by
  refine ⟨?_, ?_, ?_⟩
  · intro h
    unfold validateDisplay
    rcases h with h | h
    · rw [if_pos h]
    · by_cases h0 : d.mHpdStatus = false
      · rw [if_pos h0]
      · rw [if_neg h0, if_pos h]
  · intro hhpd hpause hdrop
    unfold validateDisplay
    rw [if_neg (by simp [hhpd]), if_neg (by simp [hpause]), if_pos hdrop]
  · intro hhpd hpause hdrop hsafe hbound
    obtain ⟨b, d6, hfront, hst, _⟩ := validateFront_spec venv d hsafe
    have hpre : validateDisplay env venv d numTypes0 numRequests0 =
        match (if b = true then validateRecovery env venv d6 else some d6) with
        | none => none
        | some d7 => validateReport d7 numTypes0 := by
      unfold validateDisplay
      simp only [hhpd, hpause, hdrop, hfront, Bool.true_eq_false, Bool.false_eq_true, if_false]
      try rfl
    rw [hpre]
    cases b with
    | false =>
      simp only [Bool.false_eq_true, if_false]
      obtain ⟨r, hr, h1, _, _, _, _, _, _, h8, h9⟩ := validateReport_spec d6 numTypes0
      exact ⟨r, hr, h1.trans hst, h8, h9⟩
    | true =>
      simp only [if_true]
      obtain ⟨d7, h7, hst7, _⟩ := validateRecovery_spec env venv d6 (hbound _ _ hfront)
      rw [h7]
      obtain ⟨r, hr, h1, _, _, _, _, _, _, h8, h9⟩ := validateReport_spec d7 numTypes0
      exact ⟨r, hr, h1.trans (hst7.trans hst), h8, h9⟩

/-- C9 (full recovery on resource-assignment failure): for a plugged, unpaused
display whose frame is not dropped and a layer list that keeps fewer than
`2^31` entries.  Let `validateDisplay` reach the assignment of the Validated
state with the code `retSkip` of `skipStaticLayers`, the flag `validateError`
equal to `e` and the display state `d5` (it does so whenever the resource
assignment leaves the client range inside the layer list).  Then `e` is set
exactly when the resource assignment or the static-layer skip failed; and
whenever the resource assignment failed, or the static-layer skip failed, or
the early post-processing ran (no earlier failure, early start enabled) and
failed, `validateDisplay` returns with every layer validated as CLIENT, the
client range equal to `[0, layerCount-1]` when the list is non-empty, the
secondary range empty (`first = last = -1`, no composition layer) and
`GEOMETRY_ERROR_CASE` set. -/
theorem validateDisplay_full_recovery (env : ResourceOracle) (venv : ValidateOracle)
    (d : ExynosDisplay) (numTypes0 numRequests0 : Nat)
    (hhpd : d.mHpdStatus = true) (hpause : d.mPauseDisplay = false)
    (hdrop : dropFrameDuringResSwitch d = false)
    (hbound : ∀ b d6, validateFront venv d = some (b, d6) →
      (recoveryStart env venv d6).mLayers.length < 2 ^ 31) :
    ((afterAssignResource venv d).2.validateSafe → ∃ x, validateMarked venv d = some x) ∧
    ∀ (retSkip : Int) (e : Bool) (d5 : ExynosDisplay),
      validateMarked venv d = some (retSkip, e, d5) →
      (e = true ↔ ((afterAssignResource venv d).1 ≠ NO_ERROR ∨ retSkip ≠ NO_ERROR)) ∧
      (((afterAssignResource venv d).1 ≠ NO_ERROR ∨ retSkip ≠ NO_ERROR ∨
          (e = false ∧ d5.earlyStartMPP = true ∧
            (venv.startPostProcessing d5).1 ≠ NO_ERROR)) →
        ∃ r, validateDisplay env venv d numTypes0 numRequests0 = some r ∧
          (∀ l ∈ r.display.mLayers, l.getValidateCompositionType = HWC2_COMPOSITION_CLIENT) ∧
          (r.display.mLayers ≠ [] →
            r.display.mClientCompositionInfo.mHasCompositionLayer = true ∧
            r.display.mClientCompositionInfo.mFirstIndex = 0 ∧
            r.display.mClientCompositionInfo.mLastIndex = (r.display.mLayers.length : Int) - 1) ∧
          r.display.mExynosCompositionInfo.mHasCompositionLayer = false ∧
          r.display.mExynosCompositionInfo.mFirstIndex = -1 ∧
          r.display.mExynosCompositionInfo.mLastIndex = -1 ∧
          r.display.mGeometryChanged &&& GEOMETRY_ERROR_CASE = GEOMETRY_ERROR_CASE) := by
  refine ⟨validateMarked_some venv d, ?_⟩
  intro retSkip e d5 hm
  obtain ⟨he, _, b, d6, hfront, _, hflag⟩ := validateFront_flag venv d retSkip e d5 hm
  refine ⟨he, ?_⟩
  intro hfail
  have hb := hflag hfail
  subst hb
  exact validateDisplay_recovered env venv d d6 numTypes0 numRequests0 hhpd hpause hdrop hfront
    (hbound _ _ hfront)

theorem recoveryStart_bound_of_count (env : ResourceOracle) (venv : ValidateOracle) (d : ExynosDisplay)
    (n : Nat) (hn : n < 2 ^ 31)
    (hc : (validateFront venv d).map
      (fun p => (recoveryStart env venv p.2).mLayers.length) = some n) :
    ∀ b d6, validateFront venv d = some (b, d6) →
      (recoveryStart env venv d6).mLayers.length < 2 ^ 31 := by
  intro b d6 h
  rw [h] at hc
  simp only [Option.map_some', Option.some.injEq] at hc
  omega

/-- C9 at three concrete inputs: the resource assignment fails; the
static-layer skip fails; the early post-processing fails.  Each time the call
returns with both layers validated as CLIENT and the client range `[0,1]`. -/
theorem validateDisplay_full_recovery_witness :
    (∃ r, validateDisplay permissiveOracle failingValidateOracle twoLayerDisplay 0 0 = some r ∧
      (∀ l ∈ r.display.mLayers, l.getValidateCompositionType = HWC2_COMPOSITION_CLIENT) ∧
      r.display.mExynosCompositionInfo.mFirstIndex = -1 ∧
      r.display.mGeometryChanged &&& GEOMETRY_ERROR_CASE = GEOMETRY_ERROR_CASE) ∧
    (∃ r, validateDisplay permissiveOracle passiveValidateOracle mistypedClientDisplay 0 0 =
        some r ∧
      (∀ l ∈ r.display.mLayers, l.getValidateCompositionType = HWC2_COMPOSITION_CLIENT) ∧
      r.display.mExynosCompositionInfo.mFirstIndex = -1 ∧
      r.display.mGeometryChanged &&& GEOMETRY_ERROR_CASE = GEOMETRY_ERROR_CASE) ∧
    (∃ r, validateDisplay permissiveOracle failingPostProcessingOracle earlyStartDisplay 0 0 =
        some r ∧
      (∀ l ∈ r.display.mLayers, l.getValidateCompositionType = HWC2_COMPOSITION_CLIENT) ∧
      r.display.mExynosCompositionInfo.mFirstIndex = -1 ∧
      r.display.mGeometryChanged &&& GEOMETRY_ERROR_CASE = GEOMETRY_ERROR_CASE) :=
  ⟨Exists.imp (fun _ h => ⟨h.1, h.2.1, h.2.2.2.2.1, h.2.2.2.2.2.2⟩)
      (((validateDisplay_full_recovery permissiveOracle failingValidateOracle twoLayerDisplay
        0 0 rfl rfl (by decide)
        (recoveryStart_bound_of_count _ _ _ 2 (by decide) (by decide))).2 _ _ _ rfl).2
        (Or.inl (by decide))),
    Exists.imp (fun _ h => ⟨h.1, h.2.1, h.2.2.2.2.1, h.2.2.2.2.2.2⟩)
      (((validateDisplay_full_recovery permissiveOracle passiveValidateOracle
        mistypedClientDisplay 0 0 rfl rfl (by decide)
        (recoveryStart_bound_of_count _ _ _ 2 (by decide) (by decide))).2 (-EINVAL) _ _ rfl).2
        (Or.inr (Or.inl (by decide)))),
    Exists.imp (fun _ h => ⟨h.1, h.2.1, h.2.2.2.2.1, h.2.2.2.2.2.2⟩)
      (((validateDisplay_full_recovery permissiveOracle failingPostProcessingOracle
        earlyStartDisplay 0 0 rfl rfl (by decide)
        (recoveryStart_bound_of_count _ _ _ 2 (by decide) (by decide))).2 _ false _ rfl).2
        (Or.inr (Or.inr ⟨rfl, rfl, by decide⟩)))⟩

/-- C8, the amended statement at three concrete inputs: a display in rendering
state Presented with two layers, one of which changes type; an unplugged
display; a display that drops the frame of a resolution switch. -/
theorem validateDisplay_ends_validated_witness :
    (∃ r, validateDisplay permissiveOracle passiveValidateOracle twoLayerDisplay 0 0 = some r ∧
      r.display.mRenderingState = RENDERING_STATE_VALIDATED ∧
      (r.ret = HWC2_ERROR_NONE ↔ (r.outNumTypes = 0 ∧ r.outNumRequests = 0)) ∧
      (r.ret = HWC2_ERROR_NONE ∨ r.ret = HWC2_ERROR_HAS_CHANGES)) ∧
    validateDisplay permissiveOracle passiveValidateOracle unpluggedDisplay 3 4 =
      some ⟨HWC2_ERROR_NONE, 3, 4, unpluggedDisplay⟩ ∧
    validateDisplay permissiveOracle passiveValidateOracle resolutionSwitchDisplay 3 4 =
      some ⟨HWC2_ERROR_NONE, 0, 0,
        { resolutionSwitchDisplay with mDropFrameDuringResSwitch := true }⟩ :=
  ⟨(validateDisplay_ends_validated permissiveOracle passiveValidateOracle twoLayerDisplay
      0 0).2.2 rfl rfl (by decide) (by decide)
      (fun b d6 h => by
        have hc : (validateFront passiveValidateOracle twoLayerDisplay).map
            (fun p => (recoveryStart permissiveOracle passiveValidateOracle p.2).mLayers.length) =
            some 2 := by decide
        rw [h] at hc
        simp only [Option.map_some', Option.some.injEq] at hc
        omega),
    (validateDisplay_ends_validated permissiveOracle passiveValidateOracle unpluggedDisplay
      3 4).1 (Or.inl rfl),
    (validateDisplay_ends_validated permissiveOracle passiveValidateOracle
      resolutionSwitchDisplay 3 4).2.1 rfl rfl (by decide)⟩

/-! ## `presentDisplay` and the rendering state -/

theorem closeFences_driverCommits (d : ExynosDisplay) :
    (closeFences d).driverCommits = d.driverCommits := by
  unfold closeFences
  dsimp only
  split <;> rfl

theorem closeFences_mRenderingState (d : ExynosDisplay) :
    (closeFences d).mRenderingState = d.mRenderingState := by
  unfold closeFences
  dsimp only
  split <;> rfl

theorem presentErr_spec (d : ExynosDisplay) :
    (presentErr d).ret = -EINVAL ∧ (presentErr d).outRetireFence = -1 ∧
    (presentErr d).display.mRenderingState = RENDERING_STATE_PRESENTED ∧
    (presentErr d).display.driverCommits = d.driverCommits := by
  refine ⟨rfl, rfl, rfl, ?_⟩
  show (closeFences d).driverCommits = d.driverCommits
  exact closeFences_driverCommits d

/-- C10 (counterexample): with the display plugged, not paused and `mSkipFrame`
clear, `presentDisplay` called in state Validated returns `HWC2_ERROR_NONE` and
not an error when a trusted UI session is active: the first early return also
tests `mDevice->isInTUI()` (and the resolution-switch drop), beyond the
unplug, pause and skip-frame conditions. -/
theorem presentDisplay_validated_in_tui_succeeds :
    validatedDisplay.mHpdStatus = true ∧ validatedDisplay.mPauseDisplay = false ∧
    validatedDisplay.mSkipFrame = false ∧
    validatedDisplay.mRenderingState = RENDERING_STATE_VALIDATED ∧
    (presentDisplay tuiPresentOracle validatedDisplay 0).map (fun r => r.ret) =
      some HWC2_ERROR_NONE := by
  decide

/-- When none of the early returns of `presentDisplay` applies and
skip-validate support is compiled in, the rendering state decides between
building the frame, the error path and `HWC2_ERROR_NOT_VALIDATED`. -/
theorem presentDisplay_gate_open (penv : PresentOracle) (d : ExynosDisplay)
    (outRetireFence0 : Int)
    (hhpd : d.mHpdStatus = true) (hdrop : dropFrameDuringResSwitch d = false)
    (hpause : d.mPauseDisplay = false) (htui : penv.isInTUI = false)
    (hskip : d.mSkipFrame = false) (hbuild : penv.noSupportSkipValidate = false) :
    (d.mRenderingState = RENDERING_STATE_ACCEPTED_CHANGE →
      presentDisplay penv d outRetireFence0 =
        presentFrame penv { d with mDropFrameDuringResSwitch := false }) ∧
    ((d.mRenderingState = RENDERING_STATE_NONE ∨
        d.mRenderingState = RENDERING_STATE_PRESENTED) → penv.canSkipValidate = true →
      presentDisplay penv d outRetireFence0 =
        presentFrame penv
          (({ d with mDropFrameDuringResSwitch := false } : ExynosDisplay).frameEffect
            (penv.skipValidateEffects { d with mDropFrameDuringResSwitch := false }))) ∧
    (d.mRenderingState = RENDERING_STATE_VALIDATED →
      ∃ r, presentDisplay penv d outRetireFence0 = some r ∧ r.ret = -EINVAL ∧
        r.ret ≠ HWC2_ERROR_NONE ∧ r.outRetireFence = -1 ∧
        r.display.mRenderingState = RENDERING_STATE_PRESENTED ∧
        r.display.driverCommits = d.driverCommits) ∧
    ((d.mRenderingState = RENDERING_STATE_NONE ∨
        d.mRenderingState = RENDERING_STATE_PRESENTED) → penv.canSkipValidate = false →
      ∃ r, presentDisplay penv d outRetireFence0 = some r ∧
        r.ret = HWC2_ERROR_NOT_VALIDATED ∧ r.outRetireFence = outRetireFence0 ∧
        r.display.mDpuData = d.mDpuData ∧ r.display.mLastDpuData = d.mLastDpuData ∧
        r.display.driverCommits = d.driverCommits ∧
        r.display.mRenderingState = RENDERING_STATE_NONE) ∧
    (∀ r, presentDisplay penv d outRetireFence0 = some r →
      r.display.driverCommits ≠ d.driverCommits →
      d.mRenderingState = RENDERING_STATE_ACCEPTED_CHANGE ∨
      ((d.mRenderingState = RENDERING_STATE_NONE ∨
          d.mRenderingState = RENDERING_STATE_PRESENTED) ∧ penv.canSkipValidate = true)) := by
  have hval : d.mRenderingState = RENDERING_STATE_VALIDATED →
      presentDisplay penv d outRetireFence0 =
        some (presentErr { d with mDropFrameDuringResSwitch := false }) := by
    intro hs
    simp [presentDisplay, hhpd, hdrop, hpause, htui, hskip, hbuild, hs]
  have hnot : (d.mRenderingState = RENDERING_STATE_NONE ∨
        d.mRenderingState = RENDERING_STATE_PRESENTED) → penv.canSkipValidate = false →
      presentDisplay penv d outRetireFence0 =
        some ⟨HWC2_ERROR_NOT_VALIDATED, outRetireFence0,
          { d with mDropFrameDuringResSwitch := false
                   mRenderingState := RENDERING_STATE_NONE }⟩ := by
    intro hs hc
    rcases hs with hs | hs <;>
      simp [presentDisplay, hhpd, hdrop, hpause, htui, hskip, hbuild, hs, hc]
  refine ⟨?_, ?_, ?_, ?_, ?_⟩
  · intro hs
    simp [presentDisplay, hhpd, hdrop, hpause, htui, hskip, hs]
  · intro hs hc
    rcases hs with hs | hs <;>
      simp [presentDisplay, hhpd, hdrop, hpause, htui, hskip, hbuild, hs, hc]
  · intro hs
    refine ⟨_, hval hs, rfl, (show -EINVAL ≠ HWC2_ERROR_NONE by decide), rfl, rfl, ?_⟩
    exact (presentErr_spec _).2.2.2
  · intro hs hc
    exact ⟨_, hnot hs hc, rfl, rfl, rfl, rfl, rfl, rfl⟩
  · intro r hr hne
    by_contra hcon
    rw [not_or, not_and_or] at hcon
    obtain ⟨hna, hrest⟩ := hcon
    cases hst : d.mRenderingState with
    | RENDERING_STATE_ACCEPTED_CHANGE => exact hna hst
    | RENDERING_STATE_VALIDATED =>
      rw [hval hst] at hr
      cases hr
      exact hne (presentErr_spec _).2.2.2
    | RENDERING_STATE_NONE =>
      rcases hrest with h | h
      · exact h (Or.inl hst)
      · have hc : penv.canSkipValidate = false := by simpa using h
        rw [hnot (Or.inl hst) hc] at hr
        cases hr
        exact hne rfl
    | RENDERING_STATE_PRESENTED =>
      rcases hrest with h | h
      · exact h (Or.inr hst)
      · have hc : penv.canSkipValidate = false := by simpa using h
        rw [hnot (Or.inr hst) hc] at hr
        cases hr
        exact hne rfl

/-- C10 (amended).  In every rendering state, when the display is unplugged,
the frame is dropped during a resolution switch, the display is paused or a
trusted UI session is active, `presentDisplay` returns `HWC2_ERROR_NONE` with
the out fence `-1` and the state Presented.  When none of these applies,
`mSkipFrame` is clear and skip-validate support is compiled in, the call goes
on to build and commit the frame exactly in state AcceptedChange, or in state
None or Presented when `canSkipValidate` succeeds; in state Validated it
returns `-EINVAL` with the state Presented and without a driver commit; in
state None or Presented with `canSkipValidate` failing it returns
`HWC2_ERROR_NOT_VALIDATED`, leaves the commit plan, the retained plan and the
out fence as they were, commits nothing and sets the state to None. -/
theorem presentDisplay_state_gate (penv : PresentOracle) (d : ExynosDisplay)
    (outRetireFence0 : Int) :
    ((d.mHpdStatus = false ∨ dropFrameDuringResSwitch d = true ∨ d.mPauseDisplay = true ∨
        penv.isInTUI = true) →
      ∃ r, presentDisplay penv d outRetireFence0 = some r ∧ r.ret = HWC2_ERROR_NONE ∧
        r.outRetireFence = -1 ∧ r.display.mRenderingState = RENDERING_STATE_PRESENTED) ∧
    (d.mHpdStatus = true → dropFrameDuringResSwitch d = false → d.mPauseDisplay = false →
      penv.isInTUI = false → d.mSkipFrame = false → penv.noSupportSkipValidate = false →
      (d.mRenderingState = RENDERING_STATE_ACCEPTED_CHANGE →
        presentDisplay penv d outRetireFence0 =
          presentFrame penv { d with mDropFrameDuringResSwitch := false }) ∧
      ((d.mRenderingState = RENDERING_STATE_NONE ∨
          d.mRenderingState = RENDERING_STATE_PRESENTED) → penv.canSkipValidate = true →
        presentDisplay penv d outRetireFence0 =
          presentFrame penv
            (({ d with mDropFrameDuringResSwitch := false } : ExynosDisplay).frameEffect
              (penv.skipValidateEffects { d with mDropFrameDuringResSwitch := false }))) ∧
      (d.mRenderingState = RENDERING_STATE_VALIDATED →
        ∃ r, presentDisplay penv d outRetireFence0 = some r ∧ r.ret = -EINVAL ∧
          r.ret ≠ HWC2_ERROR_NONE ∧ r.outRetireFence = -1 ∧
          r.display.mRenderingState = RENDERING_STATE_PRESENTED ∧
          r.display.driverCommits = d.driverCommits) ∧
      ((d.mRenderingState = RENDERING_STATE_NONE ∨
          d.mRenderingState = RENDERING_STATE_PRESENTED) → penv.canSkipValidate = false →
        ∃ r, presentDisplay penv d outRetireFence0 = some r ∧
          r.ret = HWC2_ERROR_NOT_VALIDATED ∧ r.outRetireFence = outRetireFence0 ∧
          r.display.mDpuData = d.mDpuData ∧ r.display.mLastDpuData = d.mLastDpuData ∧
          r.display.driverCommits = d.driverCommits ∧
          r.display.mRenderingState = RENDERING_STATE_NONE) ∧
      (∀ r, presentDisplay penv d outRetireFence0 = some r →
        r.display.driverCommits ≠ d.driverCommits →
        d.mRenderingState = RENDERING_STATE_ACCEPTED_CHANGE ∨
        ((d.mRenderingState = RENDERING_STATE_NONE ∨
            d.mRenderingState = RENDERING_STATE_PRESENTED) ∧ penv.canSkipValidate = true))) := by
  refine ⟨fun hearly => ?_, fun hhpd hdrop hpause htui hskip hbuild =>
    presentDisplay_gate_open penv d outRetireFence0 hhpd hdrop hpause htui hskip hbuild⟩
  have hcond : ({ d with mDropFrameDuringResSwitch := dropFrameDuringResSwitch d } :
      ExynosDisplay).mHpdStatus = false ∨
      ({ d with mDropFrameDuringResSwitch := dropFrameDuringResSwitch d } :
        ExynosDisplay).mDropFrameDuringResSwitch = true ∨
      ({ d with mDropFrameDuringResSwitch := dropFrameDuringResSwitch d } :
        ExynosDisplay).mPauseDisplay = true ∨ penv.isInTUI = true := hearly
  unfold presentDisplay
  dsimp only
  rw [if_pos hcond]
  exact ⟨_, rfl, rfl, rfl, rfl⟩

/-- C10 (witness): the amended statement at a plugged display in state
Presented on a device whose skip-validate precheck fails, and at a validated
display while a trusted UI session is active. -/
theorem presentDisplay_state_gate_witness :
    (presentDisplay idlePresentOracle presentedDisplay 5).map
        (fun r => (r.ret, r.outRetireFence, r.display.mRenderingState)) =
      some (HWC2_ERROR_NOT_VALIDATED, 5, RENDERING_STATE_NONE) ∧
    (∃ r, presentDisplay idlePresentOracle presentedDisplay 5 = some r ∧
        r.ret = HWC2_ERROR_NOT_VALIDATED ∧ r.outRetireFence = 5 ∧
        r.display.mDpuData = presentedDisplay.mDpuData ∧
        r.display.mLastDpuData = presentedDisplay.mLastDpuData ∧
        r.display.driverCommits = presentedDisplay.driverCommits ∧
        r.display.mRenderingState = RENDERING_STATE_NONE) ∧
    (∃ r, presentDisplay tuiPresentOracle validatedDisplay 0 = some r ∧
        r.ret = HWC2_ERROR_NONE ∧ r.outRetireFence = -1 ∧
        r.display.mRenderingState = RENDERING_STATE_PRESENTED) :=
  ⟨by decide,
   ((presentDisplay_state_gate idlePresentOracle presentedDisplay 5).2 (by decide) (by decide)
      (by decide) (by decide) (by decide) (by decide)).2.2.2.1 (Or.inr rfl) rfl,
   (presentDisplay_state_gate tuiPresentOracle validatedDisplay 0).1
      (Or.inr (Or.inr (Or.inr rfl)))⟩


/-! ## The error path of `presentDisplay` -/

theorem presentDisplay_of_entry (penv : PresentOracle) (d dF : ExynosDisplay)
    (outRetireFence0 : Int) (h : presentFrameEntry penv d = some dF) :
    presentDisplay penv d outRetireFence0 = presentFrame penv dF := by
  unfold presentFrameEntry at h
  unfold presentDisplay
  dsimp only at h ⊢
  split at h
  · exact absurd h (by simp)
  rename_i h1
  rw [if_neg h1]
  split at h
  · exact absurd h (by simp)
  rename_i h2
  rw [if_neg h2]
  split at h
  · rename_i h3
    rw [if_neg (not_not.mpr h3)]
    cases h; rfl
  rename_i h3
  rw [if_pos h3]
  split at h
  · rename_i h4
    obtain ⟨hb, hs, hc⟩ := h4
    have hb2 : ¬ penv.noSupportSkipValidate = true := by simp [hb]
    have hs2 : ¬ (d.mRenderingState ≠ RENDERING_STATE_NONE ∧
        d.mRenderingState ≠ RENDERING_STATE_PRESENTED) := by
      rcases hs with hs | hs <;> simp [hs]
    have hc2 : ¬ penv.canSkipValidate = false := by simp [hc]
    rw [if_neg hb2, if_neg hs2, if_neg hc2]
    cases h; rfl
  · exact absurd h (by simp)

theorem presentFrame_eq_build (penv : PresentOracle) (dF : ExynosDisplay)
    (hne : ¬ (dF.mLayers.length = 0 ∧ dF.mType ≠ HWC_DISPLAY_VIRTUAL)) :
    presentFrame penv dF =
      match presentBuild penv dF with
      | none => none
      | some (Flow.ret _ dE) => some (presentErr dE)
      | some (Flow.next dC) => presentCommit penv dC := by
  have h0 : presentFrame penv dF =
      if (presentComposed penv dF).1 ≠ NO_ERROR then some (presentErr (presentComposed penv dF).2)
      else
        match presentLayerLoop penv (presentComposed penv dF).2.mLayers.length 0
            (presentComposed penv dF).2 with
        | none => none
        | some (Flow.ret _ d3) => some (presentErr d3)
        | some (Flow.next d3) =>
          if (presentConfigured penv d3).1 ≠ NO_ERROR then
            some (presentErr (presentConfigured penv d3).2)
          else if (presentHandled penv (presentConfigured penv d3).2).1 ≠ NO_ERROR then
            some (presentErr
              { (presentHandled penv (presentConfigured penv d3).2).2 with
                mClientCompositionInfo :=
                  { (presentHandled penv (presentConfigured penv d3).2).2.mClientCompositionInfo
                    with mSkipStaticInitFlag := false } })
          else
            presentCommit penv
              ((presentHandled penv (presentConfigured penv d3).2).2.frameEffect
                (penv.handleWindowUpdate (presentHandled penv (presentConfigured penv d3).2).2)) := by
    unfold presentFrame
    simp only [if_neg hne]
    rfl
  rw [h0]
  unfold presentBuild
  dsimp only
  generalize presentComposed penv dF = composed
  by_cases h1 : composed.1 ≠ NO_ERROR
  · rw [if_pos h1, if_pos h1]
  · rw [if_neg h1, if_neg h1]
    generalize presentLayerLoop penv composed.2.mLayers.length 0 composed.2 = loop
    match loop with
    | none => rfl
    | some (Flow.ret r d3) => rfl
    | some (Flow.next d3) =>
      dsimp only
      generalize presentConfigured penv d3 = configured
      by_cases h2 : configured.1 ≠ NO_ERROR
      · rw [if_pos h2, if_pos h2]
      · rw [if_neg h2, if_neg h2]
        generalize presentHandled penv configured.2 = handled
        by_cases h3 : handled.1 ≠ NO_ERROR
        · rw [if_pos h3, if_pos h3]
        · rw [if_neg h3, if_neg h3]

theorem closeFences_layers (d : ExynosDisplay) :
    (∀ l ∈ (closeFences d).mLayers, ¬ (0 < l.mReleaseFence)) ∧
    (¬ (d.mExynosCompositionInfo.mHasCompositionLayer = true ∧
        d.mExynosCompositionInfo.mM2mMPP = none) →
      (∀ l ∈ (closeFences d).mLayers, l.mAcquireFence = -1) ∧
      (closeFences d).mExynosCompositionInfo.mAcquireFence = -1 ∧
      (closeFences d).mClientCompositionInfo.mAcquireFence = -1) ∧
    (closeFences d).mExynosCompositionInfo.mHasCompositionLayer =
      d.mExynosCompositionInfo.mHasCompositionLayer ∧
    (closeFences d).mExynosCompositionInfo.mM2mMPP = d.mExynosCompositionInfo.mM2mMPP := by
  unfold closeFences
  dsimp only
  by_cases hg : d.mExynosCompositionInfo.mHasCompositionLayer = true ∧
      d.mExynosCompositionInfo.mM2mMPP = none
  · rw [if_pos hg]
    refine ⟨?_, fun h => absurd hg h, rfl, rfl⟩
    intro l hl
    simp only [List.mem_map] at hl
    obtain ⟨l0, _, rfl⟩ := hl
    split
    · simp
    · assumption
  · rw [if_neg hg]
    refine ⟨?_, fun _ => ⟨?_, rfl, rfl⟩, rfl, rfl⟩
    · intro l hl
      simp only [List.mem_map] at hl
      obtain ⟨l1, ⟨l0, _, rfl⟩, rfl⟩ := hl
      by_cases h1 : l0.mReleaseFence > 0
      · simp only [h1, if_true]
        split <;> simp
      · simp only [h1, if_false]
        split
        · exact h1
        · exact h1
    · intro l hl
      simp only [List.mem_map] at hl
      obtain ⟨l1, _, rfl⟩ := hl
      split
      · rfl
      · rename_i h; exact not_not.mp h

theorem presentErr_outcome (dE : ExynosDisplay) :
    (presentErr dE).ret = -EINVAL ∧ (presentErr dE).ret ≠ HWC2_ERROR_NONE ∧
    (presentErr dE).outRetireFence = -1 ∧
    (presentErr dE).display.mRenderingState = RENDERING_STATE_PRESENTED ∧
    (presentErr dE).display.mGeometryChanged &&& GEOMETRY_ERROR_CASE = GEOMETRY_ERROR_CASE ∧
    (presentErr dE).display.mDeviceGeometryChanged &&& GEOMETRY_ERROR_CASE =
      GEOMETRY_ERROR_CASE ∧
    (presentErr dE).display.mLastRetireFence = -1 ∧
    (presentErr dE).display.mDpuData.retire_fence = -1 ∧
    (∀ c ∈ (presentErr dE).display.mDpuData.configs ++ (presentErr dE).display.mDpuData.rcdConfigs,
      c.acq_fence = -1 ∧ c.rel_fence = -1) ∧
    (∀ l ∈ (presentErr dE).display.mLayers, ¬ (0 < l.mReleaseFence)) ∧
    (¬ ((presentErr dE).display.mExynosCompositionInfo.mHasCompositionLayer = true ∧
        (presentErr dE).display.mExynosCompositionInfo.mM2mMPP = none) →
      (∀ l ∈ (presentErr dE).display.mLayers, l.mAcquireFence = -1) ∧
      (presentErr dE).display.mExynosCompositionInfo.mAcquireFence = -1 ∧
      (presentErr dE).display.mClientCompositionInfo.mAcquireFence = -1) := by
  obtain ⟨hrel, hacq, hhas, hm2m⟩ := closeFences_layers dE
  refine ⟨rfl, (show -EINVAL ≠ HWC2_ERROR_NONE by decide), rfl, rfl, ?_, ?_, rfl, rfl, ?_, hrel, ?_⟩
  · exact or_and_self_eq _ _
  · exact or_and_self_eq _ _
  · intro c hc
    have hc2 : c ∈ (closeFences dE).mDpuData.reset.configs ++
        (closeFences dE).mDpuData.reset.rcdConfigs := hc
    simp only [exynos_dpu_data.reset, List.mem_append, List.mem_map] at hc2
    rcases hc2 with ⟨_, _, rfl⟩ | ⟨_, _, rfl⟩ <;> exact ⟨rfl, rfl⟩
  · intro hg
    have hg2 : ¬ (dE.mExynosCompositionInfo.mHasCompositionLayer = true ∧
        dE.mExynosCompositionInfo.mM2mMPP = none) := by
      rw [← hhas, ← hm2m]; exact hg
    exact hacq hg2

/-- C11 (counterexample): `presentDisplay` called in the illegal state Validated
on a display whose secondary composition is flagged but has no resource
returns `-EINVAL` with the out fence `-1` and the state Presented, yet the
acquire fence 5 of layer 0 is still in place: `closeFences` returns before it
reaches the acquire fences. -/
theorem presentDisplay_error_keeps_acquire_fence :
    orphanSecondaryDisplay.mRenderingState = RENDERING_STATE_VALIDATED ∧
    (presentDisplay idlePresentOracle orphanSecondaryDisplay 0).map
        (fun r => (r.ret, r.outRetireFence, r.display.mRenderingState,
          r.display.mLayers.map (fun l => l.mAcquireFence))) =
      some (-EINVAL, -1, RENDERING_STATE_PRESENTED, [5]) := by
  decide

/-- C11 (amended): when `presentDisplay`, past its early returns, jumps to the
label `err` -- in a rendering state that is illegal for it, or on a failure of
`doExynosComposition`, of the post-processing of a layer, of `setWinConfigData`
or of `handleStaticLayers` -- it returns `-EINVAL` with the out retire fence
`-1`, the rendering state Presented and `GEOMETRY_ERROR_CASE` set in the
display and device geometry masks; the last retire fence is `-1`, the commit
plan is reset, no layer keeps a positive release fence, and, unless the
secondary composition is flagged without a resource, every layer's acquire
fence and both composition targets' acquire fences are `-1`. -/
theorem presentDisplay_internal_error (penv : PresentOracle) (d : ExynosDisplay)
    (outRetireFence0 : Int)
    (hhpd : d.mHpdStatus = true) (hdrop : dropFrameDuringResSwitch d = false)
    (hpause : d.mPauseDisplay = false) (htui : penv.isInTUI = false)
    (hskip : d.mSkipFrame = false)
    (herr :
      (d.mRenderingState ≠ RENDERING_STATE_ACCEPTED_CHANGE ∧
        (penv.noSupportSkipValidate = true ∨ d.mRenderingState = RENDERING_STATE_VALIDATED)) ∨
      (∃ dF, presentFrameEntry penv d = some dF ∧
        ¬ (dF.mLayers.length = 0 ∧ dF.mType ≠ HWC_DISPLAY_VIRTUAL) ∧
        ((presentComposed penv dF).1 ≠ NO_ERROR ∨
          ((presentComposed penv dF).1 = NO_ERROR ∧
            ((∃ c d3, presentLayerLoop penv (presentComposed penv dF).2.mLayers.length 0
                (presentComposed penv dF).2 = some (Flow.ret c d3)) ∨
              (∃ d3, presentLayerLoop penv (presentComposed penv dF).2.mLayers.length 0
                  (presentComposed penv dF).2 = some (Flow.next d3) ∧
                ((presentConfigured penv d3).1 ≠ NO_ERROR ∨
                  ((presentConfigured penv d3).1 = NO_ERROR ∧
                    (presentHandled penv (presentConfigured penv d3).2).1 ≠ NO_ERROR)))))))) :
    ∃ r, presentDisplay penv d outRetireFence0 = some r ∧
      r.ret = -EINVAL ∧ r.ret ≠ HWC2_ERROR_NONE ∧ r.outRetireFence = -1 ∧
      r.display.mRenderingState = RENDERING_STATE_PRESENTED ∧
      r.display.mGeometryChanged &&& GEOMETRY_ERROR_CASE = GEOMETRY_ERROR_CASE ∧
      r.display.mDeviceGeometryChanged &&& GEOMETRY_ERROR_CASE = GEOMETRY_ERROR_CASE ∧
      r.display.mLastRetireFence = -1 ∧
      r.display.mDpuData.retire_fence = -1 ∧
      (∀ c ∈ r.display.mDpuData.configs ++ r.display.mDpuData.rcdConfigs,
        c.acq_fence = -1 ∧ c.rel_fence = -1) ∧
      (∀ l ∈ r.display.mLayers, ¬ (0 < l.mReleaseFence)) ∧
      (¬ (r.display.mExynosCompositionInfo.mHasCompositionLayer = true ∧
          r.display.mExynosCompositionInfo.mM2mMPP = none) →
        (∀ l ∈ r.display.mLayers, l.mAcquireFence = -1) ∧
        r.display.mExynosCompositionInfo.mAcquireFence = -1 ∧
        r.display.mClientCompositionInfo.mAcquireFence = -1) := by
  have hfinish : ∀ dE, presentDisplay penv d outRetireFence0 = some (presentErr dE) →
      ∃ r, presentDisplay penv d outRetireFence0 = some r ∧
        r.ret = -EINVAL ∧ r.ret ≠ HWC2_ERROR_NONE ∧ r.outRetireFence = -1 ∧
        r.display.mRenderingState = RENDERING_STATE_PRESENTED ∧
        r.display.mGeometryChanged &&& GEOMETRY_ERROR_CASE = GEOMETRY_ERROR_CASE ∧
        r.display.mDeviceGeometryChanged &&& GEOMETRY_ERROR_CASE = GEOMETRY_ERROR_CASE ∧
        r.display.mLastRetireFence = -1 ∧
        r.display.mDpuData.retire_fence = -1 ∧
        (∀ c ∈ r.display.mDpuData.configs ++ r.display.mDpuData.rcdConfigs,
          c.acq_fence = -1 ∧ c.rel_fence = -1) ∧
        (∀ l ∈ r.display.mLayers, ¬ (0 < l.mReleaseFence)) ∧
        (¬ (r.display.mExynosCompositionInfo.mHasCompositionLayer = true ∧
            r.display.mExynosCompositionInfo.mM2mMPP = none) →
          (∀ l ∈ r.display.mLayers, l.mAcquireFence = -1) ∧
          r.display.mExynosCompositionInfo.mAcquireFence = -1 ∧
          r.display.mClientCompositionInfo.mAcquireFence = -1) :=
    fun dE h => ⟨presentErr dE, h, presentErr_outcome dE⟩
  rcases herr with ⟨hna, hill⟩ | ⟨dF, hentry, hne, hfail⟩
  · apply hfinish { d with mDropFrameDuringResSwitch := false }
    by_cases hb : penv.noSupportSkipValidate = true
    · simp [presentDisplay, hhpd, hdrop, hpause, htui, hskip, hna, hb]
    · rcases hill with hb2 | hv
      · exact absurd hb2 hb
      · simp [presentDisplay, hhpd, hdrop, hpause, htui, hskip, hb, hv]
  · have hpd := presentDisplay_of_entry penv d dF outRetireFence0 hentry
    rw [presentFrame_eq_build penv dF hne] at hpd
    have hbuild : ∃ c dE, presentBuild penv dF = some (Flow.ret c dE) := by
      unfold presentBuild
      dsimp only
      rcases hfail with h1 | ⟨h1, hloop⟩
      · rw [if_pos h1]; exact ⟨_, _, rfl⟩
      · rw [if_neg (not_not.mpr h1)]
        rcases hloop with ⟨c, d3, hl⟩ | ⟨d3, hl, hrest⟩
        · rw [hl]; exact ⟨_, _, rfl⟩
        · rw [hl]
          dsimp only
          rcases hrest with h2 | ⟨h2, h3⟩
          · rw [if_pos h2]; exact ⟨_, _, rfl⟩
          · rw [if_neg (not_not.mpr h2), if_pos h3]; exact ⟨_, _, rfl⟩
    obtain ⟨c, dE, hb⟩ := hbuild
    rw [hb] at hpd
    exact hfinish dE hpd

/-- C11 (witness): the amended statement on a display in state AcceptedChange
whose secondary composition fails. -/
theorem presentDisplay_internal_error_witness :
    ∃ r, presentDisplay failingCompositionOracle acceptedDisplay 7 = some r ∧
      r.ret = -EINVAL ∧ r.outRetireFence = -1 ∧
      r.display.mRenderingState = RENDERING_STATE_PRESENTED ∧
      r.display.mGeometryChanged &&& GEOMETRY_ERROR_CASE = GEOMETRY_ERROR_CASE :=
  Exists.imp (fun _ h => ⟨h.1, h.2.1, h.2.2.2.1, h.2.2.2.2.1, h.2.2.2.2.2.1⟩)
    (presentDisplay_internal_error failingCompositionOracle acceptedDisplay 7
      (by decide) (by decide) (by decide) (by decide) (by decide)
      (Or.inr ⟨acceptedDisplay, by decide, by decide, Or.inl (by decide)⟩))


/-! ## Commit failures in `presentDisplay` -/

/-- The comparison `a != b` of two `float` values is false exactly when they are
the same value and that value is a number. -/
theorem float_ne_eq_false (a b : float) :
    float.ne a b = false ↔ a = b ∧ b ≠ float.nan := by
  unfold float.ne
  simp only [decide_eq_false_iff_not, not_or, not_not, ne_eq]
  constructor
  · rintro ⟨_, h2, h3⟩
    exact ⟨h3, h2⟩
  · rintro ⟨h1, h2⟩
    exact ⟨by rw [h1]; exact h2, h2, h1⟩

theorem skipSnapshotDiffers_eq_false (layer : ExynosLayer) (src dst : exynos_image) :
    skipSnapshotDiffers layer src dst = false ↔
      ((layer.mLayerBuffer ≠ 0 ∧ src.bufferHandle = layer.mLayerBuffer ∧
        src.x = layer.mSrcImg.x ∧ src.y = layer.mSrcImg.y ∧ src.w = layer.mSrcImg.w ∧
        src.h = layer.mSrcImg.h ∧ src.dataSpace = layer.mSrcImg.dataSpace ∧
        src.blending = layer.mSrcImg.blending ∧ src.transform = layer.mSrcImg.transform ∧
        src.planeAlpha = layer.mSrcImg.planeAlpha ∧
        dst.x = layer.mDstImg.x ∧ dst.y = layer.mDstImg.y ∧ dst.w = layer.mDstImg.w ∧
        dst.h = layer.mDstImg.h) ∧ layer.mSrcImg.planeAlpha ≠ float.nan) := by
  unfold skipSnapshotDiffers
  constructor
  · intro h
    split at h
    · exact absurd h (by simp)
    rename_i h1
    split at h
    · exact absurd h (by simp)
    rename_i h2
    split at h
    · exact absurd h (by simp)
    rename_i h3
    simp only [not_or, not_not, Bool.not_eq_true] at h1 h2 h3
    obtain ⟨a1, a2⟩ := h1
    obtain ⟨b1, b2, b3, b4, b5, b6, b7, b8⟩ := h2
    obtain ⟨c1, c2, c3, c4⟩ := h3
    obtain ⟨b8a, b8b⟩ := (float_ne_eq_false _ _).mp b8
    exact ⟨⟨a1, a2, b1, b2, b3, b4, b5, b6, b7, b8a, c1, c2, c3, c4⟩, b8b⟩
  · rintro ⟨⟨a1, a2, b1, b2, b3, b4, b5, b6, b7, b8, c1, c2, c3, c4⟩, hnn⟩
    have b8n : float.ne src.planeAlpha layer.mSrcImg.planeAlpha = false :=
      (float_ne_eq_false _ _).mpr ⟨b8, hnn⟩
    rw [if_neg (by simp [a1, a2]), if_neg (by simp [b1, b2, b3, b4, b5, b6, b7, b8n]),
      if_neg (by simp [c1, c2, c3, c4])]

theorem skipChangedLoop_false (d : ExynosDisplay) (c : ExynosCompositionInfo) :
    ∀ (count i : Nat), skipChangedLoop d c count i = some false →
      ∀ k, i ≤ k → k < i + count →
        ∃ layer src dst, d.mLayers[k]? = some layer ∧
          c.mSkipSrcInfo.srcInfo[k - toSizeT c.mFirstIndex]? = some src ∧
          c.mSkipSrcInfo.dstInfo[k - toSizeT c.mFirstIndex]? = some dst ∧
          skipSnapshotDiffers layer src dst = false := by
  intro count
  induction count with
  | zero => intro i _ k h1 h2; omega
  | succ count ih =>
    intro i h k hk1 hk2
    unfold skipChangedLoop at h
    split at h
    · rename_i layer src dst hl hs hd
      split at h
      · exact absurd h (by simp)
      · rename_i hdiff
        by_cases hki : k = i
        · subst hki
          exact ⟨layer, src, dst, hl, hs, hd, by simpa using hdiff⟩
        · exact ih (i + 1) h k (by omega) (by omega)
    · exact absurd h (by simp)

theorem skipChangedLoop_all_same (d : ExynosDisplay) (c : ExynosCompositionInfo) :
    ∀ (count i : Nat),
      (∀ k, i ≤ k → k < i + count →
        ∃ layer src dst, d.mLayers[k]? = some layer ∧
          c.mSkipSrcInfo.srcInfo[k - toSizeT c.mFirstIndex]? = some src ∧
          c.mSkipSrcInfo.dstInfo[k - toSizeT c.mFirstIndex]? = some dst ∧
          skipSnapshotDiffers layer src dst = false) →
      skipChangedLoop d c count i = some false := by
  intro count
  induction count with
  | zero => intro i _; rfl
  | succ count ih =>
    intro i h
    obtain ⟨layer, src, dst, hl, hs, hd, hdiff⟩ := h i (le_refl _) (by omega)
    unfold skipChangedLoop
    rw [hl, hs, hd]
    dsimp only
    rw [hdiff]
    simp only [Bool.false_eq_true, if_false]
    exact ih (i + 1) (fun k h1 h2 => h k (by omega) (by omega))

/-- The layer as the marking loop of `skipStaticLayers` leaves it. -/
theorem skipMarkLoop_next :
    ∀ (count i : Nat) (d d1 : ExynosDisplay), skipMarkLoop count i d = some (Flow.next d1) →
      d1.mClientCompositionInfo = d.mClientCompositionInfo ∧
      (∀ k, d1.mLayers[k]? = (d.mLayers[k]?).map (fun l =>
        if i ≤ k ∧ k < i + count then
          { l with mOverlayInfo := l.mOverlayInfo ||| eSkipStaticLayer } else l)) := by
  intro count
  induction count with
  | zero =>
    intro i d d1 h
    simp only [skipMarkLoop, Option.some.injEq, Flow.next.injEq] at h
    subst h
    refine ⟨rfl, fun k => ?_⟩
    have : ¬ (i ≤ k ∧ k < i + 0) := by omega
    simp only [this, if_false]
    cases d.mLayers[k]? <;> rfl
  | succ count ih =>
    intro i d d1 h
    unfold skipMarkLoop at h
    split at h
    · exact absurd h (by simp)
    · rename_i layer hl
      split at h
      · obtain ⟨hc, hk⟩ := ih (i + 1) _ d1 h
        refine ⟨hc, fun k => ?_⟩
        rw [hk k]
        simp only [ExynosDisplay.setLayer]
        by_cases hki : k = i
        · subst hki
          have hlt : k < d.mLayers.length := by
            by_contra hcon
            rw [List.getElem?_eq_none (by omega)] at hl
            exact absurd hl (by simp)
          rw [List.getElem?_set_self hlt, hl]
          have h1 : ¬ (k + 1 ≤ k ∧ k < k + 1 + count) := by omega
          have h2 : k ≤ k ∧ k < k + (count + 1) := by omega
          simp only [Option.map_some', h1, h2, if_false, if_true, and_self]
        · rw [List.getElem?_set_ne (fun h => hki h.symm)]
          have hiff : (i + 1 ≤ k ∧ k < i + 1 + count) ↔ (i ≤ k ∧ k < i + (count + 1)) := by
            omega
          simp only [hiff]
      · split at h <;> exact absurd h (by simp)

theorem skipStaticLayers_flag_path (d d1 : ExynosDisplay) (ret : Int)
    (hF32 : d.mClientCompositionInfo.mFirstIndex < 2 ^ 31)
    (hL32 : d.mClientCompositionInfo.mLastIndex < 2 ^ 31)
    (h : skipStaticLayers d = some (ret, d1))
    (hflag : d1.mClientCompositionInfo.mSkipFlag = true) :
    ret = NO_ERROR ∧
    0 ≤ d.mClientCompositionInfo.mFirstIndex ∧ 0 ≤ d.mClientCompositionInfo.mLastIndex ∧
    d.mClientCompositionInfo.mLastIndex - d.mClientCompositionInfo.mFirstIndex + 1 ≤ 5 ∧
    toInt32 d.mClientCompositionInfo.mSkipSrcInfo.srcNum =
      d.mClientCompositionInfo.mLastIndex - d.mClientCompositionInfo.mFirstIndex + 1 ∧
    skipChangedLoop { d with mClientCompositionInfo :=
          { d.mClientCompositionInfo with mSkipFlag := false } }
        { d.mClientCompositionInfo with mSkipFlag := false }
        (d.mClientCompositionInfo.mLastIndex.toNat + 1 -
          d.mClientCompositionInfo.mFirstIndex.toNat)
        d.mClientCompositionInfo.mFirstIndex.toNat = some false ∧
    ∃ d2, skipMarkLoop
        (d.mClientCompositionInfo.mLastIndex.toNat + 1 -
          d.mClientCompositionInfo.mFirstIndex.toNat)
        d.mClientCompositionInfo.mFirstIndex.toNat
        { d with mClientCompositionInfo :=
          { d.mClientCompositionInfo with mSkipFlag := false } } = some (Flow.next d2) ∧
      d1 = { d2 with mClientCompositionInfo :=
        { d2.mClientCompositionInfo with mSkipFlag := true } } := by
  unfold skipStaticLayers at h
  dsimp only at h
  split at h
  · cases h; exact absurd hflag (by simp)
  split at h
  · cases h; exact absurd hflag (by simp)
  split at h
  · cases h; exact absurd hflag (by simp)
  rename_i h3
  simp only [not_or, not_lt, gt_iff_lt] at h3
  obtain ⟨_, hf0, hl0, hsz⟩ := h3
  have hsz5 : d.mClientCompositionInfo.mLastIndex - d.mClientCompositionInfo.mFirstIndex + 1 ≤ 5 :=
    hsz
  have hsF : toSizeT d.mClientCompositionInfo.mFirstIndex =
      d.mClientCompositionInfo.mFirstIndex.toNat := toSizeT_of_nonneg hf0 (by omega)
  have hsL : toSizeT d.mClientCompositionInfo.mLastIndex =
      d.mClientCompositionInfo.mLastIndex.toNat := toSizeT_of_nonneg hl0 (by omega)
  have hcount : sizeLoopCount d.mClientCompositionInfo.mFirstIndex
      d.mClientCompositionInfo.mLastIndex =
      d.mClientCompositionInfo.mLastIndex.toNat + 1 - d.mClientCompositionInfo.mFirstIndex.toNat := by
    unfold sizeLoopCount; rw [hsF, hsL]
  rw [hcount, hsF] at h
  split at h
  · unfold skipStaticLayerChanged at h
    dsimp only at h
    by_cases hnum : toInt32 d.mClientCompositionInfo.mSkipSrcInfo.srcNum ≠
        d.mClientCompositionInfo.mLastIndex - d.mClientCompositionInfo.mFirstIndex + 1
    · rw [if_pos hnum] at h
      cases h; exact absurd hflag (by simp)
    · rw [if_neg hnum, hcount, hsF] at h
      split at h
      · exact absurd h (by simp)
      · cases h; exact absurd hflag (by simp)
      · rename_i hch
        split at h
        · exact absurd h (by simp)
        · rename_i r d2 hm
          cases h
          exfalso
          unfold skipMarkLoop at hm
          revert hm hflag
          generalize d.mClientCompositionInfo.mLastIndex.toNat + 1 -
            d.mClientCompositionInfo.mFirstIndex.toNat = n
          generalize d.mClientCompositionInfo.mFirstIndex.toNat = i0
          intro hflag hm
          have key : ∀ (count i : Nat) (e : ExynosDisplay) (r : Int) (e1 : ExynosDisplay),
              e.mClientCompositionInfo.mSkipFlag = false →
              skipMarkLoop count i e = some (Flow.ret r e1) →
              e1.mClientCompositionInfo.mSkipFlag = false := by
            intro count
            induction count with
            | zero => intro i e r e1 _ hh; simp [skipMarkLoop] at hh
            | succ count ih =>
              intro i e r e1 he hh
              unfold skipMarkLoop at hh
              split at hh
              · exact absurd hh (by simp)
              · split at hh
                · refine ih (i + 1) _ r e1 ?_ hh
                  exact he
                · split at hh
                  · simp only [Option.some.injEq, Flow.ret.injEq] at hh
                    obtain ⟨_, rfl⟩ := hh
                    exact he
                  · simp only [Option.some.injEq, Flow.ret.injEq] at hh
                    obtain ⟨_, rfl⟩ := hh
                    exact he
          have := key n i0 _ _ _ rfl (by unfold skipMarkLoop; exact hm)
          rw [this] at hflag
          exact absurd hflag (by simp)
        · rename_i d2 hm
          cases h
          exact ⟨rfl, hf0, hl0, hsz5, not_not.mp hnum, hch, d2, hm, rfl⟩
  · split at h
    · exact absurd h (by simp)
    · rename_i d2 hc
      cases h
      exfalso
      have key : ∀ (count i : Nat) (first : Nat) (e e1 : ExynosDisplay),
          e.mClientCompositionInfo.mSkipFlag = false →
          skipCacheLoop first count i e = some e1 →
          e1.mClientCompositionInfo.mSkipFlag = false := by
        intro count
        induction count with
        | zero =>
          intro i first e e1 he hh
          simp only [skipCacheLoop, Option.some.injEq] at hh
          subst hh; exact he
        | succ count ih =>
          intro i first e e1 he hh
          unfold skipCacheLoop at hh
          split at hh
          · exact absurd hh (by simp)
          · dsimp only at hh
            split at hh
            · refine ih (i + 1) first _ e1 ?_ hh
              exact he
            · exact absurd hh (by simp)
      have := key _ _ _ _ d2 rfl hc
      simp only at hflag
      rw [this] at hflag
      exact absurd hflag (by simp)

/-- C13 (skip-static correctness): for client range indices that are `int32_t`
values, whenever `skipStaticLayers` returns with `mSkipFlag` set, it returned
`NO_ERROR`, the range and the snapshot are the ones it was called with, the
snapshot count equals `last - first + 1`, and every layer `i` of `[first,last]`
has a non-null buffer and agrees with snapshot entry `i - first` on the buffer
handle, the source x/y/w/h, data space, blending, transform and plane alpha and
the destination x/y/w/h (the call only adds `eSkipStaticLayer` to the layer's
overlay info).  Hence, if one of these fields of a layer of the range differs
from its snapshot entry, the call ends with `mSkipFlag` false. -/
theorem skipStaticLayers_flag_sound (d d1 : ExynosDisplay) (ret : Int)
    (hF32 : d.mClientCompositionInfo.mFirstIndex < 2 ^ 31)
    (hL32 : d.mClientCompositionInfo.mLastIndex < 2 ^ 31)
    (h : skipStaticLayers d = some (ret, d1)) :
    (d1.mClientCompositionInfo.mSkipFlag = true →
      ret = NO_ERROR ∧
      d1.mClientCompositionInfo.mFirstIndex = d.mClientCompositionInfo.mFirstIndex ∧
      d1.mClientCompositionInfo.mLastIndex = d.mClientCompositionInfo.mLastIndex ∧
      d1.mClientCompositionInfo.mSkipSrcInfo = d.mClientCompositionInfo.mSkipSrcInfo ∧
      toInt32 d1.mClientCompositionInfo.mSkipSrcInfo.srcNum =
        d1.mClientCompositionInfo.mLastIndex - d1.mClientCompositionInfo.mFirstIndex + 1 ∧
      ∀ i : Nat, d.mClientCompositionInfo.mFirstIndex ≤ i → (i : Int) ≤
          d.mClientCompositionInfo.mLastIndex →
        ∃ layer src dst, d.mLayers[i]? = some layer ∧
          d1.mLayers[i]? =
            some { layer with mOverlayInfo := layer.mOverlayInfo ||| eSkipStaticLayer } ∧
          d.mClientCompositionInfo.mSkipSrcInfo.srcInfo[i -
            d.mClientCompositionInfo.mFirstIndex.toNat]? = some src ∧
          d.mClientCompositionInfo.mSkipSrcInfo.dstInfo[i -
            d.mClientCompositionInfo.mFirstIndex.toNat]? = some dst ∧
          layer.mLayerBuffer ≠ 0 ∧ src.bufferHandle = layer.mLayerBuffer ∧
          src.x = layer.mSrcImg.x ∧ src.y = layer.mSrcImg.y ∧ src.w = layer.mSrcImg.w ∧
          src.h = layer.mSrcImg.h ∧ src.dataSpace = layer.mSrcImg.dataSpace ∧
          src.blending = layer.mSrcImg.blending ∧ src.transform = layer.mSrcImg.transform ∧
          src.planeAlpha = layer.mSrcImg.planeAlpha ∧
          dst.x = layer.mDstImg.x ∧ dst.y = layer.mDstImg.y ∧ dst.w = layer.mDstImg.w ∧
          dst.h = layer.mDstImg.h) ∧
    ((∃ (i : Nat) (layer : ExynosLayer) (src dst : exynos_image),
        d.mClientCompositionInfo.mFirstIndex ≤ i ∧ (i : Int) ≤ d.mClientCompositionInfo.mLastIndex ∧
        d.mLayers[i]? = some layer ∧
        d.mClientCompositionInfo.mSkipSrcInfo.srcInfo[i -
          d.mClientCompositionInfo.mFirstIndex.toNat]? = some src ∧
        d.mClientCompositionInfo.mSkipSrcInfo.dstInfo[i -
          d.mClientCompositionInfo.mFirstIndex.toNat]? = some dst ∧
        (src.bufferHandle ≠ layer.mLayerBuffer ∨
          src.x ≠ layer.mSrcImg.x ∨ src.y ≠ layer.mSrcImg.y ∨ src.w ≠ layer.mSrcImg.w ∨
          src.h ≠ layer.mSrcImg.h ∨ src.blending ≠ layer.mSrcImg.blending ∨
          src.transform ≠ layer.mSrcImg.transform ∨
          src.planeAlpha ≠ layer.mSrcImg.planeAlpha ∨
          dst.x ≠ layer.mDstImg.x ∨ dst.y ≠ layer.mDstImg.y ∨ dst.w ≠ layer.mDstImg.w ∨
          dst.h ≠ layer.mDstImg.h)) →
      d1.mClientCompositionInfo.mSkipFlag = false) := by
  have main : d1.mClientCompositionInfo.mSkipFlag = true →
      ret = NO_ERROR ∧
      d1.mClientCompositionInfo.mFirstIndex = d.mClientCompositionInfo.mFirstIndex ∧
      d1.mClientCompositionInfo.mLastIndex = d.mClientCompositionInfo.mLastIndex ∧
      d1.mClientCompositionInfo.mSkipSrcInfo = d.mClientCompositionInfo.mSkipSrcInfo ∧
      toInt32 d1.mClientCompositionInfo.mSkipSrcInfo.srcNum =
        d1.mClientCompositionInfo.mLastIndex - d1.mClientCompositionInfo.mFirstIndex + 1 ∧
      ∀ i : Nat, d.mClientCompositionInfo.mFirstIndex ≤ i → (i : Int) ≤
          d.mClientCompositionInfo.mLastIndex →
        ∃ layer src dst, d.mLayers[i]? = some layer ∧
          d1.mLayers[i]? =
            some { layer with mOverlayInfo := layer.mOverlayInfo ||| eSkipStaticLayer } ∧
          d.mClientCompositionInfo.mSkipSrcInfo.srcInfo[i -
            d.mClientCompositionInfo.mFirstIndex.toNat]? = some src ∧
          d.mClientCompositionInfo.mSkipSrcInfo.dstInfo[i -
            d.mClientCompositionInfo.mFirstIndex.toNat]? = some dst ∧
          layer.mLayerBuffer ≠ 0 ∧ src.bufferHandle = layer.mLayerBuffer ∧
          src.x = layer.mSrcImg.x ∧ src.y = layer.mSrcImg.y ∧ src.w = layer.mSrcImg.w ∧
          src.h = layer.mSrcImg.h ∧ src.dataSpace = layer.mSrcImg.dataSpace ∧
          src.blending = layer.mSrcImg.blending ∧ src.transform = layer.mSrcImg.transform ∧
          src.planeAlpha = layer.mSrcImg.planeAlpha ∧
          dst.x = layer.mDstImg.x ∧ dst.y = layer.mDstImg.y ∧ dst.w = layer.mDstImg.w ∧
          dst.h = layer.mDstImg.h := by
    intro hflag
    obtain ⟨hret, hf0, hl0, _, hnum, hch, d2, hm, hd1⟩ :=
      skipStaticLayers_flag_path d d1 ret hF32 hL32 h hflag
    obtain ⟨hc2, hlay⟩ := skipMarkLoop_next _ _ _ d2 hm
    have hsF : toSizeT d.mClientCompositionInfo.mFirstIndex =
        d.mClientCompositionInfo.mFirstIndex.toNat := toSizeT_of_nonneg hf0 (by omega)
    subst hd1
    refine ⟨hret, ?_, ?_, ?_, ?_, ?_⟩
    · show d2.mClientCompositionInfo.mFirstIndex = _; rw [hc2]
    · show d2.mClientCompositionInfo.mLastIndex = _; rw [hc2]
    · show d2.mClientCompositionInfo.mSkipSrcInfo = _; rw [hc2]
    · show toInt32 d2.mClientCompositionInfo.mSkipSrcInfo.srcNum =
        d2.mClientCompositionInfo.mLastIndex - d2.mClientCompositionInfo.mFirstIndex + 1
      rw [hc2]; exact hnum
    · intro i hi1 hi2
      have hin : d.mClientCompositionInfo.mFirstIndex.toNat ≤ i ∧
          i < d.mClientCompositionInfo.mFirstIndex.toNat +
            (d.mClientCompositionInfo.mLastIndex.toNat + 1 -
              d.mClientCompositionInfo.mFirstIndex.toNat) := by omega
      obtain ⟨layer, src, dst, hl, hs, hd, hdiff⟩ :=
        skipChangedLoop_false _ _ _ _ hch i hin.1 hin.2
      have hl' : d.mLayers[i]? = some layer := hl
      have hs' : d.mClientCompositionInfo.mSkipSrcInfo.srcInfo[i -
          d.mClientCompositionInfo.mFirstIndex.toNat]? = some src := by
        rw [← hsF]; exact hs
      have hd' : d.mClientCompositionInfo.mSkipSrcInfo.dstInfo[i -
          d.mClientCompositionInfo.mFirstIndex.toNat]? = some dst := by
        rw [← hsF]; exact hd
      refine ⟨layer, src, dst, hl', ?_, hs', hd',
        ((skipSnapshotDiffers_eq_false _ _ _).mp hdiff).1⟩
      show d2.mLayers[i]? = _
      rw [hlay i]
      have hl2 : ({ d with mClientCompositionInfo :=
          { d.mClientCompositionInfo with mSkipFlag := false } } : ExynosDisplay).mLayers[i]? =
          some layer := hl
      rw [hl2]
      simp only [Option.map_some', hin, and_self, if_true]
  refine ⟨main, ?_⟩
  rintro ⟨i, layer, src, dst, hi1, hi2, hl, hs, hd, hne⟩
  by_contra hcon
  have hflag : d1.mClientCompositionInfo.mSkipFlag = true := by
    cases hf : d1.mClientCompositionInfo.mSkipFlag with
    | true => rfl
    | false => exact absurd hf hcon
  obtain ⟨_, _, _, _, _, hall⟩ := main hflag
  obtain ⟨layer', src', dst', hl', _, hs', hd', _, e1, e2, e3, e4, e5, _, e6, e7, e8, e9, e10,
    e11, e12⟩ := hall i hi1 hi2
  rw [hl] at hl'
  rw [hs] at hs'
  rw [hd] at hd'
  cases hl'
  cases hs'
  cases hd'
  rcases hne with h | h | h | h | h | h | h | h | h | h | h | h
  · exact h e1
  · exact h e2
  · exact h e3
  · exact h e4
  · exact h e5
  · exact h e6
  · exact h e7
  · exact h e8
  · exact h e9
  · exact h e10
  · exact h e11
  · exact h e12

/-- C13 (witness): on `cachedSkipDisplay` the evaluation ends with `mSkipFlag`
set, and the snapshot entry of layer 0 carries the layer's buffer handle. -/
theorem skipStaticLayers_flag_sound_witness :
    ∃ d1, skipStaticLayers cachedSkipDisplay = some (NO_ERROR, d1) ∧
      d1.mClientCompositionInfo.mSkipFlag = true ∧
      toInt32 d1.mClientCompositionInfo.mSkipSrcInfo.srcNum =
        d1.mClientCompositionInfo.mLastIndex - d1.mClientCompositionInfo.mFirstIndex + 1 :=
  ⟨_, rfl, by decide,
    ((skipStaticLayers_flag_sound cachedSkipDisplay _ NO_ERROR (by decide) (by decide) rfl).1
      (by decide)).2.2.2.2.1⟩


/-! ## Static-layer skip: the two passes -/

theorem skipCacheLoop_spec (first : Nat) :
    ∀ (count i : Nat) (d : ExynosDisplay), first ≤ i → i + count ≤ d.mLayers.length →
      i + count - first ≤ d.mClientCompositionInfo.mSkipSrcInfo.srcInfo.length →
      i + count - first ≤ d.mClientCompositionInfo.mSkipSrcInfo.dstInfo.length →
      ∃ S D, skipCacheLoop first count i d =
          some { d with mClientCompositionInfo :=
            { d.mClientCompositionInfo with mSkipSrcInfo :=
              { d.mClientCompositionInfo.mSkipSrcInfo with srcInfo := S, dstInfo := D } } } ∧
        S.length = d.mClientCompositionInfo.mSkipSrcInfo.srcInfo.length ∧
        D.length = d.mClientCompositionInfo.mSkipSrcInfo.dstInfo.length ∧
        (∀ k, i ≤ k → k < i + count →
          ∃ layer, d.mLayers[k]? = some layer ∧ S[k - first]? = some layer.mSrcImg ∧
            D[k - first]? = some layer.mDstImg) ∧
        (∀ j, j < i - first →
          S[j]? = d.mClientCompositionInfo.mSkipSrcInfo.srcInfo[j]? ∧
          D[j]? = d.mClientCompositionInfo.mSkipSrcInfo.dstInfo[j]?) := by
  intro count
  induction count with
  | zero =>
    intro i d _ _ _ _
    exact ⟨_, _, rfl, rfl, rfl, fun k h1 h2 => by omega, fun j _ => ⟨rfl, rfl⟩⟩
  | succ count ih =>
    intro i d hfi hlen hs hd
    have h1 : d.mLayers[i]? = some d.mLayers[i] := List.getElem?_eq_getElem (by omega)
    have hin : i - first < d.mClientCompositionInfo.mSkipSrcInfo.srcInfo.length ∧
        i - first < d.mClientCompositionInfo.mSkipSrcInfo.dstInfo.length := by
      constructor <;> omega
    obtain ⟨S, D, hrun, hSl, hDl, hin2, hout⟩ := ih (i + 1)
      { d with mClientCompositionInfo :=
          { d.mClientCompositionInfo with mSkipSrcInfo :=
              { d.mClientCompositionInfo.mSkipSrcInfo with
                srcInfo := d.mClientCompositionInfo.mSkipSrcInfo.srcInfo.set (i - first)
                  d.mLayers[i].mSrcImg
                dstInfo := d.mClientCompositionInfo.mSkipSrcInfo.dstInfo.set (i - first)
                  d.mLayers[i].mDstImg } } }
      (by omega) (show i + 1 + count ≤ d.mLayers.length by omega) (by simp; omega)
      (by simp; omega)
    refine ⟨S, D, ?_, ?_, ?_, ?_, ?_⟩
    · simp only [skipCacheLoop, h1, if_pos hin]
      exact hrun
    · simpa using hSl
    · simpa using hDl
    · intro k hk1 hk2
      by_cases hki : k = i
      · subst hki
        obtain ⟨e1, e2⟩ := hout (k - first) (by omega)
        refine ⟨d.mLayers[k], h1, ?_, ?_⟩
        · rw [e1]; exact List.getElem?_set_self (by omega)
        · rw [e2]; exact List.getElem?_set_self (by omega)
      · exact hin2 k (by omega) (by omega)
    · intro j hj
      obtain ⟨e1, e2⟩ := hout j (by omega)
      refine ⟨?_, ?_⟩
      · rw [e1]; exact List.getElem?_set_ne (by omega)
      · rw [e2]; exact List.getElem?_set_ne (by omega)

theorem skipMarkLoop_all_client :
    ∀ (count i : Nat) (d : ExynosDisplay), i + count ≤ d.mLayers.length →
      (∀ k, i ≤ k → k < i + count →
        ∃ layer, d.mLayers[k]? = some layer ∧
          layer.getValidateCompositionType = HWC2_COMPOSITION_CLIENT) →
      ∃ d1, skipMarkLoop count i d = some (Flow.next d1) := by
  intro count
  induction count with
  | zero => intro i d _ _; exact ⟨d, rfl⟩
  | succ count ih =>
    intro i d hlen hall
    obtain ⟨layer, hl, hc⟩ := hall i (le_refl _) (by omega)
    have hcc : (layer.getValidateCompositionType : Int) = (COMPOSITION_CLIENT : Nat) := by
      rw [hc]; rfl
    simp only [skipMarkLoop, hl, if_pos hcc]
    apply ih
    · simp only [ExynosDisplay.setLayer, List.length_set]; omega
    · intro k hk1 hk2
      obtain ⟨l2, hl2, hc2⟩ := hall k (by omega) (by omega)
      refine ⟨l2, ?_, hc2⟩
      simp only [ExynosDisplay.setLayer]
      rw [List.getElem?_set_ne (by omega)]
      exact hl2

theorem skipStaticLayers_first_pass (d : ExynosDisplay)
    (htype : d.mClientCompositionInfo.mType = COMPOSITION_CLIENT)
    (hctl : d.exynosHWCControl.skipStaticLayers ≠ 0)
    (hen : d.mClientCompositionInfo.mEnableSkipStatic = true)
    (hhas : d.mClientCompositionInfo.mHasCompositionLayer = true)
    (hf0 : 0 ≤ d.mClientCompositionInfo.mFirstIndex)
    (hfl : d.mClientCompositionInfo.mFirstIndex ≤ d.mClientCompositionInfo.mLastIndex)
    (hll : d.mClientCompositionInfo.mLastIndex < d.mLayers.length)
    (hn : d.mLayers.length < 2 ^ 31)
    (hsz : d.mClientCompositionInfo.mLastIndex - d.mClientCompositionInfo.mFirstIndex + 1 ≤ 5)
    (hinit : d.mClientCompositionInfo.mSkipStaticInitFlag = false) :
    ∃ S D, skipStaticLayers d =
        some (NO_ERROR, { d with mClientCompositionInfo :=
          { d.mClientCompositionInfo with
            mSkipFlag := false
            mSkipStaticInitFlag := true
            mSkipSrcInfo :=
              { srcNum := (d.mClientCompositionInfo.mLastIndex -
                  d.mClientCompositionInfo.mFirstIndex + 1).toNat
                srcInfo := S, dstInfo := D } } }) ∧
      (∀ k, d.mClientCompositionInfo.mFirstIndex.toNat ≤ k →
        k ≤ d.mClientCompositionInfo.mLastIndex.toNat →
        ∃ layer, d.mLayers[k]? = some layer ∧
          S[k - d.mClientCompositionInfo.mFirstIndex.toNat]? = some layer.mSrcImg ∧
          D[k - d.mClientCompositionInfo.mFirstIndex.toNat]? = some layer.mDstImg) := by
  have hsF : toSizeT d.mClientCompositionInfo.mFirstIndex =
      d.mClientCompositionInfo.mFirstIndex.toNat := toSizeT_of_nonneg hf0 (by omega)
  have hsL : toSizeT d.mClientCompositionInfo.mLastIndex =
      d.mClientCompositionInfo.mLastIndex.toNat := toSizeT_of_nonneg (by omega) (by omega)
  have hcount : sizeLoopCount d.mClientCompositionInfo.mFirstIndex
      d.mClientCompositionInfo.mLastIndex =
      d.mClientCompositionInfo.mLastIndex.toNat + 1 - d.mClientCompositionInfo.mFirstIndex.toNat := by
    unfold sizeLoopCount; rw [hsF, hsL]
  have hnum : toUInt32 (d.mClientCompositionInfo.mLastIndex -
      d.mClientCompositionInfo.mFirstIndex + 1) =
      (d.mClientCompositionInfo.mLastIndex - d.mClientCompositionInfo.mFirstIndex + 1).toNat :=
    toUInt32_of_nonneg (by omega) (by omega)
  obtain ⟨S, D, hrun, _, _, hin, _⟩ := skipCacheLoop_spec d.mClientCompositionInfo.mFirstIndex.toNat
    (d.mClientCompositionInfo.mLastIndex.toNat + 1 - d.mClientCompositionInfo.mFirstIndex.toNat)
    d.mClientCompositionInfo.mFirstIndex.toNat
    { d with mClientCompositionInfo :=
        { ({ d.mClientCompositionInfo with mSkipFlag := false } : ExynosCompositionInfo) with
          mSkipStaticInitFlag := true
          mSkipSrcInfo := { srcNum := 0, srcInfo := blankSnapshot, dstInfo := blankSnapshot } } }
    (le_refl _) (by show _ ≤ d.mLayers.length; omega)
    (by show _ ≤ blankSnapshot.length; simp [blankSnapshot, NUM_SKIP_STATIC_LAYER]; omega)
    (by show _ ≤ blankSnapshot.length; simp [blankSnapshot, NUM_SKIP_STATIC_LAYER]; omega)
  refine ⟨S, D, ?_, ?_⟩
  · unfold skipStaticLayers
    dsimp only
    rw [if_neg (not_not.mpr htype), if_neg (by simp [hctl, hen]),
      if_neg (by simp only [hhas, NUM_SKIP_STATIC_LAYER]; simp; omega),
      if_neg (by simp [hinit]), hcount, hsF, hrun]
    dsimp only
    rw [hnum]
  · intro k hk1 hk2
    exact hin k hk1 (by omega)

theorem skipStaticLayers_second_pass (e : ExynosDisplay)
    (htype : e.mClientCompositionInfo.mType = COMPOSITION_CLIENT)
    (hctl : e.exynosHWCControl.skipStaticLayers ≠ 0)
    (hen : e.mClientCompositionInfo.mEnableSkipStatic = true)
    (hhas : e.mClientCompositionInfo.mHasCompositionLayer = true)
    (hf0 : 0 ≤ e.mClientCompositionInfo.mFirstIndex)
    (hfl : e.mClientCompositionInfo.mFirstIndex ≤ e.mClientCompositionInfo.mLastIndex)
    (hll : e.mClientCompositionInfo.mLastIndex < e.mLayers.length)
    (hn : e.mLayers.length < 2 ^ 31)
    (hsz : e.mClientCompositionInfo.mLastIndex - e.mClientCompositionInfo.mFirstIndex + 1 ≤ 5)
    (hinit : e.mClientCompositionInfo.mSkipStaticInitFlag = true)
    (hnum : toInt32 e.mClientCompositionInfo.mSkipSrcInfo.srcNum =
      e.mClientCompositionInfo.mLastIndex - e.mClientCompositionInfo.mFirstIndex + 1)
    (hcache : ∀ k, e.mClientCompositionInfo.mFirstIndex.toNat ≤ k →
      k ≤ e.mClientCompositionInfo.mLastIndex.toNat →
      ∃ layer, e.mLayers[k]? = some layer ∧
        e.mClientCompositionInfo.mSkipSrcInfo.srcInfo[k -
          e.mClientCompositionInfo.mFirstIndex.toNat]? = some layer.mSrcImg ∧
        e.mClientCompositionInfo.mSkipSrcInfo.dstInfo[k -
          e.mClientCompositionInfo.mFirstIndex.toNat]? = some layer.mDstImg) :
    ((∀ k layer, e.mClientCompositionInfo.mFirstIndex.toNat ≤ k →
        k ≤ e.mClientCompositionInfo.mLastIndex.toNat → e.mLayers[k]? = some layer →
        layer.getValidateCompositionType = HWC2_COMPOSITION_CLIENT ∧ layer.mLayerBuffer ≠ 0 ∧
          layer.mSrcImg.bufferHandle = layer.mLayerBuffer ∧
          layer.mSrcImg.planeAlpha ≠ float.nan) →
      ∃ d2, skipStaticLayers e = some (NO_ERROR, d2) ∧
        d2.mClientCompositionInfo.mSkipFlag = true ∧
        d2.mClientCompositionInfo.mSkipStaticInitFlag = true) ∧
    ((∃ k layer, e.mClientCompositionInfo.mFirstIndex.toNat ≤ k ∧
        k ≤ e.mClientCompositionInfo.mLastIndex.toNat ∧ e.mLayers[k]? = some layer ∧
        (layer.mLayerBuffer = 0 ∨ layer.mSrcImg.bufferHandle ≠ layer.mLayerBuffer ∨
          layer.mSrcImg.planeAlpha = float.nan)) →
      ∃ d2, skipStaticLayers e = some (NO_ERROR, d2) ∧
        d2.mClientCompositionInfo.mSkipFlag = false ∧
        d2.mClientCompositionInfo.mSkipStaticInitFlag = false) := by
  have hsF : toSizeT e.mClientCompositionInfo.mFirstIndex =
      e.mClientCompositionInfo.mFirstIndex.toNat := toSizeT_of_nonneg hf0 (by omega)
  have hsL : toSizeT e.mClientCompositionInfo.mLastIndex =
      e.mClientCompositionInfo.mLastIndex.toNat := toSizeT_of_nonneg (by omega) (by omega)
  have hcount : sizeLoopCount e.mClientCompositionInfo.mFirstIndex
      e.mClientCompositionInfo.mLastIndex =
      e.mClientCompositionInfo.mLastIndex.toNat + 1 - e.mClientCompositionInfo.mFirstIndex.toNat := by
    unfold sizeLoopCount; rw [hsF, hsL]
  have hpre : skipStaticLayers e =
      match skipChangedLoop
          { e with mClientCompositionInfo := { e.mClientCompositionInfo with mSkipFlag := false } }
          { e.mClientCompositionInfo with mSkipFlag := false }
          (e.mClientCompositionInfo.mLastIndex.toNat + 1 -
            e.mClientCompositionInfo.mFirstIndex.toNat)
          e.mClientCompositionInfo.mFirstIndex.toNat with
      | none => none
      | some true => some (NO_ERROR,
          { e with mClientCompositionInfo :=
            { e.mClientCompositionInfo with mSkipFlag := false, mSkipStaticInitFlag := false } })
      | some false =>
        match skipMarkLoop
            (e.mClientCompositionInfo.mLastIndex.toNat + 1 -
              e.mClientCompositionInfo.mFirstIndex.toNat)
            e.mClientCompositionInfo.mFirstIndex.toNat
            { e with mClientCompositionInfo :=
              { e.mClientCompositionInfo with mSkipFlag := false } } with
        | none => none
        | some (Flow.ret r d1) => some (r, d1)
        | some (Flow.next d1) =>
          some (NO_ERROR,
            { d1 with mClientCompositionInfo :=
              { d1.mClientCompositionInfo with mSkipFlag := true } }) := by
    unfold skipStaticLayers
    dsimp only
    rw [if_neg (not_not.mpr htype), if_neg (by simp [hctl, hen]),
      if_neg (by simp only [hhas, NUM_SKIP_STATIC_LAYER]; simp; omega),
      if_pos hinit]
    unfold skipStaticLayerChanged
    dsimp only
    rw [if_neg (not_not.mpr hnum), hcount, hsF]
  constructor
  · intro hall
    have hsame : skipChangedLoop
        { e with mClientCompositionInfo := { e.mClientCompositionInfo with mSkipFlag := false } }
        { e.mClientCompositionInfo with mSkipFlag := false }
        (e.mClientCompositionInfo.mLastIndex.toNat + 1 -
          e.mClientCompositionInfo.mFirstIndex.toNat)
        e.mClientCompositionInfo.mFirstIndex.toNat = some false := by
      apply skipChangedLoop_all_same
      intro k hk1 hk2
      obtain ⟨layer, hl, hs, hd⟩ := hcache k hk1 (by omega)
      obtain ⟨_, hb, hh, hnn⟩ := hall k layer hk1 (by omega) hl
      refine ⟨layer, layer.mSrcImg, layer.mDstImg, hl, ?_, ?_, ?_⟩
      · show e.mClientCompositionInfo.mSkipSrcInfo.srcInfo[k -
          toSizeT e.mClientCompositionInfo.mFirstIndex]? = _
        rw [hsF]; exact hs
      · show e.mClientCompositionInfo.mSkipSrcInfo.dstInfo[k -
          toSizeT e.mClientCompositionInfo.mFirstIndex]? = _
        rw [hsF]; exact hd
      · exact (skipSnapshotDiffers_eq_false _ _ _).mpr
          ⟨⟨hb, hh, rfl, rfl, rfl, rfl, rfl, rfl, rfl, rfl, rfl, rfl, rfl, rfl⟩, hnn⟩
    obtain ⟨d1, hm⟩ := skipMarkLoop_all_client
      (e.mClientCompositionInfo.mLastIndex.toNat + 1 - e.mClientCompositionInfo.mFirstIndex.toNat)
      e.mClientCompositionInfo.mFirstIndex.toNat
      { e with mClientCompositionInfo := { e.mClientCompositionInfo with mSkipFlag := false } }
      (by show _ ≤ e.mLayers.length; omega)
      (fun k hk1 hk2 => by
        obtain ⟨layer, hl, _, _⟩ := hcache k hk1 (by omega)
        exact ⟨layer, hl, (hall k layer hk1 (by omega) hl).1⟩)
    obtain ⟨hc, _⟩ := skipMarkLoop_next _ _ _ d1 hm
    rw [hpre, hsame]
    dsimp only
    rw [hm]
    refine ⟨_, rfl, rfl, ?_⟩
    show d1.mClientCompositionInfo.mSkipStaticInitFlag = true
    rw [hc]; exact hinit
  · rintro ⟨k, layer, hk1, hk2, hl, hbad⟩
    obtain ⟨b, hb⟩ := skipChangedLoop_some
      { e with mClientCompositionInfo := { e.mClientCompositionInfo with mSkipFlag := false } }
      { e.mClientCompositionInfo with mSkipFlag := false }
      e.mClientCompositionInfo.mFirstIndex.toNat hsF
      (e.mClientCompositionInfo.mLastIndex.toNat + 1 - e.mClientCompositionInfo.mFirstIndex.toNat)
      e.mClientCompositionInfo.mFirstIndex.toNat (le_refl _)
      (by show _ ≤ e.mLayers.length; omega)
      (by
        obtain ⟨_, _, hs, _⟩ := hcache e.mClientCompositionInfo.mLastIndex.toNat (by omega)
          (le_refl _)
        have := (List.getElem?_eq_some_iff.mp hs).1
        show _ ≤ e.mClientCompositionInfo.mSkipSrcInfo.srcInfo.length
        omega)
      (by
        obtain ⟨_, _, _, hd⟩ := hcache e.mClientCompositionInfo.mLastIndex.toNat (by omega)
          (le_refl _)
        have := (List.getElem?_eq_some_iff.mp hd).1
        show _ ≤ e.mClientCompositionInfo.mSkipSrcInfo.dstInfo.length
        omega)
    cases b with
    | true =>
      rw [hpre, hb]
      exact ⟨_, rfl, rfl, rfl⟩
    | false =>
      exfalso
      obtain ⟨layer', src, dst, hl', hs', _, hdiff⟩ :=
        skipChangedLoop_false _ _ _ _ hb k hk1 (by omega)
      have hl2 : e.mLayers[k]? = some layer' := hl'
      rw [hl] at hl2
      cases hl2
      obtain ⟨_, hl3, hs3, _⟩ := hcache k hk1 hk2
      rw [hl] at hl3
      cases hl3
      have hs4 : e.mClientCompositionInfo.mSkipSrcInfo.srcInfo[k -
          e.mClientCompositionInfo.mFirstIndex.toNat]? = some src := by
        rw [← hsF]; exact hs'
      rw [hs3] at hs4
      cases hs4
      obtain ⟨⟨a1, a2, _⟩, hnn⟩ := (skipSnapshotDiffers_eq_false _ _ _).mp hdiff
      rcases hbad with h | h | h
      · exact a1 h
      · exact h a2
      · exact hnn h

/-- C14 (counterexample): with the feature enabled and the valid client range
`[0,0]` over a layer in client composition that has no buffer, the first
evaluation caches the snapshot and sets `mSkipStaticInitFlag`; the immediately
following evaluation on the same layer state reports the layer as changed
(`mLayerBuffer == NULL`) and ends with `mSkipFlag` and `mSkipStaticInitFlag`
false.  The same happens for a layer that has its buffer and a plane alpha that
is not a number. -/
theorem skipStaticLayers_null_buffer_never_enables :
    (∃ d1 d2, skipStaticLayers nullBufferSkipDisplay = some (NO_ERROR, d1) ∧
      d1.mClientCompositionInfo.mSkipStaticInitFlag = true ∧
      d1.mClientCompositionInfo.mSkipFlag = false ∧
      d1.mLayers = nullBufferSkipDisplay.mLayers ∧
      d1.mLayers.map (fun l => l.getValidateCompositionType) = [HWC2_COMPOSITION_CLIENT] ∧
      skipStaticLayers d1 = some (NO_ERROR, d2) ∧
      d2.mClientCompositionInfo.mSkipFlag = false ∧
      d2.mClientCompositionInfo.mSkipStaticInitFlag = false) ∧
    (∃ d1 d2, skipStaticLayers nanAlphaSkipDisplay = some (NO_ERROR, d1) ∧
      d1.mClientCompositionInfo.mSkipStaticInitFlag = true ∧
      d1.mClientCompositionInfo.mSkipFlag = false ∧
      d1.mLayers = nanAlphaSkipDisplay.mLayers ∧
      d1.mLayers.map (fun l => (l.getValidateCompositionType, l.mLayerBuffer,
        l.mSrcImg.bufferHandle)) = [(HWC2_COMPOSITION_CLIENT, 9, 9)] ∧
      skipStaticLayers d1 = some (NO_ERROR, d2) ∧
      d2.mClientCompositionInfo.mSkipFlag = false ∧
      d2.mClientCompositionInfo.mSkipStaticInitFlag = false) :=
  ⟨⟨_, _, rfl, by decide, by decide, by decide, by decide, rfl, by decide, by decide⟩,
    ⟨_, _, rfl, by decide, by decide, by decide, by decide, rfl, by decide, by decide⟩⟩

/-- C14 (amended): with the feature enabled and a valid client range of at most
5 layers, an evaluation of `skipStaticLayers` that starts with
`mSkipStaticInitFlag` false returns `NO_ERROR`, caches each layer's source and
destination image, sets `mSkipStaticInitFlag` and leaves `mSkipFlag` false and
the layers as they were.  An immediately following evaluation returns
`NO_ERROR` with `mSkipFlag` set when every layer of the range is validated as
client composition, has a non-null buffer, records that buffer's handle in its
source image and has a plane alpha that is a number; when a layer of the range
has no buffer, or another handle in its source image, or a plane alpha that is
not a number (which `!=` never finds equal to the cached one), it ends with
both flags false. -/
theorem skipStaticLayers_two_pass (d : ExynosDisplay)
    (htype : d.mClientCompositionInfo.mType = COMPOSITION_CLIENT)
    (hctl : d.exynosHWCControl.skipStaticLayers ≠ 0)
    (hen : d.mClientCompositionInfo.mEnableSkipStatic = true)
    (hhas : d.mClientCompositionInfo.mHasCompositionLayer = true)
    (hf0 : 0 ≤ d.mClientCompositionInfo.mFirstIndex)
    (hfl : d.mClientCompositionInfo.mFirstIndex ≤ d.mClientCompositionInfo.mLastIndex)
    (hll : d.mClientCompositionInfo.mLastIndex < d.mLayers.length)
    (hn : d.mLayers.length < 2 ^ 31)
    (hsz : d.mClientCompositionInfo.mLastIndex - d.mClientCompositionInfo.mFirstIndex + 1 ≤ 5)
    (hinit : d.mClientCompositionInfo.mSkipStaticInitFlag = false) :
    ∃ d1, skipStaticLayers d = some (NO_ERROR, d1) ∧
      d1.mClientCompositionInfo.mSkipStaticInitFlag = true ∧
      d1.mClientCompositionInfo.mSkipFlag = false ∧
      d1.mLayers = d.mLayers ∧
      (∀ k, d.mClientCompositionInfo.mFirstIndex.toNat ≤ k →
        k ≤ d.mClientCompositionInfo.mLastIndex.toNat →
        ∃ layer, d.mLayers[k]? = some layer ∧
          d1.mClientCompositionInfo.mSkipSrcInfo.srcInfo[k -
            d.mClientCompositionInfo.mFirstIndex.toNat]? = some layer.mSrcImg ∧
          d1.mClientCompositionInfo.mSkipSrcInfo.dstInfo[k -
            d.mClientCompositionInfo.mFirstIndex.toNat]? = some layer.mDstImg) ∧
      ((∀ k layer, d.mClientCompositionInfo.mFirstIndex.toNat ≤ k →
          k ≤ d.mClientCompositionInfo.mLastIndex.toNat → d.mLayers[k]? = some layer →
          layer.getValidateCompositionType = HWC2_COMPOSITION_CLIENT ∧ layer.mLayerBuffer ≠ 0 ∧
            layer.mSrcImg.bufferHandle = layer.mLayerBuffer ∧
            layer.mSrcImg.planeAlpha ≠ float.nan) →
        ∃ d2, skipStaticLayers d1 = some (NO_ERROR, d2) ∧
          d2.mClientCompositionInfo.mSkipFlag = true ∧
          d2.mClientCompositionInfo.mSkipStaticInitFlag = true) ∧
      ((∃ k layer, d.mClientCompositionInfo.mFirstIndex.toNat ≤ k ∧
          k ≤ d.mClientCompositionInfo.mLastIndex.toNat ∧ d.mLayers[k]? = some layer ∧
          (layer.mLayerBuffer = 0 ∨ layer.mSrcImg.bufferHandle ≠ layer.mLayerBuffer ∨
            layer.mSrcImg.planeAlpha = float.nan)) →
        ∃ d2, skipStaticLayers d1 = some (NO_ERROR, d2) ∧
          d2.mClientCompositionInfo.mSkipFlag = false ∧
          d2.mClientCompositionInfo.mSkipStaticInitFlag = false) := by
  obtain ⟨S, D, hrun, hcache⟩ :=
    skipStaticLayers_first_pass d htype hctl hen hhas hf0 hfl hll hn hsz hinit
  have hnum : toInt32 (d.mClientCompositionInfo.mLastIndex -
      d.mClientCompositionInfo.mFirstIndex + 1).toNat =
      d.mClientCompositionInfo.mLastIndex - d.mClientCompositionInfo.mFirstIndex + 1 := by
    rw [toInt32_of_lt (by omega)]
    exact Int.toNat_of_nonneg (by omega)
  obtain ⟨h2a, h2b⟩ := skipStaticLayers_second_pass
    { d with mClientCompositionInfo :=
      { d.mClientCompositionInfo with
        mSkipFlag := false
        mSkipStaticInitFlag := true
        mSkipSrcInfo :=
          { srcNum := (d.mClientCompositionInfo.mLastIndex -
              d.mClientCompositionInfo.mFirstIndex + 1).toNat
            srcInfo := S, dstInfo := D } } }
    htype hctl hen hhas hf0 hfl hll hn hsz rfl hnum hcache
  exact ⟨_, hrun, rfl, rfl, rfl, hcache, h2a, h2b⟩

/-- C14 (witness): the two passes on `freshSkipDisplay`, whose single layer has
the buffer 9. -/
theorem skipStaticLayers_two_pass_witness :
    ∃ d1, skipStaticLayers freshSkipDisplay = some (NO_ERROR, d1) ∧
      d1.mClientCompositionInfo.mSkipStaticInitFlag = true ∧
      d1.mClientCompositionInfo.mSkipFlag = false ∧
      ∃ d2, skipStaticLayers d1 = some (NO_ERROR, d2) ∧
        d2.mClientCompositionInfo.mSkipFlag = true ∧
        d2.mClientCompositionInfo.mSkipStaticInitFlag = true :=
  Exists.imp
    (fun _ h => ⟨h.1, h.2.1, h.2.2.1,
      h.2.2.2.2.2.1 (fun k layer hk1 hk2 hl => by
        have hk : k = 0 := by
          have h0 : freshSkipDisplay.mClientCompositionInfo.mLastIndex.toNat = 0 := by decide
          omega
        subst hk
        have hl0 : freshSkipDisplay.mLayers[0]? = some staticLayer := by decide
        rw [hl0] at hl
        cases hl
        decide)⟩)
    (skipStaticLayers_two_pass freshSkipDisplay (by decide) (by decide) (by decide) (by decide)
      (by decide) (by decide) (by decide) (by decide) (by decide) (by decide))


/-! ## Static-layer skip: when it is disabled -/

/-- C15 (disabled ranges): on the client composition, `skipStaticLayers` returns
`NO_ERROR` with `mSkipFlag` and `mSkipStaticInitFlag` false whenever the
composition has no layers, its first or last index is negative, or
`last - first + 1` exceeds `NUM_SKIP_STATIC_LAYER`, which is 5.  A range of
exactly 5 layers is not disabled: with the feature enabled, a valid range
`[first, first + 4]` and `mSkipStaticInitFlag` false, the call caches the
snapshot and returns with `mSkipStaticInitFlag` set. -/
theorem skipStaticLayers_disabled (d : ExynosDisplay)
    (htype : d.mClientCompositionInfo.mType = COMPOSITION_CLIENT) :
    NUM_SKIP_STATIC_LAYER = 5 ∧
    ((d.mClientCompositionInfo.mHasCompositionLayer = false ∨
        d.mClientCompositionInfo.mFirstIndex < 0 ∨ d.mClientCompositionInfo.mLastIndex < 0 ∨
        5 < d.mClientCompositionInfo.mLastIndex - d.mClientCompositionInfo.mFirstIndex + 1) →
      ∃ d1, skipStaticLayers d = some (NO_ERROR, d1) ∧
        d1.mClientCompositionInfo.mSkipFlag = false ∧
        d1.mClientCompositionInfo.mSkipStaticInitFlag = false) ∧
    (d.exynosHWCControl.skipStaticLayers ≠ 0 →
      d.mClientCompositionInfo.mEnableSkipStatic = true →
      d.mClientCompositionInfo.mHasCompositionLayer = true →
      0 ≤ d.mClientCompositionInfo.mFirstIndex →
      d.mClientCompositionInfo.mLastIndex = d.mClientCompositionInfo.mFirstIndex + 4 →
      d.mClientCompositionInfo.mLastIndex < d.mLayers.length →
      d.mLayers.length < 2 ^ 31 →
      d.mClientCompositionInfo.mSkipStaticInitFlag = false →
      ∃ d1, skipStaticLayers d = some (NO_ERROR, d1) ∧
        d1.mClientCompositionInfo.mSkipStaticInitFlag = true ∧
        d1.mClientCompositionInfo.mSkipSrcInfo.srcNum = 5) := by
  refine ⟨rfl, ?_, ?_⟩
  · intro hdis
    unfold skipStaticLayers
    dsimp only
    rw [if_neg (not_not.mpr htype)]
    split
    · exact ⟨_, rfl, rfl, rfl⟩
    · rw [if_pos (by
        rcases hdis with h | h | h | h
        · exact Or.inl h
        · exact Or.inr (Or.inl h)
        · exact Or.inr (Or.inr (Or.inl h))
        · exact Or.inr (Or.inr (Or.inr h)))]
      exact ⟨_, rfl, rfl, rfl⟩
  · intro hctl hen hhas hf0 hlast hll hn hinit
    obtain ⟨S, D, hrun, _⟩ := skipStaticLayers_first_pass d htype hctl hen hhas hf0
      (by omega) hll hn (by omega) hinit
    refine ⟨_, hrun, rfl, ?_⟩
    show (d.mClientCompositionInfo.mLastIndex - d.mClientCompositionInfo.mFirstIndex + 1).toNat = 5
    rw [hlast]
    have : d.mClientCompositionInfo.mFirstIndex + 4 - d.mClientCompositionInfo.mFirstIndex + 1 =
        5 := by omega
    rw [this]
    rfl

/-- C15 (witness): a range of six layers is disabled although its snapshot was
initialised, a range of five layers is cached. -/
theorem skipStaticLayers_disabled_witness :
    (∃ d1, skipStaticLayers sixLayerSkipDisplay = some (NO_ERROR, d1) ∧
      d1.mClientCompositionInfo.mSkipFlag = false ∧
      d1.mClientCompositionInfo.mSkipStaticInitFlag = false) ∧
    (∃ d1, skipStaticLayers fiveLayerSkipDisplay = some (NO_ERROR, d1) ∧
      d1.mClientCompositionInfo.mSkipStaticInitFlag = true ∧
      d1.mClientCompositionInfo.mSkipSrcInfo.srcNum = 5) :=
  ⟨(skipStaticLayers_disabled sixLayerSkipDisplay rfl).2.1
      (Or.inr (Or.inr (Or.inr (by decide)))),
    (skipStaticLayers_disabled fiveLayerSkipDisplay rfl).2.2 (by decide) rfl rfl (by decide)
      (by decide) (by decide) (by decide) rfl⟩


/-! ## Static-layer skip: feature switches and failed resource assignment -/

theorem skipStaticLayers_feature_off (d : ExynosDisplay)
    (htype : d.mClientCompositionInfo.mType = COMPOSITION_CLIENT)
    (hoff : d.exynosHWCControl.skipStaticLayers = 0 ∨
      d.mClientCompositionInfo.mEnableSkipStatic = false) :
    ∃ d1, skipStaticLayers d = some (NO_ERROR, d1) ∧
      d1.mClientCompositionInfo.mSkipFlag = false ∧
      d1.mClientCompositionInfo.mSkipStaticInitFlag = false := by
  unfold skipStaticLayers
  dsimp only
  rw [if_neg (not_not.mpr htype), if_pos hoff]
  exact ⟨_, rfl, rfl, rfl⟩

/-- C16 (forced off after a failed resource assignment), the code at the failing
input: on `cachedSkipDisplay`, whose snapshot is initialised and unchanged,
the resource assignment fails; `skipStaticLayers` still runs and sets
`mSkipFlag`, and the recovery block only clears `mSkipStaticInitFlag`.
`validateDisplay` returns with `mSkipFlag` true and `mSkipStaticInitFlag`
false; layer 0 is validated as CLIENT inside the client range `[0,0]` but is
reported as DEVICE, which counts as one changed type. -/
theorem validateDisplay_failed_assignment_keeps_skip_flag :
    cachedSkipDisplay.exynosHWCControl.skipStaticLayers ≠ 0 ∧
    cachedSkipDisplay.mClientCompositionInfo.mEnableSkipStatic = true ∧
    (afterAssignResource failingValidateOracle cachedSkipDisplay).1 ≠ NO_ERROR ∧
    (validateDisplay permissiveOracle failingValidateOracle cachedSkipDisplay 0 0).map
        (fun r => (r.ret, r.outNumTypes, r.display.mClientCompositionInfo.mSkipFlag,
          r.display.mClientCompositionInfo.mSkipStaticInitFlag)) =
      some (HWC2_ERROR_HAS_CHANGES, 1, true, false) ∧
    (validateDisplay permissiveOracle failingValidateOracle cachedSkipDisplay 0 0).map
        (fun r => (r.display.mClientCompositionInfo.mFirstIndex,
          r.display.mClientCompositionInfo.mLastIndex,
          r.display.mLayers.map (fun l => l.getValidateCompositionType),
          getLayerCompositionTypeForValidationType r.display 0)) =
      some (0, 0, [HWC2_COMPOSITION_CLIENT], HWC2_COMPOSITION_DEVICE) := by
  decide


/-! ## `canSkipValidate` -/

theorem hasClientComposition_eq_false (d : ExynosDisplay) :
    hasClientComposition d = false ↔
      ∀ i, i < d.mLayers.length →
        getLayerCompositionTypeForValidationType d i ≠ HWC2_COMPOSITION_CLIENT := by
  unfold hasClientComposition
  rw [List.any_eq_false]
  constructor
  · intro h i hi
    have := h i (List.mem_range.mpr hi)
    simpa using this
  · intro h i hi
    have := h i (List.mem_range.mp hi)
    simpa using this

/-- C17 (skip-validate precheck): `canSkipValidate` returns `NO_ERROR` exactly
when the skip-resource-assign control is on, the rendering state is not None,
the device-wide geometry mask is clear, no layer is reported as client
composition, the snapshot is unchanged whenever `mSkipStaticInitFlag` and
`mSkipFlag` are both set, the client target buffer is non-null whenever the
client composition has layers, and `getDisplayRequests` succeeds with zero
requests.  Otherwise it returns the code of the first condition that fails, in
this order: `SKIP_ERR_CONFIG_DISABLED`, `SKIP_ERR_FIRST_FRAME`,
`SKIP_ERR_GEOMETRY_CHAGNED`, `SKIP_ERR_HAS_CLIENT_COMP`,
`SKIP_ERR_SKIP_STATIC_CHANGED`, `SKIP_ERR_INVALID_CLIENT_TARGET_BUFFER`,
`SKIP_ERR_HAS_REQUEST`; all of them are non-zero. -/
theorem canSkipValidate_spec (d : ExynosDisplay) :
    (canSkipValidate d = some NO_ERROR ↔
      d.exynosHWCControl.skipResourceAssign ≠ 0 ∧
      d.mRenderingState ≠ RENDERING_STATE_NONE ∧
      d.mDeviceGeometryChanged = 0 ∧
      (∀ i, i < d.mLayers.length →
        getLayerCompositionTypeForValidationType d i ≠ HWC2_COMPOSITION_CLIENT) ∧
      (d.mClientCompositionInfo.mSkipStaticInitFlag = true ∧
          d.mClientCompositionInfo.mSkipFlag = true →
        skipStaticLayerChanged d d.mClientCompositionInfo = some false) ∧
      (d.mClientCompositionInfo.mHasCompositionLayer = true →
        d.mClientCompositionInfo.mTargetBuffer ≠ 0) ∧
      getDisplayRequests d = some (NO_ERROR, 0)) ∧
    (d.exynosHWCControl.skipResourceAssign = 0 →
      canSkipValidate d = some SKIP_ERR_CONFIG_DISABLED) ∧
    (d.exynosHWCControl.skipResourceAssign ≠ 0 →
      (d.mRenderingState = RENDERING_STATE_NONE →
        canSkipValidate d = some SKIP_ERR_FIRST_FRAME) ∧
      (d.mRenderingState ≠ RENDERING_STATE_NONE →
        (d.mDeviceGeometryChanged ≠ 0 → canSkipValidate d = some SKIP_ERR_GEOMETRY_CHAGNED) ∧
        (d.mDeviceGeometryChanged = 0 →
          ((∃ i, i < d.mLayers.length ∧
              getLayerCompositionTypeForValidationType d i = HWC2_COMPOSITION_CLIENT) →
            canSkipValidate d = some SKIP_ERR_HAS_CLIENT_COMP) ∧
          ((∀ i, i < d.mLayers.length →
              getLayerCompositionTypeForValidationType d i ≠ HWC2_COMPOSITION_CLIENT) →
            (d.mClientCompositionInfo.mSkipStaticInitFlag = true ∧
                d.mClientCompositionInfo.mSkipFlag = true ∧
                skipStaticLayerChanged d d.mClientCompositionInfo = some true →
              canSkipValidate d = some SKIP_ERR_SKIP_STATIC_CHANGED) ∧
            ((d.mClientCompositionInfo.mSkipStaticInitFlag = true ∧
                  d.mClientCompositionInfo.mSkipFlag = true →
                skipStaticLayerChanged d d.mClientCompositionInfo = some false) →
              (d.mClientCompositionInfo.mHasCompositionLayer = true ∧
                  d.mClientCompositionInfo.mTargetBuffer = 0 →
                canSkipValidate d = some SKIP_ERR_INVALID_CLIENT_TARGET_BUFFER) ∧
              ((d.mClientCompositionInfo.mHasCompositionLayer = true →
                  d.mClientCompositionInfo.mTargetBuffer ≠ 0) →
                ∀ ret n, getDisplayRequests d = some (ret, n) → (ret ≠ NO_ERROR ∨ n ≠ 0) →
                  canSkipValidate d = some SKIP_ERR_HAS_REQUEST)))))) ∧
    (SKIP_ERR_CONFIG_DISABLED ≠ 0 ∧ SKIP_ERR_FIRST_FRAME ≠ 0 ∧ SKIP_ERR_GEOMETRY_CHAGNED ≠ 0 ∧
      SKIP_ERR_HAS_CLIENT_COMP ≠ 0 ∧ SKIP_ERR_SKIP_STATIC_CHANGED ≠ 0 ∧
      SKIP_ERR_INVALID_CLIENT_TARGET_BUFFER ≠ 0 ∧ SKIP_ERR_HAS_REQUEST ≠ 0) := by
  have hcl := hasClientComposition_eq_false d
  refine ⟨?_, ?_, ?_, by decide⟩
  · unfold canSkipValidate
    constructor
    · intro h
      split at h
      · exact absurd h (by decide)
      rename_i hA
      split at h
      · exact absurd h (by decide)
      rename_i hB
      split at h
      · exact absurd h (by decide)
      rename_i hC
      split at h
      · exact absurd h (by decide)
      rename_i hD
      have hD2 : hasClientComposition d = false := by
        cases hh : hasClientComposition d with
        | true => exact absurd hh hD
        | false => rfl
      dsimp only at h
      split at h
      · exact absurd h (by simp)
      · exact absurd h (by decide)
      · rename_i hE
        split at h
        · exact absurd h (by decide)
        rename_i hF
        split at h
        · exact absurd h (by simp)
        · rename_i requests hG
          split at h
          · exact absurd h (by decide)
          · rename_i hreq
            simp only [not_or, not_not] at hreq
            refine ⟨hA, hB, not_not.mp hC, hcl.mp hD2, ?_, ?_, ?_⟩
            · intro hif
              rw [if_pos hif] at hE
              exact hE
            · intro hhas htb
              exact hF ⟨hhas, htb⟩
            · rw [hG]
              obtain ⟨r1, r2⟩ := requests
              simp only at hreq
              rw [hreq.1, hreq.2]
    · rintro ⟨hA, hB, hC, hD, hE, hF, hG⟩
      rw [if_neg hA, if_neg hB, if_neg (not_not.mpr hC),
        if_neg (by rw [hcl.mpr hD]; simp)]
      have hchanged : (if d.mClientCompositionInfo.mSkipStaticInitFlag = true ∧
          d.mClientCompositionInfo.mSkipFlag = true then
            skipStaticLayerChanged d d.mClientCompositionInfo
          else some false) = some false := by
        split
        · rename_i hif; exact hE hif
        · rfl
      dsimp only
      rw [hchanged]
      dsimp only
      rw [if_neg (fun h => hF h.1 h.2), hG]
      simp
  · intro hA
    unfold canSkipValidate
    rw [if_pos hA]
  · intro hA
    refine ⟨?_, ?_⟩
    · intro hB
      unfold canSkipValidate
      rw [if_neg hA, if_pos hB]
    · intro hB
      refine ⟨?_, ?_⟩
      · intro hC
        unfold canSkipValidate
        rw [if_neg hA, if_neg hB, if_pos hC]
      · intro hC
        refine ⟨?_, ?_⟩
        · rintro ⟨i, hi, hcli⟩
          have hD : hasClientComposition d = true := by
            cases hh : hasClientComposition d with
            | true => rfl
            | false => exact absurd hcli (hcl.mp hh i hi)
          unfold canSkipValidate
          rw [if_neg hA, if_neg hB, if_neg (not_not.mpr hC), if_pos hD]
        · intro hD
          have hpre : canSkipValidate d =
              match (if d.mClientCompositionInfo.mSkipStaticInitFlag = true ∧
                  d.mClientCompositionInfo.mSkipFlag = true then
                    skipStaticLayerChanged d d.mClientCompositionInfo
                  else some false) with
              | none => none
              | some true => some SKIP_ERR_SKIP_STATIC_CHANGED
              | some false =>
                if d.mClientCompositionInfo.mHasCompositionLayer = true ∧
                    d.mClientCompositionInfo.mTargetBuffer = 0 then
                  some SKIP_ERR_INVALID_CLIENT_TARGET_BUFFER
                else
                  match getDisplayRequests d with
                  | none => none
                  | some requests =>
                    if requests.1 ≠ NO_ERROR ∨ requests.2 ≠ 0 then some SKIP_ERR_HAS_REQUEST
                    else some NO_ERROR := by
            unfold canSkipValidate
            rw [if_neg hA, if_neg hB, if_neg (not_not.mpr hC),
              if_neg (by rw [hcl.mpr hD]; simp)]
          refine ⟨?_, ?_⟩
          · rintro ⟨h1, h2, h3⟩
            rw [hpre, if_pos ⟨h1, h2⟩, h3]
          · intro hE
            have hchanged : (if d.mClientCompositionInfo.mSkipStaticInitFlag = true ∧
                d.mClientCompositionInfo.mSkipFlag = true then
                  skipStaticLayerChanged d d.mClientCompositionInfo
                else some false) = some false := by
              split
              · rename_i hif; exact hE hif
              · rfl
            rw [hpre, hchanged]
            dsimp only
            refine ⟨?_, ?_⟩
            · intro hF
              rw [if_pos hF]
            · intro hF ret n hG hreq
              rw [if_neg (fun h => hF h.1 h.2), hG]
              dsimp only
              rw [if_pos hreq]

/-- C17 (witness): a presented display with one overlay layer passes the
precheck; the same display in state None fails with `SKIP_ERR_FIRST_FRAME`. -/
theorem canSkipValidate_spec_witness :
    canSkipValidate presentedDisplay = some NO_ERROR ∧
    canSkipValidate { presentedDisplay with mRenderingState := RENDERING_STATE_NONE } =
      some SKIP_ERR_FIRST_FRAME :=
  ⟨(canSkipValidate_spec presentedDisplay).1.mpr (by decide),
    ((canSkipValidate_spec
      { presentedDisplay with mRenderingState := RENDERING_STATE_NONE }).2.2.1
      (by decide)).1 rfl⟩


/-! ## `validateWinConfigData` -/

theorem slots_getElem {α : Type} (l : List α) (i : Nat) (x : α) (f : α → α)
    (hi : i < l.length) (k : Nat) :
    (l.take i ++ x :: (l.drop (i + 1)).map f)[k]? =
      if k < i then l[k]? else if k = i then some x else (l[k]?).map f := by
  have hlen : (l.take i).length = i := by simp; omega
  by_cases h1 : k < i
  · rw [if_pos h1, List.getElem?_append_left (by omega), List.getElem?_take_of_lt h1]
  · rw [if_neg h1, List.getElem?_append_right (by omega), hlen]
    by_cases h2 : k = i
    · subst h2
      simp
    · rw [if_neg h2]
      obtain ⟨m, hm⟩ : ∃ m, k - i = m + 1 := ⟨k - i - 1, by omega⟩
      rw [hm, List.getElem?_cons_succ, List.getElem?_map, List.getElem?_drop]
      have : i + 1 + m = k := by omega
      rw [this]

theorem disableDuplicates_eq (config : exynos_win_config_data)
    (l : List exynos_win_config_data) :
    disableDuplicates config l =
      (l.map (fun c =>
          if config.state = WIN_STATE_BUFFER ∧ c.state = WIN_STATE_BUFFER ∧
              config.assignedMPP ≠ none ∧ config.assignedMPP = c.assignedMPP then
            { c with state := WIN_STATE_DISABLED } else c),
        l.any (fun c => decide (config.state = WIN_STATE_BUFFER ∧ c.state = WIN_STATE_BUFFER ∧
          config.assignedMPP ≠ none ∧ config.assignedMPP = c.assignedMPP))) := by
  induction l with
  | nil => rfl
  | cons c cs ih =>
    unfold disableDuplicates
    rw [ih]
    dsimp only
    by_cases h : config.state = WIN_STATE_BUFFER ∧ c.state = WIN_STATE_BUFFER ∧
        config.assignedMPP ≠ none ∧ config.assignedMPP = c.assignedMPP
    · rw [if_pos h]
      simp only [List.map_cons, List.any_cons, if_pos h, decide_eq_true h, Bool.true_or]
    · rw [if_neg h]
      simp only [List.map_cons, List.any_cons, if_neg h, decide_eq_false h, Bool.false_or]

theorem validateConfigStep_buffer (penv : PresentOracle) (d : ExynosDisplay) (i : Nat)
    (s : WinConfigCheck) (config : exynos_win_config_data) (invalid : Bool)
    (hc : s.configs[i]? = some config) (hb : config.state = WIN_STATE_BUFFER)
    (hinv : configInvalid penv d config = some invalid) :
    validateConfigStep penv d i s =
      some { configs := s.configs.take i ++
               (if invalid then { config with state := WIN_STATE_DISABLED } else config) ::
               (s.configs.drop (i + 1)).map (fun c =>
                 if config.state = WIN_STATE_BUFFER ∧ c.state = WIN_STATE_BUFFER ∧
                     config.assignedMPP ≠ none ∧ config.assignedMPP = c.assignedMPP then
                   { c with state := WIN_STATE_DISABLED } else c)
             flagValidConfig := s.flagValidConfig &&
               !((s.configs.drop (i + 1)).any (fun c =>
                 decide (config.state = WIN_STATE_BUFFER ∧ c.state = WIN_STATE_BUFFER ∧
                   config.assignedMPP ≠ none ∧ config.assignedMPP = c.assignedMPP))) && !invalid
             bufferStateCnt := s.bufferStateCnt + 1 } := by
  unfold validateConfigStep
  rw [hc]
  dsimp only
  rw [if_pos hb, hinv]
  dsimp only
  rw [disableDuplicates_eq]
  have hcnt : ¬ ((if invalid = true then
        ({ config with state := WIN_STATE_DISABLED } : exynos_win_config_data)
      else config).state = WIN_STATE_COLOR ∨
      (if invalid = true then ({ config with state := WIN_STATE_DISABLED } : exynos_win_config_data)
      else config).state = WIN_STATE_CURSOR) := by
    cases invalid with
    | true => simp [WIN_STATE_DISABLED, WIN_STATE_COLOR, WIN_STATE_CURSOR]
    | false => simp [hb, WIN_STATE_BUFFER, WIN_STATE_COLOR, WIN_STATE_CURSOR]
  rw [if_neg hcnt]

theorem validateConfigStep_other (penv : PresentOracle) (d : ExynosDisplay) (i : Nat)
    (s : WinConfigCheck) (config : exynos_win_config_data)
    (hc : s.configs[i]? = some config) (hb : config.state ≠ WIN_STATE_BUFFER) :
    validateConfigStep penv d i s =
      some { s with bufferStateCnt :=
        if config.state = WIN_STATE_COLOR ∨ config.state = WIN_STATE_CURSOR then
          s.bufferStateCnt + 1
        else s.bufferStateCnt } := by
  unfold validateConfigStep
  rw [hc]
  dsimp only
  rw [if_neg hb]

/-- What one iteration of the outer loop of `validateWinConfigData` at slot `i`
does to the slots `l`, giving `l1`. -/
structure SlotStep (i : Nat) (l l1 : List exynos_win_config_data) : Prop where
  length_eq : l1.length = l.length
  slot : ∀ (k : Nat) (c : exynos_win_config_data), l[k]? = some c →
    ∃ c1, l1[k]? = some c1 ∧ (c1 = c ∨ c1 = { c with state := WIN_STATE_DISABLED })
  changed : ∀ (k : Nat) (c c1 : exynos_win_config_data), i < k → l[k]? = some c →
    l1[k]? = some c1 → c1.state ≠ c.state →
    ∃ ci, l[i]? = some ci ∧ ci.state = WIN_STATE_BUFFER ∧ c.state = WIN_STATE_BUFFER ∧
      ci.assignedMPP ≠ none ∧ ci.assignedMPP = c.assignedMPP
  disabled : ∀ (k : Nat) (c ci : exynos_win_config_data), i < k → l[k]? = some c →
    l[i]? = some ci → ci.state = WIN_STATE_BUFFER → c.state = WIN_STATE_BUFFER →
    ci.assignedMPP ≠ none → ci.assignedMPP = c.assignedMPP →
    ∃ c1, l1[k]? = some c1 ∧ c1.state = WIN_STATE_DISABLED

theorem SlotStep.rfl_of (i : Nat) (l : List exynos_win_config_data)
    (hnb : ∀ ci, l[i]? = some ci → ci.state ≠ WIN_STATE_BUFFER) : SlotStep i l l :=
  ⟨rfl, fun _ c h => ⟨c, h, Or.inl rfl⟩,
    fun _ c c1 _ h h1 hne => by rw [h] at h1; cases h1; exact absurd rfl hne,
    fun _ _ ci _ _ hi hb _ _ _ => absurd hb (hnb ci hi)⟩

theorem validateConfigStep_slots (penv : PresentOracle) (d : ExynosDisplay) (i : Nat)
    (s s1 : WinConfigCheck) (h : validateConfigStep penv d i s = some s1) :
    SlotStep i s.configs s1.configs := by
  cases hc : s.configs[i]? with
  | none => unfold validateConfigStep at h; rw [hc] at h; exact absurd h (by simp)
  | some config =>
    have hi : i < s.configs.length := (List.getElem?_eq_some_iff.mp hc).1
    by_cases hb : config.state = WIN_STATE_BUFFER
    · cases hinv : configInvalid penv d config with
      | none =>
        unfold validateConfigStep at h
        rw [hc] at h
        dsimp only at h
        rw [if_pos hb, hinv] at h
        exact absurd h (by simp)
      | some invalid =>
        rw [validateConfigStep_buffer penv d i s config invalid hc hb hinv] at h
        cases h
        dsimp only
        refine ⟨by simp; omega, ?_, ?_, ?_⟩
        · intro k c hk
          rw [slots_getElem _ _ _ _ hi]
          by_cases h1 : k < i
          · rw [if_pos h1]; exact ⟨c, hk, Or.inl rfl⟩
          · rw [if_neg h1]
            by_cases h2 : k = i
            · subst h2
              rw [if_pos rfl]
              rw [hc] at hk
              cases hk
              cases invalid with
              | true => exact ⟨_, rfl, Or.inr rfl⟩
              | false => exact ⟨_, rfl, Or.inl rfl⟩
            · rw [if_neg h2, hk]
              simp only [Option.map_some']
              split
              · exact ⟨_, rfl, Or.inr rfl⟩
              · exact ⟨_, rfl, Or.inl rfl⟩
        · intro k c c1 hik hk hk1 hne
          rw [slots_getElem _ _ _ _ hi, if_neg (by omega), if_neg (by omega), hk] at hk1
          simp only [Option.map_some', Option.some.injEq] at hk1
          by_cases hd : config.state = WIN_STATE_BUFFER ∧ c.state = WIN_STATE_BUFFER ∧
              config.assignedMPP ≠ none ∧ config.assignedMPP = c.assignedMPP
          · exact ⟨config, hc, hd.1, hd.2.1, hd.2.2.1, hd.2.2.2⟩
          · rw [if_neg hd] at hk1
            subst hk1
            exact absurd rfl hne
        · intro k c ci hik hk hci hcb hcs hm hmm
          rw [hc] at hci
          cases hci
          rw [slots_getElem _ _ _ _ hi, if_neg (by omega), if_neg (by omega), hk]
          simp only [Option.map_some']
          rw [if_pos ⟨hcb, hcs, hm, hmm⟩]
          exact ⟨_, rfl, rfl⟩
    · rw [validateConfigStep_other penv d i s config hc hb] at h
      cases h
      exact SlotStep.rfl_of i s.configs (fun ci hci => by rw [hc] at hci; cases hci; exact hb)

/-- The invariant of the outer loop of `validateWinConfigData` before slot `i`,
relative to the slots `E` on entry. -/
structure DupInv (E : List exynos_win_config_data) (i : Nat)
    (l : List exynos_win_config_data) : Prop where
  length_eq : l.length = E.length
  slot : ∀ (k : Nat) (c : exynos_win_config_data), l[k]? = some c →
    ∃ e, E[k]? = some e ∧ (c = e ∨ c = { e with state := WIN_STATE_DISABLED })
  done : ∀ (a b : Nat) (ea eb : exynos_win_config_data), a < i → a < b →
    E[a]? = some ea → E[b]? = some eb → ea.state = WIN_STATE_BUFFER →
    eb.state = WIN_STATE_BUFFER → ea.assignedMPP ≠ none → ea.assignedMPP = eb.assignedMPP →
    ∃ cb, l[b]? = some cb ∧ cb.state = WIN_STATE_DISABLED
  pending : ∀ (k : Nat) (c e : exynos_win_config_data), i ≤ k → l[k]? = some c →
    E[k]? = some e → c.state ≠ e.state →
    ∃ a ea, a < i ∧ E[a]? = some ea ∧ ea.state = WIN_STATE_BUFFER ∧
      e.state = WIN_STATE_BUFFER ∧ ea.assignedMPP ≠ none ∧ ea.assignedMPP = e.assignedMPP

theorem DupInv.init (E : List exynos_win_config_data) : DupInv E 0 E :=
  ⟨rfl, fun _ c h => ⟨c, h, Or.inl rfl⟩, fun a _ _ _ h => absurd h (by omega),
    fun _ c e _ h1 h2 hne => by rw [h1] at h2; cases h2; exact absurd rfl hne⟩

theorem slot_state_cases {c e : exynos_win_config_data}
    (h : c = e ∨ c = { e with state := WIN_STATE_DISABLED }) :
    c.assignedMPP = e.assignedMPP ∧ (c.state = e.state ∨ c.state = WIN_STATE_DISABLED) := by
  rcases h with h | h <;> subst h
  · exact ⟨rfl, Or.inl rfl⟩
  · exact ⟨rfl, Or.inr rfl⟩

theorem buffer_ne_disabled : WIN_STATE_BUFFER ≠ WIN_STATE_DISABLED := by decide

theorem DupInv.step {E l l1 : List exynos_win_config_data} {i : Nat}
    (hinv : DupInv E i l) (hstep : SlotStep i l l1) : DupInv E (i + 1) l1 := by
  have hget : ∀ (k : Nat) (c1 : exynos_win_config_data), l1[k]? = some c1 →
      ∃ c, l[k]? = some c ∧ (c1 = c ∨ c1 = { c with state := WIN_STATE_DISABLED }) := by
    intro k c1 hk1
    have hk : k < l.length := by
      rw [← hstep.length_eq]; exact (List.getElem?_eq_some_iff.mp hk1).1
    obtain ⟨c1', h1, h2⟩ := hstep.slot k l[k] (List.getElem?_eq_getElem hk)
    rw [hk1] at h1
    cases h1
    exact ⟨l[k], List.getElem?_eq_getElem hk, h2⟩
  have hdis : ∀ (b : Nat) (cb : exynos_win_config_data), l[b]? = some cb →
      cb.state = WIN_STATE_DISABLED → ∃ cb1, l1[b]? = some cb1 ∧ cb1.state = WIN_STATE_DISABLED := by
    intro b cb hb hs
    obtain ⟨c1, h1, h2⟩ := hstep.slot b cb hb
    refine ⟨c1, h1, ?_⟩
    rcases h2 with h | h <;> subst h
    · exact hs
    · rfl
  refine ⟨hstep.length_eq.trans hinv.length_eq, ?_, ?_, ?_⟩
  · intro k c1 hk1
    obtain ⟨c, hc, hcc⟩ := hget k c1 hk1
    obtain ⟨e, he, hee⟩ := hinv.slot k c hc
    refine ⟨e, he, ?_⟩
    rcases hcc with h | h <;> rcases hee with h' | h' <;> subst h <;> subst h'
    · exact Or.inl rfl
    · exact Or.inr rfl
    · exact Or.inr rfl
    · exact Or.inr rfl
  · intro a b ea eb ha hab hea heb hsa hsb hm hmm
    by_cases hai : a < i
    · obtain ⟨cb, hcb, hcs⟩ := hinv.done a b ea eb hai hab hea heb hsa hsb hm hmm
      exact hdis b cb hcb hcs
    · have hai2 : a = i := by omega
      subst hai2
      have hal : a < l.length := by
        rw [hinv.length_eq]; exact (List.getElem?_eq_some_iff.mp hea).1
      have hbl : b < l.length := by
        rw [hinv.length_eq]; exact (List.getElem?_eq_some_iff.mp heb).1
      obtain ⟨ea', hea', hca⟩ := hinv.slot a l[a] (List.getElem?_eq_getElem hal)
      rw [hea] at hea'
      cases hea'
      obtain ⟨eb', heb', hcb⟩ := hinv.slot b l[b] (List.getElem?_eq_getElem hbl)
      rw [heb] at heb'
      cases heb'
      obtain ⟨hma, hsta⟩ := slot_state_cases hca
      obtain ⟨hmb, hstb⟩ := slot_state_cases hcb
      rcases hsta with hsta | hsta
      · rcases hstb with hstb | hstb
        · exact hstep.disabled b l[b] l[a] hab (List.getElem?_eq_getElem hbl)
            (List.getElem?_eq_getElem hal) (by rw [hsta]; exact hsa) (by rw [hstb]; exact hsb)
            (by rw [hma]; exact hm) (by rw [hma, hmb]; exact hmm)
        · exact hdis b l[b] (List.getElem?_eq_getElem hbl) hstb
      · have hne : l[a].state ≠ ea.state := by
          rw [hsta, hsa]; exact fun h => buffer_ne_disabled h.symm
        obtain ⟨a', ea', ha', hea2, hsa', _, hm', hmm'⟩ :=
          hinv.pending a l[a] ea (le_refl _) (List.getElem?_eq_getElem hal) hea hne
        obtain ⟨cb, hcb2, hcs⟩ := hinv.done a' b ea' eb ha' (by omega) hea2 heb hsa' hsb hm'
          (hmm'.trans hmm)
        exact hdis b cb hcb2 hcs
  · intro k c1 e hk hk1 he hne
    obtain ⟨c, hc, hcc⟩ := hget k c1 hk1
    by_cases hce : c.state = e.state
    · have hne2 : c1.state ≠ c.state := by rw [hce]; exact hne
      obtain ⟨ci, hci, hsi, hsc, hm, hmm⟩ := hstep.changed k c c1 (by omega) hc hk1 hne2
      obtain ⟨ei, hei, hcei⟩ := hinv.slot i ci hci
      obtain ⟨hmi, hsti⟩ := slot_state_cases hcei
      obtain ⟨e', he', hce'⟩ := hinv.slot k c hc
      rw [he] at he'
      cases he'
      obtain ⟨hmk, _⟩ := slot_state_cases hce'
      have hsei : ei.state = WIN_STATE_BUFFER := by
        rcases hsti with h | h
        · rw [← h]; exact hsi
        · rw [hsi] at h; exact absurd h buffer_ne_disabled
      refine ⟨i, ei, by omega, hei, hsei, by rw [← hce]; exact hsc, by rw [← hmi]; exact hm, ?_⟩
      rw [← hmi, ← hmk]; exact hmm
    · obtain ⟨a, ea, ha, hea, h1, h2, h3, h4⟩ := hinv.pending k c e (by omega) hc he hce
      exact ⟨a, ea, by omega, hea, h1, h2, h3, h4⟩

theorem validateConfigsLoop_dupInv (penv : PresentOracle) (d : ExynosDisplay)
    (E : List exynos_win_config_data) :
    ∀ (count i : Nat) (s s1 : WinConfigCheck), DupInv E i s.configs →
      validateConfigsLoop penv d count i s = some s1 → DupInv E (i + count) s1.configs := by
  intro count
  induction count with
  | zero =>
    intro i s s1 hinv h
    simp only [validateConfigsLoop, Option.some.injEq] at h
    subst h
    exact hinv
  | succ count ih =>
    intro i s s1 hinv h
    unfold validateConfigsLoop at h
    split at h
    · exact absurd h (by simp)
    · rename_i s2 hs2
      have := ih (i + 1) s2 s1 (hinv.step (validateConfigStep_slots penv d i s s2 hs2)) h
      have he : i + 1 + count = i + (count + 1) := by omega
      rw [← he]; exact this

theorem alignmentInvalid_eq (x y w h ax ay aw ah : Nat) (h1 : ax ≠ 0) (h2 : ay ≠ 0)
    (h3 : aw ≠ 0) (h4 : ah ≠ 0) :
    alignmentInvalid x y w h ax ay aw ah =
      some (decide (x % ax ≠ 0 ∨ y % ay ≠ 0 ∨ w % aw ≠ 0 ∨ h % ah ≠ 0)) := by
  unfold alignmentInvalid
  rw [if_neg h1]
  by_cases hx : x % ax ≠ 0
  · rw [if_pos hx]; simp [hx]
  · rw [if_neg hx, if_neg h2]
    by_cases hy : y % ay ≠ 0
    · rw [if_pos hy]; simp [hy]
    · rw [if_neg hy, if_neg h3]
      by_cases hw : w % aw ≠ 0
      · rw [if_pos hw]; simp [hw]
      · rw [if_neg hw, if_neg h4]
        simp only [not_not] at hx hy hw
        simp [hx, hy, hw]

theorem configInvalid_some (penv : PresentOracle) (d : ExynosDisplay)
    (halign : ∀ (mpp : ExynosMPP) (idx : Nat),
      penv.getSrcXOffsetAlign mpp idx % 2 ^ 32 ≠ 0 ∧ penv.getSrcYOffsetAlign mpp idx % 2 ^ 32 ≠ 0 ∧
      penv.getSrcCropWidthAlign mpp idx % 2 ^ 32 ≠ 0 ∧
      penv.getSrcCropHeightAlign mpp idx % 2 ^ 32 ≠ 0)
    (c : exynos_win_config_data) : ∃ b, configInvalid penv d c = some b := by
  unfold configInvalid
  dsimp only
  cases hm : c.assignedMPP with
  | none => exact ⟨true, rfl⟩
  | some mpp =>
    dsimp only
    obtain ⟨h1, h2, h3, h4⟩ := halign mpp (getRestrictionIndex penv c.format)
    rw [alignmentInvalid_eq _ _ _ _ _ _ _ _ h1 h2 h3 h4]
    exact ⟨_, rfl⟩

theorem validateConfigsLoop_some (penv : PresentOracle) (d : ExynosDisplay)
    (halign : ∀ (mpp : ExynosMPP) (idx : Nat),
      penv.getSrcXOffsetAlign mpp idx % 2 ^ 32 ≠ 0 ∧ penv.getSrcYOffsetAlign mpp idx % 2 ^ 32 ≠ 0 ∧
      penv.getSrcCropWidthAlign mpp idx % 2 ^ 32 ≠ 0 ∧
      penv.getSrcCropHeightAlign mpp idx % 2 ^ 32 ≠ 0) :
    ∀ (count i : Nat) (s : WinConfigCheck), i + count ≤ s.configs.length →
      ∃ s1, validateConfigsLoop penv d count i s = some s1 := by
  intro count
  induction count with
  | zero => intro i s _; exact ⟨s, rfl⟩
  | succ count ih =>
    intro i s hlen
    have hc : s.configs[i]? = some s.configs[i] := List.getElem?_eq_getElem (by omega)
    have hstep : ∃ s2, validateConfigStep penv d i s = some s2 := by
      by_cases hb : s.configs[i].state = WIN_STATE_BUFFER
      · obtain ⟨b, hbv⟩ := configInvalid_some penv d halign s.configs[i]
        exact ⟨_, validateConfigStep_buffer penv d i s _ b hc hb hbv⟩
      · exact ⟨_, validateConfigStep_other penv d i s _ hc hb⟩
    obtain ⟨s2, hs2⟩ := hstep
    have hl := (validateConfigStep_slots penv d i s s2 hs2).length_eq
    obtain ⟨s1, hs1⟩ := ih (i + 1) s2 (by omega)
    exact ⟨s1, by simp only [validateConfigsLoop, hs2, hs1]⟩

/-- C19 (one slot per resource): `validateWinConfigData` returns whenever the
alignments of the resources are non-zero, and whenever it returns, with either
code, no two distinct slots of the commit plan are both in BUFFER state with the
same non-null `assignedMPP`: of every two slots that were in BUFFER state with
the same non-null resource on entry, the later-indexed one is now
`WIN_STATE_DISABLED`.  The number of slots is unchanged. -/
theorem validateWinConfigData_one_slot_per_resource (penv : PresentOracle)
    (d : ExynosDisplay) :
    ((∀ (mpp : ExynosMPP) (idx : Nat),
        penv.getSrcXOffsetAlign mpp idx % 2 ^ 32 ≠ 0 ∧
        penv.getSrcYOffsetAlign mpp idx % 2 ^ 32 ≠ 0 ∧
        penv.getSrcCropWidthAlign mpp idx % 2 ^ 32 ≠ 0 ∧
        penv.getSrcCropHeightAlign mpp idx % 2 ^ 32 ≠ 0) →
      ∃ ret d1, validateWinConfigData penv d = some (ret, d1)) ∧
    (∀ ret d1, validateWinConfigData penv d = some (ret, d1) →
      d1.mDpuData.configs.length = d.mDpuData.configs.length ∧
      (∀ (i j : Nat) (ci cj : exynos_win_config_data), i < j →
        d1.mDpuData.configs[i]? = some ci → d1.mDpuData.configs[j]? = some cj →
        ci.state = WIN_STATE_BUFFER → cj.state = WIN_STATE_BUFFER →
        ci.assignedMPP ≠ none → ci.assignedMPP ≠ cj.assignedMPP) ∧
      (∀ (i j : Nat) (ci cj : exynos_win_config_data), i < j →
        d.mDpuData.configs[i]? = some ci → d.mDpuData.configs[j]? = some cj →
        ci.state = WIN_STATE_BUFFER → cj.state = WIN_STATE_BUFFER →
        ci.assignedMPP ≠ none → ci.assignedMPP = cj.assignedMPP →
        ∃ cj1, d1.mDpuData.configs[j]? = some cj1 ∧ cj1.state = WIN_STATE_DISABLED)) := by
  constructor
  · intro halign
    obtain ⟨s1, hs1⟩ := validateConfigsLoop_some penv d halign d.mDpuData.configs.length 0
      { configs := d.mDpuData.configs } (by simp)
    unfold validateWinConfigData
    rw [hs1]
    dsimp only
    split
    · exact ⟨_, _, rfl⟩
    · exact ⟨_, _, rfl⟩
  · intro ret d1 h
    unfold validateWinConfigData at h
    split at h
    · exact absurd h (by simp)
    · rename_i s1 hs1
      have hinv := validateConfigsLoop_dupInv penv d d.mDpuData.configs d.mDpuData.configs.length 0
        { configs := d.mDpuData.configs } s1 (DupInv.init _) hs1
      have hcfg : d1.mDpuData.configs = s1.configs := by
        dsimp only at h
        split at h <;> (cases h; rfl)
      rw [hcfg]
      refine ⟨hinv.length_eq, ?_, ?_⟩
      · intro i j ci cj hij hi hj hsi hsj hm hmm
        obtain ⟨ei, hei, hcei⟩ := hinv.slot i ci hi
        obtain ⟨ej, hej, hcej⟩ := hinv.slot j cj hj
        obtain ⟨hmi, hsti⟩ := slot_state_cases hcei
        obtain ⟨hmj, hstj⟩ := slot_state_cases hcej
        have hjl : j < d.mDpuData.configs.length := (List.getElem?_eq_some_iff.mp hej).1
        have h1 : ei.state = WIN_STATE_BUFFER := by
          rcases hsti with h' | h'
          · rw [← h']; exact hsi
          · rw [hsi] at h'; exact absurd h' buffer_ne_disabled
        have h2 : ej.state = WIN_STATE_BUFFER := by
          rcases hstj with h' | h'
          · rw [← h']; exact hsj
          · rw [hsj] at h'; exact absurd h' buffer_ne_disabled
        obtain ⟨cb, hcb, hcs⟩ := hinv.done i j ei ej (by omega) hij hei hej h1 h2
          (by rw [← hmi]; exact hm) (by rw [← hmi, ← hmj]; exact hmm)
        rw [hj] at hcb
        cases hcb
        rw [hsj] at hcs
        exact buffer_ne_disabled hcs
      · intro i j ci cj hij hi hj hsi hsj hm hmm
        have hjl : j < d.mDpuData.configs.length := (List.getElem?_eq_some_iff.mp hj).1
        exact hinv.done i j ci cj (by omega) hij hi hj hsi hsj hm hmm

/-- C19 (witness): on a plan whose slots 0 and 2 share a resource, the call
returns `-EINVAL` and slot 2 is disabled. -/
theorem validateWinConfigData_one_slot_per_resource_witness :
    (validateWinConfigData idlePresentOracle sharedResourceDisplay).map
        (fun r => (r.1, r.2.mDpuData.configs.map (fun c => c.state))) =
      some (-EINVAL, [WIN_STATE_BUFFER, WIN_STATE_BUFFER, WIN_STATE_DISABLED]) ∧
    ∃ ret d1, validateWinConfigData idlePresentOracle sharedResourceDisplay = some (ret, d1) :=
  ⟨by decide,
    (validateWinConfigData_one_slot_per_resource idlePresentOracle sharedResourceDisplay).1
      (fun _ _ => ⟨(show (1 : Nat) % 2 ^ 32 ≠ 0 by decide),
        (show (1 : Nat) % 2 ^ 32 ≠ 0 by decide), (show (1 : Nat) % 2 ^ 32 ≠ 0 by decide),
        (show (1 : Nat) % 2 ^ 32 ≠ 0 by decide)⟩)⟩


/-! ## `validateWinConfigData`: when it returns `NO_ERROR` -/

theorem configInvalid_eq_false_iff (penv : PresentOracle) (d : ExynosDisplay)
    (halign : ∀ (mpp : ExynosMPP) (idx : Nat),
      penv.getSrcXOffsetAlign mpp idx % 2 ^ 32 ≠ 0 ∧ penv.getSrcYOffsetAlign mpp idx % 2 ^ 32 ≠ 0 ∧
      penv.getSrcCropWidthAlign mpp idx % 2 ^ 32 ≠ 0 ∧
      penv.getSrcCropHeightAlign mpp idx % 2 ^ 32 ≠ 0)
    (c : exynos_win_config_data) :
    configInvalid penv d c = some false ↔ specSlotValid penv d c := by
  unfold configInvalid specSlotValid
  dsimp only
  cases hm : c.assignedMPP with
  | none => simp
  | some mpp =>
    dsimp only
    obtain ⟨h1, h2, h3, h4⟩ := halign mpp (getRestrictionIndex penv c.format)
    rw [alignmentInvalid_eq _ _ _ _ _ _ _ _ h1 h2 h3 h4]
    simp only [Option.some.injEq, Bool.or_eq_false_iff, decide_eq_false_iff_not, not_or,
      not_lt, not_not, gt_iff_lt, ne_eq]
    constructor
    · rintro ⟨⟨⟨a1, a2, a3, a4, a5, a6, a7, a8, a9, a10⟩, b1, b2⟩, c1, c2, c3, c4⟩
      exact ⟨a1, a2, a3, a4, by omega, by omega, by omega, by omega, a9, a10, b1, b2, c1, c2,
        c3, c4⟩
    · rintro ⟨a1, a2, a3, a4, a5, a6, a7, a8, a9, a10, b1, b2, c1, c2, c3, c4⟩
      exact ⟨⟨⟨a1, a2, a3, a4, by omega, by omega, by omega, by omega, a9, a10⟩, b1, b2⟩,
        c1, c2, c3, c4⟩

theorem slots_unchanged (l : List exynos_win_config_data) (i : Nat)
    (config : exynos_win_config_data) (f : exynos_win_config_data → exynos_win_config_data)
    (hc : l[i]? = some config) (hf : ∀ c ∈ l.drop (i + 1), f c = c) :
    l.take i ++ config :: (l.drop (i + 1)).map f = l := by
  have hi : i < l.length := (List.getElem?_eq_some_iff.mp hc).1
  apply List.ext_getElem?
  intro k
  rw [slots_getElem _ _ _ _ hi]
  by_cases h1 : k < i
  · rw [if_pos h1]
  · rw [if_neg h1]
    by_cases h2 : k = i
    · subst h2; rw [if_pos rfl, hc]
    · rw [if_neg h2]
      cases hk : l[k]? with
      | none => rfl
      | some c =>
        simp only [Option.map_some', Option.some.injEq]
        apply hf
        rw [List.mem_iff_getElem?]
        refine ⟨k - (i + 1), ?_⟩
        rw [List.getElem?_drop]
        have : i + 1 + (k - (i + 1)) = k := by omega
        rw [this]; exact hk

theorem validateConfigsLoop_flag_false (penv : PresentOracle) (d : ExynosDisplay) :
    ∀ (count i : Nat) (s s1 : WinConfigCheck), s.flagValidConfig = false →
      validateConfigsLoop penv d count i s = some s1 → s1.flagValidConfig = false := by
  intro count
  induction count with
  | zero =>
    intro i s s1 hf h
    simp only [validateConfigsLoop, Option.some.injEq] at h
    subst h; exact hf
  | succ count ih =>
    intro i s s1 hf h
    unfold validateConfigsLoop at h
    split at h
    · exact absurd h (by simp)
    · rename_i s2 hs2
      refine ih (i + 1) s2 s1 ?_ h
      unfold validateConfigStep at hs2
      split at hs2
      · exact absurd hs2 (by simp)
      · dsimp only at hs2
        split at hs2
        · split at hs2
          · exact absurd hs2 (by simp)
          · cases hs2
            simp only [hf, Bool.false_and]
        · cases hs2
          exact hf

theorem validateConfigsLoop_clean (penv : PresentOracle) (d : ExynosDisplay) :
    ∀ (count i : Nat) (s s1 : WinConfigCheck), s.flagValidConfig = true →
      validateConfigsLoop penv d count i s = some s1 →
      (s1.flagValidConfig = true ↔
        ∀ (k : Nat) (c : exynos_win_config_data), i ≤ k → k < i + count →
          s.configs[k]? = some c → c.state = WIN_STATE_BUFFER →
          (∀ c1 ∈ s.configs.drop (k + 1),
            ¬ (c1.state = WIN_STATE_BUFFER ∧ c.assignedMPP ≠ none ∧
              c.assignedMPP = c1.assignedMPP)) ∧
          configInvalid penv d c = some false) ∧
      (s1.flagValidConfig = true →
        s1.configs = s.configs ∧
        (s1.bufferStateCnt ≠ 0 ↔
          (s.bufferStateCnt ≠ 0 ∨
            ∃ (k : Nat) (c : exynos_win_config_data), i ≤ k ∧ k < i + count ∧
              s.configs[k]? = some c ∧
              (c.state = WIN_STATE_BUFFER ∨ c.state = WIN_STATE_COLOR ∨
                c.state = WIN_STATE_CURSOR)))) := by
  intro count
  induction count with
  | zero =>
    intro i s s1 hf h
    simp only [validateConfigsLoop, Option.some.injEq] at h
    subst h
    refine ⟨⟨fun _ k c h1 h2 => by omega, fun _ => hf⟩, fun _ => ⟨rfl, ?_⟩⟩
    constructor
    · intro h; exact Or.inl h
    · rintro (h | ⟨k, c, h1, h2, _⟩)
      · exact h
      · omega
  | succ count ih =>
    intro i s s1 hf h
    unfold validateConfigsLoop at h
    split at h
    · exact absurd h (by simp)
    rename_i s2 hs2
    cases hc : s.configs[i]? with
    | none => unfold validateConfigStep at hs2; rw [hc] at hs2; exact absurd hs2 (by simp)
    | some config =>
    by_cases hb : config.state = WIN_STATE_BUFFER
    · cases hinv : configInvalid penv d config with
      | none =>
        unfold validateConfigStep at hs2
        rw [hc] at hs2
        dsimp only at hs2
        rw [if_pos hb, hinv] at hs2
        exact absurd hs2 (by simp)
      | some invalid =>
        rw [validateConfigStep_buffer penv d i s config invalid hc hb hinv] at hs2
        cases hs2
        by_cases hclean : (s.configs.drop (i + 1)).any (fun c =>
            decide (config.state = WIN_STATE_BUFFER ∧ c.state = WIN_STATE_BUFFER ∧
              config.assignedMPP ≠ none ∧ config.assignedMPP = c.assignedMPP)) = false ∧
            invalid = false
        · obtain ⟨hany, hinvf⟩ := hclean
          have hnodup : ∀ c1 ∈ s.configs.drop (i + 1),
              ¬ (config.state = WIN_STATE_BUFFER ∧ c1.state = WIN_STATE_BUFFER ∧
                config.assignedMPP ≠ none ∧ config.assignedMPP = c1.assignedMPP) := by
            intro c1 hc1
            have := (List.any_eq_false.mp hany) c1 hc1
            simpa using this
          have hcfg : s.configs.take i ++
              (if invalid = true then { config with state := WIN_STATE_DISABLED } else config) ::
              (s.configs.drop (i + 1)).map (fun c =>
                if config.state = WIN_STATE_BUFFER ∧ c.state = WIN_STATE_BUFFER ∧
                    config.assignedMPP ≠ none ∧ config.assignedMPP = c.assignedMPP then
                  { c with state := WIN_STATE_DISABLED } else c) = s.configs := by
            rw [hinvf]
            simp only [Bool.false_eq_true, if_false]
            exact slots_unchanged s.configs i config _ hc
              (fun c1 hc1 => if_neg (hnodup c1 hc1))
          rw [hcfg, hany, hinvf, hf] at h
          obtain ⟨ih1, ih2⟩ := ih (i + 1)
            { configs := s.configs, flagValidConfig := true && !false && !false,
              bufferStateCnt := s.bufferStateCnt + 1 } s1 rfl h
          dsimp only at ih1 ih2
          refine ⟨⟨?_, ?_⟩, ?_⟩
          · intro hs1 k c hk1 hk2 hkc hcb
            by_cases hki : k = i
            · subst hki
              rw [hc] at hkc
              cases hkc
              refine ⟨fun c1 hc1 hcon => hnodup c1 hc1 ⟨hb, hcon.1, hcon.2.1, hcon.2.2⟩, ?_⟩
              rw [hinv, hinvf]
            · exact ih1.mp hs1 k c (by omega) (by omega) hkc hcb
          · intro hall
            exact ih1.mpr (fun k c hk1 hk2 hkc hcb => hall k c (by omega) (by omega) hkc hcb)
          · intro hs1
            obtain ⟨e1, e2⟩ := ih2 hs1
            refine ⟨e1, ?_⟩
            constructor
            · intro _
              exact Or.inr ⟨i, config, le_refl _, by omega, hc, Or.inl hb⟩
            · intro _
              exact e2.mpr (Or.inl (by omega))
        · have hs2f : (s.flagValidConfig &&
              !((s.configs.drop (i + 1)).any (fun c =>
                decide (config.state = WIN_STATE_BUFFER ∧ c.state = WIN_STATE_BUFFER ∧
                  config.assignedMPP ≠ none ∧ config.assignedMPP = c.assignedMPP))) &&
              !invalid) = false := by
            rw [hf]
            cases hany : (s.configs.drop (i + 1)).any (fun c =>
                decide (config.state = WIN_STATE_BUFFER ∧ c.state = WIN_STATE_BUFFER ∧
                  config.assignedMPP ≠ none ∧ config.assignedMPP = c.assignedMPP)) with
            | true => rfl
            | false =>
              cases hi2 : invalid with
              | true => rfl
              | false => exact absurd ⟨hany, hi2⟩ hclean
          have hs1f := validateConfigsLoop_flag_false penv d count (i + 1) _ s1 hs2f h
          refine ⟨⟨fun hs1 => by rw [hs1f] at hs1; exact absurd hs1 (by simp), ?_⟩,
            fun hs1 => by rw [hs1f] at hs1; exact absurd hs1 (by simp)⟩
          intro hall
          exfalso
          obtain ⟨hd, hv⟩ := hall i config (le_refl _) (by omega) hc hb
          apply hclean
          refine ⟨?_, ?_⟩
          · rw [List.any_eq_false]
            intro c1 hc1
            have := hd c1 hc1
            simp only [decide_eq_true_eq]
            exact fun hcon => this ⟨hcon.2.1, hcon.2.2.1, hcon.2.2.2⟩
          · rw [hinv] at hv
            exact Option.some.inj hv
    · rw [validateConfigStep_other penv d i s config hc hb] at hs2
      cases hs2
      obtain ⟨ih1, ih2⟩ := ih (i + 1)
        { s with bufferStateCnt :=
            if config.state = WIN_STATE_COLOR ∨ config.state = WIN_STATE_CURSOR then
              s.bufferStateCnt + 1
            else s.bufferStateCnt } s1 hf h
      dsimp only at ih1 ih2
      refine ⟨⟨?_, ?_⟩, ?_⟩
      · intro hs1 k c hk1 hk2 hkc hcb
        by_cases hki : k = i
        · subst hki
          rw [hc] at hkc
          cases hkc
          exact absurd hcb hb
        · exact ih1.mp hs1 k c (by omega) (by omega) hkc hcb
      · intro hall
        exact ih1.mpr (fun k c hk1 hk2 hkc hcb => hall k c (by omega) (by omega) hkc hcb)
      · intro hs1
        obtain ⟨e1, e2⟩ := ih2 hs1
        refine ⟨e1, ?_⟩
        rw [e2]
        constructor
        · rintro (hcnt | ⟨k, c, h1, h2, h3, h4⟩)
          · by_cases hcc : config.state = WIN_STATE_COLOR ∨ config.state = WIN_STATE_CURSOR
            · exact Or.inr ⟨i, config, le_refl _, by omega, hc, Or.inr hcc⟩
            · rw [if_neg hcc] at hcnt
              exact Or.inl hcnt
          · exact Or.inr ⟨k, c, by omega, by omega, h3, h4⟩
        · rintro (hcnt | ⟨k, c, h1, h2, h3, h4⟩)
          · left
            split <;> omega
          · by_cases hki : k = i
            · subst hki
              rw [hc] at h3
              cases h3
              rcases h4 with h4 | h4
              · exact absurd h4 hb
              · left
                rw [if_pos h4]
                omega
            · exact Or.inr ⟨k, c, by omega, by omega, h3, h4⟩

/-- C18 (counterexample): a plan whose only slot is in state `WIN_STATE_UPDATE`
has a non-disabled slot and no BUFFER slot at all, yet `validateWinConfigData`
returns `-EINVAL`, because only BUFFER, COLOR and CURSOR slots count as
windows; and a plan whose BUFFER slot has `dst.x = 1`, `dst.w = 2^32 - 1` on a
display 1080 wide is outside the display as exact integers, yet the call
returns `NO_ERROR`, because the sum is taken in 32 bits. -/
theorem validateWinConfigData_counts_only_windows :
    updateOnlyDisplay.mDpuData.configs.map (fun c => c.state) = [WIN_STATE_UPDATE] ∧
    WIN_STATE_UPDATE ≠ WIN_STATE_DISABLED ∧ WIN_STATE_UPDATE ≠ WIN_STATE_BUFFER ∧
    (validateWinConfigData idlePresentOracle updateOnlyDisplay).map (fun r => r.1) =
      some (-EINVAL) ∧
    wrappedWidthDisplay.mDpuData.configs.map
        (fun c => (c.state, decide (c.dst.x + (c.dst.w : Int) ≤ wrappedWidthDisplay.mXres))) =
      [(WIN_STATE_BUFFER, false)] ∧
    (validateWinConfigData idlePresentOracle wrappedWidthDisplay).map (fun r => r.1) =
      some NO_ERROR := by
  decide

/-- C18 (amended): when the alignments of the resources are non-zero,
`validateWinConfigData` returns `NO_ERROR` or `-EINVAL`, and it returns
`NO_ERROR` if and only if, in the commit plan on entry, no two slots in BUFFER
state share a non-null resource, every slot in BUFFER state satisfies
`specSlotValid` (non-null resource, non-negative offsets, positive sizes,
destination inside the display with 32-bit sums, crop within the full source
size, aligned source offsets and sizes), and at least one slot is in state
BUFFER, COLOR or CURSOR.  When it returns `NO_ERROR` the display state is
unchanged. -/
theorem validateWinConfigData_ok_iff (penv : PresentOracle) (d : ExynosDisplay)
    (halign : ∀ (mpp : ExynosMPP) (idx : Nat),
      penv.getSrcXOffsetAlign mpp idx % 2 ^ 32 ≠ 0 ∧ penv.getSrcYOffsetAlign mpp idx % 2 ^ 32 ≠ 0 ∧
      penv.getSrcCropWidthAlign mpp idx % 2 ^ 32 ≠ 0 ∧
      penv.getSrcCropHeightAlign mpp idx % 2 ^ 32 ≠ 0) :
    ∃ ret d1, validateWinConfigData penv d = some (ret, d1) ∧
      (ret = NO_ERROR ∨ ret = -EINVAL) ∧
      (ret = NO_ERROR ↔
        (∀ (i j : Nat) (ci cj : exynos_win_config_data), i < j →
          d.mDpuData.configs[i]? = some ci → d.mDpuData.configs[j]? = some cj →
          ci.state = WIN_STATE_BUFFER → cj.state = WIN_STATE_BUFFER →
          ci.assignedMPP ≠ none → ci.assignedMPP ≠ cj.assignedMPP) ∧
        (∀ c ∈ d.mDpuData.configs, c.state = WIN_STATE_BUFFER → specSlotValid penv d c) ∧
        (∃ c ∈ d.mDpuData.configs, c.state = WIN_STATE_BUFFER ∨ c.state = WIN_STATE_COLOR ∨
          c.state = WIN_STATE_CURSOR)) ∧
      (ret = NO_ERROR → d1 = d) := by
  obtain ⟨s1, hs1⟩ := validateConfigsLoop_some penv d halign d.mDpuData.configs.length 0
    { configs := d.mDpuData.configs } (by simp)
  obtain ⟨hflag, hrest⟩ := validateConfigsLoop_clean penv d d.mDpuData.configs.length 0
    { configs := d.mDpuData.configs } s1 rfl hs1
  dsimp only at hflag hrest
  have hne : (-EINVAL : Int) ≠ NO_ERROR := by decide
  have hspec : s1.flagValidConfig = true ↔
      ((∀ (i j : Nat) (ci cj : exynos_win_config_data), i < j →
          d.mDpuData.configs[i]? = some ci → d.mDpuData.configs[j]? = some cj →
          ci.state = WIN_STATE_BUFFER → cj.state = WIN_STATE_BUFFER →
          ci.assignedMPP ≠ none → ci.assignedMPP ≠ cj.assignedMPP) ∧
        (∀ c ∈ d.mDpuData.configs, c.state = WIN_STATE_BUFFER → specSlotValid penv d c)) := by
    rw [hflag]
    constructor
    · intro hall
      refine ⟨?_, ?_⟩
      · intro i j ci cj hij hi hj hsi hsj hm hmm
        have hjl : j < d.mDpuData.configs.length := (List.getElem?_eq_some_iff.mp hj).1
        obtain ⟨hd, _⟩ := hall i ci (Nat.zero_le _) (by omega) hi hsi
        refine hd cj ?_ ⟨hsj, hm, hmm⟩
        rw [List.mem_iff_getElem?]
        refine ⟨j - (i + 1), ?_⟩
        rw [List.getElem?_drop]
        have : i + 1 + (j - (i + 1)) = j := by omega
        rw [this]; exact hj
      · intro c hc hcb
        obtain ⟨k, hk⟩ := List.mem_iff_getElem?.mp hc
        have hkl : k < d.mDpuData.configs.length := (List.getElem?_eq_some_iff.mp hk).1
        obtain ⟨_, hv⟩ := hall k c (Nat.zero_le _) (by omega) hk hcb
        exact (configInvalid_eq_false_iff penv d halign c).mp hv
    · rintro ⟨hnd, hval⟩ k c _ _ hk hcb
      refine ⟨?_, ?_⟩
      · intro c1 hc1 hcon
        obtain ⟨m, hm⟩ := List.mem_iff_getElem?.mp hc1
        rw [List.getElem?_drop] at hm
        exact hnd k (k + 1 + m) c c1 (by omega) hk hm hcb hcon.1 hcon.2.1 hcon.2.2
      · exact (configInvalid_eq_false_iff penv d halign c).mpr
          (hval c (List.mem_iff_getElem?.mpr ⟨k, hk⟩) hcb)
  have hcnt : s1.flagValidConfig = true →
      (s1.bufferStateCnt ≠ 0 ↔
        ∃ c ∈ d.mDpuData.configs, c.state = WIN_STATE_BUFFER ∨ c.state = WIN_STATE_COLOR ∨
          c.state = WIN_STATE_CURSOR) := by
    intro hf
    rw [(hrest hf).2]
    constructor
    · rintro (h | ⟨k, c, _, _, hk, hst⟩)
      · exact absurd rfl h
      · exact ⟨c, List.mem_iff_getElem?.mpr ⟨k, hk⟩, hst⟩
    · rintro ⟨c, hc, hst⟩
      obtain ⟨k, hk⟩ := List.mem_iff_getElem?.mp hc
      have hkl : k < d.mDpuData.configs.length := (List.getElem?_eq_some_iff.mp hk).1
      exact Or.inr ⟨k, c, Nat.zero_le _, by omega, hk, hst⟩
  unfold validateWinConfigData
  rw [hs1]
  dsimp only
  by_cases hok : s1.flagValidConfig = true ∧ s1.bufferStateCnt ≠ 0
  · rw [if_pos hok]
    refine ⟨_, _, rfl, Or.inl rfl, ?_, ?_⟩
    · constructor
      · intro _
        obtain ⟨h1, h2⟩ := hspec.mp hok.1
        exact ⟨h1, h2, (hcnt hok.1).mp hok.2⟩
      · intro _; rfl
    · intro _
      rw [(hrest hok.1).1]
  · rw [if_neg hok]
    refine ⟨_, _, rfl, Or.inr rfl, ?_, fun h => absurd h hne⟩
    constructor
    · intro h; exact absurd h hne
    · rintro ⟨h1, h2, h3⟩
      exfalso
      have hf := hspec.mpr ⟨h1, h2⟩
      exact hok ⟨hf, (hcnt hf).mpr h3⟩

/-- C18 (witness): the amended statement on the plan of `sharedResourceDisplay`,
whose slots 0 and 2 share a resource. -/
theorem validateWinConfigData_ok_iff_witness :
    ∃ ret d1, validateWinConfigData idlePresentOracle sharedResourceDisplay = some (ret, d1) ∧
      (ret = NO_ERROR ∨ ret = -EINVAL) :=
  Exists.imp (fun _ h => Exists.imp (fun _ h2 => ⟨h2.1, h2.2.1⟩) h)
    (validateWinConfigData_ok_iff idlePresentOracle sharedResourceDisplay
      (fun _ _ => ⟨(show (1 : Nat) % 2 ^ 32 ≠ 0 by decide),
        (show (1 : Nat) % 2 ^ 32 ≠ 0 by decide), (show (1 : Nat) % 2 ^ 32 ≠ 0 by decide),
        (show (1 : Nat) % 2 ^ 32 ≠ 0 by decide)⟩))


/-! ## `checkConfigChanged` -/

theorem configDiffers_eq_false (a b : exynos_win_config_data) :
    configDiffers a b = false ↔
      (a.state = b.state ∧ a.fd_idma0 = b.fd_idma0 ∧ a.fd_idma1 = b.fd_idma1 ∧
        a.fd_idma2 = b.fd_idma2 ∧ a.dst.x = b.dst.x ∧ a.dst.y = b.dst.y ∧ a.dst.w = b.dst.w ∧
        a.dst.h = b.dst.h ∧ a.src.x = b.src.x ∧ a.src.y = b.src.y ∧ a.src.w = b.src.w ∧
        a.src.h = b.src.h ∧ a.format = b.format ∧ a.blending = b.blending ∧
        a.plane_alpha = b.plane_alpha ∧ b.plane_alpha ≠ float.nan) := by
  unfold configDiffers
  simp only [decide_eq_false_iff_not, not_or, not_not, ne_eq, Bool.not_eq_true,
    float_ne_eq_false]

theorem configsDiffer_spec :
    ∀ (as bs : List exynos_win_config_data), as.length = bs.length →
      ∃ r, configsDiffer as bs = some r ∧
        (r = false ↔ ∀ (i : Nat) (ca cb : exynos_win_config_data), as[i]? = some ca →
          bs[i]? = some cb → configDiffers ca cb = false) := by
  intro as
  induction as with
  | nil =>
    intro bs _
    refine ⟨false, rfl, ?_⟩
    simp
  | cons a as ih =>
    intro bs hlen
    cases bs with
    | nil => simp at hlen
    | cons b bs =>
      have hlen2 : as.length = bs.length := by simpa using hlen
      obtain ⟨r, hr, hiff⟩ := ih bs hlen2
      unfold configsDiffer
      by_cases hd : configDiffers a b = true
      · rw [if_pos hd]
        refine ⟨true, rfl, ?_⟩
        constructor
        · intro h; exact absurd h (by simp)
        · intro h
          have := h 0 a b (by simp) (by simp)
          rw [hd] at this
          exact absurd this (by simp)
      · rw [if_neg hd]
        refine ⟨r, hr, ?_⟩
        rw [hiff]
        constructor
        · intro h i ca cb hi hj
          cases i with
          | zero =>
            simp only [List.getElem?_cons_zero, Option.some.injEq] at hi hj
            subst hi; subst hj
            simpa using hd
          | succ i =>
            simp only [List.getElem?_cons_succ] at hi hj
            exact h i ca cb hi hj
        · intro h i ca cb hi hj
          exact h (i + 1) ca cb (by simpa using hi) (by simpa using hj)

/-- C20 (counterexample): with the skip-window-config control on and no
non-internal display, `checkConfigChanged` on a display without layers compares
the plan `nanAlphaPlan` with itself, so that every slot pair agrees on every
field, and returns true: the plane alpha of the slot is not a number, which
`!=` finds different from itself. -/
theorem checkConfigChanged_same_nan_alpha_reports_change :
    skipWinConfigDisplay.exynosHWCControl.skipWinConfig ≠ 0 ∧
    idlePresentOracle.checkNonInternalConnection = false ∧
    skipWinConfigDisplay.mLayers = [] ∧
    nanAlphaPlan.configs.map (fun c => c.plane_alpha) = [float.nan] ∧
    checkConfigChanged idlePresentOracle skipWinConfigDisplay nanAlphaPlan nanAlphaPlan =
      some true := by
  refine ⟨by decide, rfl, rfl, rfl, by decide⟩

/-- C20 (change detection), as amended: for two commit plans with the same
number of slots, `checkConfigChanged` returns true when the skip-window-config
control is 0, or when a non-internal display is connected and the display is
primary; otherwise it returns false if and only if every pair of slots of the
same index agrees on the state, the three buffer descriptors, the destination
x/y/w/h, the source x/y/w/h, the format, the blending and the plane alpha, that
plane alpha being a number, and no layer's buffer handle differs from its last
buffer handle. -/
theorem checkConfigChanged_spec (penv : PresentOracle) (d : ExynosDisplay)
    (lastConfigsData newConfigsData : exynos_dpu_data)
    (hlen : lastConfigsData.configs.length = newConfigsData.configs.length) :
    ((d.exynosHWCControl.skipWinConfig = 0 ∨
        (d.mType = HWC_DISPLAY_PRIMARY ∧ penv.checkNonInternalConnection = true)) →
      checkConfigChanged penv d lastConfigsData newConfigsData = some true) ∧
    (¬ (d.exynosHWCControl.skipWinConfig = 0 ∨
        (d.mType = HWC_DISPLAY_PRIMARY ∧ penv.checkNonInternalConnection = true)) →
      ∃ r, checkConfigChanged penv d lastConfigsData newConfigsData = some r ∧
        (r = false ↔
          (∀ (i : Nat) (a b : exynos_win_config_data), lastConfigsData.configs[i]? = some a →
            newConfigsData.configs[i]? = some b →
            a.state = b.state ∧ a.fd_idma0 = b.fd_idma0 ∧ a.fd_idma1 = b.fd_idma1 ∧
            a.fd_idma2 = b.fd_idma2 ∧ a.dst.x = b.dst.x ∧ a.dst.y = b.dst.y ∧
            a.dst.w = b.dst.w ∧ a.dst.h = b.dst.h ∧ a.src.x = b.src.x ∧ a.src.y = b.src.y ∧
            a.src.w = b.src.w ∧ a.src.h = b.src.h ∧ a.format = b.format ∧
            a.blending = b.blending ∧ a.plane_alpha = b.plane_alpha ∧
            b.plane_alpha ≠ float.nan) ∧
          (∀ l ∈ d.mLayers, l.mLastLayerBuffer = l.mLayerBuffer))) := by
  constructor
  · intro h
    unfold checkConfigChanged
    rcases h with h | ⟨h1, h2⟩
    · rw [if_pos h]
    · by_cases h0 : d.exynosHWCControl.skipWinConfig = 0
      · rw [if_pos h0]
      · rw [if_neg h0, if_pos ⟨h2, h1⟩]
  · intro h
    simp only [not_or, not_and] at h
    obtain ⟨h0, h1⟩ := h
    obtain ⟨r, hr, hiff⟩ := configsDiffer_spec lastConfigsData.configs newConfigsData.configs hlen
    unfold checkConfigChanged
    rw [if_neg h0, if_neg (fun hc => h1 hc.2 hc.1), hr]
    cases r with
    | true =>
      refine ⟨true, rfl, ?_⟩
      constructor
      · intro hf; exact absurd hf (by simp)
      · rintro ⟨hall, _⟩
        have : true = false := hiff.mpr (fun i a b hi hj =>
          (configDiffers_eq_false a b).mpr (hall i a b hi hj))
        exact absurd this (by simp)
    | false =>
      refine ⟨_, rfl, ?_⟩
      have hcfg := hiff.mp rfl
      rw [List.any_eq_false]
      constructor
      · intro hl
        refine ⟨fun i a b hi hj => (configDiffers_eq_false a b).mp (hcfg i a b hi hj), ?_⟩
        intro l hlm
        have := hl l hlm
        simpa using this
      · rintro ⟨_, hl⟩ l hlm
        have := hl l hlm
        simpa using this

/-- C20 (witness): with the skip-window-config control at 0 two equal plans are
reported as changed; with the control on the comparison decides. -/
theorem checkConfigChanged_spec_witness :
    checkConfigChanged idlePresentOracle acceptedDisplay acceptedDisplay.mLastDpuData
      acceptedDisplay.mLastDpuData = some true ∧
    ∃ r, checkConfigChanged idlePresentOracle
        { acceptedDisplay with exynosHWCControl := { skipWinConfig := 1 } }
        acceptedDisplay.mLastDpuData acceptedDisplay.mLastDpuData = some r :=
  ⟨(checkConfigChanged_spec idlePresentOracle acceptedDisplay acceptedDisplay.mLastDpuData
      acceptedDisplay.mLastDpuData rfl).1 (Or.inl rfl),
    Exists.imp (fun _ h => h.1)
      ((checkConfigChanged_spec idlePresentOracle
        { acceptedDisplay with exynosHWCControl := { skipWinConfig := 1 } }
        acceptedDisplay.mLastDpuData acceptedDisplay.mLastDpuData rfl).2 (by decide))⟩

/-! ## The tracker operations on an index outside the layer list -/

theorem sandwichedStep_client (i : Nat) (s s1 : ExynosDisplay × Bool)
    (h : sandwichedStep i s = some s1) :
    s1.1.mClientCompositionInfo = s.1.mClientCompositionInfo := by
  unfold sandwichedStep at h
  split at h
  · cases h
  · split_ifs at h <;> cases h <;> rfl

theorem sandwichedLoop_client (count : Nat) :
    ∀ (i : Nat) (s s1 : ExynosDisplay × Bool), sandwichedLoop count i s = some s1 →
      s1.1.mClientCompositionInfo = s.1.mClientCompositionInfo := by
  induction count with
  | zero =>
    intro i s s1 h
    cases h
    rfl
  | succ count ih =>
    intro i s s1 h
    unfold sandwichedLoop at h
    split at h
    · cases h
    · rename_i s2 hstep
      rw [ih (i + 1) s2 s1 h, sandwichedStep_client i s s2 hstep]

theorem toInt32_out_of_range (n size : Nat) (hn : size ≤ n)
    (h32 : n < 2 ^ 32) : toInt32 n < 0 ∨ (size : Int) ≤ toInt32 n := by
  unfold toInt32
  have h1 : n % 2 ^ 32 = n := Nat.mod_eq_of_lt h32
  rw [h1]
  split_ifs with h
  · right; omega
  · left; omega

/-- C21 (counterexample): with three layers and an empty client range,
`addClientCompositionLayer 3` returns Changed and sets the client range to
`[3,3]`; with four layers and an empty secondary range,
`addExynosCompositionLayer 4` returns Changed and sets the secondary range to
`[4,4]`; with four layers and the client range `[1,2]`,
`addClientCompositionLayer 4` returns `NO_ERROR` with the client range `[1,4]`;
with three layers and the secondary range `[1,1]`,
`addExynosCompositionLayer 3` does return `-EINVAL`, but with the secondary
range widened to `[1,3]`. -/
theorem tracker_takes_out_of_bounds_index :
    sandwichDisplay.mLayers.length = 3 ∧ clientRangeDisplay.mLayers.length = 4 ∧
    (addClientCompositionLayer permissiveOracle sandwichDisplay 3).map
        (fun r => (r.1, r.2.mClientCompositionInfo.mHasCompositionLayer,
          r.2.mClientCompositionInfo.mFirstIndex, r.2.mClientCompositionInfo.mLastIndex)) =
      some (EXYNOS_ERROR_CHANGED, true, 3, 3) ∧
    (addExynosCompositionLayer permissiveOracle clientRangeDisplay 4).map
        (fun r => (r.1, r.2.mExynosCompositionInfo.mHasCompositionLayer,
          r.2.mExynosCompositionInfo.mFirstIndex, r.2.mExynosCompositionInfo.mLastIndex)) =
      some (EXYNOS_ERROR_CHANGED, true, 4, 4) ∧
    (addClientCompositionLayer permissiveOracle clientRangeDisplay 4).map
        (fun r => (r.1, r.2.mClientCompositionInfo.mFirstIndex,
          r.2.mClientCompositionInfo.mLastIndex)) =
      some (NO_ERROR, 1, 4) ∧
    (addExynosCompositionLayer permissiveOracle sandwichDisplay 3).map
        (fun r => (r.1, r.2.mExynosCompositionInfo.mFirstIndex,
          r.2.mExynosCompositionInfo.mLastIndex)) =
      some (-EINVAL, 1, 3) ∧
    ¬ (EXYNOS_ERROR_CHANGED < 0) ∧ ¬ (NO_ERROR < 0) := by
  refine ⟨rfl, rfl, ?_, ?_, ?_, ?_, by decide, by decide⟩ <;> decide

/-- C21 (amended): for a list of fewer than `2^31` layers and an index
`i >= layerCount` (a `uint32_t`): on an empty targeted range
`addClientCompositionLayer i` and `addExynosCompositionLayer i` return Changed
and set that range to `[(int32_t)i, (int32_t)i]`, changing nothing else; on a
non-empty secondary range `addExynosCompositionLayer i` returns the negative
code `-EINVAL`, leaving the layers and the client range unchanged and the
secondary range widened to include `(int32_t)i`; on a non-empty client range
`addClientCompositionLayer i`, whenever it returns, has widened the client
range to include `(int32_t)i`. -/
theorem tracker_out_of_bounds_index (env : ResourceOracle) (d : ExynosDisplay) (i : Nat)
    (hn : d.mLayers.length < 2 ^ 31) (hi : d.mLayers.length ≤ i) (h32 : i < 2 ^ 32) :
    (d.mClientCompositionInfo.mHasCompositionLayer = false →
      addClientCompositionLayer env d i = some (EXYNOS_ERROR_CHANGED,
        { d with mClientCompositionInfo :=
            { d.mClientCompositionInfo with mFirstIndex := toInt32 i, mLastIndex := toInt32 i,
                                            mHasCompositionLayer := true } })) ∧
    (d.mExynosCompositionInfo.mHasCompositionLayer = false →
      addExynosCompositionLayer env d i = some (EXYNOS_ERROR_CHANGED,
        { d with mExynosCompositionInfo :=
            { d.mExynosCompositionInfo with mFirstIndex := toInt32 i, mLastIndex := toInt32 i,
                                            mHasCompositionLayer := true } })) ∧
    (d.mExynosCompositionInfo.mHasCompositionLayer = true →
      -EINVAL < 0 ∧
      addExynosCompositionLayer env d i = some (-EINVAL,
        { d with mExynosCompositionInfo :=
            { d.mExynosCompositionInfo with
              mFirstIndex := min d.mExynosCompositionInfo.mFirstIndex (toInt32 i)
              mLastIndex := max d.mExynosCompositionInfo.mLastIndex (toInt32 i) } })) ∧
    (d.mClientCompositionInfo.mHasCompositionLayer = true →
      ∀ ret d1, addClientCompositionLayer env d i = some (ret, d1) →
        d1.mClientCompositionInfo.mHasCompositionLayer = true ∧
        d1.mClientCompositionInfo.mFirstIndex =
          min d.mClientCompositionInfo.mFirstIndex (toInt32 i) ∧
        d1.mClientCompositionInfo.mLastIndex =
          max d.mClientCompositionInfo.mLastIndex (toInt32 i)) := by
  refine ⟨?_, ?_, ?_, ?_⟩
  · intro hc
    simp only [addClientCompositionLayer, hc, if_true]
  · intro he
    simp only [addExynosCompositionLayer, he, if_true]
  · intro he
    refine ⟨by decide, ?_⟩
    unfold addExynosCompositionLayer
    simp only [he, Bool.true_eq_false, if_false]
    cases hm : d.mExynosCompositionInfo.mM2mMPP with
    | none => rfl
    | some m2mMPP =>
      dsimp only
      have hsz : toInt32 d.mLayers.length = (d.mLayers.length : Int) := toInt32_of_lt hn
      have hout := toInt32_out_of_range i d.mLayers.length hi h32
      rw [if_pos]
      rw [hsz]
      omega
  · intro hc ret d1 h
    unfold addClientCompositionLayer at h
    simp only [hc, Bool.true_eq_false, if_false] at h
    split_ifs at h with h1
    · cases h
      exact ⟨hc, rfl, rfl⟩
    · split at h
      · cases h
      · rename_i d2 b hloop
        have hcl := sandwichedLoop_client _ _ _ _ hloop
        have hcl2 : d2.mClientCompositionInfo = (widenClientRange d i).mClientCompositionInfo :=
          hcl
        have hd1 : d1.mClientCompositionInfo = d2.mClientCompositionInfo := by
          split_ifs at h
          · have h2 : exynosRangeRecompute env d2 = (ret, d1) := Option.some.inj h
            have hfr := (exynosRangeRecompute_frame env d2).2.1
            rw [h2] at hfr
            exact hfr
          · cases h
            rfl
        rw [hd1, hcl2]
        exact ⟨hc, rfl, rfl⟩

/-- C21 (witness): the amended statement at `sandwichDisplay` (three layers, an
empty client range, the secondary range `[1,1]`) with index 3. -/
theorem tracker_out_of_bounds_index_witness :
    sandwichDisplay.mLayers.length < 2 ^ 31 ∧ sandwichDisplay.mLayers.length ≤ 3 ∧
    (3 : Nat) < 2 ^ 32 ∧
    addClientCompositionLayer permissiveOracle sandwichDisplay 3 = some (EXYNOS_ERROR_CHANGED,
      { sandwichDisplay with mClientCompositionInfo :=
          { sandwichDisplay.mClientCompositionInfo with
            mFirstIndex := toInt32 3, mLastIndex := toInt32 3, mHasCompositionLayer := true } }) :=
  ⟨by decide, by decide, by decide,
    (tracker_out_of_bounds_index permissiveOracle sandwichDisplay 3 (by decide) (by decide)
      (by decide)).1 rfl⟩

/-! ## `closeFences` -/

/-- C26 (counterexample): on a display whose secondary composition is flagged
but has no resource, `closeFences` returns before it reaches the acquire
fences and the retire fences: the acquire fence 5 of layer 0, the acquire
fences 6 and 7 of the two composition targets, the retire fence 8 of the plan
and the last retire fence 9 are all still in place.  A layer release fence 0
is left as it is, because only positive release fences are closed. -/
theorem closeFences_leaves_fences_open :
    (closeFences orphanFencesDisplay).mLayers.map (fun l => l.mAcquireFence) = [5] ∧
    (closeFences orphanFencesDisplay).mExynosCompositionInfo.mAcquireFence = 6 ∧
    (closeFences orphanFencesDisplay).mClientCompositionInfo.mAcquireFence = 7 ∧
    (closeFences orphanFencesDisplay).mDpuData.retire_fence = 8 ∧
    (closeFences orphanFencesDisplay).mLastRetireFence = 9 ∧
    (closeFences zeroReleaseFenceDisplay).mLayers.map (fun l => l.mReleaseFence) = [0] := by
  decide

/-- C26 (amended): after `closeFences`, on every display state, every slot of
the commit plan (window and decoration) has acquire and release fence `-1`, and
every layer release fence that was positive is `-1`, the others being left as
they are.  Unless the secondary composition is flagged as having layers while
its resource is `NULL`, every layer's acquire fence, both composition targets'
acquire fences, the plan's retire fence and the last retire fence are `-1`; in
that excepted state the function returns early and leaves these five as they
were. -/
theorem closeFences_closes (d : ExynosDisplay) :
    (∀ c ∈ (closeFences d).mDpuData.configs ++ (closeFences d).mDpuData.rcdConfigs,
      c.acq_fence = -1 ∧ c.rel_fence = -1) ∧
    (closeFences d).mLayers.map (fun l => l.mReleaseFence) =
      d.mLayers.map (fun l => if l.mReleaseFence > 0 then -1 else l.mReleaseFence) ∧
    (¬ (d.mExynosCompositionInfo.mHasCompositionLayer = true ∧
        d.mExynosCompositionInfo.mM2mMPP = none) →
      (∀ l ∈ (closeFences d).mLayers, l.mAcquireFence = -1) ∧
      (closeFences d).mExynosCompositionInfo.mAcquireFence = -1 ∧
      (closeFences d).mClientCompositionInfo.mAcquireFence = -1 ∧
      (closeFences d).mDpuData.retire_fence = -1 ∧
      (closeFences d).mLastRetireFence = -1) ∧
    (d.mExynosCompositionInfo.mHasCompositionLayer = true ∧
        d.mExynosCompositionInfo.mM2mMPP = none →
      (closeFences d).mLayers.map (fun l => l.mAcquireFence) =
        d.mLayers.map (fun l => l.mAcquireFence) ∧
      (closeFences d).mExynosCompositionInfo.mAcquireFence =
        d.mExynosCompositionInfo.mAcquireFence ∧
      (closeFences d).mClientCompositionInfo.mAcquireFence =
        d.mClientCompositionInfo.mAcquireFence ∧
      (closeFences d).mDpuData.retire_fence = d.mDpuData.retire_fence ∧
      (closeFences d).mLastRetireFence = d.mLastRetireFence) := by
  have hrelease : ∀ l : ExynosLayer,
      (if l.mReleaseFence > 0 then { l with mReleaseFence := -1 } else l).mReleaseFence =
        if l.mReleaseFence > 0 then -1 else l.mReleaseFence := by
    intro l
    split <;> rfl
  have hacquire : ∀ l : ExynosLayer,
      (if l.mAcquireFence ≠ -1 then { l with mAcquireFence := fence_close l.mAcquireFence }
        else l).mReleaseFence = l.mReleaseFence := by
    intro l
    split <;> rfl
  have hkeep : ∀ l : ExynosLayer,
      (if l.mReleaseFence > 0 then { l with mReleaseFence := -1 } else l).mAcquireFence =
        l.mAcquireFence := by
    intro l
    split <;> rfl
  unfold closeFences
  dsimp only
  by_cases hg : d.mExynosCompositionInfo.mHasCompositionLayer = true ∧
      d.mExynosCompositionInfo.mM2mMPP = none
  · rw [if_pos hg]
    refine ⟨?_, ?_, fun h => absurd hg h, fun _ => ⟨?_, rfl, rfl, rfl, rfl⟩⟩
    · intro c hc
      simp only [List.mem_append, List.mem_map] at hc
      rcases hc with ⟨_, _, rfl⟩ | ⟨_, _, rfl⟩ <;> exact ⟨rfl, rfl⟩
    · simp only [List.map_map]
      apply List.map_congr_left
      intro l _
      exact hrelease l
    · simp only [List.map_map]
      apply List.map_congr_left
      intro l _
      exact hkeep l
  · rw [if_neg hg]
    refine ⟨?_, ?_, fun _ => ⟨?_, rfl, rfl, rfl, rfl⟩, fun h => absurd h hg⟩
    · intro c hc
      simp only [List.mem_append, List.mem_map] at hc
      rcases hc with ⟨_, _, rfl⟩ | ⟨_, _, rfl⟩ <;> exact ⟨rfl, rfl⟩
    · simp only [List.map_map]
      apply List.map_congr_left
      intro l _
      simp only [Function.comp]
      rw [hacquire, hrelease]
    · intro l hl
      simp only [List.mem_map] at hl
      obtain ⟨l1, _, rfl⟩ := hl
      split
      · rfl
      · rename_i h; exact not_not.mp h

/-- C26 (witness): the amended statement at `acceptedDisplay`, whose secondary
composition is not flagged. -/
theorem closeFences_closes_witness :
    ¬ (acceptedDisplay.mExynosCompositionInfo.mHasCompositionLayer = true ∧
        acceptedDisplay.mExynosCompositionInfo.mM2mMPP = none) ∧
    ((∀ l ∈ (closeFences acceptedDisplay).mLayers, l.mAcquireFence = -1) ∧
      (closeFences acceptedDisplay).mExynosCompositionInfo.mAcquireFence = -1 ∧
      (closeFences acceptedDisplay).mClientCompositionInfo.mAcquireFence = -1 ∧
      (closeFences acceptedDisplay).mDpuData.retire_fence = -1 ∧
      (closeFences acceptedDisplay).mLastRetireFence = -1) :=
  ⟨by decide, (closeFences_closes acceptedDisplay).2.2.1 (by decide)⟩

/-! ## Index safety of `addExynosCompositionLayer`: the failing input -/

/-- C27 (index safety), the code at the failing input: both ranges of
`staleRangeDisplay` are well formed and index 3 is in bounds.  The first loop
of `addExynosCompositionLayer 3`, over the widened range `[1,3]`, pushes the
unsupported layer 2 to client composition; the nested
`addClientCompositionLayer 2` turns the sandwiched layer 1 into CLIENT and,
no EXYNOS layer being left, resets the secondary range to `[-1,-1]`; layer 3
then records `maxPriorityIndex = 3`.  The max-priority block takes its loop
bounds from the reset range and reads `mLayers[-1]`: the call performs an
out-of-bounds read. -/
theorem addExynosCompositionLayer_reads_out_of_bounds :
    staleRangeDisplay.mClientCompositionInfo.rangeValid staleRangeDisplay.mLayers.length ∧
    staleRangeDisplay.mExynosCompositionInfo.rangeValid staleRangeDisplay.mLayers.length ∧
    3 < staleRangeDisplay.mLayers.length ∧
    (∃ s, flowLoop (exynosSandwichedStep permissiveOracle comboMPP) 3 1
        { d := { staleRangeDisplay with mExynosCompositionInfo :=
                  { staleRangeDisplay.mExynosCompositionInfo with mLastIndex := 3 } } } =
          some (Flow.next s) ∧
      s.invalidFlag = true ∧ s.maxPriorityIndex = 3 ∧
      s.d.mExynosCompositionInfo.mFirstIndex = -1 ∧
      s.d.mExynosCompositionInfo.mLastIndex = -1 ∧
      s.d.layerAt s.d.mExynosCompositionInfo.mFirstIndex = none ∧
      maxPriorityBlock permissiveOracle comboMPP s = none) ∧
    addExynosCompositionLayer permissiveOracle staleRangeDisplay 3 = none := by
  refine ⟨by decide, by decide, by decide, ⟨_, rfl, rfl, rfl, rfl, rfl, rfl, rfl⟩, ?_⟩
  decide

/-! ## The composition type reported to the client -/

/-- C28 (reported composition type): for a layer list of fewer than `2^31`
layers and an in-range index, `getLayerCompositionTypeForValidationType` never
returns `HWC2_COMPOSITION_EXYNOS`: a layer validated as EXYNOS is reported as
DEVICE; a layer validated as CLIENT whose index lies in the client range while
the skip flag is set is reported as DEVICE; every other layer is reported with
its validate type, except that a layer validated as DEVICE is reported as
CURSOR (with cursor support; DEVICE without), SOLID_COLOR or
REFRESH_RATE_INDICATOR when it was requested as such.  An index at or beyond
the number of layers yields `-1`. -/
theorem getLayerCompositionTypeForValidationType_spec (d : ExynosDisplay) (i : Nat)
    (hn : d.mLayers.length < 2 ^ 31) :
    (∀ l, d.mLayers[i]? = some l →
      getLayerCompositionTypeForValidationType d i ≠ HWC2_COMPOSITION_EXYNOS ∧
      (l.getValidateCompositionType = HWC2_COMPOSITION_EXYNOS →
        getLayerCompositionTypeForValidationType d i = HWC2_COMPOSITION_DEVICE) ∧
      (l.getValidateCompositionType = HWC2_COMPOSITION_CLIENT →
        d.mClientCompositionInfo.mSkipFlag = true →
        d.mClientCompositionInfo.mFirstIndex ≤ (i : Int) →
        (i : Int) ≤ d.mClientCompositionInfo.mLastIndex →
        getLayerCompositionTypeForValidationType d i = HWC2_COMPOSITION_DEVICE) ∧
      (l.getValidateCompositionType ≠ HWC2_COMPOSITION_EXYNOS →
        ¬ (l.getValidateCompositionType = HWC2_COMPOSITION_CLIENT ∧
            d.mClientCompositionInfo.mSkipFlag = true ∧
            d.mClientCompositionInfo.mFirstIndex ≤ (i : Int) ∧
            (i : Int) ≤ d.mClientCompositionInfo.mLastIndex) →
        (l.getValidateCompositionType = HWC2_COMPOSITION_DEVICE →
          l.mCompositionType = HWC2_COMPOSITION_CURSOR → d.cursorSupport = true →
          getLayerCompositionTypeForValidationType d i = HWC2_COMPOSITION_CURSOR) ∧
        (l.getValidateCompositionType = HWC2_COMPOSITION_DEVICE →
          l.mCompositionType = HWC2_COMPOSITION_CURSOR → d.cursorSupport = false →
          getLayerCompositionTypeForValidationType d i = HWC2_COMPOSITION_DEVICE) ∧
        (l.getValidateCompositionType = HWC2_COMPOSITION_DEVICE →
          l.mCompositionType = HWC2_COMPOSITION_SOLID_COLOR →
          getLayerCompositionTypeForValidationType d i = HWC2_COMPOSITION_SOLID_COLOR) ∧
        (l.getValidateCompositionType = HWC2_COMPOSITION_DEVICE →
          l.mCompositionType = HWC2_COMPOSITION_REFRESH_RATE_INDICATOR →
          getLayerCompositionTypeForValidationType d i =
            HWC2_COMPOSITION_REFRESH_RATE_INDICATOR) ∧
        (l.getValidateCompositionType ≠ HWC2_COMPOSITION_DEVICE ∨
            (l.mCompositionType ≠ HWC2_COMPOSITION_CURSOR ∧
              l.mCompositionType ≠ HWC2_COMPOSITION_SOLID_COLOR ∧
              l.mCompositionType ≠ HWC2_COMPOSITION_REFRESH_RATE_INDICATOR) →
          getLayerCompositionTypeForValidationType d i = l.getValidateCompositionType))) ∧
    (d.mLayers.length ≤ i → getLayerCompositionTypeForValidationType d i = -1) := by
  constructor
  · intro l hl
    have hi : i < d.mLayers.length := by
      by_contra hcon
      rw [List.getElem?_eq_none (by omega)] at hl
      cases hl
    have hti : toInt32 i = (i : Int) := toInt32_of_lt (by omega)
    have hCE : HWC2_COMPOSITION_CLIENT ≠ HWC2_COMPOSITION_EXYNOS := by decide
    have hDE : HWC2_COMPOSITION_DEVICE ≠ HWC2_COMPOSITION_EXYNOS := by decide
    have hDC : HWC2_COMPOSITION_DEVICE ≠ HWC2_COMPOSITION_CLIENT := by decide
    have hUE : HWC2_COMPOSITION_CURSOR ≠ HWC2_COMPOSITION_EXYNOS := by decide
    have hSE : HWC2_COMPOSITION_SOLID_COLOR ≠ HWC2_COMPOSITION_EXYNOS := by decide
    have hRE : HWC2_COMPOSITION_REFRESH_RATE_INDICATOR ≠ HWC2_COMPOSITION_EXYNOS := by decide
    have hUS : HWC2_COMPOSITION_CURSOR ≠ HWC2_COMPOSITION_SOLID_COLOR := by decide
    have hUR : HWC2_COMPOSITION_CURSOR ≠ HWC2_COMPOSITION_REFRESH_RATE_INDICATOR := by decide
    have hSR : HWC2_COMPOSITION_SOLID_COLOR ≠ HWC2_COMPOSITION_REFRESH_RATE_INDICATOR := by
      decide
    unfold getLayerCompositionTypeForValidationType
    simp only [hl, hti]
    refine ⟨?_, ?_, ?_, ?_⟩
    · split_ifs with h1 h2 h3 h4 h5 h6
      · exact hDE
      · exact hDE
      · exact hUE
      · exact hDE
      · exact hSE
      · exact hRE
      · exact h2
    · intro hE
      have hnc : l.getValidateCompositionType ≠ HWC2_COMPOSITION_CLIENT := by
        rw [hE]; exact fun h => hCE h.symm
      rw [if_neg (fun h => hnc h.1), if_pos hE]
    · intro hC hs h1 h2
      rw [if_pos ⟨hC, hs, h1, h2⟩]
    · intro hE hskip
      rw [if_neg hskip, if_neg hE]
      refine ⟨?_, ?_, ?_, ?_, ?_⟩
      · intro hD hU hs
        rw [if_pos ⟨hU, hD⟩, if_pos hs]
      · intro hD hU hs
        rw [if_pos ⟨hU, hD⟩, if_neg (by rw [hs]; exact Bool.false_ne_true)]
      · intro hD hS
        rw [if_neg (fun h => hUS (h.1.symm.trans hS)), if_pos ⟨hS, hD⟩]
      · intro hD hR
        rw [if_neg (fun h => hUR (h.1.symm.trans hR)),
          if_neg (fun h => hSR (h.1.symm.trans hR)), if_pos ⟨hR, hD⟩]
      · intro hor
        rcases hor with hD | ⟨hU, hS, hR⟩
        · rw [if_neg (fun h => hD h.2), if_neg (fun h => hD h.2), if_neg (fun h => hD h.2)]
        · rw [if_neg (fun h => hU h.1), if_neg (fun h => hS h.1), if_neg (fun h => hR h.1)]
  · intro hlen
    unfold getLayerCompositionTypeForValidationType
    rw [List.getElem?_eq_none hlen]

/-- C28 (witness): `cachedSkipDisplay` has one layer; index 0 is in range and
index 1 is not. -/
theorem getLayerCompositionTypeForValidationType_spec_witness :
    cachedSkipDisplay.mLayers.length < 2 ^ 31 ∧
    getLayerCompositionTypeForValidationType cachedSkipDisplay 0 ≠ HWC2_COMPOSITION_EXYNOS ∧
    getLayerCompositionTypeForValidationType cachedSkipDisplay 1 = -1 :=
  ⟨by decide,
    ((getLayerCompositionTypeForValidationType_spec cachedSkipDisplay 0 (by decide)).1 _ rfl).1,
    (getLayerCompositionTypeForValidationType_spec cachedSkipDisplay 1 (by decide)).2
      (by decide)⟩

/-! ## `getReleaseFences` -/

theorem countReleaseFences_eq (ls : List ExynosLayer) :
    ∀ n : Nat, n + ls.length < 2 ^ 32 →
      countReleaseFences ls n = n + ls.countP (fun l => decide (l.mReleaseFence ≥ 0)) := by
  induction ls with
  | nil => intro n _; rfl
  | cons l ls ih =>
    intro n hn
    simp only [List.length_cons] at hn
    unfold countReleaseFences
    by_cases h : l.mReleaseFence ≥ 0
    · have hp : decide (l.mReleaseFence ≥ 0) = true := by simpa using h
      rw [if_pos h, Nat.mod_eq_of_lt (by omega), ih (n + 1) (by omega),
        List.countP_cons_of_pos (fun l : ExynosLayer => decide (l.mReleaseFence ≥ 0)) ls hp]
      omega
    · have hp : ¬ (decide (l.mReleaseFence ≥ 0) = true) := by simpa using h
      rw [if_neg h, ih n (by omega),
        List.countP_cons_of_neg (fun l : ExynosLayer => decide (l.mReleaseFence ≥ 0)) ls hp]

/-- The layer list after a completed hand-off. -/
theorem handOff_layers_count (ls : List ExynosLayer) :
    (ls.map (fun l => if l.mReleaseFence ≥ 0 then { l with mReleaseFence := -1 } else l)).countP
      (fun l => decide (l.mReleaseFence ≥ 0)) = 0 := by
  rw [List.countP_eq_zero]
  intro l hl
  simp only [List.mem_map] at hl
  obtain ⟨l0, _, rfl⟩ := hl
  by_cases h : l0.mReleaseFence ≥ 0
  · rw [if_pos h]; simp
  · rw [if_neg h]; simpa using h

theorem handOffLoop_complete (capacity : Nat) (ls : List ExynosLayer) :
    ∀ (i n : Nat), n + ls.length < 2 ^ 32 →
      n + ls.countP (fun l => decide (l.mReleaseFence ≥ 0)) ≤ capacity →
      handOffLoop capacity ls i n =
        { completed := true
          deviceLayerNum := n + ls.countP (fun l => decide (l.mReleaseFence ≥ 0))
          written := ((ls.enumFrom i).filter (fun p => decide (p.2.mReleaseFence ≥ 0))).map
            (fun p => (p.1, p.2.mReleaseFence))
          layers := ls.map
            (fun l => if l.mReleaseFence ≥ 0 then { l with mReleaseFence := -1 } else l) } := by
  induction ls with
  | nil => intro i n _ _; rfl
  | cons l ls ih =>
    intro i n hn hcap
    simp only [List.length_cons] at hn
    unfold handOffLoop
    by_cases h : l.mReleaseFence ≥ 0
    · have hp : decide (l.mReleaseFence ≥ 0) = true := by simpa using h
      have hc : (l :: ls).countP (fun l => decide (l.mReleaseFence ≥ 0)) =
          ls.countP (fun l => decide (l.mReleaseFence ≥ 0)) + 1 :=
        List.countP_cons_of_pos (fun l : ExynosLayer => decide (l.mReleaseFence ≥ 0)) ls hp
      have hf : ((i, l) :: ls.enumFrom (i + 1)).filter
          (fun p : Nat × ExynosLayer => decide (p.2.mReleaseFence ≥ 0)) =
          (i, l) :: (ls.enumFrom (i + 1)).filter
            (fun p : Nat × ExynosLayer => decide (p.2.mReleaseFence ≥ 0)) :=
        List.filter_cons_of_pos hp
      rw [hc] at hcap
      rw [if_pos h, if_pos (by omega), Nat.mod_eq_of_lt (by omega)]
      simp only [ih (i + 1) (n + 1) (by omega) (by omega), hc, List.enumFrom_cons, hf,
        List.map_cons, if_pos h]
      congr 1
      omega
    · have hp : ¬ (decide (l.mReleaseFence ≥ 0) = true) := by simpa using h
      have hc : (l :: ls).countP (fun l => decide (l.mReleaseFence ≥ 0)) =
          ls.countP (fun l => decide (l.mReleaseFence ≥ 0)) :=
        List.countP_cons_of_neg (fun l : ExynosLayer => decide (l.mReleaseFence ≥ 0)) ls hp
      have hf : ((i, l) :: ls.enumFrom (i + 1)).filter
          (fun p : Nat × ExynosLayer => decide (p.2.mReleaseFence ≥ 0)) =
          (ls.enumFrom (i + 1)).filter
            (fun p : Nat × ExynosLayer => decide (p.2.mReleaseFence ≥ 0)) :=
        List.filter_cons_of_neg hp
      rw [hc] at hcap
      rw [if_neg h]
      simp only [ih (i + 1) n (by omega) hcap, hc, List.enumFrom_cons, hf,
        List.map_cons, if_neg h]

theorem handOffLoop_short (capacity : Nat) (ls : List ExynosLayer) :
    ∀ (i n : Nat), n + ls.length < 2 ^ 32 → n ≤ capacity →
      capacity < n + ls.countP (fun l => decide (l.mReleaseFence ≥ 0)) →
      (handOffLoop capacity ls i n).completed = false := by
  induction ls with
  | nil =>
    intro i n _ h1 h2
    simp only [List.countP_nil] at h2
    omega
  | cons l ls ih =>
    intro i n hn h1 h2
    simp only [List.length_cons] at hn
    unfold handOffLoop
    by_cases h : l.mReleaseFence ≥ 0
    · have hp : decide (l.mReleaseFence ≥ 0) = true := by simpa using h
      have hc : (l :: ls).countP (fun l => decide (l.mReleaseFence ≥ 0)) =
          ls.countP (fun l => decide (l.mReleaseFence ≥ 0)) + 1 :=
        List.countP_cons_of_pos (fun l : ExynosLayer => decide (l.mReleaseFence ≥ 0)) ls hp
      rw [hc] at h2
      rw [if_pos h]
      by_cases hlt : n < capacity
      · rw [if_pos hlt, Nat.mod_eq_of_lt (by omega)]
        exact ih (i + 1) (n + 1) (by omega) (by omega) (by omega)
      · rw [if_neg hlt]
    · have hp : ¬ (decide (l.mReleaseFence ≥ 0) = true) := by simpa using h
      have hc : (l :: ls).countP (fun l => decide (l.mReleaseFence ≥ 0)) =
          ls.countP (fun l => decide (l.mReleaseFence ≥ 0)) :=
        List.countP_cons_of_neg (fun l : ExynosLayer => decide (l.mReleaseFence ≥ 0)) ls hp
      rw [hc] at h2
      rw [if_neg h]
      exact ih (i + 1) n (by omega) h1 h2

/-- C29 (counterexample): two layers hold the release fences `11` and `-2`.
The hand-off call with both arrays and a capacity of 2 returns 0 and hands off
layer 0 with the fence `11`; afterwards the release fences are `-1` and `-2`:
the layer whose fence was not `>= 0` keeps it, so not every release fence is
`-1`. -/
theorem getReleaseFences_keeps_negative_fence :
    (getReleaseFences strayFenceDisplay (some 2) true true).ret = 0 ∧
    (getReleaseFences strayFenceDisplay (some 2) true true).outNumElements = some 1 ∧
    (getReleaseFences strayFenceDisplay (some 2) true true).written = [(0, 11)] ∧
    (getReleaseFences strayFenceDisplay (some 2) true true).display.mLayers.map
      (fun l => l.mReleaseFence) = [-1, -2] := by
  refine ⟨rfl, rfl, rfl, rfl⟩

/-- C29 (release-fence hand-off), as amended: for fewer than `2^32` layers and a
capacity `*outNumElements` below `2^32` (both are `uint32_t` quantities), with
`n` the number of layers whose release fence is `>= 0`.  Called with a null
output array, `getReleaseFences` returns 0, sets `*outNumElements = n` and
leaves the display as it is.  Called with both arrays and a capacity of at
least `n`, it returns 0, writes each such layer (named by its position) with
its fence in layer order, sets `*outNumElements = n`, and sets the release
fence of each of these layers to `-1`, leaving the other layers alone; so
every release fence is negative afterwards (and `-1` when each was `-1` or a
descriptor before), and a counting call that follows reports 0.  With a
capacity below `n` it returns `HWC2_ERROR_BAD_PARAMETER`. -/
theorem getReleaseFences_spec (d : ExynosDisplay) (capacity : Nat)
    (hn : d.mLayers.length < 2 ^ 32) (hcap : capacity < 2 ^ 32) :
    (∀ outLayers outFences : Bool, ¬ (outLayers = true ∧ outFences = true) →
      getReleaseFences d (some capacity) outLayers outFences =
        { ret := 0
          outNumElements := some (d.mLayers.countP (fun l => decide (l.mReleaseFence ≥ 0)))
          written := []
          display := d }) ∧
    (d.mLayers.countP (fun l => decide (l.mReleaseFence ≥ 0)) ≤ capacity →
      (getReleaseFences d (some capacity) true true).ret = 0 ∧
      (getReleaseFences d (some capacity) true true).outNumElements =
        some (d.mLayers.countP (fun l => decide (l.mReleaseFence ≥ 0))) ∧
      (getReleaseFences d (some capacity) true true).written =
        ((d.mLayers.enumFrom 0).filter (fun p => decide (p.2.mReleaseFence ≥ 0))).map
          (fun p => (p.1, p.2.mReleaseFence)) ∧
      (getReleaseFences d (some capacity) true true).display =
        { d with
          mLayers := d.mLayers.map
            (fun l => if l.mReleaseFence ≥ 0 then { l with mReleaseFence := -1 } else l) } ∧
      (∀ l ∈ (getReleaseFences d (some capacity) true true).display.mLayers,
        l.mReleaseFence < 0) ∧
      ((∀ l ∈ d.mLayers, -1 ≤ l.mReleaseFence) →
        ∀ l ∈ (getReleaseFences d (some capacity) true true).display.mLayers,
          l.mReleaseFence = -1) ∧
      ∀ (capacity1 : Nat) (outLayers outFences : Bool), ¬ (outLayers = true ∧ outFences = true) →
        (getReleaseFences (getReleaseFences d (some capacity) true true).display (some capacity1)
          outLayers outFences).outNumElements = some 0) ∧
    (capacity < d.mLayers.countP (fun l => decide (l.mReleaseFence ≥ 0)) →
      (getReleaseFences d (some capacity) true true).ret = HWC2_ERROR_BAD_PARAMETER) := by
  have hcm : capacity % 2 ^ 32 = capacity := Nat.mod_eq_of_lt hcap
  have hcount : ∀ ls : List ExynosLayer, ls.length < 2 ^ 32 →
      countReleaseFences ls 0 = ls.countP (fun l => decide (l.mReleaseFence ≥ 0)) := by
    intro ls hls
    rw [countReleaseFences_eq ls 0 (by omega), Nat.zero_add]
  refine ⟨?_, ?_, ?_⟩
  · intro outLayers outFences hnot
    unfold getReleaseFences
    simp only [if_neg hnot, hcount d.mLayers hn]
  · intro hle
    have hloop := handOffLoop_complete capacity d.mLayers 0 0 (by omega) (by omega)
    simp only [Nat.zero_add] at hloop
    have hres : getReleaseFences d (some capacity) true true =
        { ret := 0
          outNumElements := some (d.mLayers.countP (fun l => decide (l.mReleaseFence ≥ 0)))
          written := ((d.mLayers.enumFrom 0).filter
            (fun p => decide (p.2.mReleaseFence ≥ 0))).map (fun p => (p.1, p.2.mReleaseFence))
          display :=
            { d with
              mLayers := d.mLayers.map
                (fun l => if l.mReleaseFence ≥ 0 then { l with mReleaseFence := -1 } else l) } } := by
      unfold getReleaseFences
      simp only [and_self, if_true, hcm, hloop]
    rw [hres]
    refine ⟨rfl, rfl, rfl, rfl, ?_, ?_, ?_⟩
    · intro l hl
      simp only [List.mem_map] at hl
      obtain ⟨l0, hl0, rfl⟩ := hl
      by_cases h : l0.mReleaseFence ≥ 0
      · rw [if_pos h]
        show (-1 : Int) < 0
        decide
      · rw [if_neg h]
        omega
    · intro hwf l hl
      simp only [List.mem_map] at hl
      obtain ⟨l0, hl0, rfl⟩ := hl
      by_cases h : l0.mReleaseFence ≥ 0
      · rw [if_pos h]
      · rw [if_neg h]
        have := hwf l0 hl0
        omega
    · intro capacity1 outLayers outFences hnot
      unfold getReleaseFences
      simp only [if_neg hnot]
      rw [hcount _ (by simpa using hn), handOff_layers_count]
  · intro hlt
    have hloop := handOffLoop_short capacity d.mLayers 0 0 (by omega) (by omega) (by omega)
    unfold getReleaseFences
    simp only [and_self, if_true, hcm, hloop]
    rfl

/-- C29 (witness): three layers with the release fences `11`, `-1`, `12` and a
capacity of 2. -/
theorem getReleaseFences_spec_witness :
    releaseFenceDisplay.mLayers.length < 2 ^ 32 ∧ (2 : Nat) < 2 ^ 32 ∧
    releaseFenceDisplay.mLayers.countP (fun l => decide (l.mReleaseFence ≥ 0)) ≤ 2 ∧
    (getReleaseFences releaseFenceDisplay (some 2) true true).ret = 0 ∧
    (getReleaseFences releaseFenceDisplay (some 2) true true).written = [(0, 11), (2, 12)] :=
  ⟨by decide, by decide, by decide,
    ((getReleaseFences_spec releaseFenceDisplay 2 (by decide) (by decide)).2.1 (by decide)).1,
    ((getReleaseFences_spec releaseFenceDisplay 2 (by decide) (by decide)).2.1
      (by decide)).2.2.1⟩

/-! ## `getConfigAppliedTime` -/

theorem toInt64_of_lt {n : Nat} (h : n < 2 ^ 63) : toInt64 n = (n : Int) := by
  unfold toInt64
  have h1 : n % 2 ^ 64 = n := Nat.mod_eq_of_lt (by omega)
  rw [h1, if_pos h]

theorem toUInt64_natCast {n : Nat} (h : n < 2 ^ 64) : toUInt64 (n : Int) = n := by
  unfold toUInt64
  have h1 : ((n : Int)) % 2 ^ 64 = (n : Int) := Int.emod_eq_of_lt (by omega) (by omega)
  rw [h1]
  rfl

theorem checkedInt64_of_range {z : Int} (h0 : -(2 ^ 63) ≤ z) (h1 : z < 2 ^ 63) :
    checkedInt64 z = some z := by
  unfold checkedInt64
  rw [if_pos ⟨h0, h1⟩]

theorem configRefreshTime_spec (P td : Nat) (applied : Int) (hP32 : P < 2 ^ 32)
    (htd : td < 2 ^ 32) (h0 : 0 ≤ applied) (h1 : applied < 2 ^ 63) :
    configRefreshTime P td applied =
      some (NO_ERROR, applied, applied - ((td * P % 2 ^ 32 : Nat) : Int)) := by
  unfold configRefreshTime
  have e1 : td % 2 ^ 32 = td := Nat.mod_eq_of_lt htd
  have e2 : P % 2 ^ 32 = P := Nat.mod_eq_of_lt hP32
  rw [e1, e2]
  have hlt : td * P % 2 ^ 32 < 2 ^ 32 := Nat.mod_lt _ (by decide)
  rw [checkedInt64_of_range (by omega) (by omega)]

/-- The rounding of `getConfigAppliedTime`: for `diff >= 1` and a period
`P >= 1`, the step `(diff + P - 1) / P * P` is the least multiple of `P` that is
at least `diff`. -/
theorem round_up_step (diff P : Int) (hd : 1 ≤ diff) (hP : 1 ≤ P) :
    (diff + P - 1).tdiv P * P = (diff + P - 1) / P * P ∧
    diff ≤ (diff + P - 1) / P * P ∧ (diff + P - 1) / P * P < diff + P ∧
    1 ≤ (diff + P - 1) / P ∧
    ∀ j : Int, diff ≤ j * P → (diff + P - 1) / P * P ≤ j * P := by
  have hP0 : 0 < P := by omega
  have hle : (diff + P - 1) / P * P ≤ diff + P - 1 := Int.ediv_mul_le _ (by omega)
  have hlt : diff + P - 1 < ((diff + P - 1) / P + 1) * P :=
    Int.lt_ediv_add_one_mul_self _ hP0
  have hlt2 : diff + P - 1 < (diff + P - 1) / P * P + P := by
    have : ((diff + P - 1) / P + 1) * P = (diff + P - 1) / P * P + P := by ring
    rw [this] at hlt
    exact hlt
  refine ⟨?_, by omega, by omega, ?_, ?_⟩
  · rw [Int.tdiv_eq_ediv (by omega) (by omega)]
  · by_contra hcon
    have hq : (diff + P - 1) / P ≤ 0 := by omega
    have : (diff + P - 1) / P * P ≤ 0 := Int.mul_nonpos_of_nonpos_of_nonneg hq (by omega)
    omega
  · intro j hj
    have hjq : (diff + P - 1) / P * P < (j + 1) * P := by
      have : (j + 1) * P = j * P + P := by ring
      rw [this]
      omega
    have hq : (diff + P - 1) / P < j + 1 := lt_of_mul_lt_mul_right hjq (by omega)
    exact Int.mul_le_mul_of_nonneg_right (by omega) (by omega)

/-- C30 (counterexample): with the vsync period `10^9` ns, a transient duration
of 5 periods, the desired time 0 and the actual change time `10^10`, the
applied time is `10^10` and the refresh time is `9294967296`, which is
`10^10 - (5 * 10^9 mod 2^32)` and not `10^10 - 5 * 10^9`. -/
theorem getConfigAppliedTime_product_wraps :
    getConfigAppliedTime 1000000000 5 0 10000000000 =
      some (NO_ERROR, 10000000000, 9294967296) ∧
    (9294967296 : Int) ≠ 10000000000 - 5 * 1000000000 := by
  constructor <;> decide

/-- C30 (amended): for a vsync period `0 < P < 2^32`, a transient duration
below `2^32`, an actual change time below `2^63` and a desired time with
`desiredTime + P < 2^63`, `getConfigAppliedTime` returns `NO_ERROR`;
`appliedTime` is `actualChangeTime` when `desiredTime <= actualChangeTime`, and
otherwise the smallest `actualChangeTime + k * P` with `k >= 1` that is at least
`desiredTime`, so that `appliedTime - desiredTime < P`; in both cases
`refreshTime = appliedTime - (transientDuration * P mod 2^32)`, which is
`appliedTime - transientDuration * P` when that product is below `2^32`. -/
theorem getConfigAppliedTime_spec (P td desired actual : Nat) (hP : 0 < P) (hP32 : P < 2 ^ 32)
    (htd : td < 2 ^ 32) (ha : actual < 2 ^ 63) (hd : desired + P < 2 ^ 63) :
    ∃ applied refresh : Int,
      getConfigAppliedTime P td desired actual = some (NO_ERROR, applied, refresh) ∧
      (desired ≤ actual → applied = (actual : Int)) ∧
      (actual < desired →
        (∃ k : Int, 1 ≤ k ∧ applied = (actual : Int) + k * (P : Int)) ∧
        (desired : Int) ≤ applied ∧ applied - (desired : Int) < (P : Int) ∧
        ∀ j : Int, 1 ≤ j → (desired : Int) ≤ (actual : Int) + j * (P : Int) →
          applied ≤ (actual : Int) + j * (P : Int)) ∧
      refresh = applied - ((td * P % 2 ^ 32 : Nat) : Int) ∧
      (td * P < 2 ^ 32 → refresh = applied - (td : Int) * (P : Int)) := by
  have hA : toInt64 actual = (actual : Int) := toInt64_of_lt ha
  have hU : toUInt64 (actual : Int) = actual := toUInt64_natCast (by omega)
  have hD : desired % 2 ^ 64 = desired := Nat.mod_eq_of_lt (by omega)
  have hPm : P % 2 ^ 32 = P := Nat.mod_eq_of_lt hP32
  have hexact : td * P < 2 ^ 32 → ((td * P % 2 ^ 32 : Nat) : Int) = (td : Int) * (P : Int) := by
    intro h
    rw [Nat.mod_eq_of_lt h]
    push_cast
    rfl
  unfold getConfigAppliedTime
  simp only [hA, hU, hD, hPm]
  by_cases hgt : desired > actual
  · rw [if_pos hgt]
    have hdiff : toInt64 (desired + 2 ^ 64 - actual) = (desired : Int) - (actual : Int) := by
      unfold toInt64
      have h1 : (desired + 2 ^ 64 - actual) % 2 ^ 64 = desired - actual := by
        have : desired + 2 ^ 64 - actual = (desired - actual) + 2 ^ 64 := by omega
        rw [this, Nat.add_mod_right]
        exact Nat.mod_eq_of_lt (by omega)
      rw [h1, if_pos (by omega)]
      omega
    rw [hdiff]
    obtain ⟨ht, hge, hlt, hk, hmin⟩ :=
      round_up_step ((desired : Int) - (actual : Int)) (P : Int) (by omega) (by omega)
    rw [checkedInt64_of_range (by omega) (by omega)]
    dsimp only
    rw [checkedInt64_of_range (by omega) (by omega)]
    dsimp only
    rw [if_neg (by omega)]
    rw [ht]
    generalize hq : ((desired : Int) - (actual : Int) + (P : Int) - 1) / (P : Int) = q at *
    generalize hs : q * (P : Int) = step at *
    rw [checkedInt64_of_range (by omega) (by omega)]
    dsimp only
    rw [checkedInt64_of_range (by omega) (by omega)]
    dsimp only
    rw [configRefreshTime_spec P td _ hP32 htd (by omega) (by omega)]
    refine ⟨_, _, rfl, fun h => by omega, fun _ => ⟨⟨q, hk, by rw [hs]⟩, by omega, by omega, ?_⟩,
      rfl, fun h => by rw [hexact h]⟩
    intro j _ hj
    have := hmin j (by omega)
    omega
  · rw [if_neg hgt]
    rw [configRefreshTime_spec P td _ hP32 htd (by omega) (by omega)]
    exact ⟨_, _, rfl, fun _ => rfl, fun h => absurd h hgt, rfl, fun h => by rw [hexact h]⟩

/-- C30 (witness): a 60 Hz period, two transient periods, a desired time after
the actual change time. -/
theorem getConfigAppliedTime_spec_witness :
    (0 : Nat) < 16666666 ∧ (16666666 : Nat) < 2 ^ 32 ∧ (2 : Nat) < 2 ^ 32 ∧
    (1000 : Nat) < 2 ^ 63 ∧ (50000000 : Nat) + 16666666 < 2 ^ 63 ∧
    ∃ applied refresh : Int,
      getConfigAppliedTime 16666666 2 50000000 1000 = some (NO_ERROR, applied, refresh) ∧
      refresh = applied - ((2 * 16666666 % 2 ^ 32 : Nat) : Int) :=
  ⟨by decide, by decide, by decide, by decide, by decide,
    Exists.imp (fun _ h => Exists.imp (fun _ h2 => ⟨h2.1, h2.2.2.2.1⟩) h)
      (getConfigAppliedTime_spec 16666666 2 50000000 1000 (by decide) (by decide) (by decide)
        (by decide) (by decide))⟩

/-! ## `ExynosSortedLayer::vector_sort` -/

theorem compare_pos_iff (a b : ExynosLayer) :
    ExynosSortedLayer.compare a b > 0 ↔ a.mZOrder > b.mZOrder := by
  unfold ExynosSortedLayer.compare
  split_ifs with h
  · simp [h]
  · simp [h]

theorem sortInsert_perm (item : ExynosLayer) (rev : List ExynosLayer) :
    (sortInsert ExynosSortedLayer.compare item rev).Perm (item :: rev) := by
  induction rev with
  | nil => exact List.Perm.refl _
  | cons curr rest ih =>
    unfold sortInsert
    split_ifs with h
    · exact (List.Perm.cons curr ih).trans (List.Perm.swap item curr rest)
    · exact List.Perm.refl _

theorem sortInsert_sorted (item : ExynosLayer) (rev : List ExynosLayer)
    (hs : rev.Pairwise (fun a b => b.mZOrder ≤ a.mZOrder)) :
    (sortInsert ExynosSortedLayer.compare item rev).Pairwise
      (fun a b => b.mZOrder ≤ a.mZOrder) := by
  induction rev with
  | nil => exact List.pairwise_singleton _ _
  | cons curr rest ih =>
    rw [List.pairwise_cons] at hs
    unfold sortInsert
    split_ifs with h
    · rw [compare_pos_iff] at h
      rw [List.pairwise_cons]
      refine ⟨?_, ih hs.2⟩
      intro b hb
      have hb2 := (sortInsert_perm item rest).subset hb
      rcases List.mem_cons.mp hb2 with rfl | hb3
      · omega
      · exact hs.1 b hb3
    · rw [compare_pos_iff] at h
      rw [List.pairwise_cons]
      refine ⟨?_, List.pairwise_cons.mpr hs⟩
      intro b hb
      rcases List.mem_cons.mp hb with rfl | hb3
      · omega
      · have := hs.1 b hb3
        omega

theorem sortInsert_stable (z : Nat) (item : ExynosLayer) (rev : List ExynosLayer) :
    (sortInsert ExynosSortedLayer.compare item rev).filter (fun a => decide (a.mZOrder = z)) =
      (item :: rev).filter (fun a => decide (a.mZOrder = z)) := by
  induction rev with
  | nil => rfl
  | cons curr rest ih =>
    unfold sortInsert
    split_ifs with h
    · rw [compare_pos_iff] at h
      by_cases hc : curr.mZOrder = z
      · have hi : ¬ item.mZOrder = z := by omega
        simp only [List.filter_cons, hc, hi, decide_True, decide_False, if_true] at ih ⊢
        simp only [Bool.false_eq_true, if_false] at ih ⊢
        rw [ih]
      · simp only [List.filter_cons, hc, decide_False, Bool.false_eq_true, if_false] at ih ⊢
        rw [ih]
    · rfl

/-- The state of the outer loop of the sort: the prefix built from `rev` and the
elements `l` taken so far, held back to front. -/
theorem sortFold_spec (l : List ExynosLayer) :
    ∀ rev : List ExynosLayer, rev.Pairwise (fun a b => b.mZOrder ≤ a.mZOrder) →
      (l.foldl (fun sortedPrefix item =>
          sortInsert ExynosSortedLayer.compare item sortedPrefix) rev).Perm (l ++ rev) ∧
      (l.foldl (fun sortedPrefix item =>
          sortInsert ExynosSortedLayer.compare item sortedPrefix) rev).Pairwise
        (fun a b => b.mZOrder ≤ a.mZOrder) ∧
      ∀ z : Nat,
        (l.foldl (fun sortedPrefix item =>
            sortInsert ExynosSortedLayer.compare item sortedPrefix) rev).filter
          (fun a => decide (a.mZOrder = z)) =
        (l.reverse ++ rev).filter (fun a => decide (a.mZOrder = z)) := by
  induction l with
  | nil =>
    intro rev hs
    exact ⟨List.Perm.refl _, hs, fun _ => rfl⟩
  | cons x xs ih =>
    intro rev hs
    obtain ⟨hp, hsorted, hst⟩ := ih (sortInsert ExynosSortedLayer.compare x rev)
      (sortInsert_sorted x rev hs)
    simp only [List.foldl_cons]
    refine ⟨?_, hsorted, ?_⟩
    · refine hp.trans ?_
      refine ((List.Perm.append_left xs (sortInsert_perm x rev))).trans ?_
      exact List.perm_middle
    · intro z
      rw [hst z, List.filter_append, sortInsert_stable z x rev, List.reverse_cons,
        List.append_assoc, List.filter_append]
      rfl

/-- C22 (z-order sort): `ExynosSortedLayer::compare` returns 1 exactly when the
left layer's z-order is greater than the right's and 0 otherwise; driven by it,
`vector_sort` returns `NO_ERROR` and leaves the layer list as a permutation of
its input, in non-decreasing z-order, with the layers of each z-order in their
previous relative order.  Three layers with the z-orders 2, 0, 1 end in the
order z = 0, z = 1, z = 2. -/
theorem vector_sort_spec :
    (∀ a b : ExynosLayer,
      (ExynosSortedLayer.compare a b = 1 ↔ a.mZOrder > b.mZOrder) ∧
      (ExynosSortedLayer.compare a b = 0 ↔ ¬ a.mZOrder > b.mZOrder)) ∧
    (∀ layers : List ExynosLayer,
      (ExynosSortedLayer.vector_sort layers).1 = NO_ERROR ∧
      (ExynosSortedLayer.vector_sort layers).2.Perm layers ∧
      (ExynosSortedLayer.vector_sort layers).2.Pairwise (fun a b => a.mZOrder ≤ b.mZOrder) ∧
      ∀ z : Nat,
        (ExynosSortedLayer.vector_sort layers).2.filter (fun a => decide (a.mZOrder = z)) =
          layers.filter (fun a => decide (a.mZOrder = z))) ∧
    (∀ a b c : ExynosLayer, a.mZOrder = 2 → b.mZOrder = 0 → c.mZOrder = 1 →
      (ExynosSortedLayer.vector_sort [a, b, c]).2 = [b, c, a]) := by
  refine ⟨?_, ?_, ?_⟩
  · intro a b
    unfold ExynosSortedLayer.compare
    split_ifs with h
    · simp [h]
    · simp [h]
  · intro layers
    obtain ⟨hp, hs, hst⟩ := sortFold_spec layers [] List.Pairwise.nil
    refine ⟨rfl, ?_, ?_, ?_⟩
    · show (List.reverse _).Perm layers
      refine (List.reverse_perm _).trans ?_
      simpa using hp
    · show (List.reverse _).Pairwise _
      rw [List.pairwise_reverse]
      exact hs
    · intro z
      show (List.reverse _).filter _ = _
      rw [List.filter_reverse, hst z, List.append_nil, List.filter_reverse, List.reverse_reverse]
  · intro a b c ha hb hc
    simp [ExynosSortedLayer.vector_sort, Vector_sort, sortInsert, ExynosSortedLayer.compare,
      ha, hb, hc]

/-- C22 (witness): the three-layer scenario at concrete layers with the
z-orders 2, 0 and 1. -/
theorem vector_sort_spec_witness :
    (ExynosSortedLayer.vector_sort
        [ { mZOrder := 2, mLayerBuffer := 7 }, { mZOrder := 0, mLayerBuffer := 8 },
          { mZOrder := 1, mLayerBuffer := 9 } ]).2 =
      [ { mZOrder := 0, mLayerBuffer := 8 }, { mZOrder := 1, mLayerBuffer := 9 },
        { mZOrder := 2, mLayerBuffer := 7 } ] :=
  vector_sort_spec.2.2 _ _ _ rfl rfl rfl

/-! ## The destination rectangle of `configureHandle` -/

theorem checkedInt32_of_range {z : Int} (h0 : -(2 ^ 31) ≤ z) (h1 : z < 2 ^ 31) :
    checkedInt32 z = some z := by
  unfold checkedInt32
  rw [if_pos ⟨h0, h1⟩]

/-- One axis of the crop: the offset is the low edge clamped at 0 and the size
is the clipped extent reduced modulo `2^32`. -/
theorem cropAxis_spec (lo hi : Int) (res : Nat) (hlo : -(2 ^ 31) < lo) (hhi : hi < 2 ^ 31)
    (hlt : lo < hi) (hsz : hi - lo < 2 ^ 31) (hres : res < 2 ^ 31) :
    cropAxis lo hi (toUInt32 (hi - lo)) res =
      some ((max lo 0).toNat, toUInt32 (min hi (res : Int) - max lo 0)) := by
  have hres32 : toInt32 res = (res : Int) := toInt32_of_lt hres
  unfold cropAxis
  rw [hres32]
  by_cases h1 : lo < 0
  · rw [if_pos h1, checkedInt32_of_range (by omega) (by omega)]
    dsimp only
    by_cases h2 : hi > (res : Int)
    · rw [if_pos h2]
      congr 1
      unfold subUInt32 toUInt32
      refine Prod.ext ?_ ?_
      · show 0 = (max lo 0).toNat
        omega
      · show _ = _
        dsimp only
        omega
    · rw [if_neg h2]
      congr 1
      unfold subUInt32 toUInt32
      refine Prod.ext ?_ ?_
      · show 0 = (max lo 0).toNat
        omega
      · dsimp only
        omega
  · rw [if_neg h1]
    dsimp only
    by_cases h2 : hi > (res : Int)
    · rw [if_pos h2]
      congr 1
      unfold subUInt32 toUInt32
      refine Prod.ext ?_ ?_
      · dsimp only
        omega
      · dsimp only
        omega
    · rw [if_neg h2]
      congr 1
      unfold toUInt32
      refine Prod.ext ?_ ?_
      · dsimp only
        omega
      · dsimp only
        omega

/-- C25 (counterexample): on the `1080 x 1920` display the overlay layer with the
frame `[1090, 0, 1100, 10]`, which has `left < right` and `top < bottom` and
lies to the right of the display, gets the destination offset `x = 1090` and
the width `4294967286 = 2^32 - 10`: the width is not `min(right, Xres) -
max(left, 0) = -10`, and neither `dst.w <= Xres` nor `dst.x + dst.w <= Xres`
holds. -/
theorem configureHandle_off_screen_width_wraps :
    offScreenLayer.mOtfMPP ≠ none ∧
    (configureHandle plainHandleOracle fullHdDisplay offScreenLayer (-1) {}).map
        (fun r => (r.1, r.2.dst.x, r.2.dst.y, r.2.dst.w, r.2.dst.h)) =
      some (NO_ERROR, 1090, 0, 4294967286, 10) ∧
    ((4294967286 : Nat) : Int) ≠ min (1100 : Int) 1080 - max (1090 : Int) 0 ∧
    ¬ ((4294967286 : Nat) ≤ fullHdDisplay.mXres) ∧
    ¬ ((1090 : Int) + ((4294967286 : Nat) : Int) ≤ (fullHdDisplay.mXres : Int)) := by
  refine ⟨by decide, by decide, by decide, by decide, by decide⟩

/-- C25 (amended): for a layer with an assigned overlay resource and either a
buffer or the dim-layer property, a display extent below `2^31` and a
preprocessed display frame `[left, top, right, bottom]` of `int` values with
`left < right`, `top < bottom` and a width and height that fit an `int`,
`configureHandle` writes `dst.x = max(left, 0)`, `dst.y = max(top, 0)`,
`dst.w = (min(right, Xres) - max(left, 0)) mod 2^32` and
`dst.h = (min(bottom, Yres) - max(top, 0)) mod 2^32`.  When the frame meets the
display horizontally (`max(left, 0) <= min(right, Xres)`), `dst.w` is that
difference exactly, `dst.w <= Xres` and `dst.x + dst.w <= Xres`; likewise
vertically. -/
theorem configureHandle_clips (henv : HandleOracle) (d : ExynosDisplay) (layer : ExynosLayer)
    (fence_fd : Int) (cfg : exynos_win_config_data)
    (hotf : layer.mOtfMPP ≠ none)
    (hbuf : henv.isDimLayer layer = true ∨
      (match layer.mM2mMPP with
        | some m => henv.m2mDstBufferHandle m
        | none => layer.mLayerBuffer) ≠ 0)
    (hX : d.mXres < 2 ^ 31) (hY : d.mYres < 2 ^ 31)
    (hL : -(2 ^ 31) < layer.mPreprocessedInfo.displayFrame.left)
    (hR : layer.mPreprocessedInfo.displayFrame.right < 2 ^ 31)
    (hLR : layer.mPreprocessedInfo.displayFrame.left < layer.mPreprocessedInfo.displayFrame.right)
    (hW : layer.mPreprocessedInfo.displayFrame.right - layer.mPreprocessedInfo.displayFrame.left
      < 2 ^ 31)
    (hT : -(2 ^ 31) < layer.mPreprocessedInfo.displayFrame.top)
    (hB : layer.mPreprocessedInfo.displayFrame.bottom < 2 ^ 31)
    (hTB : layer.mPreprocessedInfo.displayFrame.top < layer.mPreprocessedInfo.displayFrame.bottom)
    (hH : layer.mPreprocessedInfo.displayFrame.bottom - layer.mPreprocessedInfo.displayFrame.top
      < 2 ^ 31) :
    ∃ ret cfg1, configureHandle henv d layer fence_fd cfg = some (ret, cfg1) ∧
      cfg1.dst.x = max layer.mPreprocessedInfo.displayFrame.left 0 ∧
      cfg1.dst.y = max layer.mPreprocessedInfo.displayFrame.top 0 ∧
      cfg1.dst.w = toUInt32 (min layer.mPreprocessedInfo.displayFrame.right (d.mXres : Int) -
        max layer.mPreprocessedInfo.displayFrame.left 0) ∧
      cfg1.dst.h = toUInt32 (min layer.mPreprocessedInfo.displayFrame.bottom (d.mYres : Int) -
        max layer.mPreprocessedInfo.displayFrame.top 0) ∧
      (max layer.mPreprocessedInfo.displayFrame.left 0 ≤
          min layer.mPreprocessedInfo.displayFrame.right (d.mXres : Int) →
        (cfg1.dst.w : Int) = min layer.mPreprocessedInfo.displayFrame.right (d.mXres : Int) -
          max layer.mPreprocessedInfo.displayFrame.left 0 ∧
        cfg1.dst.w ≤ d.mXres ∧ cfg1.dst.x + (cfg1.dst.w : Int) ≤ (d.mXres : Int)) ∧
      (max layer.mPreprocessedInfo.displayFrame.top 0 ≤
          min layer.mPreprocessedInfo.displayFrame.bottom (d.mYres : Int) →
        (cfg1.dst.h : Int) = min layer.mPreprocessedInfo.displayFrame.bottom (d.mYres : Int) -
          max layer.mPreprocessedInfo.displayFrame.top 0 ∧
        cfg1.dst.h ≤ d.mYres ∧ cfg1.dst.y + (cfg1.dst.h : Int) ≤ (d.mYres : Int)) := by
  generalize hfl : layer.mPreprocessedInfo.displayFrame.left = L at *
  generalize hfr : layer.mPreprocessedInfo.displayFrame.right = R at *
  generalize hft : layer.mPreprocessedInfo.displayFrame.top = T at *
  generalize hfb : layer.mPreprocessedInfo.displayFrame.bottom = B at *
  have hxs := cropAxis_spec L R d.mXres hL hR hLR hW hX
  have hys := cropAxis_spec T B d.mYres hT hB hTB hH hY
  have hx32 : toInt32 (max L 0).toNat = max L 0 := by
    rw [toInt32_of_lt (by omega)]
    omega
  have hy32 : toInt32 (max T 0).toNat = max T 0 := by
    rw [toInt32_of_lt (by omega)]
    omega
  have hwx : max L 0 ≤ min R (d.mXres : Int) →
      ((toUInt32 (min R (d.mXres : Int) - max L 0) : Nat) : Int) =
        min R (d.mXres : Int) - max L 0 := by
    intro h
    rw [toUInt32_of_nonneg (by omega) (by omega)]
    omega
  have hwy : max T 0 ≤ min B (d.mYres : Int) →
      ((toUInt32 (min B (d.mYres : Int) - max T 0) : Nat) : Int) =
        min B (d.mYres : Int) - max T 0 := by
    intro h
    rw [toUInt32_of_nonneg (by omega) (by omega)]
    omega
  have hguard1 : ¬ (layer.mOtfMPP = none ∧
      layer.mExynosCompositionType ≠ HWC2_COMPOSITION_DISPLAY_DECORATION) := fun h => hotf h.1
  have hguard2 : ¬ (henv.isDimLayer layer = false ∧
      (match layer.mM2mMPP with
        | some m => henv.m2mDstBufferHandle m
        | none => layer.mLayerBuffer) = 0) := by
    rintro ⟨h1, h2⟩
    rcases hbuf with h | h
    · rw [h1] at h; cases h
    · exact h h2
  unfold configureHandle
  simp only [WIDTH, HEIGHT, hfl, hfr, hft, hfb, checkedInt32_of_range (show -(2 ^ 31) ≤ R - L by omega) hW,
    checkedInt32_of_range (show -(2 ^ 31) ≤ B - T by omega) hH, if_neg hguard1, if_neg hguard2,
    hxs, hys]
  by_cases hdim : henv.isDimLayer layer = true
  · rw [if_pos hdim]
    refine ⟨_, _, rfl, hx32, hy32, rfl, rfl, ?_, ?_⟩
    · intro h
      have := hwx h
      refine ⟨this, ?_, ?_⟩
      · show toUInt32 _ ≤ _
        omega
      · show toInt32 _ + ((toUInt32 _ : Nat) : Int) ≤ _
        rw [hx32]
        omega
    · intro h
      have := hwy h
      refine ⟨this, ?_, ?_⟩
      · show toUInt32 _ ≤ _
        omega
      · show toInt32 _ + ((toUInt32 _ : Nat) : Int) ≤ _
        rw [hy32]
        omega
  · rw [if_neg hdim]
    refine ⟨_, _, rfl, hx32, hy32, rfl, rfl, ?_, ?_⟩
    · intro h
      have := hwx h
      refine ⟨this, ?_, ?_⟩
      · show toUInt32 _ ≤ _
        omega
      · show toInt32 _ + ((toUInt32 _ : Nat) : Int) ≤ _
        rw [hx32]
        omega
    · intro h
      have := hwy h
      refine ⟨this, ?_, ?_⟩
      · show toUInt32 _ ≤ _
        omega
      · show toInt32 _ + ((toUInt32 _ : Nat) : Int) ≤ _
        rw [hy32]
        omega

/-- C25 (witness): the frame `[-10, 100, 1090, 300]` on the `1080 x 1920`
display is clipped to `x = 0`, `y = 100`, `w = 1080`, `h = 200`. -/
theorem configureHandle_clips_witness :
    overhangLayer.mOtfMPP ≠ none ∧
    overhangLayer.mPreprocessedInfo.displayFrame.left <
      overhangLayer.mPreprocessedInfo.displayFrame.right ∧
    overhangLayer.mPreprocessedInfo.displayFrame.top <
      overhangLayer.mPreprocessedInfo.displayFrame.bottom ∧
    ∃ ret cfg1, configureHandle plainHandleOracle fullHdDisplay overhangLayer (-1) {} =
        some (ret, cfg1) ∧
      cfg1.dst.x = max overhangLayer.mPreprocessedInfo.displayFrame.left 0 ∧
      cfg1.dst.y = max overhangLayer.mPreprocessedInfo.displayFrame.top 0 :=
  ⟨by decide, by decide, by decide,
    Exists.imp (fun _ h => Exists.imp (fun _ h2 => ⟨h2.1, h2.2.1, h2.2.2.1⟩) h)
      (configureHandle_clips plainHandleOracle fullHdDisplay overhangLayer (-1) {}
        (by decide) (Or.inr (by decide)) (by decide) (by decide) (by decide) (by decide)
        (by decide) (by decide) (by decide) (by decide) (by decide) (by decide))⟩

/-! ## Nesting resolution -/

/-- The two non-error outcomes of the recomputation of the secondary range, when
the range it starts from has no negative end. -/
theorem exynosRangeRecompute_cases (env : ResourceOracle) (d : ExynosDisplay)
    (h0 : 0 ≤ d.mExynosCompositionInfo.mFirstIndex)
    (h1 : 0 ≤ d.mExynosCompositionInfo.mLastIndex) :
    ((exynosRangeRecompute env d).1 = EXYNOS_ERROR_CHANGED ∧
      (exynosRangeRecompute env d).2.mExynosCompositionInfo =
        d.mExynosCompositionInfo.initializeInfos env d.mType) ∨
    ((exynosRangeRecompute env d).1 = NO_ERROR ∧
      (exynosRangeScan d.mLayers 0 (2 ^ 32 - 1, -1)).1 ≠ 2 ^ 32 - 1 ∧
      (exynosRangeRecompute env d).2.mExynosCompositionInfo =
        { d.mExynosCompositionInfo with
          mFirstIndex := toInt32 (exynosRangeScan d.mLayers 0 (2 ^ 32 - 1, -1)).1
          mLastIndex := (exynosRangeScan d.mLayers 0 (2 ^ 32 - 1, -1)).2 }) := by
  unfold exynosRangeRecompute
  dsimp only
  rw [if_neg (by omega)]
  by_cases h : (exynosRangeScan d.mLayers 0 (2 ^ 32 - 1, -1)).1 = 2 ^ 32 - 1
  · rw [if_pos h]
    exact Or.inl ⟨rfl, rfl⟩
  · rw [if_neg h]
    exact Or.inr ⟨rfl, h, rfl⟩

/-- The nested call of the nesting resolution: the layer at `k`, outside the
client range `[c1, c2]`, has been marked CLIENT and is added to the client
composition.  The call does not fail; it leaves the layer CLIENT, the client
range widened to include `k`, and the secondary range as it was or
recomputed. -/
theorem addClient_boundary (env : ResourceOracle) (d : ExynosDisplay) (k : Nat)
    (layer1 : ExynosLayer)
    (hn : d.mLayers.length < 2 ^ 31)
    (hhas : d.mClientCompositionInfo.mHasCompositionLayer = true)
    (h0 : 0 ≤ d.mClientCompositionInfo.mFirstIndex)
    (hlast : d.mClientCompositionInfo.mLastIndex < d.mLayers.length)
    (hk : k < d.mLayers.length)
    (hout : (k : Int) < d.mClientCompositionInfo.mFirstIndex ∨
      d.mClientCompositionInfo.mLastIndex < (k : Int))
    (hget : d.mLayers[k]? = some layer1)
    (he0 : 0 ≤ d.mExynosCompositionInfo.mFirstIndex)
    (he1 : 0 ≤ d.mExynosCompositionInfo.mLastIndex) :
    ∃ ret d1, addClientCompositionLayer env d k = some (ret, d1) ∧ ¬ (ret < 0) ∧
      d1.mLayers[k]? = some layer1 ∧
      d1.mClientCompositionInfo.mHasCompositionLayer = true ∧
      d1.mClientCompositionInfo.mFirstIndex = min d.mClientCompositionInfo.mFirstIndex k ∧
      d1.mClientCompositionInfo.mLastIndex = max d.mClientCompositionInfo.mLastIndex k ∧
      (d1.mExynosCompositionInfo = d.mExynosCompositionInfo ∨
        d1.mExynosCompositionInfo = d.mExynosCompositionInfo.initializeInfos env d.mType ∨
        d1.mExynosCompositionInfo =
          { d.mExynosCompositionInfo with
            mFirstIndex := toInt32 (exynosRangeScan d1.mLayers 0 (2 ^ 32 - 1, -1)).1
            mLastIndex := (exynosRangeScan d1.mLayers 0 (2 ^ 32 - 1, -1)).2 }) := by
  have hti : toInt32 k = (k : Int) := toInt32_of_lt (by omega)
  obtain ⟨ret, d1, d2, b, hcall, hrel, hcase⟩ := addClient_widen env d k hn hhas h0 hlast hk
  have hw : (widenClientRange d k).mLayers = d.mLayers := rfl
  have hwe : (widenClientRange d k).mExynosCompositionInfo = d.mExynosCompositionInfo := rfl
  have hwt : (widenClientRange d k).mType = d.mType := rfl
  have hk2 : d2.mLayers[k]? = some layer1 := by
    rw [hrel.outside k (by omega), hw, hget]
  have hc2 : d2.mClientCompositionInfo.mHasCompositionLayer = true ∧
      d2.mClientCompositionInfo.mFirstIndex = min d.mClientCompositionInfo.mFirstIndex k ∧
      d2.mClientCompositionInfo.mLastIndex = max d.mClientCompositionInfo.mLastIndex k := by
    rw [hrel.client_eq]
    simp [widenClientRange, hti, hhas]
  rcases hcase with ⟨_, hret, hd⟩ | ⟨_, hrec⟩
  · subst hd
    refine ⟨ret, d1, hcall, by rw [hret]; decide, hk2, hc2.1, hc2.2.1, hc2.2.2, Or.inl ?_⟩
    rw [hrel.exynos_eq, hwe]
  · have hfr := exynosRangeRecompute_frame env d2
    have he2 : d2.mExynosCompositionInfo = d.mExynosCompositionInfo := by
      rw [hrel.exynos_eq, hwe]
    have hcases := exynosRangeRecompute_cases env d2 (by rw [he2]; exact he0)
      (by rw [he2]; exact he1)
    rw [← hrec] at hfr hcases
    dsimp only at hfr hcases
    refine ⟨ret, d1, hcall, ?_, by rw [hfr.1]; exact hk2, by rw [hfr.2.1]; exact hc2.1,
      by rw [hfr.2.1]; exact hc2.2.1, by rw [hfr.2.1]; exact hc2.2.2, ?_⟩
    · rcases hcases with ⟨h, _⟩ | ⟨h, _⟩ <;> rw [h] <;> decide
    · rcases hcases with ⟨_, h⟩ | ⟨_, _, h⟩
      · right; left
        rw [h, he2, hrel.type_eq, hwt]
      · right; right
        rw [h, he2, hfr.1]

/-- C24 (counterexample): seven layers with a secondary resource that is not of
the combined type, the secondary range `[0,1]`, the client range `[2,2]`,
layers 3 to 5 eligible overlays and layer 6 of high priority.
`addExynosCompositionLayer 6` finds the client layer 2 in the tentative range
`[0,6]`, which nests the client range `[2,2]` with the smaller gap in front; it
evicts layer 0, and the nested call also evicts the sandwiched layer 1 and
recomputes the secondary range from the layers still validated as EXYNOS.  The
nesting block ends, and the call returns without error, with the client range
`[0,2]` and the secondary range `[3,5]`: not `[c2+1, e2] = [3,6]` and not
cleared. -/
theorem addExynosCompositionLayer_nesting_recomputes_range :
    (∃ s, flowLoop (exynosSandwichedStep permissiveOracle scalerMPP) 7 0
        { d := { nestedFrontDisplay with mExynosCompositionInfo :=
                  { nestedFrontDisplay.mExynosCompositionInfo with mLastIndex := 6 } } } =
          some (Flow.next s) ∧
      s.invalidFlag = true ∧
      s.d.mClientCompositionInfo.mHasCompositionLayer = true ∧
      s.d.mClientCompositionInfo.mFirstIndex = 2 ∧ s.d.mClientCompositionInfo.mLastIndex = 2 ∧
      s.d.mExynosCompositionInfo.mFirstIndex = 0 ∧ s.d.mExynosCompositionInfo.mLastIndex = 6 ∧
      ∃ s1, nestingBlock permissiveOracle s = some (Flow.next s1) ∧
        s1.d.mClientCompositionInfo.mFirstIndex = 0 ∧
        s1.d.mClientCompositionInfo.mLastIndex = 2 ∧
        s1.d.mExynosCompositionInfo.mFirstIndex = 3 ∧
        s1.d.mExynosCompositionInfo.mLastIndex = 5) ∧
    (addExynosCompositionLayer permissiveOracle nestedFrontDisplay 6).map
        (fun r => (r.1, r.2.mExynosCompositionInfo.mHasCompositionLayer,
          r.2.mExynosCompositionInfo.mFirstIndex, r.2.mExynosCompositionInfo.mLastIndex)) =
      some (NO_ERROR, true, 3, 5) ∧
    (addExynosCompositionLayer permissiveOracle nestedFrontDisplay 6).map
        (fun r => (r.2.mClientCompositionInfo.mFirstIndex,
          r.2.mClientCompositionInfo.mLastIndex,
          r.2.mLayers.map (fun l => l.mValidateCompositionType))) =
      some (0, 2, [HWC2_COMPOSITION_CLIENT, HWC2_COMPOSITION_CLIENT, HWC2_COMPOSITION_CLIENT,
        HWC2_COMPOSITION_EXYNOS, HWC2_COMPOSITION_EXYNOS, HWC2_COMPOSITION_EXYNOS,
        HWC2_COMPOSITION_DEVICE]) := by
  refine ⟨⟨_, rfl, rfl, rfl, rfl, rfl, rfl, rfl, _, rfl, rfl, rfl, rfl, rfl⟩, ?_, ?_⟩
  · rfl
  · rfl

/-- When the nesting block of `addExynosCompositionLayer` sees a well-formed
client range `[c1,c2]` strictly nested inside the secondary range `[e1,e2]`
(`e1 < c1`, `c2 < e2`, the secondary range inside a list of fewer than `2^31`
layers), it does not fail and evicts to client composition the boundary layer
on the side with the smaller gap: layer `e1` if `c1 - e1 < e2 - c2`, after
which the client range is `[e1,c2]` and the secondary range starts at `c2 + 1`;
otherwise layer `e2`, after which the client range is `[c1,e2]` and the
secondary range ends at `c1 - 1`.  The other end of the secondary range is the
one it had, or the one the nested call recomputed from the layers still
validated as EXYNOS, or `-1` when none is left. -/
theorem nestingBlock_spec (env : ResourceOracle) (s : ExynosLocals) (c1 c2 e1 e2 : Int)
    (hc1 : s.d.mClientCompositionInfo.mFirstIndex = c1)
    (hc2 : s.d.mClientCompositionInfo.mLastIndex = c2)
    (he1 : s.d.mExynosCompositionInfo.mFirstIndex = e1)
    (he2 : s.d.mExynosCompositionInfo.mLastIndex = e2)
    (hn : s.d.mLayers.length < 2 ^ 31)
    (hhas : s.d.mClientCompositionInfo.mHasCompositionLayer = true)
    (hcc : c1 ≤ c2) (hnest1 : e1 < c1) (hnest2 : c2 < e2)
    (h0 : 0 ≤ e1) (hlen : e2 < s.d.mLayers.length) :
    ∃ s1, nestingBlock env s = some (Flow.next s1) ∧
      s1.d.mClientCompositionInfo.mHasCompositionLayer = true ∧
      (c1 - e1 < e2 - c2 →
        (∃ l, s1.d.mLayers[e1.toNat]? = some l ∧
          l.getValidateCompositionType = HWC2_COMPOSITION_CLIENT) ∧
        s1.d.mClientCompositionInfo.mFirstIndex = e1 ∧
        s1.d.mClientCompositionInfo.mLastIndex = c2 ∧
        s1.d.mExynosCompositionInfo.mFirstIndex = c2 + 1 ∧
        (s1.d.mExynosCompositionInfo.mLastIndex = e2 ∨
          s1.d.mExynosCompositionInfo.mLastIndex =
            (exynosRangeScan s1.d.mLayers 0 (2 ^ 32 - 1, -1)).2 ∨
          s1.d.mExynosCompositionInfo.mLastIndex = -1)) ∧
      (¬ (c1 - e1 < e2 - c2) →
        (∃ l, s1.d.mLayers[e2.toNat]? = some l ∧
          l.getValidateCompositionType = HWC2_COMPOSITION_CLIENT) ∧
        s1.d.mClientCompositionInfo.mFirstIndex = c1 ∧
        s1.d.mClientCompositionInfo.mLastIndex = e2 ∧
        s1.d.mExynosCompositionInfo.mLastIndex = c1 - 1 ∧
        (s1.d.mExynosCompositionInfo.mFirstIndex = e1 ∨
          s1.d.mExynosCompositionInfo.mFirstIndex =
            toInt32 (exynosRangeScan s1.d.mLayers 0 (2 ^ 32 - 1, -1)).1 ∨
          s1.d.mExynosCompositionInfo.mFirstIndex = -1)) ∧
      ∀ j : Int, ¬ (s1.d.mClientCompositionInfo.mFirstIndex ≤ j ∧
        j ≤ s1.d.mClientCompositionInfo.mLastIndex ∧
        s1.d.mExynosCompositionInfo.mFirstIndex ≤ j ∧
        j ≤ s1.d.mExynosCompositionInfo.mLastIndex) := by
  have hcond : s.d.mClientCompositionInfo.mHasCompositionLayer = true ∧
      s.d.mExynosCompositionInfo.mFirstIndex < s.d.mClientCompositionInfo.mFirstIndex ∧
      s.d.mClientCompositionInfo.mFirstIndex < s.d.mExynosCompositionInfo.mLastIndex ∧
      s.d.mExynosCompositionInfo.mFirstIndex < s.d.mClientCompositionInfo.mLastIndex ∧
      s.d.mClientCompositionInfo.mLastIndex < s.d.mExynosCompositionInfo.mLastIndex := by
    rw [hc1, hc2, he1, he2]
    exact ⟨hhas, by omega, by omega, by omega, by omega⟩
  unfold nestingBlock
  dsimp only
  rw [if_pos hcond]
  rw [hc1, hc2, he1, he2]
  by_cases hfront : c1 - e1 < e2 - c2
  · rw [if_pos hfront]
    have hk : e1.toNat < s.d.mLayers.length := by omega
    have hkk : ((e1.toNat : Nat) : Int) = e1 := Int.toNat_of_nonneg h0
    have hat : s.d.layerAt e1 = some s.d.mLayers[e1.toNat] := by
      unfold ExynosDisplay.layerAt
      rw [if_pos h0]
      exact List.getElem?_eq_getElem hk
    have hu : toUInt32 e1 = e1.toNat := toUInt32_of_nonneg h0 (by omega)
    rw [hat]
    dsimp only
    rw [hu]
    obtain ⟨ret, d1, hcall, hret, hk1, hh1, hf1, hl1, hex⟩ := addClient_boundary env
      (s.d.setLayer e1.toNat
        ((s.d.mLayers[e1.toNat]).resetAssignedResource.updateValidateCompositionType
          HWC2_COMPOSITION_CLIENT 0))
      e1.toNat _ (by simpa [ExynosDisplay.setLayer] using hn) hhas
      (by show 0 ≤ s.d.mClientCompositionInfo.mFirstIndex; omega)
      (by
        show s.d.mClientCompositionInfo.mLastIndex < _
        simp only [ExynosDisplay.setLayer, List.length_set]
        omega)
      (by simpa [ExynosDisplay.setLayer] using hk)
      (Or.inl (by
        show ((e1.toNat : Nat) : Int) < s.d.mClientCompositionInfo.mFirstIndex
        omega))
      (by
        simp only [ExynosDisplay.setLayer]
        exact List.getElem?_set_self hk)
      (by show 0 ≤ s.d.mExynosCompositionInfo.mFirstIndex; omega)
      (by show 0 ≤ s.d.mExynosCompositionInfo.mLastIndex; omega)
    rw [hcall]
    dsimp only
    rw [if_neg hret]
    have hf1b : d1.mClientCompositionInfo.mFirstIndex = e1 := by
      rw [hf1]
      show min s.d.mClientCompositionInfo.mFirstIndex _ = _
      omega
    have hl1b : d1.mClientCompositionInfo.mLastIndex = c2 := by
      rw [hl1]
      show max s.d.mClientCompositionInfo.mLastIndex _ = _
      omega
    refine ⟨_, rfl, hh1, fun _ => ⟨⟨_, hk1, rfl⟩, hf1b, hl1b, ?_, ?_⟩,
      fun h => absurd hfront h, ?_⟩
    · show d1.mClientCompositionInfo.mLastIndex + 1 = c2 + 1
      rw [hl1b]
    · show d1.mExynosCompositionInfo.mLastIndex = e2 ∨
        d1.mExynosCompositionInfo.mLastIndex =
          (exynosRangeScan d1.mLayers 0 (2 ^ 32 - 1, -1)).2 ∨
        d1.mExynosCompositionInfo.mLastIndex = -1
      rcases hex with h | h | h
      · left
        rw [h]
        exact he2
      · right; right
        rw [h]
        rfl
      · right; left
        rw [h]
    · intro j
      show ¬ (d1.mClientCompositionInfo.mFirstIndex ≤ j ∧
        j ≤ d1.mClientCompositionInfo.mLastIndex ∧
        d1.mClientCompositionInfo.mLastIndex + 1 ≤ j ∧ j ≤ d1.mExynosCompositionInfo.mLastIndex)
      omega
  · rw [if_neg hfront]
    have h0e2 : 0 ≤ e2 := by omega
    have hk : e2.toNat < s.d.mLayers.length := by omega
    have hkk : ((e2.toNat : Nat) : Int) = e2 := Int.toNat_of_nonneg h0e2
    have hat : s.d.layerAt e2 = some s.d.mLayers[e2.toNat] := by
      unfold ExynosDisplay.layerAt
      rw [if_pos h0e2]
      exact List.getElem?_eq_getElem hk
    have hu : toUInt32 e2 = e2.toNat := toUInt32_of_nonneg h0e2 (by omega)
    rw [hat]
    dsimp only
    rw [hu]
    obtain ⟨ret, d1, hcall, hret, hk1, hh1, hf1, hl1, hex⟩ := addClient_boundary env
      (s.d.setLayer e2.toNat
        ((s.d.mLayers[e2.toNat]).resetAssignedResource.updateValidateCompositionType
          HWC2_COMPOSITION_CLIENT 0))
      e2.toNat _ (by simpa [ExynosDisplay.setLayer] using hn) hhas
      (by show 0 ≤ s.d.mClientCompositionInfo.mFirstIndex; omega)
      (by
        show s.d.mClientCompositionInfo.mLastIndex < _
        simp only [ExynosDisplay.setLayer, List.length_set]
        omega)
      (by simpa [ExynosDisplay.setLayer] using hk)
      (Or.inr (by
        show s.d.mClientCompositionInfo.mLastIndex < ((e2.toNat : Nat) : Int)
        omega))
      (by
        simp only [ExynosDisplay.setLayer]
        exact List.getElem?_set_self hk)
      (by show 0 ≤ s.d.mExynosCompositionInfo.mFirstIndex; omega)
      (by show 0 ≤ s.d.mExynosCompositionInfo.mLastIndex; omega)
    rw [hcall]
    dsimp only
    rw [if_neg hret]
    have hf1b : d1.mClientCompositionInfo.mFirstIndex = c1 := by
      rw [hf1]
      show min s.d.mClientCompositionInfo.mFirstIndex _ = _
      omega
    have hl1b : d1.mClientCompositionInfo.mLastIndex = e2 := by
      rw [hl1]
      show max s.d.mClientCompositionInfo.mLastIndex _ = _
      omega
    refine ⟨_, rfl, hh1, fun h => absurd h hfront,
      fun _ => ⟨⟨_, hk1, rfl⟩, hf1b, hl1b, ?_, ?_⟩, ?_⟩
    · show d1.mClientCompositionInfo.mFirstIndex - 1 = c1 - 1
      rw [hf1b]
    · show d1.mExynosCompositionInfo.mFirstIndex = e1 ∨
        d1.mExynosCompositionInfo.mFirstIndex =
          toInt32 (exynosRangeScan d1.mLayers 0 (2 ^ 32 - 1, -1)).1 ∨
        d1.mExynosCompositionInfo.mFirstIndex = -1
      rcases hex with h | h | h
      · left
        rw [h]
        exact he1
      · right; right
        rw [h]
        rfl
      · right; left
        rw [h]
    · intro j
      show ¬ (d1.mClientCompositionInfo.mFirstIndex ≤ j ∧
        j ≤ d1.mClientCompositionInfo.mLastIndex ∧
        d1.mExynosCompositionInfo.mFirstIndex ≤ j ∧
        j ≤ d1.mClientCompositionInfo.mFirstIndex - 1)
      omega

/-! ## The stages of `addExynosCompositionLayer` -/

theorem addExynosCompositionLayer_eq_front (env : ResourceOracle) (d : ExynosDisplay)
    (layerIndex : Nat) :
    addExynosCompositionLayer env d layerIndex =
      match exynosFront env d layerIndex with
      | none => none
      | some (Flow.ret r d2) => some (r, d2)
      | some (Flow.next ms) => exynosTail env ms.1 ms.2 := by
  unfold addExynosCompositionLayer exynosFront
  dsimp only
  by_cases h1 : d.mExynosCompositionInfo.mHasCompositionLayer = false
  · rw [if_pos h1, if_pos h1]
  · rw [if_neg h1, if_neg h1]
    cases hm : d.mExynosCompositionInfo.mM2mMPP with
    | none => rfl
    | some m2mMPP =>
      dsimp only
      split_ifs with h2
      · rfl
      · generalize flowLoop (exynosSandwichedStep env m2mMPP) _ _ _ = r
        cases r with
        | none => rfl
        | some f =>
          cases f with
          | ret r d2 => rfl
          | next s1 =>
            dsimp only
            by_cases h3 : s1.invalidFlag = true
            · rw [if_pos h3, if_pos h3]
              generalize (if m2mMPP.mLogicalType = MPP_LOGICAL_G2D_COMBO ∧ s1.maxPriorityIndex ≥ 0
                then maxPriorityBlock env m2mMPP s1 else some (Flow.next s1)) = a
              cases a with
              | none => rfl
              | some f2 =>
                cases f2 with
                | ret r d2 => rfl
                | next s2 =>
                  dsimp only
                  generalize nestingBlock env s2 = b
                  cases b with
                  | none => rfl
                  | some f3 =>
                    cases f3 with
                    | ret r d3 => rfl
                    | next s3 => rfl
            · rw [if_neg h3, if_neg h3]

/-- The tail of `addExynosCompositionLayer` when a recorded high-priority index
lies strictly inside the adjusted range and the resource is not of the combined
type: the abandonment loop runs over the adjusted range and the secondary
composition is cleared. -/
theorem exynosTail_abandon (env : ResourceOracle) (m2mMPP : ExynosMPP) (s : ExynosLocals)
    (h : (s.highPriority.any (fun hp =>
        decide ((exynosAdjusted env m2mMPP s).mFirstIndex < hp ∧
          hp < (exynosAdjusted env m2mMPP s).mLastIndex))) = true ∧
      m2mMPP.mLogicalType ≠ MPP_LOGICAL_G2D_COMBO) :
    exynosTail env m2mMPP s =
      match flowLoop (highPriorityAbandonStep env s.highPriority)
          ((exynosAdjusted env m2mMPP s).mLastIndex -
            (exynosAdjusted env m2mMPP s).mFirstIndex + 1).toNat
          (exynosAdjusted env m2mMPP s).mFirstIndex
          { s.d with mExynosCompositionInfo := exynosAdjusted env m2mMPP s } with
      | none => none
      | some (Flow.ret r d) => some (r, d)
      | some (Flow.next d3) =>
        some (EXYNOS_ERROR_CHANGED,
          { d3 with mExynosCompositionInfo :=
              d3.mExynosCompositionInfo.initializeInfos env d3.mType }) :=
  Eq.trans (show exynosTail env m2mMPP s = ite _ _ _ from rfl) (if_pos h)

/-! ## What the tracker operations keep of the layer list -/

/-- The layer list of `d1` has the length of that of `d`, and every layer of
`d1` has the priority of the layer of `d` at its position and is that layer or
is validated as client composition. -/
structure LayersKeep (d d1 : ExynosDisplay) : Prop where
  length_eq : d1.mLayers.length = d.mLayers.length
  layer : ∀ (j : Nat) (l1 : ExynosLayer), d1.mLayers[j]? = some l1 →
    ∃ l, d.mLayers[j]? = some l ∧ l1.mOverlayPriority = l.mOverlayPriority ∧
      (l1 = l ∨ l1.getValidateCompositionType = HWC2_COMPOSITION_CLIENT)

theorem LayersKeep.keep_refl (d : ExynosDisplay) : LayersKeep d d :=
  ⟨rfl, fun _ l1 h => ⟨l1, h, rfl, Or.inl rfl⟩⟩

theorem LayersKeep.of_layers {d d1 : ExynosDisplay} (h : d1.mLayers = d.mLayers) :
    LayersKeep d d1 :=
  ⟨by rw [h], fun _ l1 hl => ⟨l1, by rw [← h]; exact hl, rfl, Or.inl rfl⟩⟩

theorem LayersKeep.keep_trans {d d1 d2 : ExynosDisplay} (h1 : LayersKeep d d1)
    (h2 : LayersKeep d1 d2) : LayersKeep d d2 := by
  refine ⟨h2.length_eq.trans h1.length_eq, ?_⟩
  intro j l2 hl2
  obtain ⟨l1, hl1, hp1, hc1⟩ := h2.layer j l2 hl2
  obtain ⟨l, hl, hp, hc⟩ := h1.layer j l1 hl1
  refine ⟨l, hl, hp1.trans hp, ?_⟩
  rcases hc1 with rfl | hc1
  · exact hc
  · exact Or.inr hc1

theorem LayersKeep.priorities {d d1 : ExynosDisplay} (h : LayersKeep d d1) :
    d1.mLayers.map (fun l => l.mOverlayPriority) = d.mLayers.map (fun l => l.mOverlayPriority) := by
  apply List.ext_getElem?
  intro j
  rw [List.getElem?_map, List.getElem?_map]
  cases h1 : d1.mLayers[j]? with
  | none =>
    have hj : d1.mLayers.length ≤ j := List.getElem?_eq_none_iff.mp h1
    rw [List.getElem?_eq_none (by rw [← h.length_eq]; exact hj)]
  | some l1 =>
    obtain ⟨l, hl, hp, _⟩ := h.layer j l1 h1
    rw [hl]
    simp [hp]

theorem LayersKeep.client_stays {d d1 : ExynosDisplay} (h : LayersKeep d d1) (j : Nat)
    (l : ExynosLayer) (hl : d.mLayers[j]? = some l)
    (hc : l.getValidateCompositionType = HWC2_COMPOSITION_CLIENT) :
    ∃ l1, d1.mLayers[j]? = some l1 ∧
      l1.getValidateCompositionType = HWC2_COMPOSITION_CLIENT := by
  have hj : j < d.mLayers.length := by
    by_contra hcon
    rw [List.getElem?_eq_none (by omega)] at hl
    cases hl
  have hj1 : j < d1.mLayers.length := by rw [h.length_eq]; exact hj
  refine ⟨d1.mLayers[j], List.getElem?_eq_getElem hj1, ?_⟩
  obtain ⟨l0, hl0, _, hc0⟩ := h.layer j _ (List.getElem?_eq_getElem hj1)
  rw [hl] at hl0
  cases hl0
  rcases hc0 with h1 | h1
  · rw [h1]; exact hc
  · exact h1

theorem LayersKeep.no_new_exynos {d d1 : ExynosDisplay} (h : LayersKeep d d1) (j : Nat)
    (l1 : ExynosLayer) (hl1 : d1.mLayers[j]? = some l1)
    (he : l1.getValidateCompositionType = HWC2_COMPOSITION_EXYNOS) :
    ∃ l, d.mLayers[j]? = some l ∧ l.getValidateCompositionType = HWC2_COMPOSITION_EXYNOS := by
  obtain ⟨l, hl, _, hc⟩ := h.layer j l1 hl1
  rcases hc with rfl | hc
  · exact ⟨_, hl, he⟩
  · rw [he] at hc
    exact absurd hc (by decide)

theorem sandwichedStep_keep (i : Nat) (s s1 : ExynosDisplay × Bool)
    (h : sandwichedStep i s = some s1) : LayersKeep s.1 s1.1 := by
  unfold sandwichedStep at h
  split at h
  · cases h
  · rename_i layer hget
    have hi : i < s.1.mLayers.length := by
      by_contra hcon
      rw [List.getElem?_eq_none (by omega)] at hget
      cases hget
    have hset : ∀ d1 : ExynosDisplay,
        d1.mLayers = s.1.mLayers.set i
          (layer.resetAssignedResource.updateValidateCompositionType HWC2_COMPOSITION_CLIENT
            eSandwichedBetweenGLES) → LayersKeep s.1 d1 := by
      intro d1 hd1
      refine ⟨by rw [hd1]; simp, ?_⟩
      intro j l1 hl1
      rw [hd1] at hl1
      by_cases hji : i = j
      · subst hji
        simp only [List.getElem?_set_self hi] at hl1
        cases hl1
        exact ⟨layer, hget, rfl, Or.inr rfl⟩
      · simp only [List.getElem?_set_ne hji] at hl1
        exact ⟨l1, hl1, rfl, Or.inl rfl⟩
    split_ifs at h <;> cases h <;> first | exact LayersKeep.keep_refl _ | exact hset _ rfl

theorem sandwichedLoop_keep (count : Nat) :
    ∀ (i : Nat) (s s1 : ExynosDisplay × Bool), sandwichedLoop count i s = some s1 →
      LayersKeep s.1 s1.1 := by
  induction count with
  | zero =>
    intro i s s1 h
    cases h
    exact LayersKeep.keep_refl _
  | succ count ih =>
    intro i s s1 h
    unfold sandwichedLoop at h
    split at h
    · cases h
    · rename_i s2 hstep
      exact (sandwichedStep_keep i s s2 hstep).keep_trans (ih (i + 1) s2 s1 h)

theorem addClient_keep (env : ResourceOracle) (d d1 : ExynosDisplay) (i : Nat) (ret : Int)
    (h : addClientCompositionLayer env d i = some (ret, d1)) : LayersKeep d d1 := by
  unfold addClientCompositionLayer at h
  dsimp only at h
  split_ifs at h with h0 h1
  · cases h
    exact LayersKeep.of_layers rfl
  · cases h
    exact LayersKeep.of_layers rfl
  · split at h
    · cases h
    · rename_i d2 b hloop
      have hk : LayersKeep (widenClientRange d i) d2 := sandwichedLoop_keep _ _ _ _ hloop
      have hk2 : LayersKeep d d2 := ⟨hk.length_eq, hk.layer⟩
      split_ifs at h
      · have h2 : exynosRangeRecompute env d2 = (ret, d1) := Option.some.inj h
        have hfr := (exynosRangeRecompute_frame env d2).1
        rw [h2] at hfr
        exact hk2.keep_trans (LayersKeep.of_layers hfr)
      · cases h
        exact hk2

/-- Marking the layer at `k` as client composition keeps the layer list in the
sense of `LayersKeep`. -/
theorem setLayer_client_keep (d : ExynosDisplay) (k : Nat) (layer : ExynosLayer)
    (hget : d.mLayers[k]? = some layer) :
    LayersKeep d (d.setLayer k
      (layer.resetAssignedResource.updateValidateCompositionType HWC2_COMPOSITION_CLIENT 0)) := by
  have hk : k < d.mLayers.length := by
    by_contra hcon
    rw [List.getElem?_eq_none (by omega)] at hget
    cases hget
  refine ⟨by simp [ExynosDisplay.setLayer], ?_⟩
  intro j l1 hl1
  simp only [ExynosDisplay.setLayer] at hl1
  by_cases hji : k = j
  · subst hji
    simp only [List.getElem?_set_self hk] at hl1
    cases hl1
    exact ⟨layer, hget, rfl, Or.inr rfl⟩
  · simp only [List.getElem?_set_ne hji] at hl1
    exact ⟨l1, hl1, rfl, Or.inl rfl⟩

/-! ## The scan that recomputes the secondary range -/

theorem exynosRangeScan_spec (ls : List ExynosLayer) :
    ∀ (i : Nat) (acc : Nat × Int),
      ((exynosRangeScan ls i acc).1 = acc.1 ∨
        ∃ j l, ls[j]? = some l ∧ l.getValidateCompositionType = HWC2_COMPOSITION_EXYNOS ∧
          (exynosRangeScan ls i acc).1 = i + j) ∧
      ((exynosRangeScan ls i acc).2 = acc.2 ∨
        ∃ j l, ls[j]? = some l ∧ l.getValidateCompositionType = HWC2_COMPOSITION_EXYNOS ∧
          (exynosRangeScan ls i acc).2 = toInt32 (i + j)) := by
  induction ls with
  | nil => intro i acc; exact ⟨Or.inl rfl, Or.inl rfl⟩
  | cons l ls ih =>
    intro i acc
    unfold exynosRangeScan
    split_ifs with h
    · obtain ⟨h1, h2⟩ := ih (i + 1) (min acc.1 i, max acc.2 (toInt32 i))
      constructor
      · rcases h1 with h1 | ⟨j, l0, hj, he, h1⟩
        · rw [h1]
          dsimp only
          by_cases hm : acc.1 ≤ i
          · left; omega
          · right
            exact ⟨0, l, by simp, h, by omega⟩
        · right
          exact ⟨j + 1, l0, by simpa using hj, he, by rw [h1]; omega⟩
      · rcases h2 with h2 | ⟨j, l0, hj, he, h2⟩
        · rw [h2]
          dsimp only
          by_cases hm : toInt32 i ≤ acc.2
          · left; omega
          · right
            exact ⟨0, l, by simp, h, by rw [Nat.add_zero]; omega⟩
        · right
          refine ⟨j + 1, l0, by simpa using hj, he, ?_⟩
          rw [h2]
          congr 1
          omega
    · obtain ⟨h1, h2⟩ := ih (i + 1) acc
      constructor
      · rcases h1 with h1 | ⟨j, l0, hj, he, h1⟩
        · left; exact h1
        · right
          exact ⟨j + 1, l0, by simpa using hj, he, by rw [h1]; omega⟩
      · rcases h2 with h2 | ⟨j, l0, hj, he, h2⟩
        · left; exact h2
        · right
          refine ⟨j + 1, l0, by simpa using hj, he, ?_⟩
          rw [h2]
          congr 1
          omega

/-! ## The invariant of the secondary-composition tracker -/

/-- What `addExynosCompositionLayer` maintains of the display while it works on
the tentative range `[lo, hi]`: the priorities `P` of the layers, a well-formed
client range, every layer validated as EXYNOS inside `[lo, hi]`, and a
secondary range that ends at most at `hi` and starts at least at `lo` unless a
nested call has reset it. -/
structure TrackInv (P : List Int) (lo hi : Int) (d : ExynosDisplay) : Prop where
  prio : d.mLayers.map (fun l => l.mOverlayPriority) = P
  client : d.mClientCompositionInfo.rangeValid P.length
  typed : ∀ (j : Nat) (l : ExynosLayer), d.mLayers[j]? = some l →
    l.getValidateCompositionType = HWC2_COMPOSITION_EXYNOS → lo ≤ (j : Int) ∧ (j : Int) ≤ hi
  range : d.mExynosCompositionInfo.mLastIndex ≤ hi ∧
    (d.mExynosCompositionInfo.mFirstIndex = -1 ∨ lo ≤ d.mExynosCompositionInfo.mFirstIndex)

theorem TrackInv.length_eq {P : List Int} {lo hi : Int} {d : ExynosDisplay}
    (h : TrackInv P lo hi d) : d.mLayers.length = P.length := by
  rw [← h.prio, List.length_map]

theorem exynosRangeRecompute_inv (env : ResourceOracle) (P : List Int) (lo hi : Int)
    (d : ExynosDisplay) (hP : P.length < 2 ^ 31) (hhi : hi < P.length)
    (hlh : -1 ≤ hi) (h : TrackInv P lo hi d) :
    TrackInv P lo hi (exynosRangeRecompute env d).2 := by
  have hfr := exynosRangeRecompute_frame env d
  refine ⟨by rw [hfr.1]; exact h.prio, by rw [hfr.2.1]; exact h.client,
    by rw [hfr.1]; exact h.typed, ?_⟩
  unfold exynosRangeRecompute
  dsimp only
  split_ifs with h1 h2
  · exact h.range
  · exact ⟨hlh, Or.inl rfl⟩
  · obtain ⟨hs1, hs2⟩ := exynosRangeScan_spec d.mLayers 0 (2 ^ 32 - 1, -1)
    dsimp only
    constructor
    · rcases hs2 with hs2 | ⟨j, l, hj, he, hs2⟩
      · rw [hs2]; exact hlh
      · have := h.typed j l hj he
        rw [hs2, Nat.zero_add, toInt32_of_lt (by omega)]
        exact this.2
    · right
      rcases hs1 with hs1 | ⟨j, l, hj, he, hs1⟩
      · exact absurd hs1 h2
      · have := h.typed j l hj he
        rw [hs1, Nat.zero_add, toInt32_of_lt (by omega)]
        exact this.1

/-- The step shared by the loops of `addExynosCompositionLayer`: the layer at
`k` is marked as client composition and added to the client composition.  The
nested call returns and keeps the invariant; afterwards the layer at `k` is
validated as CLIENT and lies in the client range, which still contains what it
contained, and every layer that was validated as CLIENT still is. -/
theorem evict_inv (env : ResourceOracle) (P : List Int) (lo hi : Int) (d : ExynosDisplay)
    (k : Nat) (layer : ExynosLayer)
    (hP : P.length < 2 ^ 31) (hhi : hi < P.length) (hlh : -1 ≤ hi)
    (h : TrackInv P lo hi d) (hget : d.mLayers[k]? = some layer) :
    ∃ ret d1,
      addClientCompositionLayer env
        (d.setLayer k
          (layer.resetAssignedResource.updateValidateCompositionType HWC2_COMPOSITION_CLIENT 0))
        k = some (ret, d1) ∧
      TrackInv P lo hi d1 ∧
      d1.mClientCompositionInfo.mHasCompositionLayer = true ∧
      d1.mClientCompositionInfo.mFirstIndex ≤ (k : Int) ∧
      (k : Int) ≤ d1.mClientCompositionInfo.mLastIndex ∧
      (d.mClientCompositionInfo.mHasCompositionLayer = true →
        d1.mClientCompositionInfo.mFirstIndex ≤ d.mClientCompositionInfo.mFirstIndex ∧
        d.mClientCompositionInfo.mLastIndex ≤ d1.mClientCompositionInfo.mLastIndex) ∧
      (∃ l, d1.mLayers[k]? = some l ∧
        l.getValidateCompositionType = HWC2_COMPOSITION_CLIENT) ∧
      (∀ (j : Nat) (l : ExynosLayer), d.mLayers[j]? = some l →
        l.getValidateCompositionType = HWC2_COMPOSITION_CLIENT →
        ∃ l1, d1.mLayers[j]? = some l1 ∧
          l1.getValidateCompositionType = HWC2_COMPOSITION_CLIENT) := by
  have hlen := h.length_eq
  have hk : k < d.mLayers.length := by
    by_contra hcon
    rw [List.getElem?_eq_none (by omega)] at hget
    cases hget
  have hti : toInt32 k = (k : Int) := toInt32_of_lt (by omega)
  have K0 := setLayer_client_keep d k layer hget
  generalize hd0 : d.setLayer k
    (layer.resetAssignedResource.updateValidateCompositionType HWC2_COMPOSITION_CLIENT 0) = d0
    at K0
  have hc0 : d0.mClientCompositionInfo = d.mClientCompositionInfo := by rw [← hd0]; rfl
  have he0 : d0.mExynosCompositionInfo = d.mExynosCompositionInfo := by rw [← hd0]; rfl
  have hk0 : d0.mLayers[k]? = some
      (layer.resetAssignedResource.updateValidateCompositionType HWC2_COMPOSITION_CLIENT 0) := by
    rw [← hd0]
    simp only [ExynosDisplay.setLayer]
    exact List.getElem?_set_self hk
  have hlen0 : d0.mLayers.length = d.mLayers.length := K0.length_eq
  by_cases hhas : d.mClientCompositionInfo.mHasCompositionLayer = true
  · -- a non-empty client range is widened
    have hv : 0 ≤ d.mClientCompositionInfo.mFirstIndex ∧
        d.mClientCompositionInfo.mFirstIndex ≤ d.mClientCompositionInfo.mLastIndex ∧
        d.mClientCompositionInfo.mLastIndex < P.length := by
      rcases h.client with ⟨hf, _⟩ | ⟨_, h1, h2, h3⟩
      · rw [hhas] at hf; cases hf
      · exact ⟨h1, h2, h3⟩
    obtain ⟨ret, d1, d2, b, hcall, hrel, hcase⟩ := addClient_widen env d0 k
      (by rw [hlen0, hlen]; exact hP) (by rw [hc0]; exact hhas) (by rw [hc0]; exact hv.1)
      (by rw [hc0, hlen0, hlen]; exact hv.2.2) (by rw [hlen0]; exact hk)
    have K1 := addClient_keep env d0 d1 k ret hcall
    have K : LayersKeep d d1 := K0.keep_trans K1
    have hlayers : d1.mLayers = d2.mLayers := by
      rcases hcase with ⟨_, _, hd⟩ | ⟨_, hd⟩
      · rw [hd]
      · have := (exynosRangeRecompute_frame env d2).1
        rw [← hd] at this
        exact this
    have hclient : d1.mClientCompositionInfo = (widenClientRange d0 k).mClientCompositionInfo := by
      rcases hcase with ⟨_, _, hd⟩ | ⟨_, hd⟩
      · rw [hd, hrel.client_eq]
      · have := (exynosRangeRecompute_frame env d2).2.1
        rw [← hd] at this
        rw [this, hrel.client_eq]
    have hcf : d1.mClientCompositionInfo.mFirstIndex =
        min d.mClientCompositionInfo.mFirstIndex (k : Int) := by
      rw [hclient]; simp [widenClientRange, hti, hc0]
    have hcl : d1.mClientCompositionInfo.mLastIndex =
        max d.mClientCompositionInfo.mLastIndex (k : Int) := by
      rw [hclient]; simp [widenClientRange, hti, hc0]
    have hch : d1.mClientCompositionInfo.mHasCompositionLayer = true := by
      rw [hclient]; simp [widenClientRange, hc0, hhas]
    have htyped : ∀ (j : Nat) (l : ExynosLayer), d1.mLayers[j]? = some l →
        l.getValidateCompositionType = HWC2_COMPOSITION_EXYNOS →
        lo ≤ (j : Int) ∧ (j : Int) ≤ hi := by
      intro j l hj he
      obtain ⟨l0, hl0, he0⟩ := K.no_new_exynos j l hj he
      exact h.typed j l0 hl0 he0
    have hvalid : d1.mClientCompositionInfo.rangeValid P.length :=
      Or.inr ⟨hch, by omega, by omega, by omega⟩
    have hinv2 : TrackInv P lo hi d2 := by
      refine ⟨by rw [← hlayers]; exact K.priorities.trans h.prio, ?_, ?_, ?_⟩
      · rw [hrel.client_eq, ← hclient]; exact hvalid
      · rw [← hlayers]; exact htyped
      · rw [hrel.exynos_eq]
        show d0.mExynosCompositionInfo.mLastIndex ≤ hi ∧
          (d0.mExynosCompositionInfo.mFirstIndex = -1 ∨ lo ≤ d0.mExynosCompositionInfo.mFirstIndex)
        rw [he0]
        exact h.range
    have hinv1 : TrackInv P lo hi d1 := by
      rcases hcase with ⟨_, _, hd⟩ | ⟨_, hd⟩
      · rw [hd]; exact hinv2
      · have := exynosRangeRecompute_inv env P lo hi d2 hP hhi hlh hinv2
        rw [← hd] at this
        exact this
    refine ⟨ret, d1, hcall, hinv1, hch, by omega, by omega, fun _ => ⟨by omega, by omega⟩,
      K1.client_stays k _ hk0 rfl, K.client_stays⟩
  · -- the first layer of the client composition
    have hhas0 : d0.mClientCompositionInfo.mHasCompositionLayer = false := by
      rw [hc0]
      cases hb : d.mClientCompositionInfo.mHasCompositionLayer with
      | true => exact absurd hb hhas
      | false => rfl
    have hcall : addClientCompositionLayer env d0 k = some (EXYNOS_ERROR_CHANGED,
        { d0 with mClientCompositionInfo :=
            { d0.mClientCompositionInfo with mFirstIndex := toInt32 k, mLastIndex := toInt32 k,
                                             mHasCompositionLayer := true } }) := by
      simp only [addClientCompositionLayer, hhas0, if_true]
    refine ⟨_, _, hcall, ?_, rfl, ?_, ?_, fun hh => absurd hh hhas, ⟨_, hk0, rfl⟩, ?_⟩
    · refine ⟨K0.priorities.trans h.prio, Or.inr ⟨rfl, ?_, ?_, ?_⟩, ?_, ?_⟩
      · show 0 ≤ toInt32 k
        omega
      · exact le_refl _
      · show toInt32 k < _
        omega
      · intro j l hj he
        obtain ⟨l0, hl0, he0⟩ := K0.no_new_exynos j l hj he
        exact h.typed j l0 hl0 he0
      · show d0.mExynosCompositionInfo.mLastIndex ≤ hi ∧
          (d0.mExynosCompositionInfo.mFirstIndex = -1 ∨ lo ≤ d0.mExynosCompositionInfo.mFirstIndex)
        rw [he0]
        exact h.range
    · show toInt32 k ≤ _
      omega
    · show _ ≤ toInt32 k
      omega
    · exact K0.client_stays

/-! ## The first loop of `addExynosCompositionLayer` -/

theorem map_priority_set (ls : List ExynosLayer) (k : Nat) (layer l1 : ExynosLayer)
    (hget : ls[k]? = some layer) (hp : l1.mOverlayPriority = layer.mOverlayPriority) :
    (ls.set k l1).map (fun l => l.mOverlayPriority) = ls.map (fun l => l.mOverlayPriority) := by
  apply List.ext_getElem?
  intro j
  rw [List.getElem?_map, List.getElem?_map]
  by_cases hjk : k = j
  · subst hjk
    have hk : k < ls.length := by
      by_contra hcon
      rw [List.getElem?_eq_none (by omega)] at hget
      cases hget
    rw [List.getElem?_set_self hk, hget]
    simp [hp]
  · rw [List.getElem?_set_ne hjk]

theorem flow_next_inj {σ : Type} (a b : σ) (h : some (Flow.next a) = some (Flow.next b)) :
    b = a := by
  injection h with h1
  injection h1 with h2
  exact h2.symm

theorem flow_ret_ne_next {σ : Type} (r : Int) (d : ExynosDisplay) (b : σ) :
    some (Flow.ret r d) ≠ some (Flow.next b) := by
  intro h
  injection h with h1
  cases h1

/-- The invariant of the first loop of `addExynosCompositionLayer` before it
visits index `k`, for a secondary resource that is not of the combined type:
the tracker invariant, and `highPriority` holds exactly the indices of
`[lo, k)` whose layer has priority `>= ePriorityHigh`. -/
structure FrontInv (P : List Int) (lo hi k : Int) (s : ExynosLocals) : Prop where
  track : TrackInv P lo hi s.d
  sound : ∀ hp ∈ s.highPriority, lo ≤ hp ∧ hp < k ∧
    ∃ p, P[hp.toNat]? = some p ∧ p ≥ ePriorityHigh
  complete : ∀ j : Int, lo ≤ j → j < k → (∃ p, P[j.toNat]? = some p ∧ p ≥ ePriorityHigh) →
    j ∈ s.highPriority

theorem FrontInv.step_same {P : List Int} {lo hi k : Int} {s s1 : ExynosLocals}
    (h : FrontInv P lo hi k s) (ht : TrackInv P lo hi s1.d)
    (hhp : s1.highPriority = s.highPriority)
    (hlow : ∀ p, P[k.toNat]? = some p → ¬ p ≥ ePriorityHigh) :
    FrontInv P lo hi (k + 1) s1 := by
  refine ⟨ht, ?_, ?_⟩
  · intro hp hmem
    rw [hhp] at hmem
    obtain ⟨h1, h2, h3⟩ := h.sound hp hmem
    exact ⟨h1, by omega, h3⟩
  · intro j hj1 hj2 hj3
    rw [hhp]
    by_cases hjk : j = k
    · subst hjk
      obtain ⟨p, hp1, hp2⟩ := hj3
      exact absurd hp2 (hlow p hp1)
    · exact h.complete j hj1 (by omega) hj3

theorem exynosSandwichedStep_inv (env : ResourceOracle) (m2mMPP : ExynosMPP) (P : List Int)
    (lo hi k : Int) (s s1 : ExynosLocals)
    (hcombo : m2mMPP.mLogicalType ≠ MPP_LOGICAL_G2D_COMBO)
    (hP : P.length < 2 ^ 31) (hlo : 0 ≤ lo) (hhi : hi < P.length)
    (hk1 : lo ≤ k) (hk2 : k ≤ hi) (h : FrontInv P lo hi k s)
    (hstep : exynosSandwichedStep env m2mMPP k s = some (Flow.next s1)) :
    FrontInv P lo hi (k + 1) s1 := by
  have hlen := h.track.length_eq
  have hk0 : 0 ≤ k := by omega
  have hkn : k.toNat < s.d.mLayers.length := by omega
  have hget : s.d.mLayers[k.toNat]? = some s.d.mLayers[k.toNat] := List.getElem?_eq_getElem hkn
  have hat : s.d.layerAt k = some s.d.mLayers[k.toNat] := by
    unfold ExynosDisplay.layerAt
    rw [if_pos hk0]
    exact hget
  have hu : toUInt32 k = k.toNat := toUInt32_of_nonneg hk0 (by omega)
  have hprio : P[k.toNat]? = some (s.d.mLayers[k.toNat]).mOverlayPriority := by
    rw [← h.track.prio, List.getElem?_map, hget]
    rfl
  generalize hl : s.d.mLayers[k.toNat] = layer at hget hat hprio
  unfold exynosSandwichedStep at hstep
  rw [hat] at hstep
  dsimp only at hstep
  rw [if_neg (fun hc => hcombo hc.2)] at hstep
  by_cases hhigh : layer.mOverlayPriority ≥ ePriorityHigh
  · rw [if_pos hhigh] at hstep
    have hs1 := flow_next_inj _ _ hstep
    subst hs1
    refine ⟨h.track, ?_, ?_⟩
    · intro hp hmem
      rcases List.mem_append.mp hmem with hm | hm
      · obtain ⟨h1, h2, h3⟩ := h.sound hp hm
        exact ⟨h1, by omega, h3⟩
      · rw [List.mem_singleton] at hm
        subst hm
        exact ⟨hk1, by omega, _, hprio, hhigh⟩
    · intro j hj1 hj2 hj3
      apply List.mem_append.mpr
      by_cases hjk : j = k
      · right
        rw [hjk]
        exact List.mem_singleton.mpr rfl
      · left
        exact h.complete j hj1 (by omega) hj3
  · rw [if_neg hhigh] at hstep
    have hlow : ∀ p, P[k.toNat]? = some p → ¬ p ≥ ePriorityHigh := by
      intro p hp
      rw [hprio] at hp
      cases hp
      exact hhigh
    by_cases hE : layer.getValidateCompositionType = HWC2_COMPOSITION_EXYNOS
    · rw [if_pos hE] at hstep
      have hs1 := flow_next_inj _ _ hstep
      subst hs1
      exact h.step_same h.track rfl hlow
    · rw [if_neg hE] at hstep
      by_cases hC : layer.getValidateCompositionType = HWC2_COMPOSITION_CLIENT
      · rw [if_pos hC] at hstep
        have hs1 := flow_next_inj _ _ hstep
        subst hs1
        exact h.step_same h.track rfl hlow
      · rw [if_neg hC] at hstep
        by_cases hU : (decide (layer.mSupportedMPPFlag &&& m2mMPP.mLogicalType ≠ 0) = false ∨
            (if decide (layer.mSupportedMPPFlag &&& m2mMPP.mLogicalType ≠ 0) = true then
              env.isAssignable s.d k.toNat else false) = false)
        · -- the layer is not supported: it is pushed to client composition
          rw [if_pos hU, hu] at hstep
          obtain ⟨ret, d1, hcall, hinv, _⟩ := evict_inv env P lo hi s.d k.toNat layer hP hhi
            (by omega) h.track hget
          rw [hcall] at hstep
          dsimp only at hstep
          by_cases hneg : ret < 0
          · rw [if_pos hneg] at hstep
            exact absurd hstep (flow_ret_ne_next _ _ _)
          · rw [if_neg hneg] at hstep
            have hs1 := flow_next_inj _ _ hstep
            subst hs1
            exact h.step_same hinv rfl hlow
        · rw [if_neg hU] at hstep
          by_cases hD : layer.getValidateCompositionType = HWC2_COMPOSITION_DEVICE ∨
              layer.getValidateCompositionType = HWC2_COMPOSITION_INVALID
          · -- the layer joins the secondary composition
            rw [if_pos hD] at hstep
            split_ifs at hstep with hret
            all_goals first
              | exact absurd hstep (flow_ret_ne_next _ _ _)
              | (have hs1 := flow_next_inj _ _ hstep
                 subst hs1
                 refine h.step_same ?_ rfl hlow
                 refine ⟨?_, h.track.client, ?_, ?_⟩
                 · show (List.set (List.set s.d.mLayers k.toNat _) k.toNat _).map _ = P
                   rw [List.set_set, map_priority_set s.d.mLayers k.toNat layer _ hget]
                   · exact h.track.prio
                   · rfl
                 · intro j l hj he
                   have hj2 : (List.set (List.set s.d.mLayers k.toNat _) k.toNat _)[j]? = some l :=
                     hj
                   rw [List.set_set] at hj2
                   by_cases hjk : k.toNat = j
                   · subst hjk
                     omega
                   · rw [List.getElem?_set_ne hjk] at hj2
                     exact h.track.typed j l hj2 he
                 · show max s.d.mExynosCompositionInfo.mLastIndex k ≤ hi ∧
                     (min s.d.mExynosCompositionInfo.mFirstIndex k = -1 ∨
                       lo ≤ min s.d.mExynosCompositionInfo.mFirstIndex k)
                   have := h.track.range
                   omega)
          · rw [if_neg hD] at hstep
            have hs1 := flow_next_inj _ _ hstep
            subst hs1
            exact h.step_same h.track rfl hlow

theorem frontLoop_inv (env : ResourceOracle) (m2mMPP : ExynosMPP) (P : List Int)
    (lo hi : Int) (hcombo : m2mMPP.mLogicalType ≠ MPP_LOGICAL_G2D_COMBO)
    (hP : P.length < 2 ^ 31) (hlo : 0 ≤ lo) (hhi : hi < P.length) (count : Nat) :
    ∀ (k : Int) (s s1 : ExynosLocals), lo ≤ k → k + count = hi + 1 → FrontInv P lo hi k s →
      flowLoop (exynosSandwichedStep env m2mMPP) count k s = some (Flow.next s1) →
      FrontInv P lo hi (hi + 1) s1 := by
  induction count with
  | zero =>
    intro k s s1 _ hk h hloop
    have hs1 := flow_next_inj _ _ hloop
    subst hs1
    have hk2 : k = hi + 1 := by omega
    rw [← hk2]
    exact h
  | succ count ih =>
    intro k s s1 hk1 hk h hloop
    unfold flowLoop at hloop
    cases hstep : exynosSandwichedStep env m2mMPP k s with
    | none =>
      rw [hstep] at hloop
      cases hloop
    | some f =>
      cases f with
      | ret r d =>
        rw [hstep] at hloop
        exact absurd hloop (flow_ret_ne_next _ _ _)
      | next s2 =>
        rw [hstep] at hloop
        have h2 := exynosSandwichedStep_inv env m2mMPP P lo hi k s s2 hcombo hP hlo hhi hk1
          (by omega) h hstep
        exact ih (k + 1) s2 s1 (by omega) (by push_cast at hk ⊢; omega) h2 hloop

theorem layerAt_some {d : ExynosDisplay} {i : Int} {l : ExynosLayer}
    (h : d.layerAt i = some l) :
    0 ≤ i ∧ d.mLayers[i.toNat]? = some l ∧ i.toNat < d.mLayers.length := by
  unfold ExynosDisplay.layerAt at h
  split_ifs at h with h0
  refine ⟨h0, h, ?_⟩
  by_contra hcon
  rw [List.getElem?_eq_none (by omega)] at h
  cases h

/-- The nesting block keeps the tracker invariant and the recorded
high-priority indices. -/
theorem nestingBlock_inv (env : ResourceOracle) (P : List Int) (lo hi : Int)
    (s s1 : ExynosLocals) (hP : P.length < 2 ^ 31) (hhi : hi < P.length) (hlh : -1 ≤ hi)
    (h : TrackInv P lo hi s.d) (hblock : nestingBlock env s = some (Flow.next s1)) :
    TrackInv P lo hi s1.d ∧ s1.highPriority = s.highPriority := by
  have hlen := h.length_eq
  unfold nestingBlock at hblock
  dsimp only at hblock
  split_ifs at hblock with hcond hfront
  · -- the front boundary layer is evicted
    cases hat : s.d.layerAt s.d.mExynosCompositionInfo.mFirstIndex with
    | none =>
      rw [hat] at hblock
      cases hblock
    | some layer =>
      rw [hat] at hblock
      dsimp only at hblock
      obtain ⟨h0, hget, hk⟩ := layerAt_some hat
      have hu : toUInt32 s.d.mExynosCompositionInfo.mFirstIndex =
          s.d.mExynosCompositionInfo.mFirstIndex.toNat := toUInt32_of_nonneg h0 (by omega)
      rw [hu] at hblock
      obtain ⟨ret, d1, hcall, hinv, _, hc1, hc2, _⟩ := evict_inv env P lo hi s.d
        s.d.mExynosCompositionInfo.mFirstIndex.toNat layer hP hhi hlh h hget
      rw [hcall] at hblock
      dsimp only at hblock
      by_cases hneg : ret < 0
      · rw [if_pos hneg] at hblock
        exact absurd hblock (flow_ret_ne_next _ _ _)
      · rw [if_neg hneg] at hblock
        have hs1 := flow_next_inj _ _ hblock
        subst hs1
        refine ⟨⟨hinv.prio, hinv.client, hinv.typed, ?_⟩, rfl⟩
        show d1.mExynosCompositionInfo.mLastIndex ≤ hi ∧
          (d1.mClientCompositionInfo.mLastIndex + 1 = -1 ∨
            lo ≤ d1.mClientCompositionInfo.mLastIndex + 1)
        have := hinv.range
        have := h.range
        omega
  · -- the back boundary layer is evicted
    cases hat : s.d.layerAt s.d.mExynosCompositionInfo.mLastIndex with
    | none =>
      rw [hat] at hblock
      cases hblock
    | some layer =>
      rw [hat] at hblock
      dsimp only at hblock
      obtain ⟨h0, hget, hk⟩ := layerAt_some hat
      have hu : toUInt32 s.d.mExynosCompositionInfo.mLastIndex =
          s.d.mExynosCompositionInfo.mLastIndex.toNat := toUInt32_of_nonneg h0 (by omega)
      rw [hu] at hblock
      obtain ⟨ret, d1, hcall, hinv, _, hc1, hc2, _⟩ := evict_inv env P lo hi s.d
        s.d.mExynosCompositionInfo.mLastIndex.toNat layer hP hhi hlh h hget
      rw [hcall] at hblock
      dsimp only at hblock
      by_cases hneg : ret < 0
      · rw [if_pos hneg] at hblock
        exact absurd hblock (flow_ret_ne_next _ _ _)
      · rw [if_neg hneg] at hblock
        have hs1 := flow_next_inj _ _ hblock
        subst hs1
        refine ⟨⟨hinv.prio, hinv.client, hinv.typed, ?_⟩, rfl⟩
        show d1.mClientCompositionInfo.mFirstIndex - 1 ≤ hi ∧
          (d1.mExynosCompositionInfo.mFirstIndex = -1 ∨
            lo ≤ d1.mExynosCompositionInfo.mFirstIndex)
        have := hinv.range
        have := h.range
        omega
  · have hs1 := flow_next_inj _ _ hblock
    subst hs1
    exact ⟨h, rfl⟩

/-! ## The tail of `addExynosCompositionLayer` -/

theorem highPriorityAdjust_bounds (hps : List Int) :
    ∀ e : ExynosCompositionInfo,
      e.mFirstIndex ≤ (highPriorityAdjust hps e).mFirstIndex ∧
      (highPriorityAdjust hps e).mLastIndex ≤ e.mLastIndex ∧
      ((∀ hp ∈ hps, 0 ≤ hp) → e.mFirstIndex < 0 →
        (highPriorityAdjust hps e).mFirstIndex = e.mFirstIndex) := by
  induction hps with
  | nil => intro e; exact ⟨le_refl _, le_refl _, fun _ _ => rfl⟩
  | cons hp rest ih =>
    intro e
    unfold highPriorityAdjust
    split_ifs with h1 h2
    · obtain ⟨a, b, c⟩ := ih { e with mFirstIndex := e.mFirstIndex + 1 }
      refine ⟨by simp only at a; omega, b, ?_⟩
      intro hall hneg
      have := hall hp (List.mem_cons_self _ _)
      omega
    · obtain ⟨a, b, c⟩ := ih { e with mLastIndex := e.mLastIndex - 1 }
      refine ⟨a, by simp only at b; omega, ?_⟩
      intro hall hneg
      exact c (fun x hx => hall x (List.mem_cons_of_mem _ hx)) hneg
    · obtain ⟨a, b, c⟩ := ih e
      exact ⟨a, b, fun hall hneg => c (fun x hx => hall x (List.mem_cons_of_mem _ hx)) hneg⟩

/-- When an index lies strictly inside the adjusted range, that range has
passed the validity check and lies inside the tentative range `[lo, hi]`. -/
theorem exynosAdjusted_range (env : ResourceOracle) (m2mMPP : ExynosMPP) (P : List Int)
    (lo hi : Int) (s : ExynosLocals) (hP : P.length < 2 ^ 31) (hlo : 0 ≤ lo)
    (h : FrontInv P lo hi (hi + 1) s) (j : Int)
    (hj1 : (exynosAdjusted env m2mMPP s).mFirstIndex < j)
    (hj2 : j < (exynosAdjusted env m2mMPP s).mLastIndex) :
    lo ≤ (exynosAdjusted env m2mMPP s).mFirstIndex ∧
    (exynosAdjusted env m2mMPP s).mLastIndex ≤ hi ∧
    0 ≤ (exynosAdjusted env m2mMPP s).mFirstIndex ∧
    (exynosAdjusted env m2mMPP s).mLastIndex < P.length := by
  have hlen := h.track.length_eq
  have hsz : toInt32 s.d.mLayers.length = (P.length : Int) := by
    rw [toInt32_of_lt (by omega), hlen]
  have hall : ∀ hp ∈ s.highPriority, 0 ≤ hp := by
    intro hp hm
    have := (h.sound hp hm).1
    omega
  have hadj := highPriorityAdjust_bounds s.highPriority s.d.mExynosCompositionInfo
  have hrange := h.track.range
  unfold exynosAdjusted at hj1 hj2 ⊢
  dsimp only at hj1 hj2 ⊢
  rw [hsz] at hj1 hj2 ⊢
  generalize he1 : (if s.highPriority.length > 0 ∧
      m2mMPP.mLogicalType ≠ MPP_LOGICAL_G2D_COMBO then
        highPriorityAdjust s.highPriority s.d.mExynosCompositionInfo
      else s.d.mExynosCompositionInfo) = e1 at hj1 hj2 ⊢
  have hb : s.d.mExynosCompositionInfo.mFirstIndex ≤ e1.mFirstIndex ∧
      e1.mLastIndex ≤ s.d.mExynosCompositionInfo.mLastIndex ∧
      (s.d.mExynosCompositionInfo.mFirstIndex < 0 →
        e1.mFirstIndex = s.d.mExynosCompositionInfo.mFirstIndex) := by
    rw [← he1]
    split_ifs
    · exact ⟨hadj.1, hadj.2.1, hadj.2.2 hall⟩
    · exact ⟨le_refl _, le_refl _, fun _ => rfl⟩
  by_cases hinv : (e1.mFirstIndex < 0 ∨ e1.mFirstIndex ≥ (P.length : Int) ∨ e1.mLastIndex < 0 ∨
      e1.mLastIndex ≥ (P.length : Int) ∨ e1.mFirstIndex > e1.mLastIndex)
  · simp only [hinv, decide_True, if_true, ExynosCompositionInfo.initializeInfos] at hj1 hj2
    omega
  · simp only [hinv, decide_False, Bool.false_eq_true, if_false] at hj1 hj2 ⊢
    omega

/-- The invariant of the abandonment loop of `addExynosCompositionLayer` before
it visits index `i`: the tracker invariant, and every index of `[first, i)` that
is not a recorded high-priority index is validated as CLIENT and lies in the
client range. -/
structure AbandonInv (P : List Int) (lo hi first : Int) (hps : List Int) (i : Int)
    (d : ExynosDisplay) : Prop where
  track : TrackInv P lo hi d
  done : ∀ j : Int, first ≤ j → j < i → j ∉ hps →
    d.mClientCompositionInfo.mHasCompositionLayer = true ∧
    d.mClientCompositionInfo.mFirstIndex ≤ j ∧ j ≤ d.mClientCompositionInfo.mLastIndex ∧
    ∃ l, d.mLayers[j.toNat]? = some l ∧
      l.getValidateCompositionType = HWC2_COMPOSITION_CLIENT

theorem highPriorityAbandonStep_inv (env : ResourceOracle) (P : List Int)
    (lo hi first : Int) (hps : List Int) (i : Int) (d : ExynosDisplay)
    (hP : P.length < 2 ^ 31) (hhi : hi < P.length) (hlh : -1 ≤ hi)
    (hf : 0 ≤ first) (hi1 : first ≤ i) (hi2 : i < P.length)
    (h : AbandonInv P lo hi first hps i d) :
    ∃ d1, highPriorityAbandonStep env hps i d = some (Flow.next d1) ∧
      AbandonInv P lo hi first hps (i + 1) d1 := by
  have hlen := h.track.length_eq
  unfold highPriorityAbandonStep
  by_cases hc : hps.contains i = true
  · rw [if_pos hc]
    refine ⟨d, rfl, h.track, ?_⟩
    intro j hj1 hj2 hj3
    have hji : j ≠ i := by
      intro heq
      rw [heq] at hj3
      exact hj3 (List.elem_iff.mp hc)
    exact h.done j hj1 (by omega) hj3
  · rw [if_neg hc]
    have hi0 : 0 ≤ i := by omega
    have hk : i.toNat < d.mLayers.length := by omega
    have hget : d.mLayers[i.toNat]? = some d.mLayers[i.toNat] := List.getElem?_eq_getElem hk
    have hat : d.layerAt i = some d.mLayers[i.toNat] := by
      unfold ExynosDisplay.layerAt
      rw [if_pos hi0]
      exact hget
    have hu : toUInt32 i = i.toNat := toUInt32_of_nonneg hi0 (by omega)
    rw [hat]
    dsimp only
    rw [hu]
    obtain ⟨ret, d1, hcall, hinv, hhas, hc1, hc2, hwide, hcl, hstay⟩ := evict_inv env P lo hi d
      i.toNat _ hP hhi hlh h.track hget
    rw [hcall]
    refine ⟨d1, rfl, hinv, ?_⟩
    intro j hj1 hj2 hj3
    by_cases hji : j = i
    · subst hji
      exact ⟨hhas, by omega, by omega, hcl⟩
    · obtain ⟨a, b, c, l, hl, hlc⟩ := h.done j hj1 (by omega) hj3
      have hw := hwide a
      exact ⟨hhas, by omega, by omega, hstay j.toNat l hl hlc⟩

theorem abandonLoop_inv (env : ResourceOracle) (P : List Int) (lo hi first : Int)
    (hps : List Int) (hP : P.length < 2 ^ 31) (hhi : hi < P.length) (hlh : -1 ≤ hi)
    (hf : 0 ≤ first) (last : Int) (hl : last < P.length) (count : Nat) :
    ∀ (i : Int) (d : ExynosDisplay), first ≤ i → i + count = last + 1 →
      AbandonInv P lo hi first hps i d →
      ∃ d1, flowLoop (highPriorityAbandonStep env hps) count i d = some (Flow.next d1) ∧
        AbandonInv P lo hi first hps (last + 1) d1 := by
  induction count with
  | zero =>
    intro i d _ hcnt h
    have hi2 : i = last + 1 := by omega
    rw [← hi2]
    exact ⟨d, rfl, h⟩
  | succ count ih =>
    intro i d hi1 hcnt h
    obtain ⟨d1, hstep, h1⟩ := highPriorityAbandonStep_inv env P lo hi first hps i d hP hhi hlh
      hf hi1 (by push_cast at hcnt; omega) h
    obtain ⟨d2, hloop, h2⟩ := ih (i + 1) d1 (by omega) (by push_cast at hcnt ⊢; omega) h1
    refine ⟨d2, ?_, h2⟩
    unfold flowLoop
    rw [hstep]
    exact hloop

/-- What it means that `exynosFront` reaches the tail with a resource that is
not of the combined type: the range was not empty, the widened range
`[start, end]` passed the bounds check, the first loop ran to its end, and the
locals are those after the first loop or after the nesting block. -/
theorem exynosFront_next (env : ResourceOracle) (d : ExynosDisplay) (layerIndex : Nat)
    (m2mMPP : ExynosMPP) (s : ExynosLocals)
    (hfront : exynosFront env d layerIndex = some (Flow.next (m2mMPP, s)))
    (hcombo : m2mMPP.mLogicalType ≠ MPP_LOGICAL_G2D_COMBO) :
    d.mExynosCompositionInfo.mHasCompositionLayer = true ∧
    0 ≤ min d.mExynosCompositionInfo.mFirstIndex (toInt32 layerIndex) ∧
    max d.mExynosCompositionInfo.mLastIndex (toInt32 layerIndex) < toInt32 d.mLayers.length ∧
    ∃ s1, flowLoop (exynosSandwichedStep env m2mMPP)
        (max d.mExynosCompositionInfo.mLastIndex (toInt32 layerIndex) -
          min d.mExynosCompositionInfo.mFirstIndex (toInt32 layerIndex) + 1).toNat
        (min d.mExynosCompositionInfo.mFirstIndex (toInt32 layerIndex))
        { d := { d with mExynosCompositionInfo :=
                  { d.mExynosCompositionInfo with
                    mFirstIndex := min d.mExynosCompositionInfo.mFirstIndex (toInt32 layerIndex)
                    mLastIndex := max d.mExynosCompositionInfo.mLastIndex (toInt32 layerIndex) } } } =
          some (Flow.next s1) ∧
      (s = s1 ∨ nestingBlock env s1 = some (Flow.next s)) := by
  unfold exynosFront at hfront
  dsimp only at hfront
  by_cases h1 : d.mExynosCompositionInfo.mHasCompositionLayer = false
  · rw [if_pos h1] at hfront
    exact absurd hfront (flow_ret_ne_next _ _ _)
  · rw [if_neg h1] at hfront
    have hhas : d.mExynosCompositionInfo.mHasCompositionLayer = true := by
      cases hb : d.mExynosCompositionInfo.mHasCompositionLayer with
      | true => rfl
      | false => exact absurd hb h1
    cases hm : d.mExynosCompositionInfo.mM2mMPP with
    | none =>
      rw [hm] at hfront
      exact absurd hfront (flow_ret_ne_next _ _ _)
    | some m =>
      rw [hm] at hfront
      dsimp only at hfront
      split_ifs at hfront with h2
      · exact absurd hfront (flow_ret_ne_next _ _ _)
      · refine ⟨hhas, by omega, by omega, ?_⟩
        generalize hloop : flowLoop (exynosSandwichedStep env m) _ _ _ = r at hfront
        rw [← hm] at hloop
        cases r with
        | none => cases hfront
        | some f =>
          cases f with
          | ret r d2 => exact absurd hfront (flow_ret_ne_next _ _ _)
          | next s1 =>
            dsimp only at hfront
            by_cases h3 : s1.invalidFlag = true
            · rw [if_pos h3] at hfront
              by_cases h4 : m.mLogicalType = MPP_LOGICAL_G2D_COMBO ∧ s1.maxPriorityIndex ≥ 0
              · rw [if_pos h4] at hfront
                exfalso
                generalize maxPriorityBlock env m s1 = a at hfront
                cases a with
                | none => cases hfront
                | some f2 =>
                  cases f2 with
                  | ret r d2 => exact absurd hfront (flow_ret_ne_next _ _ _)
                  | next s2 =>
                    dsimp only at hfront
                    generalize nestingBlock env s2 = b at hfront
                    cases b with
                    | none => cases hfront
                    | some f3 =>
                      cases f3 with
                      | ret r d3 => exact absurd hfront (flow_ret_ne_next _ _ _)
                      | next s3 =>
                        have hms := flow_next_inj _ _ hfront
                        have hmm : m2mMPP = m := congrArg Prod.fst hms
                        rw [hmm] at hcombo
                        exact hcombo h4.1
              · rw [if_neg h4] at hfront
                dsimp only at hfront
                cases hb : nestingBlock env s1 with
                | none =>
                  rw [hb] at hfront
                  cases hfront
                | some f3 =>
                  rw [hb] at hfront
                  cases f3 with
                  | ret r d3 => exact absurd hfront (flow_ret_ne_next _ _ _)
                  | next s3 =>
                    have hms := flow_next_inj _ _ hfront
                    have hmm : m2mMPP = m := congrArg Prod.fst hms
                    have hss : s = s3 := congrArg Prod.snd hms
                    subst hmm
                    subst hss
                    exact ⟨s1, hloop, Or.inr hb⟩
            · rw [if_neg h3] at hfront
              have hms := flow_next_inj _ _ hfront
              have hmm : m2mMPP = m := congrArg Prod.fst hms
              have hss : s = s1 := congrArg Prod.snd hms
              subst hmm
              subst hss
              exact ⟨s, hloop, Or.inl rfl⟩

/-- C23 (high-priority abandonment): take a display with fewer than `2^31`
layers, a well-formed client range and every layer validated as EXYNOS inside
the secondary range.  When `addExynosCompositionLayer` reaches its tail with a
secondary resource that is not of the combined type and, after the boundary
adjustment, some layer with priority `>= ePriorityHigh` lies strictly inside
the secondary range, the call returns `EXYNOS_ERROR_CHANGED`, leaves the
secondary-composition info cleared (no composition layer, first = last = -1),
and every layer of that range whose priority is below `ePriorityHigh` is
validated as CLIENT and lies in the client range. -/
theorem addExynosCompositionLayer_high_priority_abandon (env : ResourceOracle)
    (d : ExynosDisplay) (layerIndex : Nat) (m2mMPP : ExynosMPP) (s : ExynosLocals)
    (hn : d.mLayers.length < 2 ^ 31)
    (hclient : d.mClientCompositionInfo.rangeValid d.mLayers.length)
    (hexy : ∀ (j : Nat) (l : ExynosLayer), d.mLayers[j]? = some l →
      l.getValidateCompositionType = HWC2_COMPOSITION_EXYNOS →
      d.mExynosCompositionInfo.mFirstIndex ≤ (j : Int) ∧
        (j : Int) ≤ d.mExynosCompositionInfo.mLastIndex)
    (hfront : exynosFront env d layerIndex = some (Flow.next (m2mMPP, s)))
    (hcombo : m2mMPP.mLogicalType ≠ MPP_LOGICAL_G2D_COMBO)
    (hhigh : ∃ (hp : Nat) (l : ExynosLayer),
      (exynosAdjusted env m2mMPP s).mFirstIndex < (hp : Int) ∧
      (hp : Int) < (exynosAdjusted env m2mMPP s).mLastIndex ∧
      s.d.mLayers[hp]? = some l ∧ l.mOverlayPriority ≥ ePriorityHigh) :
    ∃ d1, addExynosCompositionLayer env d layerIndex = some (EXYNOS_ERROR_CHANGED, d1) ∧
      d1.mExynosCompositionInfo.mHasCompositionLayer = false ∧
      d1.mExynosCompositionInfo.mFirstIndex = -1 ∧
      d1.mExynosCompositionInfo.mLastIndex = -1 ∧
      ∀ (j : Nat) (l : ExynosLayer),
        (exynosAdjusted env m2mMPP s).mFirstIndex ≤ (j : Int) →
        (j : Int) ≤ (exynosAdjusted env m2mMPP s).mLastIndex →
        d1.mLayers[j]? = some l → l.mOverlayPriority < ePriorityHigh →
        l.getValidateCompositionType = HWC2_COMPOSITION_CLIENT ∧
        d1.mClientCompositionInfo.mHasCompositionLayer = true ∧
        d1.mClientCompositionInfo.mFirstIndex ≤ (j : Int) ∧
        (j : Int) ≤ d1.mClientCompositionInfo.mLastIndex := by
  obtain ⟨hhas, hlo, hhi, s1, hloop, hnest⟩ := exynosFront_next env d layerIndex m2mMPP s hfront
    hcombo
  have hsz : toInt32 d.mLayers.length = (d.mLayers.length : Int) := toInt32_of_lt hn
  rw [hsz] at hhi
  generalize hlodef : min d.mExynosCompositionInfo.mFirstIndex (toInt32 layerIndex) = lo
    at hlo hloop
  generalize hhidef : max d.mExynosCompositionInfo.mLastIndex (toInt32 layerIndex) = hi
    at hhi hloop
  generalize hPdef : d.mLayers.map (fun l => l.mOverlayPriority) = P
  have hPlen : P.length = d.mLayers.length := by rw [← hPdef, List.length_map]
  have hP : P.length < 2 ^ 31 := by rw [hPlen]; exact hn
  have hhiP : hi < (P.length : Int) := by rw [hPlen]; exact hhi
  have hlohi : lo ≤ hi := by omega
  -- the invariant holds when the first loop starts
  have h0 : FrontInv P lo hi lo
      { d := { d with mExynosCompositionInfo :=
                { d.mExynosCompositionInfo with mFirstIndex := lo, mLastIndex := hi } } } := by
    refine ⟨⟨hPdef, by rw [hPlen]; exact hclient, ?_, ⟨le_refl _, Or.inr (le_refl _)⟩⟩, ?_, ?_⟩
    · intro j l hj he
      have := hexy j l hj he
      omega
    · intro hp hm
      cases hm
    · intro j hj1 hj2 _
      omega
  have h1 : FrontInv P lo hi (hi + 1) s1 :=
    frontLoop_inv env m2mMPP P lo hi hcombo hP hlo hhiP _ lo _ s1 (le_refl _)
      (by rw [Int.toNat_of_nonneg (by omega)]; omega) h0 hloop
  have h2 : FrontInv P lo hi (hi + 1) s := by
    rcases hnest with hs | hb
    · rw [hs]; exact h1
    · obtain ⟨ht, hhp⟩ := nestingBlock_inv env P lo hi s1 s hP hhiP (by omega) h1.track hb
      exact ⟨ht, by rw [hhp]; exact h1.sound, by rw [hhp]; exact h1.complete⟩
  -- the recorded index that triggers the abandonment
  obtain ⟨hp, lhp, hp1, hp2, hpget, hpprio⟩ := hhigh
  obtain ⟨ha1, ha2, ha3, ha4⟩ := exynosAdjusted_range env m2mMPP P lo hi s hP hlo h2 hp hp1 hp2
  have hpP : P[hp]? = some lhp.mOverlayPriority := by
    rw [← h2.track.prio, List.getElem?_map, hpget]
    rfl
  have hpmem : (hp : Int) ∈ s.highPriority :=
    h2.complete hp (by omega) (by omega) ⟨_, by rw [Int.toNat_ofNat]; exact hpP, hpprio⟩
  have hany : (s.highPriority.any (fun x =>
      decide ((exynosAdjusted env m2mMPP s).mFirstIndex < x ∧
        x < (exynosAdjusted env m2mMPP s).mLastIndex))) = true := by
    rw [List.any_eq_true]
    exact ⟨hp, hpmem, by simp [hp1, hp2]⟩
  -- the abandonment loop
  have hab0 : AbandonInv P lo hi (exynosAdjusted env m2mMPP s).mFirstIndex s.highPriority
      (exynosAdjusted env m2mMPP s).mFirstIndex
      { s.d with mExynosCompositionInfo := exynosAdjusted env m2mMPP s } := by
    refine ⟨⟨h2.track.prio, h2.track.client, h2.track.typed, ⟨ha2, Or.inr ha1⟩⟩, ?_⟩
    intro j hj1 hj2 _
    omega
  obtain ⟨d3, hab, hinv3⟩ := abandonLoop_inv env P lo hi
    (exynosAdjusted env m2mMPP s).mFirstIndex s.highPriority hP hhiP (by omega) ha3
    (exynosAdjusted env m2mMPP s).mLastIndex ha4
    ((exynosAdjusted env m2mMPP s).mLastIndex -
      (exynosAdjusted env m2mMPP s).mFirstIndex + 1).toNat
    (exynosAdjusted env m2mMPP s).mFirstIndex _ (le_refl _)
    (by rw [Int.toNat_of_nonneg (by omega)]; omega) hab0
  have hcall : addExynosCompositionLayer env d layerIndex = some (EXYNOS_ERROR_CHANGED,
      { d3 with mExynosCompositionInfo :=
          d3.mExynosCompositionInfo.initializeInfos env d3.mType }) := by
    rw [addExynosCompositionLayer_eq_front, hfront]
    dsimp only
    rw [exynosTail_abandon env m2mMPP s ⟨hany, hcombo⟩, hab]
  refine ⟨_, hcall, rfl, rfl, rfl, ?_⟩
  intro j l hj1 hj2 hget hlow
  have hget3 : d3.mLayers[j]? = some l := hget
  have hjP : P[j]? = some l.mOverlayPriority := by
    rw [← hinv3.track.prio, List.getElem?_map, hget3]
    rfl
  have hnot : (j : Int) ∉ s.highPriority := by
    intro hm
    obtain ⟨_, _, p, hp3, hp4⟩ := h2.sound j hm
    rw [Int.toNat_ofNat, hjP] at hp3
    cases hp3
    omega
  obtain ⟨a, b, c, l1, hl1, hcl⟩ := hinv3.done j hj1 (by omega) hnot
  rw [Int.toNat_ofNat, hget3] at hl1
  cases hl1
  exact ⟨hcl, a, b, c⟩

/-- C23 (witness): three layers with a secondary resource that is not of the
combined type, layer 0 in secondary composition, layer 1 of high priority and
layer 2 an eligible overlay.  `addExynosCompositionLayer 2` reaches its tail
with the range `[0,2]`, which holds the high-priority layer 1 strictly inside;
the call returns `EXYNOS_ERROR_CHANGED` with the secondary composition
cleared. -/
theorem addExynosCompositionLayer_high_priority_abandon_witness :
    highPriorityDisplay.mLayers.length < 2 ^ 31 ∧
    highPriorityDisplay.mClientCompositionInfo.rangeValid highPriorityDisplay.mLayers.length ∧
    scalerMPP.mLogicalType ≠ MPP_LOGICAL_G2D_COMBO ∧
    ∃ s, exynosFront permissiveOracle highPriorityDisplay 2 = some (Flow.next (scalerMPP, s)) ∧
      (exynosAdjusted permissiveOracle scalerMPP s).mFirstIndex = 0 ∧
      (exynosAdjusted permissiveOracle scalerMPP s).mLastIndex = 2 ∧
      (s.d.mLayers.map (fun l => l.mOverlayPriority)) = [0, ePriorityHigh, 0] ∧
      ∃ d1, addExynosCompositionLayer permissiveOracle highPriorityDisplay 2 =
          some (EXYNOS_ERROR_CHANGED, d1) ∧
        d1.mExynosCompositionInfo.mHasCompositionLayer = false ∧
        d1.mExynosCompositionInfo.mFirstIndex = -1 ∧
        d1.mExynosCompositionInfo.mLastIndex = -1 :=
  ⟨by decide, by decide, by decide, _, rfl, rfl, rfl, rfl,
    Exists.imp (fun _ h => ⟨h.1, h.2.1, h.2.2.1, h.2.2.2.1⟩)
      (addExynosCompositionLayer_high_priority_abandon permissiveOracle highPriorityDisplay 2
        scalerMPP _ (by decide) (by decide)
        (by
          intro j l hj he
          rcases j with _ | _ | _ | j
          · exact ⟨by decide, by decide⟩
          · simp only [highPriorityDisplay, List.getElem?_cons_succ, List.getElem?_cons_zero,
              Option.some.injEq] at hj
            subst hj
            exact absurd he (by decide)
          · simp only [highPriorityDisplay, List.getElem?_cons_succ, List.getElem?_cons_zero,
              Option.some.injEq] at hj
            subst hj
            exact absurd he (by decide)
          · simp [highPriorityDisplay] at hj)
        rfl (by decide)
        ⟨1, _, by decide, by decide, rfl, by decide⟩)⟩

/-! ## The nesting resolution at the return of `addExynosCompositionLayer` -/

theorem addExynosCompositionLayer_eq_checked (env : ResourceOracle) (d : ExynosDisplay)
    (layerIndex : Nat) :
    addExynosCompositionLayer env d layerIndex =
      match exynosChecked env d layerIndex with
      | none => none
      | some (Flow.ret r d2) => some (r, d2)
      | some (Flow.next (m2mMPP, true, s)) =>
        (match nestingBlock env s with
        | none => none
        | some (Flow.ret r d3) => some (r, d3)
        | some (Flow.next s3) => exynosTail env m2mMPP s3)
      | some (Flow.next (m2mMPP, false, s)) => exynosTail env m2mMPP s := by
  unfold addExynosCompositionLayer exynosChecked
  dsimp only
  by_cases h1 : d.mExynosCompositionInfo.mHasCompositionLayer = false
  · rw [if_pos h1, if_pos h1]
  · rw [if_neg h1, if_neg h1]
    cases hm : d.mExynosCompositionInfo.mM2mMPP with
    | none => rfl
    | some m2mMPP =>
      dsimp only
      split_ifs with h2
      · rfl
      · generalize flowLoop (exynosSandwichedStep env m2mMPP) _ _ _ = r
        cases r with
        | none => rfl
        | some f =>
          cases f with
          | ret r d2 => rfl
          | next s1 =>
            dsimp only
            by_cases h3 : s1.invalidFlag = true
            · rw [if_pos h3, if_pos h3]
              generalize (if m2mMPP.mLogicalType = MPP_LOGICAL_G2D_COMBO ∧ s1.maxPriorityIndex ≥ 0
                then maxPriorityBlock env m2mMPP s1 else some (Flow.next s1)) = a
              cases a with
              | none => rfl
              | some f2 =>
                cases f2 with
                | ret r d2 => rfl
                | next s2 => rfl
            · rw [if_neg h3, if_neg h3]

/-- The tail of `addExynosCompositionLayer` when no recorded high-priority index
lies strictly inside the adjusted range, or the resource is of the combined
type: the call returns with the adjusted range. -/
theorem exynosTail_keep (env : ResourceOracle) (m2mMPP : ExynosMPP) (s : ExynosLocals)
    (h : ¬ ((s.highPriority.any (fun hp =>
        decide ((exynosAdjusted env m2mMPP s).mFirstIndex < hp ∧
          hp < (exynosAdjusted env m2mMPP s).mLastIndex))) = true ∧
      m2mMPP.mLogicalType ≠ MPP_LOGICAL_G2D_COMBO)) :
    ∃ changeFlag, exynosTail env m2mMPP s =
      some (changeFlag, { s.d with mExynosCompositionInfo := exynosAdjusted env m2mMPP s }) :=
  ⟨_, Eq.trans (show exynosTail env m2mMPP s = ite _ _ _ from rfl) (if_neg h)⟩

/-- The adjusted range is cleared, or it has passed the validity check and lies
inside the range it was adjusted from. -/
theorem exynosAdjusted_cases (env : ResourceOracle) (m2mMPP : ExynosMPP) (s : ExynosLocals)
    (hn : s.d.mLayers.length < 2 ^ 31) (hhp : ∀ hp ∈ s.highPriority, 0 ≤ hp) :
    ((exynosAdjusted env m2mMPP s).mHasCompositionLayer = false ∧
      (exynosAdjusted env m2mMPP s).mFirstIndex = -1 ∧
      (exynosAdjusted env m2mMPP s).mLastIndex = -1) ∨
    (0 ≤ (exynosAdjusted env m2mMPP s).mFirstIndex ∧
      (exynosAdjusted env m2mMPP s).mFirstIndex ≤ (exynosAdjusted env m2mMPP s).mLastIndex ∧
      (exynosAdjusted env m2mMPP s).mLastIndex < s.d.mLayers.length ∧
      0 ≤ s.d.mExynosCompositionInfo.mFirstIndex ∧
      s.d.mExynosCompositionInfo.mFirstIndex ≤ (exynosAdjusted env m2mMPP s).mFirstIndex ∧
      (exynosAdjusted env m2mMPP s).mLastIndex ≤ s.d.mExynosCompositionInfo.mLastIndex) := by
  have hsz : toInt32 s.d.mLayers.length = (s.d.mLayers.length : Int) := toInt32_of_lt hn
  have hadj := highPriorityAdjust_bounds s.highPriority s.d.mExynosCompositionInfo
  unfold exynosAdjusted
  dsimp only
  rw [hsz]
  generalize he1 : (if s.highPriority.length > 0 ∧
      m2mMPP.mLogicalType ≠ MPP_LOGICAL_G2D_COMBO then
        highPriorityAdjust s.highPriority s.d.mExynosCompositionInfo
      else s.d.mExynosCompositionInfo) = e1
  have hb : s.d.mExynosCompositionInfo.mFirstIndex ≤ e1.mFirstIndex ∧
      e1.mLastIndex ≤ s.d.mExynosCompositionInfo.mLastIndex ∧
      (s.d.mExynosCompositionInfo.mFirstIndex < 0 →
        e1.mFirstIndex = s.d.mExynosCompositionInfo.mFirstIndex) := by
    rw [← he1]
    split_ifs
    · exact ⟨hadj.1, hadj.2.1, hadj.2.2 hhp⟩
    · exact ⟨le_refl _, le_refl _, fun _ => rfl⟩
  by_cases hinv : (e1.mFirstIndex < 0 ∨ e1.mFirstIndex ≥ (s.d.mLayers.length : Int) ∨
      e1.mLastIndex < 0 ∨ e1.mLastIndex ≥ (s.d.mLayers.length : Int) ∨
      e1.mFirstIndex > e1.mLastIndex)
  · left
    simp only [hinv, decide_True, if_true, ExynosCompositionInfo.initializeInfos]
    exact ⟨trivial, trivial, trivial⟩
  · right
    simp only [hinv, decide_False, Bool.false_eq_true, if_false]
    have h0 : 0 ≤ s.d.mExynosCompositionInfo.mFirstIndex := by
      by_contra hcon
      have := hb.2.2 (by omega)
      omega
    omega

/-- The abandonment loop only turns layers into client composition. -/
theorem abandonLoop_keep (env : ResourceOracle) (hps : List Int) (count : Nat) :
    ∀ (i : Int) (d d1 : ExynosDisplay),
      flowLoop (highPriorityAbandonStep env hps) count i d = some (Flow.next d1) →
      LayersKeep d d1 := by
  induction count with
  | zero =>
    intro i d d1 h
    have := flow_next_inj _ _ h
    rw [this]
    exact LayersKeep.keep_refl d
  | succ count ih =>
    intro i d d1 h
    unfold flowLoop at h
    cases hstep : highPriorityAbandonStep env hps i d with
    | none =>
      rw [hstep] at h
      cases h
    | some f =>
      rw [hstep] at h
      cases f with
      | ret r d2 =>
        exact absurd h (flow_ret_ne_next _ _ _)
      | next d2 =>
        dsimp only at h
        have h2 := ih (i + 1) d2 d1 h
        refine LayersKeep.keep_trans ?_ h2
        unfold highPriorityAbandonStep at hstep
        split_ifs at hstep with hc
        · have := flow_next_inj _ _ hstep
          rw [this]
          exact LayersKeep.keep_refl d
        · cases hat : d.layerAt i with
          | none =>
            rw [hat] at hstep
            cases hstep
          | some layer =>
            rw [hat] at hstep
            dsimp only at hstep
            obtain ⟨hi0, hget, _⟩ := layerAt_some hat
            cases hcall : addClientCompositionLayer env
                (d.setLayer i.toNat (layer.resetAssignedResource.updateValidateCompositionType
                  HWC2_COMPOSITION_CLIENT 0)) (toUInt32 i) with
            | none =>
              rw [hcall] at hstep
              cases hstep
            | some p =>
              rw [hcall] at hstep
              obtain ⟨ret, d3⟩ := p
              dsimp only at hstep
              have := flow_next_inj _ _ hstep
              rw [this]
              exact LayersKeep.keep_trans (setLayer_client_keep d i.toNat layer hget)
                (addClient_keep env _ _ _ _ hcall)

theorem typedInside_spec (ls : List ExynosLayer) (lo hi : Int)
    (h : typedInside ls lo hi = true) :
    ∀ (j : Nat) (l : ExynosLayer), ls[j]? = some l →
      l.getValidateCompositionType = HWC2_COMPOSITION_EXYNOS →
      lo ≤ (j : Int) ∧ (j : Int) ≤ hi := by
  intro j l hj he
  unfold typedInside at h
  rw [List.all_eq_true] at h
  have hmem : (j, l) ∈ ls.enum := by
    rw [List.mem_iff_getElem?]
    exact ⟨j, by rw [List.enum, List.getElem?_enumFrom, hj]; simp⟩
  have := h (j, l) hmem
  simp only [decide_eq_true_eq] at this
  exact this he

/-- C24 (amended): let `addExynosCompositionLayer` reach its nesting block with
`invalidFlag` set (an ineligible or client layer was found in the tentative
range) in a well-formed tracker state: fewer than `2^31` layers, a flagged
client range `[c1,c2]`, every layer validated as EXYNOS inside the secondary
range `[e1,e2]`, which lies inside the layer list, and recorded high-priority
indices that are not negative.  When the client range is strictly nested in
the secondary range (`e1 < c1`, `c2 < e2`), the call returns, and at that
return the boundary layer on the side with the smaller gap is validated as
CLIENT (layer `e1` if `c1 - e1 < e2 - c2`, otherwise layer `e2`), the
secondary range is cleared or lies inside `[c2+1, e2]` in the front case and
inside `[e1, c1-1]` in the back case, and no layer index lies in both
ranges. -/
theorem addExynosCompositionLayer_nesting_resolves (env : ResourceOracle) (d : ExynosDisplay)
    (layerIndex : Nat) (m2mMPP : ExynosMPP) (s : ExynosLocals) (c1 c2 e1 e2 : Int)
    (hchk : exynosChecked env d layerIndex = some (Flow.next (m2mMPP, true, s)))
    (hc1 : s.d.mClientCompositionInfo.mFirstIndex = c1)
    (hc2 : s.d.mClientCompositionInfo.mLastIndex = c2)
    (he1 : s.d.mExynosCompositionInfo.mFirstIndex = e1)
    (he2 : s.d.mExynosCompositionInfo.mLastIndex = e2)
    (hn : s.d.mLayers.length < 2 ^ 31)
    (hhas : s.d.mClientCompositionInfo.mHasCompositionLayer = true)
    (hcc : c1 ≤ c2) (hnest1 : e1 < c1) (hnest2 : c2 < e2)
    (h0 : 0 ≤ e1) (hlen : e2 < s.d.mLayers.length)
    (htyped : ∀ (j : Nat) (l : ExynosLayer), s.d.mLayers[j]? = some l →
      l.getValidateCompositionType = HWC2_COMPOSITION_EXYNOS → e1 ≤ (j : Int) ∧ (j : Int) ≤ e2)
    (hhp : ∀ hp ∈ s.highPriority, 0 ≤ hp) :
    ∃ ret d1, addExynosCompositionLayer env d layerIndex = some (ret, d1) ∧
      (c1 - e1 < e2 - c2 →
        (∃ l, d1.mLayers[e1.toNat]? = some l ∧
          l.getValidateCompositionType = HWC2_COMPOSITION_CLIENT) ∧
        ((d1.mExynosCompositionInfo.mHasCompositionLayer = false ∧
            d1.mExynosCompositionInfo.mFirstIndex = -1 ∧
            d1.mExynosCompositionInfo.mLastIndex = -1) ∨
          (c2 + 1 ≤ d1.mExynosCompositionInfo.mFirstIndex ∧
            d1.mExynosCompositionInfo.mFirstIndex ≤ d1.mExynosCompositionInfo.mLastIndex ∧
            d1.mExynosCompositionInfo.mLastIndex ≤ e2))) ∧
      (¬ (c1 - e1 < e2 - c2) →
        (∃ l, d1.mLayers[e2.toNat]? = some l ∧
          l.getValidateCompositionType = HWC2_COMPOSITION_CLIENT) ∧
        ((d1.mExynosCompositionInfo.mHasCompositionLayer = false ∧
            d1.mExynosCompositionInfo.mFirstIndex = -1 ∧
            d1.mExynosCompositionInfo.mLastIndex = -1) ∨
          (e1 ≤ d1.mExynosCompositionInfo.mFirstIndex ∧
            d1.mExynosCompositionInfo.mFirstIndex ≤ d1.mExynosCompositionInfo.mLastIndex ∧
            d1.mExynosCompositionInfo.mLastIndex ≤ c1 - 1))) ∧
      ∀ j : Nat, ¬ (d1.mClientCompositionInfo.mFirstIndex ≤ (j : Int) ∧
        (j : Int) ≤ d1.mClientCompositionInfo.mLastIndex ∧
        d1.mExynosCompositionInfo.mFirstIndex ≤ (j : Int) ∧
        (j : Int) ≤ d1.mExynosCompositionInfo.mLastIndex) := by
  generalize hPdef : s.d.mLayers.map (fun l => l.mOverlayPriority) = P
  have hPlen : P.length = s.d.mLayers.length := by rw [← hPdef, List.length_map]
  have hP : P.length < 2 ^ 31 := by rw [hPlen]; exact hn
  have hhiP : e2 < (P.length : Int) := by rw [hPlen]; exact hlen
  have hT : TrackInv P e1 e2 s.d := by
    refine ⟨hPdef, Or.inr ⟨hhas, by omega, by omega, by rw [hPlen]; omega⟩, htyped,
      ⟨by omega, Or.inr (by omega)⟩⟩
  obtain ⟨s3, hblock, _, hfrontc, hbackc, _⟩ :=
    nestingBlock_spec env s c1 c2 e1 e2 hc1 hc2 he1 he2 hn hhas hcc hnest1 hnest2 h0 hlen
  obtain ⟨hT3, hhp3⟩ := nestingBlock_inv env P e1 e2 s s3 hP hhiP (by omega) hT hblock
  have hlen3 : s3.d.mLayers.length = P.length := hT3.length_eq
  have hn3 : s3.d.mLayers.length < 2 ^ 31 := by omega
  -- what the nesting block leaves behind, in both cases
  have hevict : ∃ l, s3.d.mLayers[(if c1 - e1 < e2 - c2 then e1 else e2).toNat]? = some l ∧
      l.getValidateCompositionType = HWC2_COMPOSITION_CLIENT := by
    by_cases hfr : c1 - e1 < e2 - c2
    · rw [if_pos hfr]; exact (hfrontc hfr).1
    · rw [if_neg hfr]; exact (hbackc hfr).1
  have hside : (c1 - e1 < e2 - c2 →
      s3.d.mClientCompositionInfo.mLastIndex = c2 ∧
      s3.d.mExynosCompositionInfo.mFirstIndex = c2 + 1) ∧
      (¬ (c1 - e1 < e2 - c2) →
      s3.d.mClientCompositionInfo.mFirstIndex = c1 ∧
      s3.d.mExynosCompositionInfo.mLastIndex = c1 - 1) :=
    ⟨fun hfr => ⟨(hfrontc hfr).2.2.1, (hfrontc hfr).2.2.2.1⟩,
      fun hfr => ⟨(hbackc hfr).2.1, (hbackc hfr).2.2.2.1⟩⟩
  have hr3 := hT3.range
  have hadj := exynosAdjusted_cases env m2mMPP s3 hn3 (by rw [hhp3]; exact hhp)
  rw [addExynosCompositionLayer_eq_checked, hchk]
  dsimp only
  rw [hblock]
  dsimp only
  by_cases hab : (s3.highPriority.any (fun hp =>
      decide ((exynosAdjusted env m2mMPP s3).mFirstIndex < hp ∧
        hp < (exynosAdjusted env m2mMPP s3).mLastIndex))) = true ∧
      m2mMPP.mLogicalType ≠ MPP_LOGICAL_G2D_COMBO
  · -- the secondary composition is abandoned around a high-priority layer
    rw [exynosTail_abandon env m2mMPP s3 hab]
    obtain ⟨hp, _, hpin⟩ := List.any_eq_true.mp hab.1
    have hpin2 : (exynosAdjusted env m2mMPP s3).mFirstIndex < hp ∧
        hp < (exynosAdjusted env m2mMPP s3).mLastIndex := by simpa using hpin
    rcases hadj with hcl | hv
    · exfalso
      omega
    have hab0 : AbandonInv P e1 e2 (exynosAdjusted env m2mMPP s3).mFirstIndex s3.highPriority
        (exynosAdjusted env m2mMPP s3).mFirstIndex
        { s3.d with mExynosCompositionInfo := exynosAdjusted env m2mMPP s3 } := by
      have hlast : (exynosAdjusted env m2mMPP s3).mLastIndex ≤ e2 := by omega
      have hfirst : e1 ≤ (exynosAdjusted env m2mMPP s3).mFirstIndex := by omega
      refine ⟨⟨hT3.prio, hT3.client, hT3.typed, ⟨hlast, Or.inr hfirst⟩⟩, ?_⟩
      intro j hj1 hj2 _
      omega
    obtain ⟨d3, hloop, _⟩ := abandonLoop_inv env P e1 e2
      (exynosAdjusted env m2mMPP s3).mFirstIndex s3.highPriority hP hhiP (by omega) hv.1
      (exynosAdjusted env m2mMPP s3).mLastIndex (by omega)
      ((exynosAdjusted env m2mMPP s3).mLastIndex -
        (exynosAdjusted env m2mMPP s3).mFirstIndex + 1).toNat
      (exynosAdjusted env m2mMPP s3).mFirstIndex _ (le_refl _)
      (by rw [Int.toNat_of_nonneg (by omega)]; omega) hab0
    have hkeep := abandonLoop_keep env s3.highPriority _ _ _ _ hloop
    rw [hloop]
    dsimp only
    obtain ⟨l, hl, hlc⟩ := hevict
    have hstay := hkeep.client_stays _ l hl hlc
    refine ⟨_, _, rfl, ?_, ?_, ?_⟩
    · intro hfr
      rw [if_pos hfr] at hstay
      exact ⟨hstay, Or.inl ⟨rfl, rfl, rfl⟩⟩
    · intro hfr
      rw [if_neg hfr] at hstay
      exact ⟨hstay, Or.inl ⟨rfl, rfl, rfl⟩⟩
    · intro j hj
      have h3 : (-1 : Int) ≤ (j : Int) ∧ (j : Int) ≤ -1 := ⟨hj.2.2.1, hj.2.2.2⟩
      omega
  · -- the call returns with the adjusted range
    obtain ⟨cf, htail⟩ := exynosTail_keep env m2mMPP s3 hab
    rw [htail]
    refine ⟨_, _, rfl, ?_, ?_, ?_⟩
    · intro hfr
      have hev := hevict
      rw [if_pos hfr] at hev
      refine ⟨hev, ?_⟩
      rcases hadj with hcl | hv
      · exact Or.inl hcl
      · right
        have := (hside.1 hfr).2
        have ha : c2 + 1 ≤ (exynosAdjusted env m2mMPP s3).mFirstIndex := by omega
        have hb : (exynosAdjusted env m2mMPP s3).mLastIndex ≤ e2 := by omega
        exact ⟨ha, hv.2.1, hb⟩
    · intro hfr
      have hev := hevict
      rw [if_neg hfr] at hev
      refine ⟨hev, ?_⟩
      rcases hadj with hcl | hv
      · exact Or.inl hcl
      · right
        have := (hside.2 hfr).2
        have ha : e1 ≤ (exynosAdjusted env m2mMPP s3).mFirstIndex := by omega
        have hb : (exynosAdjusted env m2mMPP s3).mLastIndex ≤ c1 - 1 := by omega
        exact ⟨ha, hv.2.1, hb⟩
    · intro j hj
      have hj1 : s3.d.mClientCompositionInfo.mFirstIndex ≤ (j : Int) := hj.1
      have hj2 : (j : Int) ≤ s3.d.mClientCompositionInfo.mLastIndex := hj.2.1
      have hj3 : (exynosAdjusted env m2mMPP s3).mFirstIndex ≤ (j : Int) := hj.2.2.1
      have hj4 : (j : Int) ≤ (exynosAdjusted env m2mMPP s3).mLastIndex := hj.2.2.2
      rcases hadj with hcl | hv
      · omega
      · by_cases hfr : c1 - e1 < e2 - c2
        · have := hside.1 hfr
          omega
        · have := hside.2 hfr
          omega

/-- C24 (witness): on `nestedFrontDisplay`, `addExynosCompositionLayer 6`
reaches the nesting block with the client range `[2,2]` nested in the secondary
range `[0,6]` and the smaller gap in front.  The call returns `NO_ERROR` with
layer 0 validated as CLIENT, the client range `[0,2]` and the secondary range
`[3,5]`, inside `[3,6]`. -/
theorem addExynosCompositionLayer_nesting_resolves_witness :
    ∃ s, exynosChecked permissiveOracle nestedFrontDisplay 6 =
        some (Flow.next (scalerMPP, true, s)) ∧
      s.d.mClientCompositionInfo.mFirstIndex = 2 ∧ s.d.mClientCompositionInfo.mLastIndex = 2 ∧
      s.d.mExynosCompositionInfo.mFirstIndex = 0 ∧ s.d.mExynosCompositionInfo.mLastIndex = 6 ∧
      ∃ ret d1, addExynosCompositionLayer permissiveOracle nestedFrontDisplay 6 =
          some (ret, d1) ∧
        (∃ l, d1.mLayers[0]? = some l ∧
          l.getValidateCompositionType = HWC2_COMPOSITION_CLIENT) ∧
        ((d1.mExynosCompositionInfo.mHasCompositionLayer = false ∧
            d1.mExynosCompositionInfo.mFirstIndex = -1 ∧
            d1.mExynosCompositionInfo.mLastIndex = -1) ∨
          (2 + 1 ≤ d1.mExynosCompositionInfo.mFirstIndex ∧
            d1.mExynosCompositionInfo.mFirstIndex ≤ d1.mExynosCompositionInfo.mLastIndex ∧
            d1.mExynosCompositionInfo.mLastIndex ≤ 6)) ∧
        ∀ j : Nat, ¬ (d1.mClientCompositionInfo.mFirstIndex ≤ (j : Int) ∧
          (j : Int) ≤ d1.mClientCompositionInfo.mLastIndex ∧
          d1.mExynosCompositionInfo.mFirstIndex ≤ (j : Int) ∧
          (j : Int) ≤ d1.mExynosCompositionInfo.mLastIndex) :=
  ⟨_, rfl, rfl, rfl, rfl, rfl,
    Exists.imp (fun _ h => Exists.imp (fun _ h2 =>
        ⟨h2.1, (h2.2.1 (by decide)).1, (h2.2.1 (by decide)).2, h2.2.2.2⟩) h)
      (addExynosCompositionLayer_nesting_resolves permissiveOracle nestedFrontDisplay 6
        scalerMPP _ 2 2 0 6 rfl rfl rfl rfl rfl (by decide) rfl (by decide) (by decide)
        (by decide) (by decide) (by decide)
        (typedInside_spec _ 0 6 (by decide))
        (by decide))⟩

end ExynosHwc
